import Mathlib

/-!
# Liquid-mixture transport interactions

A shallow embedding of `Cantera/src/transport/LiquidTransportParams.cpp`: the interaction
coefficient store filled by `LiquidTranInteraction::init`, the mixing rules
(`LTI_Solvent`, `LTI_MoleFracs`, `LTI_MassFracs`, `LTI_Log_MoleFracs`, `LTI_MoleFracs_ExpT`,
`LTI_Pairwise_Interaction`, `LTI_StefanMaxwell_PPN`, `LTI_StokesEinstein`) in their array and
handle forms, and the copy operations of `LiquidTransportParams`.

Conventions of the embedding.

* `doublereal` is an arbitrary field `R` with exact arithmetic; `exp` and `log` of the C library
  are parameters of the functions that call them (instantiated with `Real.exp`, `Real.log`
  where a statement needs their properties).  `pow(x, k)` with an integer loop counter `k` is
  `x ^ k`.
* A `doublereal*` argument is a function `Nat → R`; a pointer that may be null is an `Option`.
  The handles in a vector `LTPptrs` passed to a query are taken to be non-null.
* A `throw` is `Except.error`; indexing a `std::vector` or an allocated array at or beyond its
  size is the outcome `Error.outOfRange`, a call through a null handle `Error.nullPointer`, an
  `int` division by zero `Error.divideByZero`, the `int` division `INT_MIN / -1`
  `Error.divideOverflow`.
* An `int` is a 32-bit two's-complement integer, held as an `Int` from `INT_MIN` to `INT_MAX`.
  A `double` assigned to an `int` is truncated toward zero when the result is an `int`, and is
  `INT_MIN` otherwise (`doubleToInt`); `+` and `*` between two `int`s are taken modulo `2^32`
  (`intAdd`, `intMul`, `wrapInt`), and `/` is `Int.tdiv` (`intDiv`).  Where C++ leaves the
  behaviour undefined (conversion out of range, overflow, division by zero) this is what the
  x86-64 instructions do.
* A `for (int k = 0; k < n; k++)` loop is `forLoopM n body`, running `body 0`, ..., `body (n-1)`.
* The state of the collaborator `*m_thermo` is read at every call, so it is an argument
  `thermo` of every query.  A sub-model called by a strategy is bound to the same phase and is
  given the same state.
* A member function that assigns to data members returns the object after the call next to its
  result; the members of an object on which a call has thrown are not observed.
-/

open Finset

namespace Cantera

/-! ## Outcomes -/

/-- The ways a call can end other than by returning: `CanteraError(procedure, msg)`, its subclass
`LTPmodelError(msg)`, a `std::vector` or an allocated array indexed outside its size, a call
through a null handle, an `int` division by zero, and an `int` division whose quotient is not
an `int`. -/
inductive Error where
  | CanteraError (procedure : String) (msg : String)
  | LTPmodelError (msg : String)
  | outOfRange
  | nullPointer
  | divideByZero
  | divideOverflow
  deriving DecidableEq, Repr

/-- The loop `for (int k = 0; k < n; k++) body`, threading the state and stopping at the first
failure. -/
def forLoopM {σ : Type} : Nat → (Nat → σ → Except Error σ) → σ → Except Error σ
  | 0, _, s => .ok s
  | n + 1, body, s =>
    match forLoopM n body s with
    | .ok s1 => body n s1
    | .error e => .error e

/-- The element `v[k]` of a `std::vector`. -/
def vecAt {α : Type} (v : List α) (k : Nat) : Except Error α :=
  match v[k]? with
  | some a => .ok a
  | none => .error Error.outOfRange

/-- The assignment `a[k] = x` to an allocated array of `a.length` elements. -/
def arrayStore {α : Type} (a : List α) (k : Nat) (x : α) : Except Error (List α) :=
  if k < a.length then .ok (a.set k x) else .error Error.outOfRange

/-- The use `p->...` of a handle that may be null. -/
def deref {α : Type} (p : Option α) : Except Error α :=
  match p with
  | some a => .ok a
  | none => .error Error.nullPointer

/-! ## Collaborators -/

/-- Modelled from the spec: the class `DenseMatrix` (declared outside this file's source), a dense
real matrix indexed by a species pair, with its dimensions. -/
structure DenseMatrix (R : Type) where
  nRows : Nat
  nColumns : Nat
  value : Nat → Nat → R

/-- Modelled from the spec: the default-constructed (0 by 0) `DenseMatrix`. -/
def DenseMatrix.empty {R : Type} [Zero R] : DenseMatrix R :=
  { nRows := 0, nColumns := 0, value := fun _ _ => 0 }

/-- Modelled from the spec: `DenseMatrix::resize(n, m, v)`, which keeps the entries the matrix
already holds and fills every new slot with `v`. -/
def DenseMatrix.resize {R : Type} (M : DenseMatrix R) (n m : Nat) (v : R) : DenseMatrix R :=
  { nRows := n, nColumns := m,
    value := fun i j => if i < M.nRows ∧ j < M.nColumns then M.value i j else v }

/-- Modelled from the spec: the assignment `M(i,j) = v`. -/
def DenseMatrix.set {R : Type} (M : DenseMatrix R) (i j : Nat) (v : R) : DenseMatrix R :=
  { M with value := fun a b => if a = i ∧ b = j then v else M.value a b }

/-- Modelled from the spec: the thermodynamic-state collaborator `thermo_t`, reduced to the
queries made by the transport code. -/
structure thermo_t (R : Type) where
  nSpecies : Nat
  temperature : R
  getMoleFractions : Nat → R
  getMassFractions : Nat → R
  speciesIndex : String → Int
  molarVolume : R

/-- Modelled from the spec: a species transport property handle `LTPspecies`, evaluated on the
current state of the phase. -/
structure LTPspecies (R : Type) where
  getSpeciesTransProp : thermo_t R → R
  getMixWeight : R

/-! ## The interaction object -/

/-- The data members of `LiquidTranInteraction` that hold interaction coefficients: the families
`m_Aij`, `m_Bij`, `m_Hij`, `m_Sij` (one matrix per polynomial order) and the matrices `m_Dij`,
`m_Eij`. -/
structure LiquidTranInteraction (R : Type) where
  m_Aij : List (DenseMatrix R)
  m_Bij : List (DenseMatrix R)
  m_Dij : DenseMatrix R
  m_Eij : DenseMatrix R
  m_Hij : List (DenseMatrix R)
  m_Sij : List (DenseMatrix R)

/-! ## Mixing rules on property values and weights -/

section MixingRules

variable {R : Type} [Field R]

/-- `LTI_Solvent::getMixTransProp(doublereal* speciesValues, doublereal* speciesWeight)`. -/
def LTI_Solvent.getMixTransProp (self : LiquidTranInteraction R) (thermo : thermo_t R)
    (speciesValues : Nat → R) (speciesWeight : Option (Nat → R)) : Except Error R :=
  let nsp := thermo.nSpecies
  let temp := thermo.temperature
  let molefracs := thermo.getMoleFractions
  match speciesWeight with
  | none =>
    .error (Error.CanteraError "LTI_Solvent::getMixTransProp"
      "You should be specifying the speciesWeight")
  | some speciesWeight =>
    -- the loop `molefracs[k] = molefracs[k]` leaves the array as it is
    forLoopM nsp (fun i value => do
      let value := value + speciesValues i * speciesWeight i
      forLoopM nsp (fun j value => do
        let value ← forLoopM self.m_Aij.length (fun k value => do
          let Ak ← vecAt self.m_Aij k
          pure (value + molefracs i * molefracs j * Ak.value i j * molefracs i ^ k)) value
        forLoopM self.m_Bij.length (fun k value => do
          let Bk ← vecAt self.m_Bij k
          pure (value + molefracs i * molefracs j * Bk.value i j * temp * molefracs i ^ k))
          value) value) 0

/-- `LTI_MoleFracs::getMixTransProp(doublereal* speciesValues, doublereal* speciesWeight)`. -/
def LTI_MoleFracs.getMixTransProp (self : LiquidTranInteraction R) (thermo : thermo_t R)
    (speciesValues : Nat → R) (speciesWeight : Option (Nat → R)) : Except Error R :=
  let nsp := thermo.nSpecies
  let temp := thermo.temperature
  let molefracs := thermo.getMoleFractions
  match speciesWeight with
  | none =>
    .error (Error.CanteraError "LTI_MoleFracs::getMixTransProp"
      "You should be specifying the speciesWeight")
  | some speciesWeight =>
    let molefracs := fun k => molefracs k * speciesWeight k
    forLoopM nsp (fun i value => do
      let value := value + speciesValues i * molefracs i
      forLoopM nsp (fun j value => do
        let value ← forLoopM self.m_Aij.length (fun k value => do
          let Ak ← vecAt self.m_Aij k
          pure (value + molefracs i * molefracs j * Ak.value i j * molefracs i ^ k)) value
        forLoopM self.m_Bij.length (fun k value => do
          let Bk ← vecAt self.m_Bij k
          pure (value + molefracs i * molefracs j * Bk.value i j * temp * molefracs i ^ k))
          value) value) 0

/-- `LTI_MassFracs::getMixTransProp(doublereal* speciesValues, doublereal* speciesWeight)`. -/
def LTI_MassFracs.getMixTransProp (self : LiquidTranInteraction R) (thermo : thermo_t R)
    (speciesValues : Nat → R) (speciesWeight : Option (Nat → R)) : Except Error R :=
  let nsp := thermo.nSpecies
  let temp := thermo.temperature
  let massfracs := thermo.getMassFractions
  match speciesWeight with
  | none =>
    .error (Error.CanteraError "LTI_MassFracs::getMixTransProp"
      "You should be specifying the speciesWeight")
  | some speciesWeight =>
    let massfracs := fun k => massfracs k * speciesWeight k
    forLoopM nsp (fun i value => do
      let value := value + speciesValues i * massfracs i
      forLoopM nsp (fun j value => do
        let value ← forLoopM self.m_Aij.length (fun k value => do
          let Ak ← vecAt self.m_Aij k
          pure (value + massfracs i * massfracs j * Ak.value i j * massfracs i ^ k)) value
        forLoopM self.m_Bij.length (fun k value => do
          let Bk ← vecAt self.m_Bij k
          pure (value + massfracs i * massfracs j * Bk.value i j * temp * massfracs i ^ k))
          value) value) 0

/-- `LTI_Log_MoleFracs::getMixTransProp(doublereal* speciesValues, doublereal* speciesWeight)`;
`exp` and `log` are the C library functions. -/
def LTI_Log_MoleFracs.getMixTransProp (exp log : R → R) (self : LiquidTranInteraction R)
    (thermo : thermo_t R) (speciesValues : Nat → R) (speciesWeight : Option (Nat → R)) :
    Except Error R :=
  let nsp := thermo.nSpecies
  let temp := thermo.temperature
  let molefracs := thermo.getMoleFractions
  match speciesWeight with
  | none =>
    .error (Error.CanteraError "LTI_Log_MoleFracs::getMixTransProp"
      "You probably should have a speciesWeight when you call getMixTransProp to convert ion mole fractions to molecular mole fractions")
  | some speciesWeight =>
    let molefracs := fun k => molefracs k * speciesWeight k
    do
      let value ← forLoopM nsp (fun i value => do
        let value := value + log (speciesValues i) * molefracs i
        forLoopM nsp (fun j value => do
          let value ← forLoopM self.m_Hij.length (fun k value => do
            let Hk ← vecAt self.m_Hij k
            pure (value + molefracs i * molefracs j * Hk.value i j / temp * molefracs i ^ k))
            value
          forLoopM self.m_Sij.length (fun k value => do
            let Sk ← vecAt self.m_Sij k
            pure (value - molefracs i * molefracs j * Sk.value i j * molefracs i ^ k))
            value) value) 0
      pure (exp value)

/-- `LTI_MoleFracs_ExpT::getMixTransProp(doublereal* speciesValues, doublereal* speciesWeight)`;
the loop over the orders runs to `m_Aij.size()` and indexes both `m_Aij` and `m_Bij`. -/
def LTI_MoleFracs_ExpT.getMixTransProp (exp : R → R) (self : LiquidTranInteraction R)
    (thermo : thermo_t R) (speciesValues : Nat → R) (speciesWeight : Option (Nat → R)) :
    Except Error R :=
  let nsp := thermo.nSpecies
  let temp := thermo.temperature
  let molefracs := thermo.getMoleFractions
  match speciesWeight with
  | none =>
    .error (Error.CanteraError "LTI_MoleFracs_ExpT::getMixTransProp"
      "You should be specifying the speciesWeight")
  | some speciesWeight =>
    let molefracs := fun k => molefracs k * speciesWeight k
    forLoopM nsp (fun i value => do
      let value := value + speciesValues i * molefracs i
      forLoopM nsp (fun j value =>
        forLoopM self.m_Aij.length (fun k value => do
          let Ak ← vecAt self.m_Aij k
          let Bk ← vecAt self.m_Bij k
          pure (value + molefracs i * molefracs j * Ak.value i j * molefracs i ^ k
            * exp (Bk.value i j * temp))) value) value) 0

end MixingRules

/-! ## Matrix-valued strategies -/

/-- Modelled from the spec: the per-species record `LiquidTransportData` of the parameter
bundle, reduced to the handles the strategies below register; a null handle is `none`. -/
structure LiquidTransportData (R : Type) where
  hydroRadius : Option (LTPspecies R)
  viscosity : Option (LTPspecies R)
  speciesDiffusivity : Option (LTPspecies R)

/-- Modelled from the spec: the parameter bundle `LiquidTransportParams`, reduced to its vector
`LTData` of per-species records. -/
structure LiquidTransportParams (R : Type) where
  LTData : List (LiquidTransportData R)

/-- The strategy `LTI_Pairwise_Interaction`: the coefficient store and the vector
`m_diagonals` of per-species diffusivity handles. -/
structure LTI_Pairwise_Interaction (R : Type) extends LiquidTranInteraction R where
  m_diagonals : List (Option (LTPspecies R))

/-- The strategy `LTI_StokesEinstein`: the coefficient store and the vectors of per-species
viscosity and hydrodynamic-radius handles. -/
structure LTI_StokesEinstein (R : Type) extends LiquidTranInteraction R where
  m_viscosity : List (Option (LTPspecies R))
  m_hydroRadius : List (Option (LTPspecies R))

/-- The call `v.resize(n, a)` on a `std::vector`. -/
def vecResize {α : Type} (v : List α) (n : Nat) (a : α) : List α :=
  v.take n ++ List.replicate (n - v.length) a

section MatrixRules

variable {R : Type} [Field R]

/-- `LTI_Pairwise_Interaction::setParameters(LiquidTransportParams& trParam)`. -/
def LTI_Pairwise_Interaction.setParameters (self : LTI_Pairwise_Interaction R)
    (thermo : thermo_t R) (trParam : LiquidTransportParams R) :
    Except Error (LTI_Pairwise_Interaction R) :=
  let nsp := thermo.nSpecies
  let m_diagonals := vecResize self.m_diagonals nsp none
  do
    let m_diagonals ← forLoopM nsp (fun k m_diagonals => do
      let ltd ← vecAt trParam.LTData k
      match ltd.speciesDiffusivity with
      | some handle => pure (m_diagonals.set k (some handle))
      | none => pure m_diagonals) m_diagonals
    pure { self with m_diagonals := m_diagonals }

/-- `LTI_Pairwise_Interaction::getMixTransProp(doublereal* speciesValues,
doublereal* speciesWeight)`: the locals are read, then the error is thrown. -/
def LTI_Pairwise_Interaction.getMixTransProp (_self : LTI_Pairwise_Interaction R)
    (thermo : thermo_t R) (_speciesValues : Nat → R) (_speciesWeight : Option (Nat → R)) :
    Except Error R :=
  let _nsp := thermo.nSpecies
  let _molefracs := thermo.getMoleFractions
  let _value : R := 0
  .error (Error.LTPmodelError
    "Calling LTI_Pairwise_Interaction::getMixTransProp does not make sense.")

/-- `LTI_Pairwise_Interaction::getMixTransProp(std::vector<LTPspecies*> LTPptrs)`. -/
def LTI_Pairwise_Interaction.getMixTransProp_LTPptrs (_self : LTI_Pairwise_Interaction R)
    (thermo : thermo_t R) (_LTPptrs : List (LTPspecies R)) : Except Error R :=
  let _nsp := thermo.nSpecies
  let _molefracs := thermo.getMoleFractions
  let _value : R := 0
  .error (Error.LTPmodelError
    "Calling LTI_Pairwise_Interaction::getMixTransProp does not make sense.")

/-- `LTI_Pairwise_Interaction::getMatrixTransProp(DenseMatrix& mat, doublereal* speciesValues)`;
the result is the matrix `mat` after the call. -/
def LTI_Pairwise_Interaction.getMatrixTransProp [DecidableEq R] (exp : R → R)
    (self : LTI_Pairwise_Interaction R) (thermo : thermo_t R) (mat : DenseMatrix R)
    (_speciesValues : Nat → R) : Except Error (DenseMatrix R) :=
  let nsp := thermo.nSpecies
  let temp := thermo.temperature
  let _molefracs := thermo.getMoleFractions
  let mat := mat.resize nsp nsp 0
  do
    let mat ← forLoopM nsp (fun i mat =>
      forLoopM i (fun j mat =>
        -- `mat(i,j) = mat(j,i) = ...` assigns `mat(j,i)` first, then `mat(i,j)` from it
        let mat := mat.set j i (exp (self.m_Eij.value i j / temp) / self.m_Dij.value i j)
        pure (mat.set i j (mat.value j i))) mat) mat
    forLoopM nsp (fun i mat =>
      if mat.value i i = 0 then do
        let diagonal ← vecAt self.m_diagonals i
        match diagonal with
        | some handle => pure (mat.set i i (1 / handle.getSpeciesTransProp thermo))
        | none => pure mat
      else pure mat) mat

/-- The first loop nest of `LTI_Pairwise_Interaction::getMatrixTransProp`, the off-diagonal fill
`for (i < nsp) for (j < i) mat(i,j) = mat(j,i) = exp(m_Eij(i,j)/temp) / m_Dij(i,j)`, on its
own. -/
def LTI_Pairwise_Interaction.offDiagonalFill (exp : R → R) (self : LTI_Pairwise_Interaction R)
    (thermo : thermo_t R) (mat : DenseMatrix R) : Except Error (DenseMatrix R) :=
  let nsp := thermo.nSpecies
  let temp := thermo.temperature
  forLoopM nsp (fun i mat =>
    forLoopM i (fun j mat =>
      let mat := mat.set j i (exp (self.m_Eij.value i j / temp) / self.m_Dij.value i j)
      pure (mat.set i j (mat.value j i))) mat) mat

/-- `LTI_StokesEinstein::getMixTransProp(doublereal* speciesValues,
doublereal* speciesWeight)`. -/
def LTI_StokesEinstein.getMixTransProp (_self : LTI_StokesEinstein R) (thermo : thermo_t R)
    (_speciesValues : Nat → R) (_speciesWeight : Option (Nat → R)) : Except Error R :=
  let _nsp := thermo.nSpecies
  let _molefracs := thermo.getMoleFractions
  let _value : R := 0
  .error (Error.LTPmodelError "Calling LTI_StokesEinstein::getMixTransProp does not make sense.")

/-- `LTI_StokesEinstein::getMixTransProp(std::vector<LTPspecies*> LTPptrs)`. -/
def LTI_StokesEinstein.getMixTransProp_LTPptrs (_self : LTI_StokesEinstein R)
    (thermo : thermo_t R) (_LTPptrs : List (LTPspecies R)) : Except Error R :=
  let _nsp := thermo.nSpecies
  let _molefracs := thermo.getMoleFractions
  let _value : R := 0
  .error (Error.LTPmodelError "Calling LTI_StokesEinstein::getMixTransProp does not make sense.")

/-- `LTI_StokesEinstein::setParameters(LiquidTransportParams& trParam)`. -/
def LTI_StokesEinstein.setParameters (self : LTI_StokesEinstein R) (thermo : thermo_t R)
    (trParam : LiquidTransportParams R) : Except Error (LTI_StokesEinstein R) :=
  let nsp := thermo.nSpecies
  let m_viscosity := vecResize self.m_viscosity nsp none
  let m_hydroRadius := vecResize self.m_hydroRadius nsp none
  do
    let handles ← forLoopM nsp (fun k (handles : List (Option (LTPspecies R))
        × List (Option (LTPspecies R))) => do
      let ltd ← vecAt trParam.LTData k
      let m_viscosity ← arrayStore handles.1 k ltd.viscosity
      let m_hydroRadius ← arrayStore handles.2 k ltd.hydroRadius
      pure (m_viscosity, m_hydroRadius)) (m_viscosity, m_hydroRadius)
    pure { self with m_viscosity := handles.1, m_hydroRadius := handles.2 }

/-- The value `( 6.0 * Pi * radiusSpec[i] * viscSpec[j] ) / GasConstant / temp` assigned to
`mat(i,j)` in `LTI_StokesEinstein::getMatrixTransProp`; `Pi` and `GasConstant` are the constants
of those names. -/
def LTI_StokesEinstein.matrixValue (Pi GasConstant temp radius visc : R) : R :=
  (6 * Pi * radius * visc) / GasConstant / temp

/-- The loop nest `for (i < nsp) for (j < nsp) mat(i,j) = ( 6.0 * Pi * radiusSpec[i] *
viscSpec[j] ) / GasConstant / temp` of `LTI_StokesEinstein::getMatrixTransProp`, for given
scratch buffers. -/
def LTI_StokesEinstein.fillMatrix (Pi GasConstant temp : R) (radiusSpec viscSpec : List R)
    (nsp : Nat) (mat : DenseMatrix R) : Except Error (DenseMatrix R) :=
  forLoopM nsp (fun i mat =>
    forLoopM nsp (fun j mat => do
      let radius ← vecAt radiusSpec i
      let visc ← vecAt viscSpec j
      pure (mat.set i j (LTI_StokesEinstein.matrixValue Pi GasConstant temp radius visc)))
      mat) mat

/-- `LTI_StokesEinstein::getMatrixTransProp(DenseMatrix& mat, doublereal* speciesValues)`; the
result is the matrix `mat` after the call.  The scratch buffers come from
`new double(nsp)`, which allocates one `double` initialised to `nsp`. -/
def LTI_StokesEinstein.getMatrixTransProp (Pi GasConstant : R) (self : LTI_StokesEinstein R)
    (thermo : thermo_t R) (mat : DenseMatrix R) (_speciesValues : Nat → R) :
    Except Error (DenseMatrix R) :=
  let nsp := thermo.nSpecies
  let temp := thermo.temperature
  let viscSpec : List R := [(nsp : R)]
  let radiusSpec : List R := [(nsp : R)]
  do
    let specs ← forLoopM nsp (fun k (specs : List R × List R) => do
      let viscosity ← vecAt self.m_viscosity k
      let viscosity ← deref viscosity
      let viscSpec ← arrayStore specs.1 k (viscosity.getSpeciesTransProp thermo)
      let hydroRadius ← vecAt self.m_hydroRadius k
      let hydroRadius ← deref hydroRadius
      let radiusSpec ← arrayStore specs.2 k (hydroRadius.getSpeciesTransProp thermo)
      pure (viscSpec, radiusSpec)) (viscSpec, radiusSpec)
    let mat := mat.resize nsp nsp 0
    LTI_StokesEinstein.fillMatrix Pi GasConstant temp specs.2 specs.1 nsp mat

end MatrixRules

/-! ## Configuration of the coefficient store -/

/-- Modelled from the spec: `lowercase` of the string utilities, mapping every character to
lower case. -/
def lowercase (s : String) : String :=
  String.mk (s.data.map Char.toLower)

/-- Modelled from the spec: one child element of the interaction block as the
configuration-tree collaborator presents it: its name, its attributes, which sub-elements it
has, and what the two `getFloat` overloads of the collaborator read from a sub-element with a
unit-conversion tag: `getFloat(node, name, type)` returns a scalar, and
`getFloat(poly, node, name, type)` returns a scalar and fills the vector `poly`. -/
structure XML_Node (R : Type) where
  name : String
  attrib : String → String
  hasChild : String → Bool
  getFloat : String → String → R
  getFloatPoly : String → String → R × List R

section Init

variable {R : Type} [Field R]

/-- The state of a `LiquidTranInteraction` after its constructor: empty families and empty
matrices. -/
def LiquidTranInteraction.new : LiquidTranInteraction R :=
  { m_Aij := [], m_Bij := [], m_Dij := DenseMatrix.empty, m_Eij := DenseMatrix.empty,
    m_Hij := [], m_Sij := [] }

/-- The loop `while (family.size() < size) { M = new DenseMatrix(); M->resize(nsp, nsp, 0.0);
family.push_back(M); }`. -/
def growFamily (family : List (DenseMatrix R)) (nsp size : Nat) : List (DenseMatrix R) :=
  family ++ List.replicate (size - family.length) (DenseMatrix.empty.resize nsp nsp 0)

/-- The loop `for (i = 0; i < poly.size(); i++)` that stores `poly[i]` into the matrix
`family[i]` by `put`; the family has been grown to the length of `poly` before. -/
def storePoly (put : DenseMatrix R → R → DenseMatrix R) :
    List (DenseMatrix R) → List R → List (DenseMatrix R)
  | M :: family, c :: poly => put M c :: storePoly put family poly
  | family, [] => family
  | [], _ :: _ => []

/-- The block `if (xmlChild.hasChild("Eij")) { ... }` of `init`: the value read is stored at
`(i,j)`, divided by the gas constant in place, and copied to `(j,i)`. -/
def LiquidTranInteraction.readEij (GasConstant : R) (xmlChild : XML_Node R) (i j : Nat)
    (self : LiquidTranInteraction R) : LiquidTranInteraction R :=
  if xmlChild.hasChild "Eij" then
    let m_Eij := self.m_Eij.set i j (xmlChild.getFloat "Eij" "actEnergy")
    let m_Eij := m_Eij.set i j (m_Eij.value i j / GasConstant)
    let m_Eij := m_Eij.set j i (m_Eij.value i j)
    { self with m_Eij := m_Eij }
  else self

/-- The block `if (xmlChild.hasChild("Aij")) { ... }` of `init`. -/
def LiquidTranInteraction.readAij (nsp : Nat) (xmlChild : XML_Node R) (i j : Nat)
    (self : LiquidTranInteraction R) : LiquidTranInteraction R :=
  if xmlChild.hasChild "Aij" then
    let poly0 := (xmlChild.getFloatPoly "Aij" "toSI").1
    let poly := (xmlChild.getFloatPoly "Aij" "toSI").2
    let poly := if poly.length = 0 then poly ++ [poly0] else poly
    let m_Aij := growFamily self.m_Aij nsp poly.length
    { self with m_Aij := storePoly (fun M c => M.set i j c) m_Aij poly }
  else self

/-- The block `if (xmlChild.hasChild("Bij")) { ... }` of `init`. -/
def LiquidTranInteraction.readBij (nsp : Nat) (xmlChild : XML_Node R) (i j : Nat)
    (self : LiquidTranInteraction R) : LiquidTranInteraction R :=
  if xmlChild.hasChild "Bij" then
    let poly0 := (xmlChild.getFloatPoly "Bij" "toSI").1
    let poly := (xmlChild.getFloatPoly "Bij" "toSI").2
    let poly := if poly.length = 0 then poly ++ [poly0] else poly
    let m_Bij := growFamily self.m_Bij nsp poly.length
    { self with m_Bij := storePoly (fun M c => M.set i j c) m_Bij poly }
  else self

/-- The block `if (xmlChild.hasChild("Hij")) { ... }` of `init`: each coefficient is stored and
then divided by the gas constant in place. -/
def LiquidTranInteraction.readHij (GasConstant : R) (nsp : Nat) (xmlChild : XML_Node R)
    (i j : Nat) (self : LiquidTranInteraction R) : LiquidTranInteraction R :=
  if xmlChild.hasChild "Hij" then
    let poly0 := (xmlChild.getFloatPoly "Hij" "actEnergy").1
    let poly := (xmlChild.getFloatPoly "Hij" "actEnergy").2
    let poly := if poly.length = 0 then poly ++ [poly0] else poly
    let m_Hij := growFamily self.m_Hij nsp poly.length
    { self with m_Hij := storePoly (fun M c =>
        let M := M.set i j c
        M.set i j (M.value i j / GasConstant)) m_Hij poly }
  else self

/-- The block `if (xmlChild.hasChild("Sij")) { ... }` of `init`: each coefficient is stored and
then divided by the gas constant in place. -/
def LiquidTranInteraction.readSij (GasConstant : R) (nsp : Nat) (xmlChild : XML_Node R)
    (i j : Nat) (self : LiquidTranInteraction R) : LiquidTranInteraction R :=
  if xmlChild.hasChild "Sij" then
    let poly0 := (xmlChild.getFloatPoly "Sij" "actEnergy").1
    let poly := (xmlChild.getFloatPoly "Sij" "actEnergy").2
    let poly := if poly.length = 0 then poly ++ [poly0] else poly
    let m_Sij := growFamily self.m_Sij nsp poly.length
    { self with m_Sij := storePoly (fun M c =>
        let M := M.set i j c
        M.set i j (M.value i j / GasConstant)) m_Sij poly }
  else self

/-- The block `if (xmlChild.hasChild("Dij")) { ... }` of `init`: the value read is stored at
`(i,j)` and copied to `(j,i)`. -/
def LiquidTranInteraction.readDij (xmlChild : XML_Node R) (i j : Nat)
    (self : LiquidTranInteraction R) : LiquidTranInteraction R :=
  if xmlChild.hasChild "Dij" then
    let m_Dij := self.m_Dij.set i j (xmlChild.getFloat "Dij" "toSI")
    let m_Dij := m_Dij.set j i (m_Dij.value i j)
    { self with m_Dij := m_Dij }
  else self

/-- The body of the loop over the children in `LiquidTranInteraction::init`: the element-name
check, the two species lookups, then the blocks for `Eij`, `Aij`, `Bij`, `Hij`, `Sij` and `Dij`
in the order of the source. -/
def LiquidTranInteraction.initChild (GasConstant : R) (thermo : thermo_t R)
    (xmlChild : XML_Node R) (self : LiquidTranInteraction R) :
    Except Error (LiquidTranInteraction R) :=
  let nsp := thermo.nSpecies
  let nodeName := lowercase xmlChild.name
  if nodeName ≠ "interaction" then
    .error (Error.CanteraError "TransportFactory::getLiquidInteractionsTransportData"
      ("expected <interaction> element and got <" ++ nodeName ++ ">"))
  else
    let speciesA := xmlChild.attrib "speciesA"
    let speciesB := xmlChild.attrib "speciesB"
    let iSpecies := thermo.speciesIndex speciesA
    if iSpecies < 0 then
      .error (Error.CanteraError "TransportFactory::getLiquidInteractionsTransportData"
        ("Unknown species " ++ speciesA))
    else
      let jSpecies := thermo.speciesIndex speciesB
      if jSpecies < 0 then
        .error (Error.CanteraError "TransportFactory::getLiquidInteractionsTransportData"
          ("Unknown species " ++ speciesB))
      else
        let i := iSpecies.toNat
        let j := jSpecies.toNat
        let self := self.readEij GasConstant xmlChild i j
        let self := self.readAij nsp xmlChild i j
        let self := self.readBij nsp xmlChild i j
        let self := self.readHij GasConstant nsp xmlChild i j
        let self := self.readSij GasConstant nsp xmlChild i j
        let self := self.readDij xmlChild i j
        .ok self

/-- The loop `for (iChild = 0; iChild < num; iChild++)` of `LiquidTranInteraction::init` over
the children of the interaction block, stopping at the first throw. -/
def LiquidTranInteraction.initChildren (GasConstant : R) (thermo : thermo_t R) :
    List (XML_Node R) → LiquidTranInteraction R → Except Error (LiquidTranInteraction R)
  | [], self => .ok self
  | xmlChild :: rest, self =>
    match LiquidTranInteraction.initChild GasConstant thermo xmlChild self with
    | .ok self1 => LiquidTranInteraction.initChildren GasConstant thermo rest self1
    | .error e => .error e

/-- `LiquidTranInteraction::init(const XML_Node& compModelNode, thermo_t* thermo)`, with the
children of `compModelNode` in order; `GasConstant` is the constant of that name. -/
def LiquidTranInteraction.init (GasConstant : R) (self : LiquidTranInteraction R)
    (compModelNode : List (XML_Node R)) (thermo : thermo_t R) :
    Except Error (LiquidTranInteraction R) :=
  let nsp := thermo.nSpecies
  let self := { self with
    m_Dij := self.m_Dij.resize nsp nsp 0
    m_Eij := self.m_Eij.resize nsp nsp 0 }
  LiquidTranInteraction.initChildren GasConstant thermo compModelNode self

end Init

/-! ## Copying the parameter bundle -/

/-- The copy constructor `LiquidTransportParams::LiquidTransportParams(const
LiquidTransportParams &right)`: the member initialisers run, then the error is thrown. -/
def LiquidTransportParams.copyConstructor {R : Type} (_right : LiquidTransportParams R) :
    Except Error (LiquidTransportParams R) :=
  .error (Error.CanteraError "LiquidTransportParams(const LiquidTransportParams &right)"
    "not implemented")

/-- The copy assignment `LiquidTransportParams::operator=(const LiquidTransportParams & right)`.
The numbers `thisAddress` and `rightAddress` are the addresses of the target `*this` and of the
source `right`, compared by `&right != this`; the result is the object `*this` the call returns
a reference to. -/
def LiquidTransportParams.operatorAssign {R : Type} (self : LiquidTransportParams R)
    (thisAddress : Nat) (_right : LiquidTransportParams R) (rightAddress : Nat) :
    Except Error (LiquidTransportParams R) :=
  if rightAddress ≠ thisAddress then .ok self
  else .error (Error.CanteraError "LiquidTransportParams(const LiquidTransportParams &right)"
    "not implemented")

/-! ## Mixing rules on species handles -/

section HandleRules

variable {R : Type} [Field R]

/-- `LTI_Solvent::getMixTransProp(std::vector<LTPspecies*> LTPptrs)`. -/
def LTI_Solvent.getMixTransProp_LTPptrs (self : LiquidTranInteraction R) (thermo : thermo_t R)
    (LTPptrs : List (LTPspecies R)) : Except Error R :=
  let nsp := thermo.nSpecies
  let temp := thermo.temperature
  let molefracs := thermo.getMoleFractions
  -- the loop `molefracs[k] = molefracs[k]` leaves the array as it is
  forLoopM nsp (fun i value => do
    let handle ← vecAt LTPptrs i
    let value := value + handle.getSpeciesTransProp thermo * handle.getMixWeight
    forLoopM nsp (fun j value => do
      let value ← forLoopM self.m_Aij.length (fun k value => do
        let Ak ← vecAt self.m_Aij k
        pure (value + molefracs i * molefracs j * Ak.value i j * molefracs i ^ k)) value
      forLoopM self.m_Bij.length (fun k value => do
        let Bk ← vecAt self.m_Bij k
        pure (value + molefracs i * molefracs j * Bk.value i j * temp * molefracs i ^ k))
        value) value) 0

/-- The loop `for (k < nsp) molefracs[k] = molefracs[k]*LTPptrs[k]->getMixWeight()` that opens
the handle form of the weighted rules. -/
def weightByHandles (nsp : Nat) (LTPptrs : List (LTPspecies R)) (molefracs : Nat → R) :
    Except Error (Nat → R) :=
  forLoopM nsp (fun k molefracs => do
    let handle ← vecAt LTPptrs k
    pure (Function.update molefracs k (molefracs k * handle.getMixWeight))) molefracs

/-- `LTI_MoleFracs::getMixTransProp(std::vector<LTPspecies*> LTPptrs)`. -/
def LTI_MoleFracs.getMixTransProp_LTPptrs (self : LiquidTranInteraction R) (thermo : thermo_t R)
    (LTPptrs : List (LTPspecies R)) : Except Error R :=
  let nsp := thermo.nSpecies
  let temp := thermo.temperature
  let molefracs := thermo.getMoleFractions
  do
    let molefracs ← weightByHandles nsp LTPptrs molefracs
    forLoopM nsp (fun i value => do
      let handle ← vecAt LTPptrs i
      let value := value + handle.getSpeciesTransProp thermo * molefracs i
      forLoopM nsp (fun j value => do
        let value ← forLoopM self.m_Aij.length (fun k value => do
          let Ak ← vecAt self.m_Aij k
          pure (value + molefracs i * molefracs j * Ak.value i j * molefracs i ^ k)) value
        forLoopM self.m_Bij.length (fun k value => do
          let Bk ← vecAt self.m_Bij k
          pure (value + molefracs i * molefracs j * Bk.value i j * temp * molefracs i ^ k))
          value) value) 0

/-- `LTI_MassFracs::getMixTransProp(std::vector<LTPspecies*> LTPptrs)`. -/
def LTI_MassFracs.getMixTransProp_LTPptrs (self : LiquidTranInteraction R) (thermo : thermo_t R)
    (LTPptrs : List (LTPspecies R)) : Except Error R :=
  let nsp := thermo.nSpecies
  let temp := thermo.temperature
  let massfracs := thermo.getMassFractions
  do
    let massfracs ← weightByHandles nsp LTPptrs massfracs
    forLoopM nsp (fun i value => do
      let handle ← vecAt LTPptrs i
      let value := value + handle.getSpeciesTransProp thermo * massfracs i
      forLoopM nsp (fun j value => do
        let value ← forLoopM self.m_Aij.length (fun k value => do
          let Ak ← vecAt self.m_Aij k
          pure (value + massfracs i * massfracs j * Ak.value i j * massfracs i ^ k)) value
        forLoopM self.m_Bij.length (fun k value => do
          let Bk ← vecAt self.m_Bij k
          pure (value + massfracs i * massfracs j * Bk.value i j * temp * massfracs i ^ k))
          value) value) 0

/-- `LTI_Log_MoleFracs::getMixTransProp(std::vector<LTPspecies*> LTPptrs)`; `exp` and `log` are
the C library functions. -/
def LTI_Log_MoleFracs.getMixTransProp_LTPptrs (exp log : R → R) (self : LiquidTranInteraction R)
    (thermo : thermo_t R) (LTPptrs : List (LTPspecies R)) : Except Error R :=
  let nsp := thermo.nSpecies
  let temp := thermo.temperature
  let molefracs := thermo.getMoleFractions
  do
    let molefracs ← weightByHandles nsp LTPptrs molefracs
    let value ← forLoopM nsp (fun i value => do
      let handle ← vecAt LTPptrs i
      let value := value + log (handle.getSpeciesTransProp thermo) * molefracs i
      forLoopM nsp (fun j value => do
        let value ← forLoopM self.m_Hij.length (fun k value => do
          let Hk ← vecAt self.m_Hij k
          pure (value + molefracs i * molefracs j * Hk.value i j / temp * molefracs i ^ k))
          value
        forLoopM self.m_Sij.length (fun k value => do
          let Sk ← vecAt self.m_Sij k
          pure (value - molefracs i * molefracs j * Sk.value i j * molefracs i ^ k))
          value) value) 0
    pure (exp value)

/-- `LTI_MoleFracs_ExpT::getMixTransProp(std::vector<LTPspecies*> LTPptrs)`; as in the array
form, the loop over the orders runs to `m_Aij.size()` and indexes both `m_Aij` and `m_Bij`. -/
def LTI_MoleFracs_ExpT.getMixTransProp_LTPptrs (exp : R → R) (self : LiquidTranInteraction R)
    (thermo : thermo_t R) (LTPptrs : List (LTPspecies R)) : Except Error R :=
  let nsp := thermo.nSpecies
  let temp := thermo.temperature
  let molefracs := thermo.getMoleFractions
  do
    let molefracs ← weightByHandles nsp LTPptrs molefracs
    forLoopM nsp (fun i value => do
      let handle ← vecAt LTPptrs i
      let value := value + handle.getSpeciesTransProp thermo * molefracs i
      forLoopM nsp (fun j value =>
        forLoopM self.m_Aij.length (fun k value => do
          let Ak ← vecAt self.m_Aij k
          let Bk ← vecAt self.m_Bij k
          pure (value + molefracs i * molefracs j * Ak.value i j * molefracs i ^ k
            * exp (Bk.value i j * temp))) value) value) 0

end HandleRules

/-! ## The ternary ion solver -/

/-- A mixing-rule object reached through a `LiquidTranInteraction*`, reduced to its virtual
query `getMixTransProp(std::vector<LTPspecies*> LTPptrs)`; which rule it runs depends on the
dynamic type of the object. -/
structure MixingRule (R : Type) where
  getMixTransProp_LTPptrs : thermo_t R → List (LTPspecies R) → Except Error R

/-- Modelled from the spec: the phase `IonsFromNeutralVPSSTP` that `m_thermo` points to in the
ternary ion solver, reduced to the queries made there: the neutral-molecule mole fractions, the
cation and anion lists, the species names, the vectors `viS` and `charges` filled by
`getDissociationCoeffs`, and the array written by `getdlnActCoeffdlnN` of its neutral-molecule
phase. -/
structure IonsFromNeutralVPSSTP (R : Type) extends thermo_t R where
  getNeutralMolecMoleFractions : List R
  getCationList : List Nat
  getAnionList : List Nat
  getSpeciesNames : List String
  getDissociationCoeffs : List R × List R
  getdlnActCoeffdlnN : Nat → R

/-- The strategy `LTI_StefanMaxwell_PPN`: the coefficient store, the sub-models and handles
registered by `setParameters` for the ionic conductivity, the mobility ratios and the self
diffusion coefficients, the names they are configured under, and the members
`m_ionCondMix`, `m_mobRatMix`, `m_selfDiffMix` the matrix query writes. -/
structure LTI_StefanMaxwell_PPN (R : Type) extends LiquidTranInteraction R where
  m_ionCondMix : R
  m_ionCondMixModel : Option (MixingRule R)
  m_ionCondSpecies : List (LTPspecies R)
  m_mobRatMix : DenseMatrix R
  m_mobRatMixModel : List (Option (MixingRule R))
  m_mobRatSpecies : List (List (LTPspecies R))
  m_mobRatIndex : List String
  m_selfDiffMix : List R
  m_selfDiffMixModel : List (Option (MixingRule R))
  m_selfDiffSpecies : List (List (LTPspecies R))
  m_selfDiffIndex : List String

/-- The loop `for (j = start; j < start + n; j++) body` whose body may `break`: the body
returns whether it broke out, together with the state. -/
def forBreakFrom {σ : Type} (body : Nat → σ → Except Error (Bool × σ)) :
    Nat → Nat → σ → Except Error σ
  | 0, _, s => .ok s
  | n + 1, j, s =>
    match body j s with
    | .ok (true, s1) => .ok s1
    | .ok (false, s1) => forBreakFrom body n (j + 1) s1
    | .error e => .error e

/-- The loop `for (j = 0; j < n; j++) body` whose body may `break`. -/
def forBreakM {σ : Type} (n : Nat) (body : Nat → σ → Except Error (Bool × σ)) (s : σ) :
    Except Error σ :=
  forBreakFrom body n 0 s

/-- The smallest `int`, `-2^31`. -/
def INT_MIN : Int := -2147483648

/-- The largest `int`, `2^31 - 1`. -/
def INT_MAX : Int := 2147483647

/-- The `int` a 32-bit register holds for the integer `n`: the representative of `n` modulo
`2^32` between `INT_MIN` and `INT_MAX`. -/
def wrapInt (n : Int) : Int :=
  (n + 2147483648) % 4294967296 - 2147483648

/-- The sum `a + b` of two `int`s; on overflow, which C++ leaves undefined, the sum modulo
`2^32` that the add instruction delivers. -/
def intAdd (a b : Int) : Int :=
  wrapInt (a + b)

/-- The product `a * b` of two `int`s; on overflow, which C++ leaves undefined, the product
modulo `2^32` that the multiply instruction delivers. -/
def intMul (a b : Int) : Int :=
  wrapInt (a * b)

/-- The quotient `a / b` of two `int`s, truncated toward zero.  C++ leaves a zero divisor and
the quotient `INT_MIN / -1`, which is not an `int`, undefined; the divide instruction raises
the divide error for both. -/
def intDiv (a b : Int) : Except Error Int :=
  if b = 0 then .error Error.divideByZero
  else if a = INT_MIN ∧ b = -1 then .error Error.divideOverflow
  else .ok (Int.tdiv a b)

section TernaryIons

variable {R : Type} [LinearOrderedField R] [FloorRing R]

/-- The value a `double` takes when it is assigned to an `int`: the fraction is dropped.  When
the result is not an `int`, which C++ leaves undefined, the value is the `INT_MIN` that the
conversion instruction delivers. -/
def doubleToInt (x : R) : Int :=
  let n : Int := if 0 ≤ x then ⌊x⌋ else ⌈x⌉
  if INT_MIN ≤ n ∧ n ≤ INT_MAX then n else INT_MIN

/-- The checks of `LTI_StefanMaxwell_PPN::getMatrixTransProp` on the phase (lines 692 and
711-716): three species, one anion, two cations, the two cations of equal charge. -/
def LTI_StefanMaxwell_PPN.checkSystem (ions_thermo : IonsFromNeutralVPSSTP R) :
    Except Error Unit :=
  let nsp := ions_thermo.nSpecies
  if nsp ≠ 3 then
    .error (Error.CanteraError "LTI_StefanMaxwell_PPN::getMatrixTransProp"
      "Function may only be called with a 3-ion system")
  else
    let cation := ions_thermo.getCationList
    let anion := ions_thermo.getAnionList
    let charges := ions_thermo.getDissociationCoeffs.2
    if anion.length ≠ 1 then
      .error (Error.CanteraError "LTI_StefanMaxwell_PPN::getMatrixTransProp"
        "Must have one anion only for StefanMaxwell_PPN")
    else if cation.length ≠ 2 then
      .error (Error.CanteraError "LTI_StefanMaxwell_PPN::getMatrixTransProp"
        "Must have two cations of equal charge for StefanMaxwell_PPN")
    else do
      let cation0 ← vecAt cation 0
      let cation1 ← vecAt cation 1
      let charge0 ← vecAt charges cation0
      let charge1 ← vecAt charges cation1
      if charge0 ≠ charge1 then
        .error (Error.CanteraError "LTI_StefanMaxwell_PPN::getMatrixTransProp"
          "Cations must be of equal charge for StefanMaxwell_PPN")
      else pure ()

/-- The body of the loops over `i` and `j < i` at lines 739-751, for the mobility ratio `k`:
the state is the flag `missingIndex` and the member `m_mobRatMix`, and the first component of
the result tells whether the body left the loop over `j` by `break`. -/
def LTI_StefanMaxwell_PPN.mobilityRatioPair (self : LTI_StefanMaxwell_PPN R)
    (thermo : thermo_t R) (speciesNames : List String) (k i j : Nat)
    (state : Bool × DenseMatrix R) : Except Error (Bool × Bool × DenseMatrix R) := do
  let name_i ← vecAt speciesNames i
  let name_j ← vecAt speciesNames j
  let index ← vecAt self.m_mobRatIndex k
  if name_i ++ ":" ++ name_j = index then do
    let model ← vecAt self.m_mobRatMixModel k
    let model ← deref model
    let species ← vecAt self.m_mobRatSpecies k
    let value ← model.getMixTransProp_LTPptrs thermo species
    let m_mobRatMix := state.2.set i j value
    let m_mobRatMix :=
      if m_mobRatMix.value i j > 0 then m_mobRatMix.set j i (1 / m_mobRatMix.value i j)
      else m_mobRatMix
    pure (true, false, m_mobRatMix)
  else if name_j ++ ":" ++ name_i = index then do
    let model ← vecAt self.m_mobRatMixModel k
    let model ← deref model
    let species ← vecAt self.m_mobRatSpecies k
    let value ← model.getMixTransProp_LTPptrs thermo species
    let m_mobRatMix := state.2.set j i value
    let m_mobRatMix :=
      if m_mobRatMix.value j i > 0 then m_mobRatMix.set i j (1 / m_mobRatMix.value j i)
      else m_mobRatMix
    pure (true, false, m_mobRatMix)
  else pure (false, state)

/-- The body of the loop over `k` at lines 735-755: the species pair named by
`m_mobRatIndex[k]` is looked for, the mixture mobility ratio of that pair is stored in
`m_mobRatMix`, and a name that matches no pair is an error. -/
def LTI_StefanMaxwell_PPN.mobilityRatio (self : LTI_StefanMaxwell_PPN R) (thermo : thermo_t R)
    (speciesNames : List String) (nsp k : Nat) (m_mobRatMix : DenseMatrix R) :
    Except Error (DenseMatrix R) := do
  let state ← forLoopM nsp (fun i state =>
    forBreakM i (fun j state =>
      LTI_StefanMaxwell_PPN.mobilityRatioPair self thermo speciesNames k i j state) state)
    (true, m_mobRatMix)
  if state.1 then do
    let index ← vecAt self.m_mobRatIndex k
    let name_0 ← vecAt speciesNames 0
    let name_1 ← vecAt speciesNames 1
    .error (Error.CanteraError "LTI_StefanMaxwell_PPN::getMixTransProp"
      ("Incorrect names for mobility ratio of " ++ index ++ " rather than i.e. " ++ name_0
        ++ ":" ++ name_1))
  else pure state.2

/-- The loop `while (m_selfDiffIndex[k] != speciesNames[j])` of lines 760-763, started at `j`:
the position of the name `m_selfDiffIndex[k]` among the species names.  The first argument
bounds the number of passes; started at `j = 0` the loop makes at most `nsp` passes. -/
def LTI_StefanMaxwell_PPN.selfDiffusionSlot (self : LTI_StefanMaxwell_PPN R)
    (speciesNames : List String) (nsp k : Nat) : Nat → Nat → Except Error Nat
  | 0, _ => .error Error.outOfRange
  | passes + 1, j => do
    let index ← vecAt self.m_selfDiffIndex k
    let name_j ← vecAt speciesNames j
    if index ≠ name_j then
      if j + 1 = nsp then do
        let name_0 ← vecAt speciesNames 0
        .error (Error.CanteraError "LTI_StefanMaxwell_PPN::getMixTransProp"
          ("Incorrect names for self diffusion of " ++ index ++ " rather than i.e. " ++ name_0))
      else LTI_StefanMaxwell_PPN.selfDiffusionSlot self speciesNames nsp k passes (j + 1)
    else pure j

/-- The loop over `k` at lines 758-765: the mixture self diffusion coefficient configured under
the name `m_selfDiffIndex[k]` is stored in `m_selfDiffMix` at the position of that species. -/
def LTI_StefanMaxwell_PPN.selfDiffusion (self : LTI_StefanMaxwell_PPN R) (thermo : thermo_t R)
    (speciesNames : List String) (nsp : Nat) (m_selfDiffMix : List R) :
    Except Error (List R) :=
  forLoopM nsp (fun k m_selfDiffMix => do
    let j ← LTI_StefanMaxwell_PPN.selfDiffusionSlot self speciesNames nsp k nsp 0
    let model ← vecAt self.m_selfDiffMixModel k
    let model ← deref model
    let species ← vecAt self.m_selfDiffSpecies k
    let value ← model.getMixTransProp_LTPptrs thermo species
    arrayStore m_selfDiffMix j value) m_selfDiffMix

/-- The string `cationIndex` built at lines 785-789: character `i*2+j` is set to `1` when
`viS[i*nsp+cation[j]] > 0`. -/
def LTI_StefanMaxwell_PPN.cationIndex (nsp : Nat) (viS : List R) (cation : List Nat) :
    Except Error String := do
  let cationIndex ← forLoopM 2 (fun i cationIndex =>
    forLoopM 2 (fun j cationIndex => do
      let cation_j ← vecAt cation j
      let coefficient ← vecAt viS (i * nsp + cation_j)
      if coefficient > 0 then pure (cationIndex.set (i * 2 + j) '1')
      else pure cationIndex) cationIndex) ['0', '0', '0', '0']
  pure (String.mk cationIndex)

/-- The assignments of lines 803-806 to the matrix `mat`, for given prefactors, mole fractions
`xA`, `xB`, mobility term `eps`, diffusive term `inv_vP_vM_MutualDiff` and species `cation0`,
`cation1`, `anion0`; `Faraday` and `GasConstant` are the constants of those names. -/
def LTI_StefanMaxwell_PPN.fillMatrix (Faraday GasConstant temp m_ionCondMix vol : R)
    (vP vM zP zM : Int) (eps xA xB inv_vP_vM_MutualDiff : R) (cation0 cation1 anion0 nsp : Nat)
    (mat : DenseMatrix R) : Except Error (DenseMatrix R) := do
  let mat := mat.resize nsp nsp 0
  -- `mat(a,b) = mat(b,a) = ...` assigns `mat(b,a)` first, then `mat(a,b)` from it
  let quotient ← intDiv vM vP
  let mat := mat.set cation1 cation0
    (((intAdd 1 quotient : Int) : R) * (1 + eps * xB) * (1 - eps * xA) * inv_vP_vM_MutualDiff
      - ((intMul zP zP : Int) : R) * Faraday * Faraday / GasConstant / temp / m_ionCondMix / vol)
  let mat := mat.set cation0 cation1 (mat.value cation1 cation0)
  let quotient ← intDiv vP vM
  let mat := mat.set anion0 cation0
    (((intAdd 1 quotient : Int) : R) * (-eps * xB * (1 - eps * xA) * inv_vP_vM_MutualDiff)
      - ((intMul zP zM : Int) : R) * Faraday * Faraday / GasConstant / temp / m_ionCondMix / vol)
  let mat := mat.set cation0 anion0 (mat.value anion0 cation0)
  let quotient ← intDiv vP vM
  let mat := mat.set anion0 cation1
    (((intAdd 1 quotient : Int) : R) * (eps * xA * (1 + eps * xB) * inv_vP_vM_MutualDiff)
      - ((intMul zP zM : Int) : R) * Faraday * Faraday / GasConstant / temp / m_ionCondMix / vol)
  pure (mat.set cation1 anion0 (mat.value anion0 cation1))

/-- Lines 776-806 of `LTI_StefanMaxwell_PPN::getMatrixTransProp`: the integer prefactors, the
dissociation pattern and its check, the mobility and diffusive terms, and the matrix, from the
values the members `m_ionCondMix`, `m_mobRatMix` and `m_selfDiffMix` have at that point. -/
def LTI_StefanMaxwell_PPN.assemble (Faraday GasConstant : R)
    (ions_thermo : IonsFromNeutralVPSSTP R) (m_ionCondMix : R) (m_mobRatMix : DenseMatrix R)
    (m_selfDiffMix : List R) (mat : DenseMatrix R) : Except Error (DenseMatrix R) :=
  let nsp := ions_thermo.nSpecies
  let temp := ions_thermo.temperature
  let vol := ions_thermo.molarVolume
  let neut_molefracs := ions_thermo.getNeutralMolecMoleFractions
  let cation := ions_thermo.getCationList
  let anion := ions_thermo.getAnionList
  let viS := ions_thermo.getDissociationCoeffs.1
  let charges := ions_thermo.getDissociationCoeffs.2
  do
    let cation0 ← vecAt cation 0
    let cation1 ← vecAt cation 1
    let anion0 ← vecAt anion 0
    let vP := doubleToInt (max (← vecAt viS cation0) (← vecAt viS cation1))
    let vM := doubleToInt (← vecAt viS anion0)
    let zP := doubleToInt (← vecAt charges cation0)
    let zM := doubleToInt (← vecAt charges anion0)
    let dlnActCoeffdlnN :=
      (List.range neut_molefracs.length).map ions_thermo.getdlnActCoeffdlnN
    let cationIndex ← LTI_StefanMaxwell_PPN.cationIndex nsp viS cation
    if cationIndex = "1001" ∨ cationIndex = "0110" then do
      let xA ← vecAt neut_molefracs cation0
      let xB ← vecAt neut_molefracs cation1
      let eps := (1 - m_mobRatMix.value cation1 cation0)
        / (xA + xB * m_mobRatMix.value cation1 cation0)
      let inv_vP_vM_MutualDiff :=
        xA * (1 + (← vecAt dlnActCoeffdlnN cation1)) / (← vecAt m_selfDiffMix cation1)
          + xB * (1 + (← vecAt dlnActCoeffdlnN cation0)) / (← vecAt m_selfDiffMix cation0)
      LTI_StefanMaxwell_PPN.fillMatrix Faraday GasConstant temp m_ionCondMix vol vP vM zP zM
        eps xA xB inv_vP_vM_MutualDiff cation0 cation1 anion0 nsp mat
    else
      .error (Error.CanteraError "LTI_StefanMaxwell_PPN::getMixTransProp"
        ("Dissociation reactions don't make sense: cationIndex = " ++ cationIndex))

/-- `LTI_StefanMaxwell_PPN::getMatrixTransProp(DenseMatrix& mat, doublereal* speciesValues)`;
the phase `*m_thermo` is taken to be an `IonsFromNeutralVPSSTP` over a Margules
neutral-molecule phase, as the casts of lines 689 and 726 expect.  The result is the object
with the members the call has written, and the matrix `mat` after the call. -/
def LTI_StefanMaxwell_PPN.getMatrixTransProp (Faraday GasConstant : R)
    (self : LTI_StefanMaxwell_PPN R) (ions_thermo : IonsFromNeutralVPSSTP R)
    (mat : DenseMatrix R) (_speciesValues : Nat → R) :
    Except Error (LTI_StefanMaxwell_PPN R × DenseMatrix R) :=
  let thermo := ions_thermo.tothermo_t
  let nsp := thermo.nSpecies
  let nBinInt := nsp * (nsp - 1) / 2
  let speciesNames := ions_thermo.getSpeciesNames
  do
    LTI_StefanMaxwell_PPN.checkSystem ions_thermo
    let m_ionCondMixModel ← deref self.m_ionCondMixModel
    let m_ionCondMix ← m_ionCondMixModel.getMixTransProp_LTPptrs thermo self.m_ionCondSpecies
    let m_mobRatMix ← forLoopM nBinInt (fun k m_mobRatMix =>
      LTI_StefanMaxwell_PPN.mobilityRatio self thermo speciesNames nsp k m_mobRatMix)
      self.m_mobRatMix
    let m_selfDiffMix ←
      LTI_StefanMaxwell_PPN.selfDiffusion self thermo speciesNames nsp self.m_selfDiffMix
    let mat ← LTI_StefanMaxwell_PPN.assemble Faraday GasConstant ions_thermo m_ionCondMix
      m_mobRatMix m_selfDiffMix mat
    pure ({ self with m_ionCondMix := m_ionCondMix, m_mobRatMix := m_mobRatMix,
                      m_selfDiffMix := m_selfDiffMix }, mat)

end TernaryIons

/-! ## Vocabulary of the statements -/

/-- The coefficient `M_k(i,j)` of a family, zero for an order the family does not hold. -/
def coeff {R : Type} [Zero R] (family : List (DenseMatrix R)) (k i j : Nat) : R :=
  match family[k]? with
  | some M => M.value i j
  | none => 0

/-- The vector `poly` of a family block of `init` once `getFloat(poly, xmlChild, name, type)` has
filled it and `if (!poly.size()) poly.push_back(poly0)` has run. -/
def polyOf {R : Type} (xmlChild : XML_Node R) (name type : String) : List R :=
  if (xmlChild.getFloatPoly name type).2.length = 0 then
    (xmlChild.getFloatPoly name type).2 ++ [(xmlChild.getFloatPoly name type).1]
  else (xmlChild.getFloatPoly name type).2

/-- What inserting a polynomial of `L` coefficients at the pair `(i,j)` does to a family `fam`,
giving `fam1`: the length becomes the larger of the two, every appended matrix is `N×N` and
zero off the pair, every matrix held before keeps its dimensions and its entries off the pair,
and a family of `N×N` matrices stays one. -/
def FamilyInserted {R : Type} [Zero R] (N i j L : Nat) (fam fam1 : List (DenseMatrix R)) :
    Prop :=
  fam1.length = max fam.length L
    ∧ (∀ k, fam.length ≤ k → k < L → ∃ M : DenseMatrix R, fam1[k]? = some M ∧ M.nRows = N
        ∧ M.nColumns = N ∧ ∀ a b, ¬ (a = i ∧ b = j) → M.value a b = 0)
    ∧ (∀ (k : Nat) (M0 : DenseMatrix R), fam[k]? = some M0 →
        ∃ M : DenseMatrix R, fam1[k]? = some M ∧ M.nRows = M0.nRows
        ∧ M.nColumns = M0.nColumns ∧ ∀ a b, ¬ (a = i ∧ b = j) → M.value a b = M0.value a b)
    ∧ ((∀ M ∈ fam, M.nRows = N ∧ M.nColumns = N) → ∀ M ∈ fam1, M.nRows = N ∧ M.nColumns = N)

/-- The four conditions the ternary ion solver checks on its phase. -/
def TernarySystem {R : Type} (ions_thermo : IonsFromNeutralVPSSTP R) : Prop :=
  ions_thermo.nSpecies = 3 ∧ ions_thermo.getAnionList.length = 1
    ∧ ions_thermo.getCationList.length = 2
    ∧ ions_thermo.getDissociationCoeffs.2[ions_thermo.getCationList.getD 0 0]?
      = ions_thermo.getDissociationCoeffs.2[ions_thermo.getCationList.getD 1 0]?

/-- The character of the dissociation pattern for a stoichiometric coefficient. -/
def patternChar {R : Type} [LinearOrderedField R] (coefficient : R) : Char :=
  if coefficient > 0 then '1' else '0'

/-- Two ternary ion solvers with the same configured parameters: the same sub-models, handles
and names; the members written by the matrix query may differ. -/
def LTI_StefanMaxwell_PPN.sameConfiguration {R : Type} (a b : LTI_StefanMaxwell_PPN R) : Prop :=
  a.m_ionCondMixModel = b.m_ionCondMixModel ∧ a.m_ionCondSpecies = b.m_ionCondSpecies
    ∧ a.m_mobRatMixModel = b.m_mobRatMixModel ∧ a.m_mobRatSpecies = b.m_mobRatSpecies
    ∧ a.m_mobRatIndex = b.m_mobRatIndex ∧ a.m_selfDiffMixModel = b.m_selfDiffMixModel
    ∧ a.m_selfDiffSpecies = b.m_selfDiffSpecies ∧ a.m_selfDiffIndex = b.m_selfDiffIndex

/-- The integer `n` is the number `x` with its fraction dropped (rounding toward zero): `n` is
no larger than `x` in absolute value and differs from `x` by less than 1. -/
def IsTruncation {R : Type} [LinearOrderedField R] (x : R) (n : Int) : Prop :=
  |(n : R)| ≤ |x| ∧ |x - (n : R)| < 1

/-! ## Sample inputs -/

/-- The matrix of the given dimension with the same entry `c` in every slot. -/
def constMatrix {R : Type} (n : Nat) (c : R) : DenseMatrix R :=
  { nRows := n, nColumns := n, value := fun _ _ => c }

/-- A store with the given A, B, H and S families and empty D and E matrices. -/
def storeOf {R : Type} [Zero R] (A B H S : List (DenseMatrix R)) : LiquidTranInteraction R :=
  { m_Aij := A, m_Bij := B, m_Dij := DenseMatrix.empty, m_Eij := DenseMatrix.empty,
    m_Hij := H, m_Sij := S }

/-- A one-species phase at temperature 1 with mole and mass fraction 1. -/
def unitPhase (R : Type) [One R] : thermo_t R :=
  { nSpecies := 1, temperature := 1, getMoleFractions := fun _ => 1,
    getMassFractions := fun _ => 1, speciesIndex := fun _ => 0, molarVolume := 1 }

/-- A two-species phase with the given temperature, mole fractions and mass fractions. -/
def binaryPhase {R : Type} [One R] (T x0 x1 y0 y1 : R) : thermo_t R :=
  { nSpecies := 2, temperature := T,
    getMoleFractions := fun k => if k = 0 then x0 else x1,
    getMassFractions := fun k => if k = 0 then y0 else y1,
    speciesIndex := fun s => if s = "A" then 0 else if s = "B" then 1 else -1,
    molarVolume := 1 }

/-- An `<interaction speciesA="A" speciesB="B">` element with the sub-elements `Eij` (read as
`e`) and `Dij` (read as `d`) and no others. -/
def interactionED {R : Type} [Zero R] (e d : R) : XML_Node R :=
  { name := "interaction"
    attrib := fun a => if a = "speciesA" then "A" else if a = "speciesB" then "B" else ""
    hasChild := fun c => c = "Eij" || c = "Dij"
    getFloat := fun c _ => if c = "Eij" then e else d
    getFloatPoly := fun _ _ => (0, []) }

/-- A child element with the given name and species attributes, the sub-elements selected by
`has`, the scalar `scalar` read by either `getFloat` overload and the vector `poly` filled by
the second. -/
def xmlNode {R : Type} (name speciesA speciesB : String) (has : String → Bool) (scalar : R)
    (poly : List R) : XML_Node R :=
  { name := name
    attrib := fun a => if a = "speciesA" then speciesA else if a = "speciesB" then speciesB
      else ""
    hasChild := has
    getFloat := fun _ _ => scalar
    getFloatPoly := fun _ _ => (scalar, poly) }

/-- A handle whose property is `c` in every state, with mixing weight 1. -/
def constHandle {R : Type} [One R] (c : R) : LTPspecies R :=
  { getSpeciesTransProp := fun _ => c, getMixWeight := 1 }

/-- A parameter bundle whose species records carry the given handle as viscosity, hydrodynamic
radius and diffusivity alike. -/
def handlesOf {R : Type} (handles : List (Option (LTPspecies R))) : LiquidTransportParams R :=
  { LTData := handles.map (fun h =>
      { hydroRadius := h, viscosity := h, speciesDiffusivity := h }) }

/-- A parameter bundle for two species with no handle registered. -/
def noHandles (R : Type) : LiquidTransportParams R :=
  { LTData := [{ hydroRadius := none, viscosity := none, speciesDiffusivity := none },
      { hydroRadius := none, viscosity := none, speciesDiffusivity := none }] }

/-- A three-species phase with the given temperature, mole fractions and molar volume. -/
def ternaryPhase {R : Type} [One R] (T x0 x1 x2 vol : R) : thermo_t R :=
  { nSpecies := 3, temperature := T,
    getMoleFractions := fun k => if k = 0 then x0 else if k = 1 then x1 else x2,
    getMassFractions := fun k => if k = 0 then x0 else if k = 1 then x1 else x2,
    speciesIndex := fun s => if s = "A" then 0 else if s = "B" then 1
      else if s = "C" then 2 else -1,
    molarVolume := vol }

/-- A handle whose property is `a·T + b` at temperature `T`, with mixing weight 1. -/
def linearHandle {R : Type} [Field R] (a b : R) : LTPspecies R :=
  { getSpeciesTransProp := fun thermo => a * thermo.temperature + b, getMixWeight := 1 }

/-- The mole-fraction rule without interaction coefficients, as a sub-model of the ternary ion
solver. -/
def moleFractionRule (R : Type) [Field R] : MixingRule R :=
  { getMixTransProp_LTPptrs := LTI_MoleFracs.getMixTransProp_LTPptrs (storeOf [] [] [] []) }

/-- A molten salt of the ions `Li+`, `K+`, `Cl-` at temperature `T`: ion mole fractions
1/4, 1/4, 1/2, neutral-molecule mole fractions 1/2, 1/2, molar volume 1, ideal activity
coefficients, and the given cation list, anion list, dissociation coefficients and charges. -/
def moltenSalt {R : Type} [Field R] (T : R) (cation anion : List Nat) (viS charges : List R) :
    IonsFromNeutralVPSSTP R :=
  { tothermo_t := ternaryPhase T (1/4) (1/4) (1/2) 1
    getNeutralMolecMoleFractions := [1/2, 1/2]
    getCationList := cation
    getAnionList := anion
    getSpeciesNames := ["Li+", "K+", "Cl-"]
    getDissociationCoeffs := (viS, charges)
    getdlnActCoeffdlnN := fun _ => 0 }

/-- The salt `LiCl`-`KCl` at temperature `T`: cations `Li+` (species 0) and `K+` (species 1) of
charge 1, anion `Cl-` (species 2) of charge -1, each neutral molecule dissociating into its
cation and the anion. -/
def LiCl_KCl {R : Type} [Field R] (T : R) : IonsFromNeutralVPSSTP R :=
  moltenSalt T [0, 1] [2] [1, 0, 1, 0, 1, 1] [1, 1, -1]

/-- A ternary ion solver as `setParameters` leaves it (`m_ionCondMix`, `m_mobRatMix` and
`m_selfDiffMix` zero), with the mole-fraction rule as every sub-model, the handle `mobility` for
the first mobility ratio and constant handles of value 1 elsewhere, and the given names of the
mobility ratios and self diffusion coefficients. -/
def ternarySolver {R : Type} [Field R] (mobility : LTPspecies R)
    (mobRatIndex selfDiffIndex : List String) : LTI_StefanMaxwell_PPN R :=
  { toLiquidTranInteraction := LiquidTranInteraction.new
    m_ionCondMix := 0
    m_ionCondMixModel := some (moleFractionRule R)
    m_ionCondSpecies := [constHandle 1, constHandle 1, constHandle 1]
    m_mobRatMix := DenseMatrix.resize DenseMatrix.empty 3 3 0
    m_mobRatMixModel := [some (moleFractionRule R), some (moleFractionRule R),
      some (moleFractionRule R)]
    m_mobRatSpecies := [[mobility, mobility, mobility],
      [constHandle 1, constHandle 1, constHandle 1],
      [constHandle 1, constHandle 1, constHandle 1]]
    m_mobRatIndex := mobRatIndex
    m_selfDiffMix := [0, 0, 0]
    m_selfDiffMixModel := [some (moleFractionRule R), some (moleFractionRule R),
      some (moleFractionRule R)]
    m_selfDiffSpecies := [[constHandle 1, constHandle 1, constHandle 1],
      [constHandle 1, constHandle 1, constHandle 1],
      [constHandle 1, constHandle 1, constHandle 1]]
    m_selfDiffIndex := selfDiffIndex }

/-! ## Loop lemmas -/

/-- A loop whose step `k` adds `g k` to the accumulator adds the sum of the `g k`. -/
theorem forLoopM_sum {R : Type} [AddCommMonoid R] (n : Nat) (body : Nat → R → Except Error R)
    (g : Nat → R) (h : ∀ k, k < n → ∀ s, body k s = .ok (s + g k)) (s : R) :
    forLoopM n body s = .ok (s + ∑ k in range n, g k) := by
  induction n with
  | zero => simp [forLoopM]
  | succ n ih =>
    have ih1 := ih (fun k hk => h k (Nat.lt_succ_of_lt hk))
    simp only [forLoopM, ih1, h n (Nat.lt_succ_self n), Finset.sum_range_succ, add_assoc]

/-- Indexing a vector below its size returns the element. -/
theorem vecAt_of_lt {α : Type} (v : List α) (k : Nat) (hk : k < v.length) :
    vecAt v k = .ok (v.get ⟨k, hk⟩) := by
  simp [vecAt, List.getElem?_eq_getElem hk]

/-- Below the length of the family, `coeff` reads the matrix of that order. -/
theorem coeff_of_lt {R : Type} [Zero R] (family : List (DenseMatrix R)) (k i j : Nat)
    (hk : k < family.length) : coeff family k i j = (family.get ⟨k, hk⟩).value i j := by
  simp [coeff, List.getElem?_eq_getElem hk]

/-- The loop over the orders of a family adds the sum of its terms. -/
theorem forLoopM_family {R : Type} [Field R] (family : List (DenseMatrix R))
    (term : Nat → R → R) (value : R) :
    forLoopM family.length (fun k value => do
        let Mk ← vecAt family k
        pure (value + term k (Mk.value i j))) value
      = .ok (value + ∑ k in range family.length, term k (coeff family k i j)) := by
  apply forLoopM_sum
  intro k hk s
  simp [vecAt_of_lt family k hk, coeff_of_lt family k i j hk, bind, Except.bind, pure, Except.pure]

/-- The loop nest shared by the A/B mixing rules: a base term per species, then for every pair
the polynomial corrections of the A family and of the B family. -/
theorem forLoopM_AB_nest {R : Type} [Field R] (A B : List (DenseMatrix R)) (x : Nat → R)
    (temp : R) (base : Nat → R) (nsp : Nat) :
    forLoopM nsp (fun i value => do
      let value := value + base i
      forLoopM nsp (fun j value => do
        let value ← forLoopM A.length (fun k value => do
          let Ak ← vecAt A k
          pure (value + x i * x j * Ak.value i j * x i ^ k)) value
        forLoopM B.length (fun k value => do
          let Bk ← vecAt B k
          pure (value + x i * x j * Bk.value i j * temp * x i ^ k))
          value) value) 0
      = .ok ((∑ i in range nsp, base i)
          + (∑ i in range nsp, ∑ j in range nsp,
              x i * x j * ∑ k in range A.length, coeff A k i j * x i ^ k)
          + (∑ i in range nsp, ∑ j in range nsp,
              x i * x j * ∑ k in range B.length, coeff B k i j * temp * x i ^ k)) := by
  have hk : ∀ i j (value : R),
      (do
        let value ← forLoopM A.length (fun k value => do
          let Ak ← vecAt A k
          pure (value + x i * x j * Ak.value i j * x i ^ k)) value
        forLoopM B.length (fun k value => do
          let Bk ← vecAt B k
          pure (value + x i * x j * Bk.value i j * temp * x i ^ k)) value)
      = Except.ok (value + (x i * x j * ∑ k in range A.length, coeff A k i j * x i ^ k
          + x i * x j * ∑ k in range B.length, coeff B k i j * temp * x i ^ k)) := by
    intro i j value
    have hA := forLoopM_family (i := i) (j := j) A (fun k c => x i * x j * c * x i ^ k) value
    have hB := forLoopM_family (i := i) (j := j) B (fun k c => x i * x j * c * temp * x i ^ k)
      (value + ∑ k in range A.length, x i * x j * coeff A k i j * x i ^ k)
    simp only [] at hA hB
    rw [hA]
    refine Eq.trans hB ?_
    congr 1
    rw [add_assoc, Finset.mul_sum, Finset.mul_sum]
    congr 2 <;> exact Finset.sum_congr rfl (fun k _ => by ring)
  have hj : ∀ i (value : R),
      forLoopM nsp (fun j value => do
        let value ← forLoopM A.length (fun k value => do
          let Ak ← vecAt A k
          pure (value + x i * x j * Ak.value i j * x i ^ k)) value
        forLoopM B.length (fun k value => do
          let Bk ← vecAt B k
          pure (value + x i * x j * Bk.value i j * temp * x i ^ k)) value) value
      = Except.ok (value + ∑ j in range nsp,
          (x i * x j * ∑ k in range A.length, coeff A k i j * x i ^ k
          + x i * x j * ∑ k in range B.length, coeff B k i j * temp * x i ^ k)) :=
    fun i value => forLoopM_sum nsp _ _ (fun j _ s => hk i j s) value
  have hi := forLoopM_sum nsp
    (fun i value => do
      let value := value + base i
      forLoopM nsp (fun j value => do
        let value ← forLoopM A.length (fun k value => do
          let Ak ← vecAt A k
          pure (value + x i * x j * Ak.value i j * x i ^ k)) value
        forLoopM B.length (fun k value => do
          let Bk ← vecAt B k
          pure (value + x i * x j * Bk.value i j * temp * x i ^ k))
          value) value)
    (fun i => base i + ∑ j in range nsp,
          (x i * x j * ∑ k in range A.length, coeff A k i j * x i ^ k
          + x i * x j * ∑ k in range B.length, coeff B k i j * temp * x i ^ k))
    (fun i _ s => by simp only [hj, add_assoc]) 0
  rw [hi]
  simp only [Finset.sum_add_distrib, zero_add, add_assoc]

/-! ## The mixing-rule formulas -/

/-- C2: with weights supplied, the solvent-weighted rule returns the weighted base sum
`Σ_i v[i]·w[i]` plus the pairwise A and B polynomial corrections built from the plain mole
fractions of the phase; the weights occur in the base sum only. -/
theorem LTI_Solvent_getMixTransProp_formula {R : Type} [Field R]
    (self : LiquidTranInteraction R) (thermo : thermo_t R) (v w : Nat → R) :
    LTI_Solvent.getMixTransProp self thermo v (some w)
      = .ok ((∑ i in range thermo.nSpecies, v i * w i)
          + (∑ i in range thermo.nSpecies, ∑ j in range thermo.nSpecies,
              thermo.getMoleFractions i * thermo.getMoleFractions j
                * ∑ k in range self.m_Aij.length,
                    coeff self.m_Aij k i j * thermo.getMoleFractions i ^ k)
          + (∑ i in range thermo.nSpecies, ∑ j in range thermo.nSpecies,
              thermo.getMoleFractions i * thermo.getMoleFractions j
                * ∑ k in range self.m_Bij.length,
                    coeff self.m_Bij k i j * thermo.temperature
                      * thermo.getMoleFractions i ^ k)) :=
  forLoopM_AB_nest self.m_Aij self.m_Bij thermo.getMoleFractions thermo.temperature
    (fun i => v i * w i) thermo.nSpecies

/-- C1 fails as stated: one species with mole fraction 1, weight 2, value 0 and `A_0(0,0) = 1`.
The code multiplies the mole fraction by the weight before the correction loop and returns
`2·2·1 = 4`, while the formula with the plain mole fraction gives `1·1·1 = 1`. -/
theorem LTI_MoleFracs_plain_fraction_counterexample :
    LTI_MoleFracs.getMixTransProp (storeOf [constMatrix 1 (1 : ℚ)] [] [] []) (unitPhase ℚ)
        (fun _ => 0) (some (fun _ => 2)) = .ok 4
      ∧ LTI_MoleFracs.getMixTransProp (storeOf [constMatrix 1 (1 : ℚ)] [] [] []) (unitPhase ℚ)
        (fun _ => 0) (some (fun _ => 2))
        ≠ .ok ((∑ i in range (unitPhase ℚ).nSpecies,
              (fun _ => (0 : ℚ)) i * (unitPhase ℚ).getMoleFractions i * (fun _ => (2 : ℚ)) i)
          + (∑ i in range (unitPhase ℚ).nSpecies, ∑ j in range (unitPhase ℚ).nSpecies,
              (unitPhase ℚ).getMoleFractions i * (unitPhase ℚ).getMoleFractions j
                * ∑ k in range (storeOf [constMatrix 1 (1 : ℚ)] [] [] []).m_Aij.length,
                    coeff (storeOf [constMatrix 1 (1 : ℚ)] [] [] []).m_Aij k i j
                      * (unitPhase ℚ).getMoleFractions i ^ k)
          + (∑ i in range (unitPhase ℚ).nSpecies, ∑ j in range (unitPhase ℚ).nSpecies,
              (unitPhase ℚ).getMoleFractions i * (unitPhase ℚ).getMoleFractions j
                * ∑ k in range (storeOf [constMatrix 1 (1 : ℚ)] [] [] []).m_Bij.length,
                    coeff (storeOf [constMatrix 1 (1 : ℚ)] [] [] []).m_Bij k i j
                      * (unitPhase ℚ).temperature * (unitPhase ℚ).getMoleFractions i ^ k)) := by
  have h : LTI_MoleFracs.getMixTransProp (storeOf [constMatrix 1 (1 : ℚ)] [] [] [])
      (unitPhase ℚ) (fun _ => 0) (some (fun _ => 2)) = .ok 4 := by
    simp [LTI_MoleFracs.getMixTransProp, storeOf, constMatrix, unitPhase, forLoopM, vecAt, bind,
      Except.bind, pure, Except.pure]
    norm_num
  refine ⟨h, ?_⟩
  rw [h]
  simp [storeOf, constMatrix, unitPhase, coeff]

/-- The mole-fraction rule with weights supplied, in closed form. -/
theorem LTI_MoleFracs_getMixTransProp_eq {R : Type} [Field R]
    (self : LiquidTranInteraction R) (thermo : thermo_t R) (v w : Nat → R) :
    LTI_MoleFracs.getMixTransProp self thermo v (some w)
      = .ok ((∑ i in range thermo.nSpecies, v i * thermo.getMoleFractions i * w i)
          + (∑ i in range thermo.nSpecies, ∑ j in range thermo.nSpecies,
              (thermo.getMoleFractions i * w i) * (thermo.getMoleFractions j * w j)
                * ∑ k in range self.m_Aij.length,
                    coeff self.m_Aij k i j * (thermo.getMoleFractions i * w i) ^ k)
          + (∑ i in range thermo.nSpecies, ∑ j in range thermo.nSpecies,
              (thermo.getMoleFractions i * w i) * (thermo.getMoleFractions j * w j)
                * ∑ k in range self.m_Bij.length,
                    coeff self.m_Bij k i j * thermo.temperature
                      * (thermo.getMoleFractions i * w i) ^ k)) := by
  have h := forLoopM_AB_nest self.m_Aij self.m_Bij (fun k => thermo.getMoleFractions k * w k)
    thermo.temperature (fun i => v i * (thermo.getMoleFractions i * w i)) thermo.nSpecies
  refine h.trans ?_
  simp only [mul_assoc]

/-- C1 (amended): with weights supplied, the mole-fraction rule returns
`Σ_i v[i]·x_i·w[i]` plus the pairwise A and B polynomial corrections built from the weighted
mole fractions `x_i·w[i]`, the array the code overwrites before the loops. -/
theorem LTI_MoleFracs_getMixTransProp_formula {R : Type} [Field R]
    (self : LiquidTranInteraction R) (thermo : thermo_t R) (v w : Nat → R) :
    LTI_MoleFracs.getMixTransProp self thermo v (some w)
      = .ok ((∑ i in range thermo.nSpecies, v i * thermo.getMoleFractions i * w i)
          + (∑ i in range thermo.nSpecies, ∑ j in range thermo.nSpecies,
              (thermo.getMoleFractions i * w i) * (thermo.getMoleFractions j * w j)
                * ∑ k in range self.m_Aij.length,
                    coeff self.m_Aij k i j * (thermo.getMoleFractions i * w i) ^ k)
          + (∑ i in range thermo.nSpecies, ∑ j in range thermo.nSpecies,
              (thermo.getMoleFractions i * w i) * (thermo.getMoleFractions j * w j)
                * ∑ k in range self.m_Bij.length,
                    coeff self.m_Bij k i j * thermo.temperature
                      * (thermo.getMoleFractions i * w i) ^ k)) :=
  LTI_MoleFracs_getMixTransProp_eq self thermo v w

/-- The loop nest of the log-mixing rule, before the final exponential. -/
theorem forLoopM_HS_nest {R : Type} [Field R] (H S : List (DenseMatrix R)) (x : Nat → R)
    (temp : R) (base : Nat → R) (nsp : Nat) :
    forLoopM nsp (fun i value => do
      let value := value + base i
      forLoopM nsp (fun j value => do
        let value ← forLoopM H.length (fun k value => do
          let Hk ← vecAt H k
          pure (value + x i * x j * Hk.value i j / temp * x i ^ k)) value
        forLoopM S.length (fun k value => do
          let Sk ← vecAt S k
          pure (value - x i * x j * Sk.value i j * x i ^ k)) value) value) 0
      = .ok ((∑ i in range nsp, base i)
          + ∑ i in range nsp, ∑ j in range nsp,
              x i * x j * ((∑ k in range H.length, coeff H k i j / temp * x i ^ k)
                - ∑ k in range S.length, coeff S k i j * x i ^ k)) := by
  have hH : ∀ i j (value : R),
      forLoopM H.length (fun k value => do
          let Hk ← vecAt H k
          pure (value + x i * x j * Hk.value i j / temp * x i ^ k)) value
        = .ok (value + ∑ k in range H.length, x i * x j * coeff H k i j / temp * x i ^ k) := by
    intro i j value
    apply forLoopM_sum
    intro k hk s
    simp [vecAt_of_lt H k hk, coeff_of_lt H k i j hk, bind, Except.bind, pure, Except.pure]
  have hS : ∀ i j (value : R),
      forLoopM S.length (fun k value => do
          let Sk ← vecAt S k
          pure (value - x i * x j * Sk.value i j * x i ^ k)) value
        = .ok (value + ∑ k in range S.length, -(x i * x j * coeff S k i j * x i ^ k)) := by
    intro i j value
    apply forLoopM_sum
    intro k hk s
    simp [vecAt_of_lt S k hk, coeff_of_lt S k i j hk, bind, Except.bind, pure, Except.pure,
      sub_eq_add_neg]
  have hk : ∀ i j (value : R),
      (do
        let value ← forLoopM H.length (fun k value => do
          let Hk ← vecAt H k
          pure (value + x i * x j * Hk.value i j / temp * x i ^ k)) value
        forLoopM S.length (fun k value => do
          let Sk ← vecAt S k
          pure (value - x i * x j * Sk.value i j * x i ^ k)) value)
      = Except.ok (value + x i * x j * ((∑ k in range H.length, coeff H k i j / temp * x i ^ k)
                - ∑ k in range S.length, coeff S k i j * x i ^ k)) := by
    intro i j value
    rw [hH]
    refine Eq.trans (hS i j _) ?_
    congr 1
    rw [add_assoc, mul_sub, Finset.mul_sum, Finset.mul_sum, Finset.sum_neg_distrib,
      sub_eq_add_neg]
    have e1 : ∑ k in range H.length, x i * x j * coeff H k i j / temp * x i ^ k
        = ∑ k in range H.length, x i * x j * (coeff H k i j / temp * x i ^ k) :=
      Finset.sum_congr rfl (fun k _ => by ring)
    have e2 : ∑ k in range S.length, x i * x j * coeff S k i j * x i ^ k
        = ∑ k in range S.length, x i * x j * (coeff S k i j * x i ^ k) :=
      Finset.sum_congr rfl (fun k _ => by ring)
    rw [e1, e2]
  have hj : ∀ i (value : R),
      forLoopM nsp (fun j value => do
        let value ← forLoopM H.length (fun k value => do
          let Hk ← vecAt H k
          pure (value + x i * x j * Hk.value i j / temp * x i ^ k)) value
        forLoopM S.length (fun k value => do
          let Sk ← vecAt S k
          pure (value - x i * x j * Sk.value i j * x i ^ k)) value) value
      = Except.ok (value + ∑ j in range nsp,
          x i * x j * ((∑ k in range H.length, coeff H k i j / temp * x i ^ k)
                - ∑ k in range S.length, coeff S k i j * x i ^ k)) :=
    fun i value => forLoopM_sum nsp _ _ (fun j _ s => hk i j s) value
  have hi := forLoopM_sum nsp
    (fun i value => do
      let value := value + base i
      forLoopM nsp (fun j value => do
        let value ← forLoopM H.length (fun k value => do
          let Hk ← vecAt H k
          pure (value + x i * x j * Hk.value i j / temp * x i ^ k)) value
        forLoopM S.length (fun k value => do
          let Sk ← vecAt S k
          pure (value - x i * x j * Sk.value i j * x i ^ k)) value) value)
    (fun i => base i + ∑ j in range nsp,
          x i * x j * ((∑ k in range H.length, coeff H k i j / temp * x i ^ k)
                - ∑ k in range S.length, coeff S k i j * x i ^ k))
    (fun i _ s => by simp only [hj, add_assoc]) 0
  rw [hi]
  simp only [Finset.sum_add_distrib, zero_add]

/-- The log-mixing rule for any field and any `exp`, `log`: the exponential of the log-weighted
base sum plus the H/S corrections in the weighted mole fractions. -/
theorem LTI_Log_MoleFracs_getMixTransProp_eq {R : Type} [Field R] (exp log : R → R)
    (self : LiquidTranInteraction R) (thermo : thermo_t R) (p w : Nat → R) :
    LTI_Log_MoleFracs.getMixTransProp exp log self thermo p (some w)
      = .ok (exp ((∑ i in range thermo.nSpecies, log (p i) * thermo.getMoleFractions i * w i)
          + ∑ i in range thermo.nSpecies, ∑ j in range thermo.nSpecies,
              (thermo.getMoleFractions i * w i) * (thermo.getMoleFractions j * w j)
                * ((∑ k in range self.m_Hij.length,
                      coeff self.m_Hij k i j / thermo.temperature
                        * (thermo.getMoleFractions i * w i) ^ k)
                  - ∑ k in range self.m_Sij.length,
                      coeff self.m_Sij k i j * (thermo.getMoleFractions i * w i) ^ k))) := by
  have h := forLoopM_HS_nest self.m_Hij self.m_Sij (fun k => thermo.getMoleFractions k * w k)
    thermo.temperature (fun i => log (p i) * (thermo.getMoleFractions i * w i)) thermo.nSpecies
  have h2 : LTI_Log_MoleFracs.getMixTransProp exp log self thermo p (some w)
      = (forLoopM thermo.nSpecies (fun i value => do
          let value := value + (fun i => log (p i) * (thermo.getMoleFractions i * w i)) i
          forLoopM thermo.nSpecies (fun j value => do
            let value ← forLoopM self.m_Hij.length (fun k value => do
              let Hk ← vecAt self.m_Hij k
              pure (value + (fun k => thermo.getMoleFractions k * w k) i
                * (fun k => thermo.getMoleFractions k * w k) j * Hk.value i j
                / thermo.temperature * (fun k => thermo.getMoleFractions k * w k) i ^ k)) value
            forLoopM self.m_Sij.length (fun k value => do
              let Sk ← vecAt self.m_Sij k
              pure (value - (fun k => thermo.getMoleFractions k * w k) i
                * (fun k => thermo.getMoleFractions k * w k) j * Sk.value i j
                * (fun k => thermo.getMoleFractions k * w k) i ^ k)) value) value) 0
          >>= fun value => pure (exp value)) := rfl
  rw [h2, h]
  simp only [bind, Except.bind, pure, Except.pure, mul_assoc]

/-- C3 fails as stated: one species with mole fraction 1, weight 2, property value 1,
`H_0(0,0) = 1` and temperature 1.  The code returns `exp(ln 1·2 + 2·2·1/1) = exp 4`; the formula
with the plain mole fraction in the pairwise term gives `exp(ln 1·1·2 + 1·1·(1/1)) = exp 1`. -/
theorem LTI_Log_MoleFracs_plain_fraction_counterexample :
    LTI_Log_MoleFracs.getMixTransProp Real.exp Real.log (storeOf [] [] [constMatrix 1 (1 : ℝ)] [])
        (unitPhase ℝ) (fun _ => 1) (some (fun _ => 2)) = .ok (Real.exp 4)
      ∧ LTI_Log_MoleFracs.getMixTransProp Real.exp Real.log
          (storeOf [] [] [constMatrix 1 (1 : ℝ)] []) (unitPhase ℝ) (fun _ => 1)
          (some (fun _ => 2))
        ≠ .ok (Real.exp ((∑ i in range (unitPhase ℝ).nSpecies,
              Real.log ((fun _ => (1 : ℝ)) i) * (unitPhase ℝ).getMoleFractions i
                * (fun _ => (2 : ℝ)) i)
          + ∑ i in range (unitPhase ℝ).nSpecies, ∑ j in range (unitPhase ℝ).nSpecies,
              (unitPhase ℝ).getMoleFractions i * (unitPhase ℝ).getMoleFractions j
                * ((∑ k in range (storeOf [] [] [constMatrix 1 (1 : ℝ)] []).m_Hij.length,
                      coeff (storeOf [] [] [constMatrix 1 (1 : ℝ)] []).m_Hij k i j
                        / (unitPhase ℝ).temperature * (unitPhase ℝ).getMoleFractions i ^ k)
                  - ∑ k in range (storeOf [] [] [constMatrix 1 (1 : ℝ)] []).m_Sij.length,
                      coeff (storeOf [] [] [constMatrix 1 (1 : ℝ)] []).m_Sij k i j
                        * (unitPhase ℝ).getMoleFractions i ^ k))) := by
  have h : LTI_Log_MoleFracs.getMixTransProp Real.exp Real.log
      (storeOf [] [] [constMatrix 1 (1 : ℝ)] []) (unitPhase ℝ) (fun _ => 1) (some (fun _ => 2))
      = .ok (Real.exp 4) := by
    simp [LTI_Log_MoleFracs.getMixTransProp, storeOf, constMatrix, unitPhase, forLoopM, vecAt,
      bind, Except.bind, pure, Except.pure]
    norm_num
  refine ⟨h, ?_⟩
  rw [h]
  simp [storeOf, constMatrix, unitPhase, coeff]

/-- C3 (amended): for a nonzero temperature, positive property values and supplied weights, the
log-mixing rule returns `exp(Σ_i ln(p[i])·x_i·w[i] + Σ_ij X_i X_j [Σ_k H_k(i,j)/T·X_i^k −
Σ_k S_k(i,j)·X_i^k])` where `X_i = x_i·w[i]` is the weighted mole fraction. -/
theorem LTI_Log_MoleFracs_getMixTransProp_formula (self : LiquidTranInteraction ℝ)
    (thermo : thermo_t ℝ) (p w : Nat → ℝ) (_hT : thermo.temperature ≠ 0)
    (_hp : ∀ i, i < thermo.nSpecies → 0 < p i) :
    LTI_Log_MoleFracs.getMixTransProp Real.exp Real.log self thermo p (some w)
      = .ok (Real.exp
          ((∑ i in range thermo.nSpecies, Real.log (p i) * thermo.getMoleFractions i * w i)
          + ∑ i in range thermo.nSpecies, ∑ j in range thermo.nSpecies,
              (thermo.getMoleFractions i * w i) * (thermo.getMoleFractions j * w j)
                * ((∑ k in range self.m_Hij.length,
                      coeff self.m_Hij k i j / thermo.temperature
                        * (thermo.getMoleFractions i * w i) ^ k)
                  - ∑ k in range self.m_Sij.length,
                      coeff self.m_Sij k i j * (thermo.getMoleFractions i * w i) ^ k))) :=
  LTI_Log_MoleFracs_getMixTransProp_eq Real.exp Real.log self thermo p w

/-- The amended C3 applied to one species with `H_0 = S_0 = 1`, weight 2 and property value 3. -/
theorem LTI_Log_MoleFracs_getMixTransProp_formula_witness :
    (unitPhase ℝ).temperature ≠ 0
      ∧ (∀ i, i < (unitPhase ℝ).nSpecies → 0 < (fun _ => (3 : ℝ)) i)
      ∧ LTI_Log_MoleFracs.getMixTransProp Real.exp Real.log
          (storeOf [] [] [constMatrix 1 (1 : ℝ)] [constMatrix 1 (1 : ℝ)]) (unitPhase ℝ)
          (fun _ => 3) (some (fun _ => 2)) = .ok (Real.exp (Real.log 3 * 2)) := by
  have hT : (unitPhase ℝ).temperature ≠ 0 := by simp [unitPhase]
  have hp : ∀ i, i < (unitPhase ℝ).nSpecies → 0 < (fun _ => (3 : ℝ)) i := fun _ _ => by norm_num
  refine ⟨hT, hp, ?_⟩
  rw [LTI_Log_MoleFracs_getMixTransProp_formula _ _ _ _ hT hp]
  simp [storeOf, constMatrix, unitPhase, coeff]

/-- C4 fails as stated: one species with mole fraction 1, weight 2, value 0, `A_0(0,0) = 1`,
`B_0(0,0) = 0` and temperature 1.  The code returns `2·2·1·exp(0) = 4`; the formula with the
plain mole fraction in the pairwise term gives `1·1·1·exp(0) = 1`. -/
theorem LTI_MoleFracs_ExpT_plain_fraction_counterexample :
    LTI_MoleFracs_ExpT.getMixTransProp Real.exp
        (storeOf [constMatrix 1 (1 : ℝ)] [constMatrix 1 (0 : ℝ)] [] [])
        (unitPhase ℝ) (fun _ => 0) (some (fun _ => 2)) = .ok 4
      ∧ LTI_MoleFracs_ExpT.getMixTransProp Real.exp
          (storeOf [constMatrix 1 (1 : ℝ)] [constMatrix 1 (0 : ℝ)] [] [])
          (unitPhase ℝ) (fun _ => 0) (some (fun _ => 2))
        ≠ .ok ((∑ i in range (unitPhase ℝ).nSpecies,
              (fun _ => (0 : ℝ)) i * (unitPhase ℝ).getMoleFractions i * (fun _ => (2 : ℝ)) i)
          + ∑ i in range (unitPhase ℝ).nSpecies, ∑ j in range (unitPhase ℝ).nSpecies,
              (unitPhase ℝ).getMoleFractions i * (unitPhase ℝ).getMoleFractions j
                * ∑ k in range
                    (storeOf [constMatrix 1 (1 : ℝ)] [constMatrix 1 (0 : ℝ)] [] []).m_Aij.length,
                    coeff (storeOf [constMatrix 1 (1 : ℝ)] [constMatrix 1 (0 : ℝ)] [] []).m_Aij
                        k i j
                      * (unitPhase ℝ).getMoleFractions i ^ k
                      * Real.exp
                          (coeff
                            (storeOf [constMatrix 1 (1 : ℝ)] [constMatrix 1 (0 : ℝ)] [] []).m_Bij
                            k i j * (unitPhase ℝ).temperature)) := by
  have h : LTI_MoleFracs_ExpT.getMixTransProp Real.exp
      (storeOf [constMatrix 1 (1 : ℝ)] [constMatrix 1 (0 : ℝ)] [] [])
      (unitPhase ℝ) (fun _ => 0) (some (fun _ => 2)) = .ok 4 := by
    simp [LTI_MoleFracs_ExpT.getMixTransProp, storeOf, constMatrix, unitPhase, forLoopM, vecAt,
      bind, Except.bind, pure, Except.pure]
    norm_num
  refine ⟨h, ?_⟩
  rw [h]
  simp [storeOf, constMatrix, unitPhase, coeff]

/-- The exponential-T rule with weights supplied and a B family at least as long as the A
family, in closed form. -/
theorem LTI_MoleFracs_ExpT_getMixTransProp_eq {R : Type} [Field R] (exp : R → R)
    (self : LiquidTranInteraction R) (thermo : thermo_t R) (v w : Nat → R)
    (hAB : self.m_Aij.length ≤ self.m_Bij.length) :
    LTI_MoleFracs_ExpT.getMixTransProp exp self thermo v (some w)
      = .ok ((∑ i in range thermo.nSpecies, v i * thermo.getMoleFractions i * w i)
          + ∑ i in range thermo.nSpecies, ∑ j in range thermo.nSpecies,
              (thermo.getMoleFractions i * w i) * (thermo.getMoleFractions j * w j)
                * ∑ k in range self.m_Aij.length,
                    coeff self.m_Aij k i j * (thermo.getMoleFractions i * w i) ^ k
                      * exp (coeff self.m_Bij k i j * thermo.temperature)) := by
  have hk : ∀ i j (value : R),
      forLoopM self.m_Aij.length (fun k value => do
          let Ak ← vecAt self.m_Aij k
          let Bk ← vecAt self.m_Bij k
          pure (value + (thermo.getMoleFractions i * w i) * (thermo.getMoleFractions j * w j)
            * Ak.value i j * (thermo.getMoleFractions i * w i) ^ k
            * exp (Bk.value i j * thermo.temperature))) value
        = .ok (value + ∑ k in range self.m_Aij.length,
            (thermo.getMoleFractions i * w i) * (thermo.getMoleFractions j * w j)
              * (coeff self.m_Aij k i j * (thermo.getMoleFractions i * w i) ^ k
                * exp (coeff self.m_Bij k i j * thermo.temperature))) := by
    intro i j value
    apply forLoopM_sum
    intro k hk s
    have hkB : k < self.m_Bij.length := Nat.lt_of_lt_of_le hk hAB
    simp [vecAt_of_lt self.m_Aij k hk, vecAt_of_lt self.m_Bij k hkB,
      coeff_of_lt self.m_Aij k i j hk, coeff_of_lt self.m_Bij k i j hkB, bind, Except.bind,
      pure, Except.pure, mul_assoc]
  have hj : ∀ i (value : R),
      forLoopM thermo.nSpecies (fun j value =>
        forLoopM self.m_Aij.length (fun k value => do
          let Ak ← vecAt self.m_Aij k
          let Bk ← vecAt self.m_Bij k
          pure (value + (thermo.getMoleFractions i * w i) * (thermo.getMoleFractions j * w j)
            * Ak.value i j * (thermo.getMoleFractions i * w i) ^ k
            * exp (Bk.value i j * thermo.temperature))) value) value
      = .ok (value + ∑ j in range thermo.nSpecies, ∑ k in range self.m_Aij.length,
            (thermo.getMoleFractions i * w i) * (thermo.getMoleFractions j * w j)
              * (coeff self.m_Aij k i j * (thermo.getMoleFractions i * w i) ^ k
                * exp (coeff self.m_Bij k i j * thermo.temperature))) :=
    fun i value => forLoopM_sum thermo.nSpecies _ _ (fun j _ s => hk i j s) value
  have hi := forLoopM_sum thermo.nSpecies
    (fun i value => do
      let value := value + v i * (thermo.getMoleFractions i * w i)
      forLoopM thermo.nSpecies (fun j value =>
        forLoopM self.m_Aij.length (fun k value => do
          let Ak ← vecAt self.m_Aij k
          let Bk ← vecAt self.m_Bij k
          pure (value + (thermo.getMoleFractions i * w i) * (thermo.getMoleFractions j * w j)
            * Ak.value i j * (thermo.getMoleFractions i * w i) ^ k
            * exp (Bk.value i j * thermo.temperature))) value) value)
    (fun i => v i * (thermo.getMoleFractions i * w i)
      + ∑ j in range thermo.nSpecies, ∑ k in range self.m_Aij.length,
            (thermo.getMoleFractions i * w i) * (thermo.getMoleFractions j * w j)
              * (coeff self.m_Aij k i j * (thermo.getMoleFractions i * w i) ^ k
                * exp (coeff self.m_Bij k i j * thermo.temperature)))
    (fun i _ s => by simp only [hj, add_assoc]) 0
  refine hi.trans ?_
  simp only [Finset.sum_add_distrib, zero_add, Finset.mul_sum, mul_assoc]

/-- C4 (amended): when the B family holds at least as many orders as the A family and weights
are supplied, the exponential-T rule returns `Σ_i v[i]·x_i·w[i] + Σ_ij X_i X_j Σ_k
A_k(i,j)·X_i^k·exp(B_k(i,j)·T)` with `k` over the orders of the A family and `X_i = x_i·w[i]`
the weighted mole fraction. -/
theorem LTI_MoleFracs_ExpT_getMixTransProp_formula {R : Type} [Field R] (exp : R → R)
    (self : LiquidTranInteraction R) (thermo : thermo_t R) (v w : Nat → R)
    (hAB : self.m_Aij.length ≤ self.m_Bij.length) :
    LTI_MoleFracs_ExpT.getMixTransProp exp self thermo v (some w)
      = .ok ((∑ i in range thermo.nSpecies, v i * thermo.getMoleFractions i * w i)
          + ∑ i in range thermo.nSpecies, ∑ j in range thermo.nSpecies,
              (thermo.getMoleFractions i * w i) * (thermo.getMoleFractions j * w j)
                * ∑ k in range self.m_Aij.length,
                    coeff self.m_Aij k i j * (thermo.getMoleFractions i * w i) ^ k
                      * exp (coeff self.m_Bij k i j * thermo.temperature)) :=
  LTI_MoleFracs_ExpT_getMixTransProp_eq exp self thermo v w hAB

/-- The amended C4 applied to one species with `A_0 = B_0 = 1`, weight 2, value 3 and the
identity in place of `exp`. -/
theorem LTI_MoleFracs_ExpT_getMixTransProp_formula_witness :
    (storeOf [constMatrix 1 (1 : ℚ)] [constMatrix 1 (1 : ℚ)] [] []).m_Aij.length
        ≤ (storeOf [constMatrix 1 (1 : ℚ)] [constMatrix 1 (1 : ℚ)] [] []).m_Bij.length
      ∧ LTI_MoleFracs_ExpT.getMixTransProp (fun t => t)
          (storeOf [constMatrix 1 (1 : ℚ)] [constMatrix 1 (1 : ℚ)] [] []) (unitPhase ℚ)
          (fun _ => 3) (some (fun _ => 2)) = .ok 10 := by
  have hAB : (storeOf [constMatrix 1 (1 : ℚ)] [constMatrix 1 (1 : ℚ)] [] []).m_Aij.length
      ≤ (storeOf [constMatrix 1 (1 : ℚ)] [constMatrix 1 (1 : ℚ)] [] []).m_Bij.length := by
    simp [storeOf]
  refine ⟨hAB, ?_⟩
  rw [LTI_MoleFracs_ExpT_getMixTransProp_formula _ _ _ _ _ hAB]
  simp [storeOf, constMatrix, unitPhase, coeff]
  norm_num

/-- C5: the mass-fraction rule on a phase with mass fractions `y` returns what the
mole-fraction rule returns on any phase with the same species count and temperature whose mole
fractions are `y`, for the same coefficients, values and weights; the substitution reaches the
base sum and the pairwise corrections alike. -/
theorem LTI_MassFracs_getMixTransProp_eq_LTI_MoleFracs {R : Type} [Field R]
    (self : LiquidTranInteraction R) (thermo thermo2 : thermo_t R) (v w : Nat → R)
    (hN : thermo2.nSpecies = thermo.nSpecies) (hT : thermo2.temperature = thermo.temperature)
    (hy : ∀ k, k < thermo.nSpecies → thermo2.getMoleFractions k = thermo.getMassFractions k) :
    LTI_MassFracs.getMixTransProp self thermo v (some w)
      = LTI_MoleFracs.getMixTransProp self thermo2 v (some w) := by
  have hmass : LTI_MassFracs.getMixTransProp self thermo v (some w)
      = LTI_MoleFracs.getMixTransProp self
          { thermo with getMoleFractions := thermo.getMassFractions } v (some w) := rfl
  rw [hmass, LTI_MoleFracs_getMixTransProp_eq, LTI_MoleFracs_getMixTransProp_eq, hN, hT]
  have e1 : ∑ i in range thermo.nSpecies, v i * thermo2.getMoleFractions i * w i
      = ∑ i in range thermo.nSpecies, v i * thermo.getMassFractions i * w i :=
    Finset.sum_congr rfl (fun i hi => by rw [hy i (Finset.mem_range.1 hi)])
  have e2 : ∀ (fam : List (DenseMatrix R)) (c : R),
      (∑ i in range thermo.nSpecies, ∑ j in range thermo.nSpecies,
        (thermo2.getMoleFractions i * w i) * (thermo2.getMoleFractions j * w j)
          * ∑ k in range fam.length,
              coeff fam k i j * c * (thermo2.getMoleFractions i * w i) ^ k)
      = ∑ i in range thermo.nSpecies, ∑ j in range thermo.nSpecies,
        (thermo.getMassFractions i * w i) * (thermo.getMassFractions j * w j)
          * ∑ k in range fam.length,
              coeff fam k i j * c * (thermo.getMassFractions i * w i) ^ k :=
    fun fam c => Finset.sum_congr rfl (fun i hi => Finset.sum_congr rfl (fun j hj => by
      rw [hy i (Finset.mem_range.1 hi), hy j (Finset.mem_range.1 hj)]))
  have e3 := e2 self.m_Aij 1
  simp only [mul_one] at e3
  rw [e1, e3, e2 self.m_Bij thermo.temperature]

/-- C5 applied to a two-species phase with mass fractions `[1/3, 2/3]` and the phase whose mole
fractions are `[1/3, 2/3]`. -/
theorem LTI_MassFracs_getMixTransProp_eq_LTI_MoleFracs_witness :
    LTI_MassFracs.getMixTransProp (storeOf [constMatrix 2 (1 : ℚ)] [constMatrix 2 (2 : ℚ)] [] [])
        (binaryPhase 300 (1/4) (3/4) (1/3) (2/3)) (fun _ => 5)
        (some (fun k => if k = 0 then 1 else 2))
      = LTI_MoleFracs.getMixTransProp
        (storeOf [constMatrix 2 (1 : ℚ)] [constMatrix 2 (2 : ℚ)] [] [])
        (binaryPhase 300 (1/3) (2/3) (1/5) (4/5)) (fun _ => 5)
        (some (fun k => if k = 0 then 1 else 2)) :=
  LTI_MassFracs_getMixTransProp_eq_LTI_MoleFracs _ _ _ _ _ rfl rfl (fun _ _ => rfl)

/-- A family whose matrices vanish on the species pairs below `n` has zero coefficients
there. -/
theorem coeff_eq_zero {R : Type} [Zero R] (family : List (DenseMatrix R)) (n : Nat)
    (h : ∀ M ∈ family, ∀ i j, i < n → j < n → M.value i j = 0) (k i j : Nat) (hi : i < n)
    (hj : j < n) : coeff family k i j = 0 := by
  unfold coeff
  cases hk : family[k]? with
  | none => rfl
  | some M => exact h M (List.getElem?_mem hk) i j hi hj

/-- C6: in a two-species system whose A and B matrices are all zero (or whose families are
empty), the mole-fraction rule with weights `[1, 0]` on values `[v0, v1]` returns exactly
`v0·x0`. -/
theorem LTI_MoleFracs_getMixTransProp_zero_interaction {R : Type} [Field R]
    (self : LiquidTranInteraction R) (thermo : thermo_t R) (v w : Nat → R)
    (hN : thermo.nSpecies = 2)
    (hA : ∀ M ∈ self.m_Aij, ∀ i j, i < 2 → j < 2 → M.value i j = 0)
    (hB : ∀ M ∈ self.m_Bij, ∀ i j, i < 2 → j < 2 → M.value i j = 0)
    (hw0 : w 0 = 1) (hw1 : w 1 = 0) :
    LTI_MoleFracs.getMixTransProp self thermo v (some w)
      = .ok (v 0 * thermo.getMoleFractions 0) := by
  rw [LTI_MoleFracs_getMixTransProp_eq, hN]
  have zA : ∀ k i j, i < 2 → j < 2 → coeff self.m_Aij k i j = 0 :=
    fun k i j hi hj => coeff_eq_zero self.m_Aij 2 hA k i j hi hj
  have zB : ∀ k i j, i < 2 → j < 2 → coeff self.m_Bij k i j = 0 :=
    fun k i j hi hj => coeff_eq_zero self.m_Bij 2 hB k i j hi hj
  simp [Finset.sum_range_succ, zA, zB, hw0, hw1]

/-- C6 applied to zero 2×2 matrices `A_0`, `B_0`, composition `[1/4, 3/4]`, values `[8, 5]`
and weights `[1, 0]`: the rule returns `8·(1/4) = 2`. -/
theorem LTI_MoleFracs_getMixTransProp_zero_interaction_witness :
    LTI_MoleFracs.getMixTransProp
        (storeOf [constMatrix 2 (0 : ℚ)] [constMatrix 2 (0 : ℚ)] [] [])
        (binaryPhase 300 (1/4) (3/4) (1/2) (1/2)) (fun k => if k = 0 then 8 else 5)
        (some (fun k => if k = 0 then 1 else 0)) = .ok 2 := by
  rw [LTI_MoleFracs_getMixTransProp_zero_interaction
    (storeOf [constMatrix 2 (0 : ℚ)] [constMatrix 2 (0 : ℚ)] [] [])
    (binaryPhase 300 (1/4) (3/4) (1/2) (1/2)) (fun k => if k = 0 then 8 else 5)
    (fun k => if k = 0 then 1 else 0) rfl
    (by simp [storeOf, constMatrix]) (by simp [storeOf, constMatrix]) (by simp) (by simp)]
  simp [binaryPhase]
  norm_num

/-- C7: in a two-species system whose H and S matrices are all zero (or whose families are
empty), at a nonzero temperature, the log-mixing rule with weights `[1, 1]` on positive values
`[p0, p1]` returns `exp(ln(p0)·x0 + ln(p1)·x1)`, which is `p0^x0 · p1^x1`. -/
theorem LTI_Log_MoleFracs_getMixTransProp_zero_interaction (self : LiquidTranInteraction ℝ)
    (thermo : thermo_t ℝ) (p w : Nat → ℝ) (hN : thermo.nSpecies = 2)
    (hH : ∀ M ∈ self.m_Hij, ∀ i j, i < 2 → j < 2 → M.value i j = 0)
    (hS : ∀ M ∈ self.m_Sij, ∀ i j, i < 2 → j < 2 → M.value i j = 0)
    (_hT : thermo.temperature ≠ 0) (hp0 : 0 < p 0) (hp1 : 0 < p 1)
    (hw0 : w 0 = 1) (hw1 : w 1 = 1) :
    LTI_Log_MoleFracs.getMixTransProp Real.exp Real.log self thermo p (some w)
        = .ok (Real.exp (Real.log (p 0) * thermo.getMoleFractions 0
            + Real.log (p 1) * thermo.getMoleFractions 1))
      ∧ Real.exp (Real.log (p 0) * thermo.getMoleFractions 0
            + Real.log (p 1) * thermo.getMoleFractions 1)
        = p 0 ^ thermo.getMoleFractions 0 * p 1 ^ thermo.getMoleFractions 1 := by
  constructor
  · rw [LTI_Log_MoleFracs_getMixTransProp_eq, hN]
    have zH : ∀ k i j, i < 2 → j < 2 → coeff self.m_Hij k i j = 0 :=
      fun k i j hi hj => coeff_eq_zero self.m_Hij 2 hH k i j hi hj
    have zS : ∀ k i j, i < 2 → j < 2 → coeff self.m_Sij k i j = 0 :=
      fun k i j hi hj => coeff_eq_zero self.m_Sij 2 hS k i j hi hj
    simp [Finset.sum_range_succ, zH, zS, hw0, hw1]
  · rw [Real.exp_add, Real.rpow_def_of_pos hp0, Real.rpow_def_of_pos hp1]

/-- C7 applied to zero 2×2 matrices `H_0`, `S_0`, temperature 300, composition `[1/4, 3/4]`,
values `[2, 3]` and weights `[1, 1]`. -/
theorem LTI_Log_MoleFracs_getMixTransProp_zero_interaction_witness :
    LTI_Log_MoleFracs.getMixTransProp Real.exp Real.log
        (storeOf [] [] [constMatrix 2 (0 : ℝ)] [constMatrix 2 (0 : ℝ)])
        (binaryPhase 300 (1/4) (3/4) (1/2) (1/2)) (fun k => if k = 0 then 2 else 3)
        (some (fun _ => 1))
      = .ok ((2 : ℝ) ^ (1/4 : ℝ) * (3 : ℝ) ^ (3/4 : ℝ)) := by
  have h := LTI_Log_MoleFracs_getMixTransProp_zero_interaction
    (storeOf [] [] [constMatrix 2 (0 : ℝ)] [constMatrix 2 (0 : ℝ)])
    (binaryPhase 300 (1/4) (3/4) (1/2) (1/2)) (fun k => if k = 0 then 2 else 3)
    (fun _ => 1) rfl
    (by simp [storeOf, constMatrix]) (by simp [storeOf, constMatrix])
    (by simp [binaryPhase]) (by norm_num) (by norm_num) rfl rfl
  rw [h.1, h.2]
  simp [binaryPhase]

/-! ## Missing weights and scalar queries on matrix-only strategies -/

/-- Without weights each of the five weighted rules throws its `CanteraError`, whatever the
store, the phase and the values. -/
theorem getMixTransProp_without_weights {R : Type} [Field R] (exp log : R → R)
    (self : LiquidTranInteraction R) (thermo : thermo_t R) (v : Nat → R) :
    LTI_Solvent.getMixTransProp self thermo v none
        = .error (Error.CanteraError "LTI_Solvent::getMixTransProp"
            "You should be specifying the speciesWeight")
      ∧ LTI_MoleFracs.getMixTransProp self thermo v none
        = .error (Error.CanteraError "LTI_MoleFracs::getMixTransProp"
            "You should be specifying the speciesWeight")
      ∧ LTI_MassFracs.getMixTransProp self thermo v none
        = .error (Error.CanteraError "LTI_MassFracs::getMixTransProp"
            "You should be specifying the speciesWeight")
      ∧ LTI_Log_MoleFracs.getMixTransProp exp log self thermo v none
        = .error (Error.CanteraError "LTI_Log_MoleFracs::getMixTransProp"
            "You probably should have a speciesWeight when you call getMixTransProp to convert ion mole fractions to molecular mole fractions")
      ∧ LTI_MoleFracs_ExpT.getMixTransProp exp self thermo v none
        = .error (Error.CanteraError "LTI_MoleFracs_ExpT::getMixTransProp"
            "You should be specifying the speciesWeight") :=
  ⟨rfl, rfl, rfl, rfl, rfl⟩

/-- With weights supplied the solvent, mole-fraction, mass-fraction and log-mixing rules return
a value, and so does the exponential-T rule when the B family holds at least as many orders as
the A family. -/
theorem getMixTransProp_with_weights {R : Type} [Field R] (exp log : R → R)
    (self : LiquidTranInteraction R) (thermo : thermo_t R) (v w : Nat → R) :
    (∃ value, LTI_Solvent.getMixTransProp self thermo v (some w) = .ok value)
      ∧ (∃ value, LTI_MoleFracs.getMixTransProp self thermo v (some w) = .ok value)
      ∧ (∃ value, LTI_MassFracs.getMixTransProp self thermo v (some w) = .ok value)
      ∧ (∃ value, LTI_Log_MoleFracs.getMixTransProp exp log self thermo v (some w) = .ok value)
      ∧ (self.m_Aij.length ≤ self.m_Bij.length →
          ∃ value, LTI_MoleFracs_ExpT.getMixTransProp exp self thermo v (some w) = .ok value) :=
  ⟨⟨_, forLoopM_AB_nest self.m_Aij self.m_Bij thermo.getMoleFractions thermo.temperature
      (fun i => v i * w i) thermo.nSpecies⟩,
    ⟨_, LTI_MoleFracs_getMixTransProp_eq self thermo v w⟩,
    ⟨_, LTI_MoleFracs_getMixTransProp_eq self
      { thermo with getMoleFractions := thermo.getMassFractions } v w⟩,
    ⟨_, LTI_Log_MoleFracs_getMixTransProp_eq exp log self thermo v w⟩,
    fun hAB => ⟨_, LTI_MoleFracs_ExpT_getMixTransProp_eq exp self thermo v w hAB⟩⟩

/-- C8 at the failing input: one species, an A family of one order and an empty B family.
With weights supplied the exponential-T rule indexes `m_Bij[0]` in an empty vector instead of
returning a value. -/
theorem LTI_MoleFracs_ExpT_getMixTransProp_outOfRange :
    LTI_MoleFracs_ExpT.getMixTransProp (fun t => t) (storeOf [constMatrix 1 (1 : ℚ)] [] [] [])
      (unitPhase ℚ) (fun _ => 1) (some (fun _ => 1)) = .error Error.outOfRange := by
  simp [LTI_MoleFracs_ExpT.getMixTransProp, storeOf, unitPhase, forLoopM, vecAt, bind,
    Except.bind]

/-- C9: both scalar forms of the pairwise-interaction strategy and of the Stokes-Einstein
strategy throw an `LTPmodelError` for every object, phase state and argument; none of them
returns a value. -/
theorem scalar_forms_throw_LTPmodelError {R : Type} [Field R]
    (pairwise : LTI_Pairwise_Interaction R) (stokes : LTI_StokesEinstein R)
    (thermo : thermo_t R) (speciesValues : Nat → R) (speciesWeight : Option (Nat → R))
    (LTPptrs : List (LTPspecies R)) :
    LTI_Pairwise_Interaction.getMixTransProp pairwise thermo speciesValues speciesWeight
        = .error (Error.LTPmodelError
            "Calling LTI_Pairwise_Interaction::getMixTransProp does not make sense.")
      ∧ LTI_Pairwise_Interaction.getMixTransProp_LTPptrs pairwise thermo LTPptrs
        = .error (Error.LTPmodelError
            "Calling LTI_Pairwise_Interaction::getMixTransProp does not make sense.")
      ∧ LTI_StokesEinstein.getMixTransProp stokes thermo speciesValues speciesWeight
        = .error (Error.LTPmodelError
            "Calling LTI_StokesEinstein::getMixTransProp does not make sense.")
      ∧ LTI_StokesEinstein.getMixTransProp_LTPptrs stokes thermo LTPptrs
        = .error (Error.LTPmodelError
            "Calling LTI_StokesEinstein::getMixTransProp does not make sense.") :=
  ⟨rfl, rfl, rfl, rfl⟩

/-! ## The pairwise-interaction matrix -/

/-- A loop whose every step succeeds and carries the invariant from `k` to `k + 1` succeeds and
ends with the invariant at `n`. -/
theorem forLoopM_invariant {σ : Type} (P : Nat → σ → Prop) (n : Nat)
    (body : Nat → σ → Except Error σ) (s : σ) (h0 : P 0 s)
    (hstep : ∀ k, k < n → ∀ t, P k t → ∃ t1, body k t = .ok t1 ∧ P (k + 1) t1) :
    ∃ t, forLoopM n body s = .ok t ∧ P n t := by
  induction n with
  | zero => exact ⟨s, rfl, h0⟩
  | succ n ih =>
    obtain ⟨t, ht, hP⟩ := ih (fun k hk => hstep k (Nat.lt_succ_of_lt hk))
    obtain ⟨t1, ht1, hP1⟩ := hstep n (Nat.lt_succ_self n) t hP
    exact ⟨t1, by simp only [forLoopM, ht, ht1], hP1⟩

/-- The blocks for the A, B, H and S families leave `m_Dij` and `m_Eij` as they are. -/
theorem read_families_DE {R : Type} [Field R] (GasConstant : R) (nsp : Nat)
    (xmlChild : XML_Node R) (i j : Nat) (self : LiquidTranInteraction R) :
    ((self.readAij nsp xmlChild i j).m_Dij = self.m_Dij
        ∧ (self.readAij nsp xmlChild i j).m_Eij = self.m_Eij)
      ∧ ((self.readBij nsp xmlChild i j).m_Dij = self.m_Dij
        ∧ (self.readBij nsp xmlChild i j).m_Eij = self.m_Eij)
      ∧ ((self.readHij GasConstant nsp xmlChild i j).m_Dij = self.m_Dij
        ∧ (self.readHij GasConstant nsp xmlChild i j).m_Eij = self.m_Eij)
      ∧ ((self.readSij GasConstant nsp xmlChild i j).m_Dij = self.m_Dij
        ∧ (self.readSij GasConstant nsp xmlChild i j).m_Eij = self.m_Eij) := by
  unfold LiquidTranInteraction.readAij LiquidTranInteraction.readBij
    LiquidTranInteraction.readHij LiquidTranInteraction.readSij
  refine ⟨⟨?_, ?_⟩, ⟨?_, ?_⟩, ⟨?_, ?_⟩, ⟨?_, ?_⟩⟩ <;> split <;> rfl

/-- The `Eij` block leaves `m_Dij` as it is and keeps `m_Eij` symmetric. -/
theorem readEij_symmetric {R : Type} [Field R] (GasConstant : R) (xmlChild : XML_Node R)
    (i j : Nat) (self : LiquidTranInteraction R)
    (hE : ∀ a b, self.m_Eij.value a b = self.m_Eij.value b a) :
    (self.readEij GasConstant xmlChild i j).m_Dij = self.m_Dij
      ∧ ∀ a b, (self.readEij GasConstant xmlChild i j).m_Eij.value a b
          = (self.readEij GasConstant xmlChild i j).m_Eij.value b a := by
  unfold LiquidTranInteraction.readEij
  split
  · refine ⟨rfl, fun a b => ?_⟩
    simp only [DenseMatrix.set, and_self, if_true]
    have c1 : (b = j ∧ a = i) ↔ (a = i ∧ b = j) := and_comm
    have c2 : (b = i ∧ a = j) ↔ (a = j ∧ b = i) := and_comm
    simp only [c1, c2]
    split_ifs <;> first | rfl | exact hE a b
  · exact ⟨rfl, hE⟩

/-- The `Dij` block leaves `m_Eij` as it is and keeps `m_Dij` symmetric. -/
theorem readDij_symmetric {R : Type} [Field R] (xmlChild : XML_Node R)
    (i j : Nat) (self : LiquidTranInteraction R)
    (hD : ∀ a b, self.m_Dij.value a b = self.m_Dij.value b a) :
    (self.readDij xmlChild i j).m_Eij = self.m_Eij
      ∧ ∀ a b, (self.readDij xmlChild i j).m_Dij.value a b
          = (self.readDij xmlChild i j).m_Dij.value b a := by
  unfold LiquidTranInteraction.readDij
  split
  · refine ⟨rfl, fun a b => ?_⟩
    simp only [DenseMatrix.set, and_self, if_true]
    have c1 : (b = j ∧ a = i) ↔ (a = i ∧ b = j) := and_comm
    have c2 : (b = i ∧ a = j) ↔ (a = j ∧ b = i) := and_comm
    simp only [c1, c2]
    split_ifs <;> first | rfl | exact hD a b
  · exact ⟨rfl, hD⟩

/-- One child of the interaction block keeps `m_Dij` and `m_Eij` symmetric. -/
theorem initChild_symmetric {R : Type} [Field R] (GasConstant : R) (thermo : thermo_t R)
    (xmlChild : XML_Node R) (self self1 : LiquidTranInteraction R)
    (h : LiquidTranInteraction.initChild GasConstant thermo xmlChild self = .ok self1)
    (hD : ∀ a b, self.m_Dij.value a b = self.m_Dij.value b a)
    (hE : ∀ a b, self.m_Eij.value a b = self.m_Eij.value b a) :
    (∀ a b, self1.m_Dij.value a b = self1.m_Dij.value b a)
      ∧ (∀ a b, self1.m_Eij.value a b = self1.m_Eij.value b a) := by
  unfold LiquidTranInteraction.initChild at h
  simp only [] at h
  split_ifs at h
  have h4 := Except.ok.inj h
  subst h4
  generalize (thermo.speciesIndex (xmlChild.attrib "speciesA")).toNat = i
  generalize (thermo.speciesIndex (xmlChild.attrib "speciesB")).toNat = j
  have e := readEij_symmetric GasConstant xmlChild i j self hE
  have fA := (read_families_DE GasConstant thermo.nSpecies xmlChild i j
    (self.readEij GasConstant xmlChild i j)).1
  have fB := (read_families_DE GasConstant thermo.nSpecies xmlChild i j
    ((self.readEij GasConstant xmlChild i j).readAij thermo.nSpecies xmlChild i j)).2.1
  have fH := (read_families_DE GasConstant thermo.nSpecies xmlChild i j
    (((self.readEij GasConstant xmlChild i j).readAij thermo.nSpecies xmlChild i j).readBij
      thermo.nSpecies xmlChild i j)).2.2.1
  have fS := (read_families_DE GasConstant thermo.nSpecies xmlChild i j
    ((((self.readEij GasConstant xmlChild i j).readAij thermo.nSpecies xmlChild i j).readBij
      thermo.nSpecies xmlChild i j).readHij GasConstant thermo.nSpecies xmlChild i j)).2.2.2
  have d := readDij_symmetric xmlChild i j
    (((((self.readEij GasConstant xmlChild i j).readAij thermo.nSpecies xmlChild i j).readBij
      thermo.nSpecies xmlChild i j).readHij GasConstant thermo.nSpecies xmlChild i j).readSij
      GasConstant thermo.nSpecies xmlChild i j)
    (by rw [fS.1, fH.1, fB.1, fA.1, e.1]; exact hD)
  refine ⟨d.2, ?_⟩
  rw [d.1, fS.2, fH.2, fB.2, fA.2]
  exact e.2

/-- The loop over the children keeps `m_Dij` and `m_Eij` symmetric. -/
theorem initChildren_symmetric {R : Type} [Field R] (GasConstant : R) (thermo : thermo_t R)
    (children : List (XML_Node R)) (self self1 : LiquidTranInteraction R)
    (h : LiquidTranInteraction.initChildren GasConstant thermo children self = .ok self1)
    (hD : ∀ a b, self.m_Dij.value a b = self.m_Dij.value b a)
    (hE : ∀ a b, self.m_Eij.value a b = self.m_Eij.value b a) :
    (∀ a b, self1.m_Dij.value a b = self1.m_Dij.value b a)
      ∧ (∀ a b, self1.m_Eij.value a b = self1.m_Eij.value b a) := by
  induction children generalizing self with
  | nil =>
    have h1 := Except.ok.inj h
    subst h1
    exact ⟨hD, hE⟩
  | cons c rest ih =>
    unfold LiquidTranInteraction.initChildren at h
    cases hc : LiquidTranInteraction.initChild GasConstant thermo c self with
    | error e => rw [hc] at h; cases h
    | ok s1 =>
      rw [hc] at h
      have hs := initChild_symmetric GasConstant thermo c self s1 hc hD hE
      exact ih s1 h hs.1 hs.2

/-- After `init` on a freshly constructed object, `m_Dij` and `m_Eij` are symmetric. -/
theorem init_symmetric {R : Type} [Field R] (GasConstant : R)
    (compModelNode : List (XML_Node R)) (thermo : thermo_t R) (store : LiquidTranInteraction R)
    (h : LiquidTranInteraction.init GasConstant LiquidTranInteraction.new compModelNode thermo
      = .ok store) :
    (∀ a b, store.m_Dij.value a b = store.m_Dij.value b a)
      ∧ (∀ a b, store.m_Eij.value a b = store.m_Eij.value b a) := by
  unfold LiquidTranInteraction.init at h
  refine initChildren_symmetric GasConstant thermo compModelNode _ store h ?_ ?_ <;>
    intro a b <;>
    simp [LiquidTranInteraction.new, DenseMatrix.resize, DenseMatrix.empty]

/-- A property kept by every successful step of a loop holds of its result. -/
theorem forLoopM_preserves {σ : Type} (P : σ → Prop) (n : Nat)
    (body : Nat → σ → Except Error σ) (s t : σ) (h0 : P s)
    (hstep : ∀ k u u1, P u → body k u = .ok u1 → P u1)
    (h : forLoopM n body s = .ok t) : P t := by
  induction n generalizing t with
  | zero => exact Except.ok.inj h ▸ h0
  | succ n ih =>
    unfold forLoopM at h
    cases hn : forLoopM n body s with
    | error e => rw [hn] at h; cases h
    | ok u =>
      rw [hn] at h
      exact hstep n u t (ih u hn) h

/-- A resized vector has the requested size. -/
theorem vecResize_length {α : Type} (v : List α) (n : Nat) (a : α) :
    (vecResize v n a).length = n := by
  simp only [vecResize, List.length_append, List.length_take, List.length_replicate]
  omega

/-- After `setParameters` the vector `m_diagonals` has one slot per species and the coefficient
store is the one the call started from. -/
theorem setParameters_ok {R : Type} [Field R] (self obj : LTI_Pairwise_Interaction R)
    (thermo : thermo_t R) (trParam : LiquidTransportParams R)
    (h : LTI_Pairwise_Interaction.setParameters self thermo trParam = .ok obj) :
    obj.m_diagonals.length = thermo.nSpecies
      ∧ obj.toLiquidTranInteraction = self.toLiquidTranInteraction := by
  unfold LTI_Pairwise_Interaction.setParameters at h
  simp only [bind, Except.bind] at h
  split at h
  · cases h
  · rename_i d hd
    have h1 := Except.ok.inj h
    subst h1
    refine ⟨?_, rfl⟩
    refine forLoopM_preserves (fun d => d.length = thermo.nSpecies) _ _ _ d
      (vecResize_length _ _ _) ?_ hd
    intro k u u1 hu hb
    cases hl : vecAt trParam.LTData k with
    | error e => rw [hl] at hb; cases hb
    | ok ltd =>
      rw [hl] at hb
      cases hs : ltd.speciesDiffusivity with
      | none =>
        simp only [hs] at hb
        exact Except.ok.inj hb ▸ hu
      | some handle =>
        simp only [hs] at hb
        have := Except.ok.inj hb
        subst this
        simpa using hu

/-- The off-diagonal fill of `getMatrixTransProp`: after the rows below `n`, every pair of
distinct indices below `n` holds `f` of the larger and the smaller index, and every other slot
is as before. -/
theorem pairwise_fill {R : Type} (f : Nat → Nat → R) (n : Nat) (M0 : DenseMatrix R) :
    ∃ M, forLoopM n (fun i mat =>
        forLoopM i (fun j mat =>
          let mat := mat.set j i (f i j)
          pure (mat.set i j (mat.value j i))) mat) M0 = .ok M
      ∧ M.nRows = M0.nRows ∧ M.nColumns = M0.nColumns
      ∧ ∀ a b, M.value a b
          = if a ≠ b ∧ a < n ∧ b < n then (if b < a then f a b else f b a)
            else M0.value a b := by
  refine forLoopM_invariant
    (fun n M => M.nRows = M0.nRows ∧ M.nColumns = M0.nColumns
      ∧ ∀ a b, M.value a b
          = if a ≠ b ∧ a < n ∧ b < n then (if b < a then f a b else f b a)
            else M0.value a b) n _ M0 ⟨rfl, rfl, fun a b => by simp⟩ ?_
  intro i _ M1 hM1
  have hrow := forLoopM_invariant
    (fun j M => M.nRows = M0.nRows ∧ M.nColumns = M0.nColumns
      ∧ ∀ a b, M.value a b
          = if a = i ∧ b < j then f i b else if b = i ∧ a < j then f i a else M1.value a b)
    i (fun j mat =>
          let mat := mat.set j i (f i j)
          pure (mat.set i j (mat.value j i))) M1 ⟨hM1.1, hM1.2.1, fun a b => by simp⟩
    (by
      intro j hj M hM
      refine ⟨_, rfl, hM.1, hM.2.1, fun a b => ?_⟩
      simp only [DenseMatrix.set, and_self, if_true, hM.2.2 a b]
      split_ifs <;> first | rfl | (exfalso; omega) | (congr 1; omega))
  obtain ⟨M, hM, hr, hc, hv⟩ := hrow
  refine ⟨M, hM, hr, hc, fun a b => ?_⟩
  rw [hv a b, hM1.2.2 a b]
  split_ifs <;> first | rfl | (exfalso; omega) | (congr 1; omega)

/-- The diagonal pass of `getMatrixTransProp`: with one slot of `m_diagonals` per species it
succeeds, keeps the dimensions and changes no off-diagonal entry. -/
theorem pairwise_diagonal {R : Type} [Field R] [DecidableEq R]
    (m_diagonals : List (Option (LTPspecies R))) (thermo : thermo_t R) (n : Nat)
    (hn : n ≤ m_diagonals.length) (M1 : DenseMatrix R) :
    ∃ M, forLoopM n (fun i (mat : DenseMatrix R) =>
        if mat.value i i = 0 then do
          let diagonal ← vecAt m_diagonals i
          match diagonal with
          | some handle => pure (mat.set i i (1 / handle.getSpeciesTransProp thermo))
          | none => pure mat
        else pure mat) M1 = .ok M
      ∧ M.nRows = M1.nRows ∧ M.nColumns = M1.nColumns
      ∧ ∀ a b, a ≠ b → M.value a b = M1.value a b := by
  refine forLoopM_invariant
    (fun _ M => M.nRows = M1.nRows ∧ M.nColumns = M1.nColumns
      ∧ ∀ a b, a ≠ b → M.value a b = M1.value a b) n _ M1 ⟨rfl, rfl, fun _ _ _ => rfl⟩ ?_
  intro i hi M hM
  have hlt : i < m_diagonals.length := Nat.lt_of_lt_of_le hi hn
  by_cases h0 : M.value i i = 0
  · simp only [h0, if_true, vecAt_of_lt m_diagonals i hlt, bind, Except.bind]
    cases m_diagonals.get ⟨i, hlt⟩ with
    | none => exact ⟨M, rfl, hM⟩
    | some handle =>
      refine ⟨_, rfl, hM.1, hM.2.1, fun a b hab => ?_⟩
      have hne : ¬ (a = i ∧ b = i) := fun h => hab (h.1.trans h.2.symm)
      simp only [DenseMatrix.set, hne, if_false]
      exact hM.2.2 a b hab
  · simp only [h0, if_false]
    exact ⟨M, rfl, hM⟩

/-- C10: for a store filled by `init` and a strategy configured by `setParameters` on a phase
with `N` species, at every temperature, `getMatrixTransProp` returns an `N×N` matrix whose
entries at `i ≠ j` are `exp(E(i,j)/T)/D(i,j)`, equal at `(i,j)` and `(j,i)`. -/
theorem LTI_Pairwise_Interaction_getMatrixTransProp_offdiagonal {R : Type} [Field R]
    [DecidableEq R] (exp : R → R) (GasConstant : R) (compModelNode : List (XML_Node R))
    (thermo0 thermo : thermo_t R) (pairwise obj : LTI_Pairwise_Interaction R)
    (trParam : LiquidTransportParams R) (mat : DenseMatrix R) (speciesValues : Nat → R)
    (hinit : LiquidTranInteraction.init GasConstant LiquidTranInteraction.new compModelNode
      thermo0 = .ok pairwise.toLiquidTranInteraction)
    (hset : LTI_Pairwise_Interaction.setParameters pairwise thermo0 trParam = .ok obj)
    (hN : thermo.nSpecies = thermo0.nSpecies) :
    ∃ M, LTI_Pairwise_Interaction.getMatrixTransProp exp obj thermo mat speciesValues = .ok M
      ∧ M.nRows = thermo.nSpecies ∧ M.nColumns = thermo.nSpecies
      ∧ ∀ i j, i < thermo.nSpecies → j < thermo.nSpecies → i ≠ j →
          M.value i j = exp (obj.m_Eij.value i j / thermo.temperature) / obj.m_Dij.value i j
            ∧ M.value i j = M.value j i := by
  obtain ⟨hlen, hstore⟩ := setParameters_ok pairwise obj thermo0 trParam hset
  obtain ⟨hD, hE⟩ := init_symmetric GasConstant compModelNode thermo0 _ hinit
  rw [← hstore] at hD hE
  obtain ⟨M1, h1, hr1, hc1, hv1⟩ := pairwise_fill
    (fun i j => exp (obj.m_Eij.value i j / thermo.temperature) / obj.m_Dij.value i j)
    thermo.nSpecies (mat.resize thermo.nSpecies thermo.nSpecies 0)
  obtain ⟨M, h2, hr2, hc2, hv2⟩ := pairwise_diagonal obj.m_diagonals thermo thermo.nSpecies
    (by rw [hlen, hN]) M1
  refine ⟨M, ?_, hr2.trans hr1, hc2.trans hc1, fun i j hi hj hij => ?_⟩
  · unfold LTI_Pairwise_Interaction.getMatrixTransProp
    simp only [bind, Except.bind]
    rw [h1]
    exact h2
  · have hji : j ≠ i := fun h => hij h.symm
    rw [hv2 i j hij, hv2 j i hji, hv1 i j, hv1 j i]
    simp only [hij, hji, hi, hj, ne_eq, not_false_eq_true, and_self, if_true]
    by_cases hlt : j < i
    · have hnlt : ¬ i < j := Nat.lt_asymm hlt
      simp only [hlt, hnlt, if_true, if_false, and_self]
    · have hlt2 : i < j := Nat.lt_of_le_of_ne (Nat.le_of_not_lt hlt) hij
      simp only [hlt, hlt2, if_true, if_false, and_self, and_true]
      rw [hE j i, hD j i]

/-- C10 applied to the two-species phase with the single entry `A`-`B` carrying `Eij = 4` and
`Dij = 5`, gas constant 2 and no diagonal handle, queried at temperature 350. -/
theorem LTI_Pairwise_Interaction_getMatrixTransProp_offdiagonal_witness :
    ∃ store obj M,
      LiquidTranInteraction.init (2 : ℚ) LiquidTranInteraction.new [interactionED 4 5]
          (binaryPhase 300 (1/4) (3/4) (1/2) (1/2)) = .ok store
        ∧ LTI_Pairwise_Interaction.setParameters
            { toLiquidTranInteraction := store, m_diagonals := [] }
            (binaryPhase 300 (1/4) (3/4) (1/2) (1/2)) (noHandles ℚ) = .ok obj
        ∧ LTI_Pairwise_Interaction.getMatrixTransProp (fun t => t) obj
            (binaryPhase 350 (1/2) (1/2) (1/2) (1/2)) DenseMatrix.empty (fun _ => 0) = .ok M
        ∧ M.nRows = 2 ∧ M.nColumns = 2 ∧ M.value 0 1 = M.value 1 0 := by
  obtain ⟨store, hstore⟩ : ∃ store, LiquidTranInteraction.init (2 : ℚ)
      LiquidTranInteraction.new [interactionED 4 5]
      (binaryPhase 300 (1/4) (3/4) (1/2) (1/2)) = .ok store := ⟨_, rfl⟩
  obtain ⟨obj, hobj⟩ : ∃ obj, LTI_Pairwise_Interaction.setParameters
      { toLiquidTranInteraction := store, m_diagonals := [] }
      (binaryPhase 300 (1/4) (3/4) (1/2) (1/2)) (noHandles ℚ) = .ok obj := ⟨_, rfl⟩
  obtain ⟨M, hM, hr, hc, hv⟩ := LTI_Pairwise_Interaction_getMatrixTransProp_offdiagonal
    (fun t => t) (2 : ℚ) [interactionED 4 5] (binaryPhase 300 (1/4) (3/4) (1/2) (1/2))
    (binaryPhase 350 (1/2) (1/2) (1/2) (1/2))
    { toLiquidTranInteraction := store, m_diagonals := [] } obj (noHandles ℚ)
    DenseMatrix.empty (fun _ => 0) hstore hobj rfl
  exact ⟨store, obj, M, hstore, hobj, hM, hr, hc, (hv 0 1 (by decide) (by decide) (by decide)).2⟩

/-! ## Growth and filling of a polynomial family -/

/-- Growing to size 0 leaves the family as it is. -/
theorem growFamily_zero {R : Type} [Field R] (fam : List (DenseMatrix R)) (nsp : Nat) :
    growFamily fam nsp 0 = fam := by
  simp [growFamily]

/-- Growing an empty family to `n + 1` matrices appends a zero matrix in front of growing it
to `n`. -/
theorem growFamily_nil_succ {R : Type} [Field R] (nsp n : Nat) :
    growFamily ([] : List (DenseMatrix R)) nsp (n + 1)
      = DenseMatrix.empty.resize nsp nsp 0 :: growFamily [] nsp n := by
  simp [growFamily, List.replicate_succ]

/-- Growing a nonempty family to `n + 1` matrices keeps its head and grows its tail to `n`. -/
theorem growFamily_cons_succ {R : Type} [Field R] (M : DenseMatrix R)
    (fam : List (DenseMatrix R)) (nsp n : Nat) :
    growFamily (M :: fam) nsp (n + 1) = M :: growFamily fam nsp n := by
  simp [growFamily]

/-- The family after a block of `init`: order `k` below the length of `poly` holds `put` of the
matrix it held before (a zero `nsp×nsp` matrix when it held none) and of `poly[k]`; the orders
from the length of `poly` on are as before. -/
theorem storePoly_growFamily_getElem? {R : Type} [Field R]
    (put : DenseMatrix R → R → DenseMatrix R) (nsp : Nat) (poly : List R)
    (fam : List (DenseMatrix R)) (k : Nat) :
    (storePoly put (growFamily fam nsp poly.length) poly)[k]?
      = match poly[k]? with
        | some c => some (put (fam.getD k (DenseMatrix.empty.resize nsp nsp 0)) c)
        | none => fam[k]? := by
  induction poly generalizing fam k with
  | nil =>
    rw [List.length_nil, growFamily_zero]
    cases fam <;> simp [storePoly]
  | cons c cs ih =>
    cases fam with
    | nil =>
      rw [List.length_cons, growFamily_nil_succ]
      cases k with
      | zero => simp [storePoly]
      | succ k => simpa [storePoly] using ih [] k
    | cons M rest =>
      rw [List.length_cons, growFamily_cons_succ]
      cases k with
      | zero => simp [storePoly]
      | succ k => simpa [storePoly] using ih rest k

/-- The family after a block of `init` has the larger of the old length and the length of
`poly`. -/
theorem storePoly_growFamily_length {R : Type} [Field R]
    (put : DenseMatrix R → R → DenseMatrix R) (nsp : Nat) (poly : List R)
    (fam : List (DenseMatrix R)) :
    (storePoly put (growFamily fam nsp poly.length) poly).length
      = max fam.length poly.length := by
  induction poly generalizing fam with
  | nil =>
    rw [List.length_nil, growFamily_zero]
    cases fam <;> simp [storePoly]
  | cons c cs ih =>
    cases fam with
    | nil =>
      rw [List.length_cons, growFamily_nil_succ]
      simpa [storePoly] using ih []
    | cons M rest =>
      rw [List.length_cons, growFamily_cons_succ]
      simp only [storePoly, List.length_cons, ih rest]
      omega

/-- The coefficients after a block of `init` whose `put` writes `g c` at `(i,j)` and nothing
else: `g (poly[k])` at `(i,j)` for the orders of `poly`, the former coefficient everywhere
else. -/
theorem coeff_storePoly_growFamily {R : Type} [Field R]
    (put : DenseMatrix R → R → DenseMatrix R) (g : R → R) (i j : Nat)
    (hput : ∀ M c a b, (put M c).value a b = if a = i ∧ b = j then g c else M.value a b)
    (nsp : Nat) (poly : List R) (fam : List (DenseMatrix R)) (k a b : Nat) :
    coeff (storePoly put (growFamily fam nsp poly.length) poly) k a b
      = match poly[k]? with
        | some c => if a = i ∧ b = j then g c else coeff fam k a b
        | none => coeff fam k a b := by
  unfold coeff
  rw [storePoly_growFamily_getElem?]
  cases hp : poly[k]? with
  | none => rfl
  | some c =>
    simp only [hput]
    cases hf : fam[k]? with
    | none => simp [List.getD_eq_getElem?_getD, hf, DenseMatrix.resize, DenseMatrix.empty]
    | some M => simp [List.getD_eq_getElem?_getD, hf]

/-- A block of `init` whose `put` writes at `(i,j)` only and keeps the dimensions inserts the
polynomial in the sense of `FamilyInserted`. -/
theorem familyInserted_storePoly {R : Type} [Field R]
    (put : DenseMatrix R → R → DenseMatrix R) (g : R → R) (i j : Nat)
    (hput : ∀ M c a b, (put M c).value a b = if a = i ∧ b = j then g c else M.value a b)
    (hdim : ∀ M c, (put M c).nRows = M.nRows ∧ (put M c).nColumns = M.nColumns)
    (nsp : Nat) (poly : List R) (fam : List (DenseMatrix R)) :
    FamilyInserted nsp i j poly.length fam
      (storePoly put (growFamily fam nsp poly.length) poly) := by
  refine ⟨storePoly_growFamily_length put nsp poly fam, ?_, ?_, ?_⟩
  · intro k hk hL
    rw [storePoly_growFamily_getElem?, List.getElem?_eq_getElem hL,
      List.getD_eq_default _ _ hk]
    refine ⟨_, rfl, (hdim _ _).1, (hdim _ _).2, fun a b hab => ?_⟩
    rw [hput, if_neg hab]
    simp [DenseMatrix.resize, DenseMatrix.empty]
  · intro k M0 hM0
    rw [storePoly_growFamily_getElem?]
    cases hp : poly[k]? with
    | none => exact ⟨M0, hM0, rfl, rfl, fun _ _ _ => rfl⟩
    | some c =>
      refine ⟨_, rfl, ?_, ?_, fun a b hab => ?_⟩
      · rw [(hdim _ _).1, List.getD_eq_getElem?_getD, hM0]; rfl
      · rw [(hdim _ _).2, List.getD_eq_getElem?_getD, hM0]; rfl
      · rw [hput, if_neg hab, List.getD_eq_getElem?_getD, hM0]; rfl
  · intro hN M hM
    obtain ⟨k, hk⟩ := List.getElem?_of_mem hM
    rw [storePoly_growFamily_getElem?] at hk
    cases hp : poly[k]? with
    | none =>
      rw [hp] at hk
      exact hN M (List.getElem?_mem hk)
    | some c =>
      rw [hp] at hk
      have hk1 := Option.some.inj hk
      subst hk1
      rw [(hdim _ _).1, (hdim _ _).2]
      cases hf : fam[k]? with
      | none =>
        have hlen : fam.length ≤ k := by
          rcases Nat.lt_or_ge k fam.length with h | h
          · rw [List.getElem?_eq_getElem h] at hf; cases hf
          · exact h
        rw [List.getD_eq_default _ _ hlen]
        exact ⟨rfl, rfl⟩
      | some M1 =>
        rw [List.getD_eq_getElem?_getD, hf]
        exact hN M1 (List.getElem?_mem hf)

/-! ## One child of the interaction block, field by field -/

/-- What each block of `init` leaves alone: every field but its own. -/
theorem read_frames {R : Type} [Field R] (GasConstant : R) (nsp : Nat)
    (xmlChild : XML_Node R) (i j : Nat) (self : LiquidTranInteraction R) :
    ((self.readEij GasConstant xmlChild i j).m_Aij = self.m_Aij
        ∧ (self.readEij GasConstant xmlChild i j).m_Bij = self.m_Bij
        ∧ (self.readEij GasConstant xmlChild i j).m_Hij = self.m_Hij
        ∧ (self.readEij GasConstant xmlChild i j).m_Sij = self.m_Sij)
      ∧ ((self.readAij nsp xmlChild i j).m_Bij = self.m_Bij
        ∧ (self.readAij nsp xmlChild i j).m_Hij = self.m_Hij
        ∧ (self.readAij nsp xmlChild i j).m_Sij = self.m_Sij)
      ∧ ((self.readBij nsp xmlChild i j).m_Aij = self.m_Aij
        ∧ (self.readBij nsp xmlChild i j).m_Hij = self.m_Hij
        ∧ (self.readBij nsp xmlChild i j).m_Sij = self.m_Sij)
      ∧ ((self.readHij GasConstant nsp xmlChild i j).m_Aij = self.m_Aij
        ∧ (self.readHij GasConstant nsp xmlChild i j).m_Bij = self.m_Bij
        ∧ (self.readHij GasConstant nsp xmlChild i j).m_Sij = self.m_Sij)
      ∧ ((self.readSij GasConstant nsp xmlChild i j).m_Aij = self.m_Aij
        ∧ (self.readSij GasConstant nsp xmlChild i j).m_Bij = self.m_Bij
        ∧ (self.readSij GasConstant nsp xmlChild i j).m_Hij = self.m_Hij)
      ∧ ((self.readDij xmlChild i j).m_Aij = self.m_Aij
        ∧ (self.readDij xmlChild i j).m_Bij = self.m_Bij
        ∧ (self.readDij xmlChild i j).m_Hij = self.m_Hij
        ∧ (self.readDij xmlChild i j).m_Sij = self.m_Sij) := by
  unfold LiquidTranInteraction.readEij LiquidTranInteraction.readAij
    LiquidTranInteraction.readBij LiquidTranInteraction.readHij
    LiquidTranInteraction.readSij LiquidTranInteraction.readDij
  refine ⟨⟨?_, ?_, ?_, ?_⟩, ⟨?_, ?_, ?_⟩, ⟨?_, ?_, ?_⟩, ⟨?_, ?_, ?_⟩, ⟨?_, ?_, ?_⟩,
    ⟨?_, ?_, ?_, ?_⟩⟩ <;> split <;> rfl

/-- The own field of each family block of `init`: the family grown to the length of the
polynomial read and filled with it when the sub-element is present, the former family
otherwise. -/
theorem read_own_family {R : Type} [Field R] (GasConstant : R) (nsp : Nat)
    (xmlChild : XML_Node R) (i j : Nat) (self : LiquidTranInteraction R) :
    (self.readAij nsp xmlChild i j).m_Aij
        = (if xmlChild.hasChild "Aij" then
            storePoly (fun M c => M.set i j c)
              (growFamily self.m_Aij nsp (polyOf xmlChild "Aij" "toSI").length)
              (polyOf xmlChild "Aij" "toSI")
          else self.m_Aij)
      ∧ (self.readBij nsp xmlChild i j).m_Bij
        = (if xmlChild.hasChild "Bij" then
            storePoly (fun M c => M.set i j c)
              (growFamily self.m_Bij nsp (polyOf xmlChild "Bij" "toSI").length)
              (polyOf xmlChild "Bij" "toSI")
          else self.m_Bij)
      ∧ (self.readHij GasConstant nsp xmlChild i j).m_Hij
        = (if xmlChild.hasChild "Hij" then
            storePoly (fun M c => (M.set i j c).set i j ((M.set i j c).value i j / GasConstant))
              (growFamily self.m_Hij nsp (polyOf xmlChild "Hij" "actEnergy").length)
              (polyOf xmlChild "Hij" "actEnergy")
          else self.m_Hij)
      ∧ (self.readSij GasConstant nsp xmlChild i j).m_Sij
        = (if xmlChild.hasChild "Sij" then
            storePoly (fun M c => (M.set i j c).set i j ((M.set i j c).value i j / GasConstant))
              (growFamily self.m_Sij nsp (polyOf xmlChild "Sij" "actEnergy").length)
              (polyOf xmlChild "Sij" "actEnergy")
          else self.m_Sij) := by
  unfold LiquidTranInteraction.readAij LiquidTranInteraction.readBij
    LiquidTranInteraction.readHij LiquidTranInteraction.readSij polyOf
  refine ⟨?_, ?_, ?_, ?_⟩ <;> split <;> rfl

/-- The own field of a block of `init` depends on the store through that field only. -/
theorem read_own_congr {R : Type} [Field R] (GasConstant : R) (nsp : Nat)
    (xmlChild : XML_Node R) (i j : Nat) (self : LiquidTranInteraction R) :
    ∀ other : LiquidTranInteraction R,
      (other.m_Eij = self.m_Eij →
          (other.readEij GasConstant xmlChild i j).m_Eij
            = (self.readEij GasConstant xmlChild i j).m_Eij)
        ∧ (other.m_Aij = self.m_Aij →
          (other.readAij nsp xmlChild i j).m_Aij = (self.readAij nsp xmlChild i j).m_Aij)
        ∧ (other.m_Bij = self.m_Bij →
          (other.readBij nsp xmlChild i j).m_Bij = (self.readBij nsp xmlChild i j).m_Bij)
        ∧ (other.m_Hij = self.m_Hij →
          (other.readHij GasConstant nsp xmlChild i j).m_Hij
            = (self.readHij GasConstant nsp xmlChild i j).m_Hij)
        ∧ (other.m_Sij = self.m_Sij →
          (other.readSij GasConstant nsp xmlChild i j).m_Sij
            = (self.readSij GasConstant nsp xmlChild i j).m_Sij)
        ∧ (other.m_Dij = self.m_Dij →
          (other.readDij xmlChild i j).m_Dij = (self.readDij xmlChild i j).m_Dij) := by
  intro other
  unfold LiquidTranInteraction.readEij LiquidTranInteraction.readAij
    LiquidTranInteraction.readBij LiquidTranInteraction.readHij
    LiquidTranInteraction.readSij LiquidTranInteraction.readDij
  refine ⟨?_, ?_, ?_, ?_, ?_, ?_⟩ <;> intro h <;> split <;> simp only [h]

/-- What a successful pass over one child did: the child is an `interaction` element naming
two known species, and each field of the store is what its own block made of it. -/
theorem initChild_ok {R : Type} [Field R] (GasConstant : R) (thermo : thermo_t R)
    (xmlChild : XML_Node R) (self self1 : LiquidTranInteraction R)
    (h : LiquidTranInteraction.initChild GasConstant thermo xmlChild self = .ok self1) :
    (lowercase xmlChild.name = "interaction"
        ∧ 0 ≤ thermo.speciesIndex (xmlChild.attrib "speciesA")
        ∧ 0 ≤ thermo.speciesIndex (xmlChild.attrib "speciesB"))
      ∧ self1.m_Eij = (self.readEij GasConstant xmlChild
          (thermo.speciesIndex (xmlChild.attrib "speciesA")).toNat
          (thermo.speciesIndex (xmlChild.attrib "speciesB")).toNat).m_Eij
      ∧ self1.m_Aij = (self.readAij thermo.nSpecies xmlChild
          (thermo.speciesIndex (xmlChild.attrib "speciesA")).toNat
          (thermo.speciesIndex (xmlChild.attrib "speciesB")).toNat).m_Aij
      ∧ self1.m_Bij = (self.readBij thermo.nSpecies xmlChild
          (thermo.speciesIndex (xmlChild.attrib "speciesA")).toNat
          (thermo.speciesIndex (xmlChild.attrib "speciesB")).toNat).m_Bij
      ∧ self1.m_Hij = (self.readHij GasConstant thermo.nSpecies xmlChild
          (thermo.speciesIndex (xmlChild.attrib "speciesA")).toNat
          (thermo.speciesIndex (xmlChild.attrib "speciesB")).toNat).m_Hij
      ∧ self1.m_Sij = (self.readSij GasConstant thermo.nSpecies xmlChild
          (thermo.speciesIndex (xmlChild.attrib "speciesA")).toNat
          (thermo.speciesIndex (xmlChild.attrib "speciesB")).toNat).m_Sij
      ∧ self1.m_Dij = (self.readDij xmlChild
          (thermo.speciesIndex (xmlChild.attrib "speciesA")).toNat
          (thermo.speciesIndex (xmlChild.attrib "speciesB")).toNat).m_Dij := by
  unfold LiquidTranInteraction.initChild at h
  simp only [] at h
  split_ifs at h with h1 h2 h3
  have h4 := Except.ok.inj h
  subst h4
  refine ⟨⟨not_not.mp h1, not_lt.mp h2, not_lt.mp h3⟩, ?_⟩
  generalize (thermo.speciesIndex (xmlChild.attrib "speciesA")).toNat = i
  generalize (thermo.speciesIndex (xmlChild.attrib "speciesB")).toNat = j
  generalize thermo.nSpecies = nsp
  have c := read_own_congr GasConstant nsp xmlChild i j self
  have eD : (self.readEij GasConstant xmlChild i j).m_Dij = self.m_Dij := by
    unfold LiquidTranInteraction.readEij; split <;> rfl
  have f0 := (read_frames GasConstant nsp xmlChild i j self).1
  have cA := (c (self.readEij GasConstant xmlChild i j)).2.1 f0.1
  generalize self.readEij GasConstant xmlChild i j = s1 at *
  have f1 := (read_frames GasConstant nsp xmlChild i j s1).2.1
  have d1 := (read_families_DE GasConstant nsp xmlChild i j s1).1
  have cB := (c (s1.readAij nsp xmlChild i j)).2.2.1 (f1.1.trans f0.2.1)
  generalize s1.readAij nsp xmlChild i j = s2 at *
  have f2 := (read_frames GasConstant nsp xmlChild i j s2).2.2.1
  have d2 := (read_families_DE GasConstant nsp xmlChild i j s2).2.1
  have cH := (c (s2.readBij nsp xmlChild i j)).2.2.2.1 (f2.2.1.trans (f1.2.1.trans f0.2.2.1))
  generalize s2.readBij nsp xmlChild i j = s3 at *
  have f3 := (read_frames GasConstant nsp xmlChild i j s3).2.2.2.1
  have d3 := (read_families_DE GasConstant nsp xmlChild i j s3).2.2.1
  have cS := (c (s3.readHij GasConstant nsp xmlChild i j)).2.2.2.2.1
    (f3.2.2.trans (f2.2.2.trans (f1.2.2.trans f0.2.2.2)))
  generalize s3.readHij GasConstant nsp xmlChild i j = s4 at *
  have f4 := (read_frames GasConstant nsp xmlChild i j s4).2.2.2.2.1
  have d4 := (read_families_DE GasConstant nsp xmlChild i j s4).2.2.2
  have cD := (c (s4.readSij GasConstant nsp xmlChild i j)).2.2.2.2.2
    (d4.1.trans (d3.1.trans (d2.1.trans (d1.1.trans eD))))
  generalize s4.readSij GasConstant nsp xmlChild i j = s5 at *
  have f5 := (read_frames GasConstant nsp xmlChild i j s5).2.2.2.2.2
  have eE : (s5.readDij xmlChild i j).m_Eij = s5.m_Eij := by
    unfold LiquidTranInteraction.readDij; split <;> rfl
  refine ⟨?_, ?_, ?_, ?_, ?_, cD⟩
  · rw [eE, d4.2, d3.2, d2.2, d1.2]
  · rw [f5.1, f4.1, f3.1, f2.1, cA]
  · rw [f5.2.1, f4.2.1, f3.2.1, cB]
  · rw [f5.2.2.1, f4.2.2, cH]
  · rw [f5.2.2.2, cS]

/-! ## Errors of the configuration step -/

/-- Every throw of the loop body of `init` is a `CanteraError` raised for
`TransportFactory::getLiquidInteractionsTransportData`. -/
theorem initChild_error {R : Type} [Field R] (GasConstant : R) (thermo : thermo_t R)
    (xmlChild : XML_Node R) (self : LiquidTranInteraction R) (e : Error)
    (h : LiquidTranInteraction.initChild GasConstant thermo xmlChild self = .error e) :
    ∃ msg, e = Error.CanteraError "TransportFactory::getLiquidInteractionsTransportData" msg := by
  unfold LiquidTranInteraction.initChild at h
  simp only [] at h
  split_ifs at h
  · exact ⟨_, (Except.error.inj h).symm⟩
  · exact ⟨_, (Except.error.inj h).symm⟩
  · exact ⟨_, (Except.error.inj h).symm⟩

/-- A child whose lower-cased name is not `interaction` makes the loop body throw before
anything else is done, whatever the phase and the store. -/
theorem initChild_wrong_name {R : Type} [Field R] (GasConstant : R) (thermo : thermo_t R)
    (xmlChild : XML_Node R) (self : LiquidTranInteraction R)
    (hname : lowercase xmlChild.name ≠ "interaction") :
    LiquidTranInteraction.initChild GasConstant thermo xmlChild self
      = .error (Error.CanteraError "TransportFactory::getLiquidInteractionsTransportData"
          ("expected <interaction> element and got <" ++ lowercase xmlChild.name ++ ">")) := by
  unfold LiquidTranInteraction.initChild
  simp only []
  rw [if_pos hname]

/-- A child naming a species the phase does not know makes the loop body throw. -/
theorem initChild_unknown_species {R : Type} [Field R] (GasConstant : R) (thermo : thermo_t R)
    (xmlChild : XML_Node R) (self : LiquidTranInteraction R)
    (hbad : thermo.speciesIndex (xmlChild.attrib "speciesA") < 0
      ∨ thermo.speciesIndex (xmlChild.attrib "speciesB") < 0) :
    ∃ msg, LiquidTranInteraction.initChild GasConstant thermo xmlChild self
      = .error (Error.CanteraError "TransportFactory::getLiquidInteractionsTransportData"
          msg) := by
  cases h : LiquidTranInteraction.initChild GasConstant thermo xmlChild self with
  | error e =>
    obtain ⟨msg, hmsg⟩ := initChild_error GasConstant thermo xmlChild self e h
    exact ⟨msg, by rw [hmsg]⟩
  | ok s1 =>
    have hk := (initChild_ok GasConstant thermo xmlChild self s1 h).1
    rcases hbad with hA | hB
    · exact absurd hA (not_lt.mpr hk.2.1)
    · exact absurd hB (not_lt.mpr hk.2.2)

/-- An `interaction` child naming two known species is processed without a throw. -/
theorem initChild_known {R : Type} [Field R] (GasConstant : R) (thermo : thermo_t R)
    (xmlChild : XML_Node R) (self : LiquidTranInteraction R)
    (hname : lowercase xmlChild.name = "interaction")
    (hA : 0 ≤ thermo.speciesIndex (xmlChild.attrib "speciesA"))
    (hB : 0 ≤ thermo.speciesIndex (xmlChild.attrib "speciesB")) :
    ∃ self1, LiquidTranInteraction.initChild GasConstant thermo xmlChild self = .ok self1 := by
  unfold LiquidTranInteraction.initChild
  simp only []
  rw [if_neg (not_not.mpr hname), if_neg (not_lt.mpr hA), if_neg (not_lt.mpr hB)]
  exact ⟨_, rfl⟩

/-- The loop over the children, one step. -/
theorem initChildren_cons {R : Type} [Field R] (GasConstant : R) (thermo : thermo_t R)
    (xmlChild : XML_Node R) (rest : List (XML_Node R)) (self : LiquidTranInteraction R) :
    LiquidTranInteraction.initChildren GasConstant thermo (xmlChild :: rest) self
      = match LiquidTranInteraction.initChild GasConstant thermo xmlChild self with
        | .ok self1 => LiquidTranInteraction.initChildren GasConstant thermo rest self1
        | .error e => .error e :=
  rfl

/-- The loop over the children, run over a list that continues after a prefix, continues from
the store the prefix left. -/
theorem initChildren_append {R : Type} [Field R] (GasConstant : R) (thermo : thermo_t R)
    (front rest : List (XML_Node R)) (self mid : LiquidTranInteraction R)
    (h : LiquidTranInteraction.initChildren GasConstant thermo front self = .ok mid) :
    LiquidTranInteraction.initChildren GasConstant thermo (front ++ rest) self
      = LiquidTranInteraction.initChildren GasConstant thermo rest mid := by
  induction front generalizing self with
  | nil =>
    have h1 := Except.ok.inj h
    subst h1
    rfl
  | cons c cs ih =>
    rw [initChildren_cons] at h
    rw [List.cons_append, initChildren_cons]
    cases hc : LiquidTranInteraction.initChild GasConstant thermo c self with
    | error e => rw [hc] at h; cases h
    | ok s1 =>
      rw [hc] at h
      exact ih s1 h

/-- A list of children one of which names an unknown species makes the loop throw. -/
theorem initChildren_unknown_species {R : Type} [Field R] (GasConstant : R)
    (thermo : thermo_t R) (children : List (XML_Node R)) (bad : XML_Node R)
    (hmem : bad ∈ children)
    (hbad : thermo.speciesIndex (bad.attrib "speciesA") < 0
      ∨ thermo.speciesIndex (bad.attrib "speciesB") < 0)
    (self : LiquidTranInteraction R) :
    ∃ msg, LiquidTranInteraction.initChildren GasConstant thermo children self
      = .error (Error.CanteraError "TransportFactory::getLiquidInteractionsTransportData"
          msg) := by
  induction children generalizing self with
  | nil => cases hmem
  | cons c cs ih =>
    unfold LiquidTranInteraction.initChildren
    cases hc : LiquidTranInteraction.initChild GasConstant thermo c self with
    | error e =>
      obtain ⟨msg, hmsg⟩ := initChild_error GasConstant thermo c self e hc
      exact ⟨msg, by rw [hmsg]⟩
    | ok s1 =>
      rcases List.mem_cons.mp hmem with hEq | hIn
      · subst hEq
        obtain ⟨msg, hmsg⟩ := initChild_unknown_species GasConstant thermo bad self hbad
        rw [hmsg] at hc
        cases hc
      · exact ih hIn s1

/-- A list of `interaction` children that all name known species is processed without a
throw. -/
theorem initChildren_known {R : Type} [Field R] (GasConstant : R) (thermo : thermo_t R)
    (children : List (XML_Node R))
    (hall : ∀ c ∈ children, lowercase c.name = "interaction"
      ∧ 0 ≤ thermo.speciesIndex (c.attrib "speciesA")
      ∧ 0 ≤ thermo.speciesIndex (c.attrib "speciesB"))
    (self : LiquidTranInteraction R) :
    ∃ store, LiquidTranInteraction.initChildren GasConstant thermo children self
      = .ok store := by
  induction children generalizing self with
  | nil => exact ⟨self, rfl⟩
  | cons c cs ih =>
    obtain ⟨hn, hA, hB⟩ := hall c (List.mem_cons_self c cs)
    obtain ⟨s1, hs1⟩ := initChild_known GasConstant thermo c self hn hA hB
    unfold LiquidTranInteraction.initChildren
    rw [hs1]
    exact ih (fun d hd => hall d (List.mem_cons_of_mem c hd)) s1

/-! ## Symmetry of `m_Dij` and `m_Eij`, unknown species, unrecognized elements -/

/-- C14: after `init` has processed any sequence of interaction entries, repeated and reversed
pairs included, the matrices `m_Dij` and `m_Eij` are symmetric. -/
theorem init_Dij_Eij_symmetric {R : Type} [Field R] (GasConstant : R)
    (compModelNode : List (XML_Node R)) (thermo : thermo_t R) (store : LiquidTranInteraction R)
    (h : LiquidTranInteraction.init GasConstant LiquidTranInteraction.new compModelNode thermo
      = .ok store) :
    (∀ i j, store.m_Dij.value i j = store.m_Dij.value j i)
      ∧ (∀ i j, store.m_Eij.value i j = store.m_Eij.value j i) :=
  init_symmetric GasConstant compModelNode thermo store h

/-- C14 applied to the entry `A`-`B`, then the reversed entry `B`-`A` with other values, then
`A`-`B` again. -/
theorem init_Dij_Eij_symmetric_witness :
    ∃ store,
      LiquidTranInteraction.init (2 : ℚ) LiquidTranInteraction.new
          [interactionED 4 5,
            xmlNode "interaction" "B" "A" (fun c => c = "Eij" || c = "Dij") 7 [],
            interactionED 1 3]
          (binaryPhase 300 (1/4) (3/4) (1/2) (1/2)) = .ok store
        ∧ (∀ i j, store.m_Dij.value i j = store.m_Dij.value j i)
        ∧ (∀ i j, store.m_Eij.value i j = store.m_Eij.value j i) := by
  obtain ⟨store, hstore⟩ : ∃ store, LiquidTranInteraction.init (2 : ℚ)
      LiquidTranInteraction.new
      [interactionED 4 5,
        xmlNode "interaction" "B" "A" (fun c => c = "Eij" || c = "Dij") 7 [],
        interactionED 1 3]
      (binaryPhase 300 (1/4) (3/4) (1/2) (1/2)) = .ok store := ⟨_, rfl⟩
  exact ⟨store, hstore, init_Dij_Eij_symmetric (2 : ℚ) _ _ store hstore⟩

/-- C16: when some child names a `speciesA` or `speciesB` whose index in the phase is negative,
`init` throws its `CanteraError`, and the loop body throws on that child from any store, so
none of its coefficients is inserted; when every child is an `interaction` element naming two
known species, `init` returns. -/
theorem init_unknown_species {R : Type} [Field R] (GasConstant : R)
    (self : LiquidTranInteraction R) (compModelNode : List (XML_Node R)) (thermo : thermo_t R) :
    (∀ bad ∈ compModelNode,
        (thermo.speciesIndex (bad.attrib "speciesA") < 0
          ∨ thermo.speciesIndex (bad.attrib "speciesB") < 0) →
        (∃ msg, LiquidTranInteraction.init GasConstant self compModelNode thermo
          = .error (Error.CanteraError "TransportFactory::getLiquidInteractionsTransportData"
              msg))
        ∧ ∀ store, ∃ msg, LiquidTranInteraction.initChild GasConstant thermo bad store
          = .error (Error.CanteraError "TransportFactory::getLiquidInteractionsTransportData"
              msg))
      ∧ ((∀ c ∈ compModelNode, lowercase c.name = "interaction"
            ∧ 0 ≤ thermo.speciesIndex (c.attrib "speciesA")
            ∧ 0 ≤ thermo.speciesIndex (c.attrib "speciesB")) →
          ∃ store, LiquidTranInteraction.init GasConstant self compModelNode thermo
            = .ok store) :=
  ⟨fun bad hmem hbad =>
      ⟨initChildren_unknown_species GasConstant thermo compModelNode bad hmem hbad _,
        fun store => initChild_unknown_species GasConstant thermo bad store hbad⟩,
    fun hall => initChildren_known GasConstant thermo compModelNode hall _⟩

/-- C16 applied to the phase with species `A` and `B`: the entry `A`-`C` after a good entry
makes `init` throw, and the good entry alone is accepted. -/
theorem init_unknown_species_witness :
    (∃ msg, LiquidTranInteraction.init (2 : ℚ) LiquidTranInteraction.new
        [interactionED 4 5, xmlNode "interaction" "A" "C" (fun c => c = "Dij") 7 []]
        (binaryPhase 300 (1/4) (3/4) (1/2) (1/2))
        = .error (Error.CanteraError "TransportFactory::getLiquidInteractionsTransportData"
            msg))
      ∧ ∃ store, LiquidTranInteraction.init (2 : ℚ) LiquidTranInteraction.new
          [interactionED 4 5] (binaryPhase 300 (1/4) (3/4) (1/2) (1/2)) = .ok store :=
  ⟨((init_unknown_species (2 : ℚ) LiquidTranInteraction.new
        [interactionED 4 5, xmlNode "interaction" "A" "C" (fun c => c = "Dij") 7 []]
        (binaryPhase 300 (1/4) (3/4) (1/2) (1/2))).1
      (xmlNode "interaction" "A" "C" (fun c => c = "Dij") 7 [])
      (List.mem_cons_of_mem _ (List.mem_cons_self _ _)) (Or.inr (by decide))).1,
    (init_unknown_species (2 : ℚ) LiquidTranInteraction.new [interactionED 4 5]
        (binaryPhase 300 (1/4) (3/4) (1/2) (1/2))).2
      (fun c hc => by
        rw [List.mem_singleton] at hc
        subst hc
        exact ⟨by decide, by decide, by decide⟩)⟩

/-- C17: when `init` has processed the children before it, a child whose lower-cased name is
not `interaction` makes `init` throw the `CanteraError` that names the element; the loop body
throws it on that child for every phase and store, before any species is looked up. -/
theorem init_unrecognized_element {R : Type} [Field R] (GasConstant : R)
    (self mid : LiquidTranInteraction R) (front rest : List (XML_Node R)) (bad : XML_Node R)
    (thermo : thermo_t R)
    (hfront : LiquidTranInteraction.init GasConstant self front thermo = .ok mid)
    (hname : lowercase bad.name ≠ "interaction") :
    LiquidTranInteraction.init GasConstant self (front ++ bad :: rest) thermo
        = .error (Error.CanteraError "TransportFactory::getLiquidInteractionsTransportData"
            ("expected <interaction> element and got <" ++ lowercase bad.name ++ ">"))
      ∧ ∀ (phase : thermo_t R) (store : LiquidTranInteraction R),
          LiquidTranInteraction.initChild GasConstant phase bad store
            = .error (Error.CanteraError "TransportFactory::getLiquidInteractionsTransportData"
                ("expected <interaction> element and got <" ++ lowercase bad.name ++ ">")) := by
  refine ⟨?_, fun phase store => initChild_wrong_name GasConstant phase bad store hname⟩
  unfold LiquidTranInteraction.init at hfront ⊢
  rw [initChildren_append GasConstant thermo front (bad :: rest) _ mid hfront,
    initChildren_cons, initChild_wrong_name GasConstant thermo bad mid hname]

/-- C17 applied to a good entry followed by an element named `Interactions`. -/
theorem init_unrecognized_element_witness :
    LiquidTranInteraction.init (2 : ℚ) LiquidTranInteraction.new
        ([interactionED 4 5]
          ++ xmlNode "Interactions" "A" "B" (fun c => c = "Dij") 7 [] :: [interactionED 1 3])
        (binaryPhase 300 (1/4) (3/4) (1/2) (1/2))
      = .error (Error.CanteraError "TransportFactory::getLiquidInteractionsTransportData"
          "expected <interaction> element and got <interactions>") :=
  (init_unrecognized_element (2 : ℚ) LiquidTranInteraction.new _ [interactionED 4 5]
    [interactionED 1 3] (xmlNode "Interactions" "A" "B" (fun c => c = "Dij") 7 [])
    (binaryPhase 300 (1/4) (3/4) (1/2) (1/2)) rfl (by decide)).1

/-! ## Scalar entries, growth of the families, normalisation, one-sided fill -/

/-- A scalar-only read and a one-element polynomial read give the same vector `poly`. -/
theorem polyOf_scalar_eq {R : Type} (scalarChild polyChild : XML_Node R) (name type : String)
    (s : R) (hs : scalarChild.getFloatPoly name type = (s, []))
    (hp : (polyChild.getFloatPoly name type).2 = [s]) :
    polyOf scalarChild name type = [s] ∧ polyOf polyChild name type = [s] := by
  unfold polyOf
  rw [hs, hp]
  exact ⟨rfl, rfl⟩

/-- A family block of `init` is determined by the presence of its sub-element and the vector
`poly` it reads. -/
theorem read_family_congr {R : Type} [Field R] (GasConstant : R) (nsp : Nat)
    (child1 child2 : XML_Node R) (i j : Nat) (self : LiquidTranInteraction R) :
    (child1.hasChild "Aij" = child2.hasChild "Aij" →
        polyOf child1 "Aij" "toSI" = polyOf child2 "Aij" "toSI" →
        self.readAij nsp child1 i j = self.readAij nsp child2 i j)
      ∧ (child1.hasChild "Bij" = child2.hasChild "Bij" →
        polyOf child1 "Bij" "toSI" = polyOf child2 "Bij" "toSI" →
        self.readBij nsp child1 i j = self.readBij nsp child2 i j)
      ∧ (child1.hasChild "Hij" = child2.hasChild "Hij" →
        polyOf child1 "Hij" "actEnergy" = polyOf child2 "Hij" "actEnergy" →
        self.readHij GasConstant nsp child1 i j = self.readHij GasConstant nsp child2 i j)
      ∧ (child1.hasChild "Sij" = child2.hasChild "Sij" →
        polyOf child1 "Sij" "actEnergy" = polyOf child2 "Sij" "actEnergy" →
        self.readSij GasConstant nsp child1 i j = self.readSij GasConstant nsp child2 i j) := by
  unfold LiquidTranInteraction.readAij LiquidTranInteraction.readBij
    LiquidTranInteraction.readHij LiquidTranInteraction.readSij polyOf
  refine ⟨?_, ?_, ?_, ?_⟩ <;> intro h1 h2 <;> simp only [h1] <;> split <;> simp only [h2]

/-- The `put` of the `Hij` and `Sij` blocks, store then divide in place, writes `c/GasConstant`
at `(i,j)` and nothing else. -/
theorem put_normalised_value {R : Type} [Field R] (GasConstant : R) (i j : Nat)
    (M : DenseMatrix R) (c : R) (a b : Nat) :
    ((M.set i j c).set i j ((M.set i j c).value i j / GasConstant)).value a b
      = if a = i ∧ b = j then c / GasConstant else M.value a b := by
  simp only [DenseMatrix.set, and_self, if_true]
  split_ifs <;> rfl

/-- Storing the one-element polynomial `[s]`: the family has at least one order, order 0 holds
`g s` at `(i,j)`, and the orders from 1 on are as before. -/
theorem storePoly_single {R : Type} [Field R] (put : DenseMatrix R → R → DenseMatrix R)
    (g : R → R) (i j : Nat)
    (hput : ∀ M c a b, (put M c).value a b = if a = i ∧ b = j then g c else M.value a b)
    (nsp : Nat) (fam : List (DenseMatrix R)) (s : R) :
    (storePoly put (growFamily fam nsp [s].length) [s]).length = max fam.length 1
      ∧ coeff (storePoly put (growFamily fam nsp [s].length) [s]) 0 i j = g s
      ∧ ∀ k, 1 ≤ k → (storePoly put (growFamily fam nsp [s].length) [s])[k]? = fam[k]? := by
  refine ⟨storePoly_growFamily_length put nsp [s] fam, ?_, fun k hk => ?_⟩
  · rw [coeff_storePoly_growFamily put g i j hput]
    simp
  · rw [storePoly_growFamily_getElem?]
    cases k with
    | zero => omega
    | succ k => simp

/-- C18: for each of the families A, B, H and S, every species pair and every starting store,
an entry that supplies only the scalar `s` (the vector `poly` comes back empty) leaves the store
exactly as the entry with the one-element polynomial `[s]` does: the family has at least one
order, order 0 holds the coefficient at `(i,j)` (`s` for A and B, `s/GasConstant` for H and S),
and no order from 1 on is written. -/
theorem scalar_entry_eq_one_element_polynomial {R : Type} [Field R] (GasConstant : R)
    (nsp : Nat) (scalarChild polyChild : XML_Node R) (i j : Nat)
    (self : LiquidTranInteraction R) (s : R) :
    (scalarChild.hasChild "Aij" = true → polyChild.hasChild "Aij" = true →
        scalarChild.getFloatPoly "Aij" "toSI" = (s, []) →
        (polyChild.getFloatPoly "Aij" "toSI").2 = [s] →
        self.readAij nsp scalarChild i j = self.readAij nsp polyChild i j
          ∧ (self.readAij nsp scalarChild i j).m_Aij.length = max self.m_Aij.length 1
          ∧ coeff (self.readAij nsp scalarChild i j).m_Aij 0 i j = s
          ∧ ∀ k, 1 ≤ k → (self.readAij nsp scalarChild i j).m_Aij[k]? = self.m_Aij[k]?)
      ∧ (scalarChild.hasChild "Bij" = true → polyChild.hasChild "Bij" = true →
        scalarChild.getFloatPoly "Bij" "toSI" = (s, []) →
        (polyChild.getFloatPoly "Bij" "toSI").2 = [s] →
        self.readBij nsp scalarChild i j = self.readBij nsp polyChild i j
          ∧ (self.readBij nsp scalarChild i j).m_Bij.length = max self.m_Bij.length 1
          ∧ coeff (self.readBij nsp scalarChild i j).m_Bij 0 i j = s
          ∧ ∀ k, 1 ≤ k → (self.readBij nsp scalarChild i j).m_Bij[k]? = self.m_Bij[k]?)
      ∧ (scalarChild.hasChild "Hij" = true → polyChild.hasChild "Hij" = true →
        scalarChild.getFloatPoly "Hij" "actEnergy" = (s, []) →
        (polyChild.getFloatPoly "Hij" "actEnergy").2 = [s] →
        self.readHij GasConstant nsp scalarChild i j
            = self.readHij GasConstant nsp polyChild i j
          ∧ (self.readHij GasConstant nsp scalarChild i j).m_Hij.length
            = max self.m_Hij.length 1
          ∧ coeff (self.readHij GasConstant nsp scalarChild i j).m_Hij 0 i j = s / GasConstant
          ∧ ∀ k, 1 ≤ k →
              (self.readHij GasConstant nsp scalarChild i j).m_Hij[k]? = self.m_Hij[k]?)
      ∧ (scalarChild.hasChild "Sij" = true → polyChild.hasChild "Sij" = true →
        scalarChild.getFloatPoly "Sij" "actEnergy" = (s, []) →
        (polyChild.getFloatPoly "Sij" "actEnergy").2 = [s] →
        self.readSij GasConstant nsp scalarChild i j
            = self.readSij GasConstant nsp polyChild i j
          ∧ (self.readSij GasConstant nsp scalarChild i j).m_Sij.length
            = max self.m_Sij.length 1
          ∧ coeff (self.readSij GasConstant nsp scalarChild i j).m_Sij 0 i j = s / GasConstant
          ∧ ∀ k, 1 ≤ k →
              (self.readSij GasConstant nsp scalarChild i j).m_Sij[k]? = self.m_Sij[k]?) := by
  have congr := read_family_congr GasConstant nsp scalarChild polyChild i j self
  have own := read_own_family GasConstant nsp scalarChild i j self
  refine ⟨fun h1 h2 hs hp => ?_, fun h1 h2 hs hp => ?_, fun h1 h2 hs hp => ?_,
    fun h1 h2 hs hp => ?_⟩
  · have p := polyOf_scalar_eq scalarChild polyChild "Aij" "toSI" s hs hp
    refine ⟨congr.1 (h1.trans h2.symm) (p.1.trans p.2.symm), ?_⟩
    rw [own.1, if_pos h1, p.1]
    exact storePoly_single _ (fun c => c) i j (fun _ _ _ _ => rfl) nsp self.m_Aij s
  · have p := polyOf_scalar_eq scalarChild polyChild "Bij" "toSI" s hs hp
    refine ⟨congr.2.1 (h1.trans h2.symm) (p.1.trans p.2.symm), ?_⟩
    rw [own.2.1, if_pos h1, p.1]
    exact storePoly_single _ (fun c => c) i j (fun _ _ _ _ => rfl) nsp self.m_Bij s
  · have p := polyOf_scalar_eq scalarChild polyChild "Hij" "actEnergy" s hs hp
    refine ⟨congr.2.2.1 (h1.trans h2.symm) (p.1.trans p.2.symm), ?_⟩
    rw [own.2.2.1, if_pos h1, p.1]
    exact storePoly_single _ (fun c => c / GasConstant) i j
      (put_normalised_value GasConstant i j) nsp self.m_Hij s
  · have p := polyOf_scalar_eq scalarChild polyChild "Sij" "actEnergy" s hs hp
    refine ⟨congr.2.2.2 (h1.trans h2.symm) (p.1.trans p.2.symm), ?_⟩
    rw [own.2.2.2, if_pos h1, p.1]
    exact storePoly_single _ (fun c => c / GasConstant) i j
      (put_normalised_value GasConstant i j) nsp self.m_Sij s

/-- C18 applied to the fresh store, the pair `(0,1)`, the scalar-only entry reading 7 and
the entry reading the polynomial `[7]` (with another scalar), for the A and the H family. -/
theorem scalar_entry_eq_one_element_polynomial_witness :
    LiquidTranInteraction.readAij 2 (xmlNode "interaction" "A" "B" (fun _ => true) (7 : ℚ) [])
        0 1 LiquidTranInteraction.new
      = LiquidTranInteraction.readAij 2 (xmlNode "interaction" "A" "B" (fun _ => true) 9 [7])
        0 1 LiquidTranInteraction.new
    ∧ coeff (LiquidTranInteraction.readHij 2 2
        (xmlNode "interaction" "A" "B" (fun _ => true) (7 : ℚ) []) 0 1
        LiquidTranInteraction.new).m_Hij 0 0 1 = 7 / 2 :=
  ⟨((scalar_entry_eq_one_element_polynomial (2 : ℚ) 2
      (xmlNode "interaction" "A" "B" (fun _ => true) 7 [])
      (xmlNode "interaction" "A" "B" (fun _ => true) 9 [7]) 0 1
      LiquidTranInteraction.new 7).1 rfl rfl rfl rfl).1,
    ((scalar_entry_eq_one_element_polynomial (2 : ℚ) 2
      (xmlNode "interaction" "A" "B" (fun _ => true) 7 [])
      (xmlNode "interaction" "A" "B" (fun _ => true) 9 [7]) 0 1
      LiquidTranInteraction.new 7).2.2.1 rfl rfl rfl rfl).2.2.1⟩

/-- One child of the interaction block keeps every matrix of the four families `N×N`, `N` the
species count. -/
theorem initChild_dimensions {R : Type} [Field R] (GasConstant : R) (thermo : thermo_t R)
    (xmlChild : XML_Node R) (self self1 : LiquidTranInteraction R)
    (h : LiquidTranInteraction.initChild GasConstant thermo xmlChild self = .ok self1)
    (hN : ∀ M, M ∈ self.m_Aij ∨ M ∈ self.m_Bij ∨ M ∈ self.m_Hij ∨ M ∈ self.m_Sij →
      M.nRows = thermo.nSpecies ∧ M.nColumns = thermo.nSpecies) :
    ∀ M, M ∈ self1.m_Aij ∨ M ∈ self1.m_Bij ∨ M ∈ self1.m_Hij ∨ M ∈ self1.m_Sij →
      M.nRows = thermo.nSpecies ∧ M.nColumns = thermo.nSpecies := by
  obtain ⟨_, _, hA, hB, hH, hS, _⟩ := initChild_ok GasConstant thermo xmlChild self self1 h
  have own := read_own_family GasConstant thermo.nSpecies xmlChild
    (thermo.speciesIndex (xmlChild.attrib "speciesA")).toNat
    (thermo.speciesIndex (xmlChild.attrib "speciesB")).toNat self
  rw [own.1] at hA
  rw [own.2.1] at hB
  rw [own.2.2.1] at hH
  rw [own.2.2.2] at hS
  generalize (thermo.speciesIndex (xmlChild.attrib "speciesA")).toNat = i at hA hB hH hS
  generalize (thermo.speciesIndex (xmlChild.attrib "speciesB")).toNat = j at hA hB hH hS
  intro M hM
  rcases hM with hM | hM | hM | hM
  · rw [hA] at hM
    split at hM
    · exact (familyInserted_storePoly (fun M c => M.set i j c) (fun c => c) i j
        (fun _ _ _ _ => rfl) (fun _ _ => ⟨rfl, rfl⟩) thermo.nSpecies
        (polyOf xmlChild "Aij" "toSI") self.m_Aij).2.2.2
        (fun M1 h1 => hN M1 (Or.inl h1)) M hM
    · exact hN M (Or.inl hM)
  · rw [hB] at hM
    split at hM
    · exact (familyInserted_storePoly (fun M c => M.set i j c) (fun c => c) i j
        (fun _ _ _ _ => rfl) (fun _ _ => ⟨rfl, rfl⟩) thermo.nSpecies
        (polyOf xmlChild "Bij" "toSI") self.m_Bij).2.2.2
        (fun M1 h1 => hN M1 (Or.inr (Or.inl h1))) M hM
    · exact hN M (Or.inr (Or.inl hM))
  · rw [hH] at hM
    split at hM
    · exact (familyInserted_storePoly
        (fun M c => (M.set i j c).set i j ((M.set i j c).value i j / GasConstant))
        (fun c => c / GasConstant) i j (put_normalised_value GasConstant i j)
        (fun _ _ => ⟨rfl, rfl⟩) thermo.nSpecies
        (polyOf xmlChild "Hij" "actEnergy") self.m_Hij).2.2.2
        (fun M1 h1 => hN M1 (Or.inr (Or.inr (Or.inl h1)))) M hM
    · exact hN M (Or.inr (Or.inr (Or.inl hM)))
  · rw [hS] at hM
    split at hM
    · exact (familyInserted_storePoly
        (fun M c => (M.set i j c).set i j ((M.set i j c).value i j / GasConstant))
        (fun c => c / GasConstant) i j (put_normalised_value GasConstant i j)
        (fun _ _ => ⟨rfl, rfl⟩) thermo.nSpecies
        (polyOf xmlChild "Sij" "actEnergy") self.m_Sij).2.2.2
        (fun M1 h1 => hN M1 (Or.inr (Or.inr (Or.inr h1)))) M hM
    · exact hN M (Or.inr (Or.inr (Or.inr hM)))

/-- The loop over the children keeps every matrix of the four families `N×N`. -/
theorem initChildren_dimensions {R : Type} [Field R] (GasConstant : R) (thermo : thermo_t R)
    (children : List (XML_Node R)) (self self1 : LiquidTranInteraction R)
    (h : LiquidTranInteraction.initChildren GasConstant thermo children self = .ok self1)
    (hN : ∀ M, M ∈ self.m_Aij ∨ M ∈ self.m_Bij ∨ M ∈ self.m_Hij ∨ M ∈ self.m_Sij →
      M.nRows = thermo.nSpecies ∧ M.nColumns = thermo.nSpecies) :
    ∀ M, M ∈ self1.m_Aij ∨ M ∈ self1.m_Bij ∨ M ∈ self1.m_Hij ∨ M ∈ self1.m_Sij →
      M.nRows = thermo.nSpecies ∧ M.nColumns = thermo.nSpecies := by
  induction children generalizing self with
  | nil =>
    have h1 := Except.ok.inj h
    subst h1
    exact hN
  | cons c rest ih =>
    rw [initChildren_cons] at h
    cases hc : LiquidTranInteraction.initChild GasConstant thermo c self with
    | error e => rw [hc] at h; cases h
    | ok s1 =>
      rw [hc] at h
      exact ih s1 h (initChild_dimensions GasConstant thermo c self s1 hc hN)

/-- C19: for each of the families A, B, H and S, the block of `init` that inserts a polynomial
of `L` coefficients at `(i,j)` into a family of length `m` gives a family of length
`max(m, L)`; every appended matrix is `N×N` and zero off `(i,j)`, every matrix held before keeps
its dimensions and its entries off `(i,j)`, a family of `N×N` matrices stays one; and after
`init` on a fresh object every matrix of the four families is `N×N`, `N` the species count. -/
theorem family_growth {R : Type} [Field R] (GasConstant : R) (nsp : Nat)
    (xmlChild : XML_Node R) (i j : Nat) (self : LiquidTranInteraction R) :
    (xmlChild.hasChild "Aij" = true →
        FamilyInserted nsp i j (polyOf xmlChild "Aij" "toSI").length self.m_Aij
          (self.readAij nsp xmlChild i j).m_Aij)
      ∧ (xmlChild.hasChild "Bij" = true →
        FamilyInserted nsp i j (polyOf xmlChild "Bij" "toSI").length self.m_Bij
          (self.readBij nsp xmlChild i j).m_Bij)
      ∧ (xmlChild.hasChild "Hij" = true →
        FamilyInserted nsp i j (polyOf xmlChild "Hij" "actEnergy").length self.m_Hij
          (self.readHij GasConstant nsp xmlChild i j).m_Hij)
      ∧ (xmlChild.hasChild "Sij" = true →
        FamilyInserted nsp i j (polyOf xmlChild "Sij" "actEnergy").length self.m_Sij
          (self.readSij GasConstant nsp xmlChild i j).m_Sij)
      ∧ ∀ (compModelNode : List (XML_Node R)) (thermo : thermo_t R)
          (store : LiquidTranInteraction R),
          LiquidTranInteraction.init GasConstant LiquidTranInteraction.new compModelNode thermo
            = .ok store →
          ∀ M, M ∈ store.m_Aij ∨ M ∈ store.m_Bij ∨ M ∈ store.m_Hij ∨ M ∈ store.m_Sij →
            M.nRows = thermo.nSpecies ∧ M.nColumns = thermo.nSpecies := by
  have own := read_own_family GasConstant nsp xmlChild i j self
  refine ⟨fun h => ?_, fun h => ?_, fun h => ?_, fun h => ?_, ?_⟩
  · rw [own.1, if_pos h]
    exact familyInserted_storePoly (fun M c => M.set i j c) (fun c => c) i j
      (fun _ _ _ _ => rfl) (fun _ _ => ⟨rfl, rfl⟩) nsp _ self.m_Aij
  · rw [own.2.1, if_pos h]
    exact familyInserted_storePoly (fun M c => M.set i j c) (fun c => c) i j
      (fun _ _ _ _ => rfl) (fun _ _ => ⟨rfl, rfl⟩) nsp _ self.m_Bij
  · rw [own.2.2.1, if_pos h]
    exact familyInserted_storePoly _ (fun c => c / GasConstant) i j
      (put_normalised_value GasConstant i j) (fun _ _ => ⟨rfl, rfl⟩) nsp _ self.m_Hij
  · rw [own.2.2.2, if_pos h]
    exact familyInserted_storePoly _ (fun c => c / GasConstant) i j
      (put_normalised_value GasConstant i j) (fun _ _ => ⟨rfl, rfl⟩) nsp _ self.m_Sij
  · intro compModelNode thermo store hinit
    unfold LiquidTranInteraction.init at hinit
    refine initChildren_dimensions GasConstant thermo compModelNode _ store hinit ?_
    intro M hM
    simp [LiquidTranInteraction.new] at hM

/-- C19 applied to the fresh store and an entry whose A polynomial is `[1, 2, 3]`: three
matrices are appended, and `init` on that entry returns a store of `2×2` matrices. -/
theorem family_growth_witness :
    FamilyInserted 2 0 1 3 (LiquidTranInteraction.new (R := ℚ)).m_Aij
        (LiquidTranInteraction.readAij 2
          (xmlNode "interaction" "A" "B" (fun c => c = "Aij") (7 : ℚ) [1, 2, 3]) 0 1
          LiquidTranInteraction.new).m_Aij
      ∧ ∃ store, LiquidTranInteraction.init (2 : ℚ) LiquidTranInteraction.new
          [xmlNode "interaction" "A" "B" (fun c => c = "Aij") 7 [1, 2, 3]]
          (binaryPhase 300 (1/4) (3/4) (1/2) (1/2)) = .ok store
        ∧ ∀ M, M ∈ store.m_Aij ∨ M ∈ store.m_Bij ∨ M ∈ store.m_Hij ∨ M ∈ store.m_Sij →
            M.nRows = 2 ∧ M.nColumns = 2 := by
  have h := family_growth (2 : ℚ) 2
    (xmlNode "interaction" "A" "B" (fun c => c = "Aij") (7 : ℚ) [1, 2, 3]) 0 1
    LiquidTranInteraction.new
  obtain ⟨store, hstore⟩ : ∃ store, LiquidTranInteraction.init (2 : ℚ)
      LiquidTranInteraction.new
      [xmlNode "interaction" "A" "B" (fun c => c = "Aij") 7 [1, 2, 3]]
      (binaryPhase 300 (1/4) (3/4) (1/2) (1/2)) = .ok store := ⟨_, rfl⟩
  exact ⟨h.1 rfl, store, hstore, h.2.2.2.2 _ _ store hstore⟩

/-- The coefficients of the four families after one child of the interaction block: where the
sub-element is present, order `k` of its polynomial is written at `(i,j)` (divided by the gas
constant for H and S), and every other coefficient is as before. -/
theorem initChild_coeff {R : Type} [Field R] (GasConstant : R) (thermo : thermo_t R)
    (xmlChild : XML_Node R) (self self1 : LiquidTranInteraction R)
    (h : LiquidTranInteraction.initChild GasConstant thermo xmlChild self = .ok self1)
    (i j : Nat) (hi : (thermo.speciesIndex (xmlChild.attrib "speciesA")).toNat = i)
    (hj : (thermo.speciesIndex (xmlChild.attrib "speciesB")).toNat = j) (k a b : Nat) :
    coeff self1.m_Aij k a b
        = (if xmlChild.hasChild "Aij" then
            match (polyOf xmlChild "Aij" "toSI")[k]? with
            | some c => if a = i ∧ b = j then c else coeff self.m_Aij k a b
            | none => coeff self.m_Aij k a b
          else coeff self.m_Aij k a b)
      ∧ coeff self1.m_Bij k a b
        = (if xmlChild.hasChild "Bij" then
            match (polyOf xmlChild "Bij" "toSI")[k]? with
            | some c => if a = i ∧ b = j then c else coeff self.m_Bij k a b
            | none => coeff self.m_Bij k a b
          else coeff self.m_Bij k a b)
      ∧ coeff self1.m_Hij k a b
        = (if xmlChild.hasChild "Hij" then
            match (polyOf xmlChild "Hij" "actEnergy")[k]? with
            | some c => if a = i ∧ b = j then c / GasConstant else coeff self.m_Hij k a b
            | none => coeff self.m_Hij k a b
          else coeff self.m_Hij k a b)
      ∧ coeff self1.m_Sij k a b
        = (if xmlChild.hasChild "Sij" then
            match (polyOf xmlChild "Sij" "actEnergy")[k]? with
            | some c => if a = i ∧ b = j then c / GasConstant else coeff self.m_Sij k a b
            | none => coeff self.m_Sij k a b
          else coeff self.m_Sij k a b) := by
  subst hi hj
  obtain ⟨_, _, hA, hB, hH, hS, _⟩ := initChild_ok GasConstant thermo xmlChild self self1 h
  have own := read_own_family GasConstant thermo.nSpecies xmlChild
    (thermo.speciesIndex (xmlChild.attrib "speciesA")).toNat
    (thermo.speciesIndex (xmlChild.attrib "speciesB")).toNat self
  rw [hA, hB, hH, hS, own.1, own.2.1, own.2.2.1, own.2.2.2]
  generalize (thermo.speciesIndex (xmlChild.attrib "speciesA")).toNat = i
  generalize (thermo.speciesIndex (xmlChild.attrib "speciesB")).toNat = j
  refine ⟨?_, ?_, ?_, ?_⟩
  · split
    · exact coeff_storePoly_growFamily (fun M c => M.set i j c) (fun c => c) i j
        (fun _ _ _ _ => rfl) thermo.nSpecies _ self.m_Aij k a b
    · rfl
  · split
    · exact coeff_storePoly_growFamily (fun M c => M.set i j c) (fun c => c) i j
        (fun _ _ _ _ => rfl) thermo.nSpecies _ self.m_Bij k a b
    · rfl
  · split
    · exact coeff_storePoly_growFamily
        (fun M c => (M.set i j c).set i j ((M.set i j c).value i j / GasConstant))
        (fun c => c / GasConstant) i j (put_normalised_value GasConstant i j)
        thermo.nSpecies _ self.m_Hij k a b
    · rfl
  · split
    · exact coeff_storePoly_growFamily
        (fun M c => (M.set i j c).set i j ((M.set i j c).value i j / GasConstant))
        (fun c => c / GasConstant) i j (put_normalised_value GasConstant i j)
        thermo.nSpecies _ self.m_Sij k a b
    · rfl

/-- The entries of `m_Eij` and `m_Dij` at `(i,j)` after one child of the interaction block that
carries the sub-element: the value read divided by the gas constant, and the value read. -/
theorem initChild_Eij_Dij {R : Type} [Field R] (GasConstant : R) (thermo : thermo_t R)
    (xmlChild : XML_Node R) (self self1 : LiquidTranInteraction R)
    (h : LiquidTranInteraction.initChild GasConstant thermo xmlChild self = .ok self1)
    (i j : Nat) (hi : (thermo.speciesIndex (xmlChild.attrib "speciesA")).toNat = i)
    (hj : (thermo.speciesIndex (xmlChild.attrib "speciesB")).toNat = j) :
    (xmlChild.hasChild "Eij" = true →
        self1.m_Eij.value i j = xmlChild.getFloat "Eij" "actEnergy" / GasConstant)
      ∧ (xmlChild.hasChild "Dij" = true →
        self1.m_Dij.value i j = xmlChild.getFloat "Dij" "toSI") := by
  subst hi hj
  obtain ⟨_, hE, _, _, _, _, hD⟩ := initChild_ok GasConstant thermo xmlChild self self1 h
  rw [hE, hD]
  generalize (thermo.speciesIndex (xmlChild.attrib "speciesA")).toNat = i
  generalize (thermo.speciesIndex (xmlChild.attrib "speciesB")).toNat = j
  unfold LiquidTranInteraction.readEij LiquidTranInteraction.readDij
  refine ⟨fun hc => ?_, fun hc => ?_⟩
  · rw [if_pos hc]
    simp only [DenseMatrix.set, and_self, if_true]
    split_ifs <;> rfl
  · rw [if_pos hc]
    simp only [DenseMatrix.set, and_self, if_true]
    split_ifs <;> rfl

/-- C20: after one entry `(i,j)` of the interaction block, the energy-valued coefficients it
carries are stored divided by the gas constant, `E(i,j) = rawE/GasConstant`,
`H_k(i,j) = rawH_k/GasConstant`, `S_k(i,j) = rawS_k/GasConstant` for every order `k`, and the
others as read: `A_k(i,j) = rawA_k`, `B_k(i,j) = rawB_k`, `D(i,j) = rawD`. -/
theorem init_normalises_energy_coefficients {R : Type} [Field R] (GasConstant : R)
    (thermo : thermo_t R) (xmlChild : XML_Node R) (self self1 : LiquidTranInteraction R)
    (h : LiquidTranInteraction.initChild GasConstant thermo xmlChild self = .ok self1)
    (i j : Nat) (hi : (thermo.speciesIndex (xmlChild.attrib "speciesA")).toNat = i)
    (hj : (thermo.speciesIndex (xmlChild.attrib "speciesB")).toNat = j) :
    (xmlChild.hasChild "Eij" = true →
        self1.m_Eij.value i j = xmlChild.getFloat "Eij" "actEnergy" / GasConstant)
      ∧ (xmlChild.hasChild "Hij" = true →
        ∀ k c, (polyOf xmlChild "Hij" "actEnergy")[k]? = some c →
          coeff self1.m_Hij k i j = c / GasConstant)
      ∧ (xmlChild.hasChild "Sij" = true →
        ∀ k c, (polyOf xmlChild "Sij" "actEnergy")[k]? = some c →
          coeff self1.m_Sij k i j = c / GasConstant)
      ∧ (xmlChild.hasChild "Aij" = true →
        ∀ k c, (polyOf xmlChild "Aij" "toSI")[k]? = some c → coeff self1.m_Aij k i j = c)
      ∧ (xmlChild.hasChild "Bij" = true →
        ∀ k c, (polyOf xmlChild "Bij" "toSI")[k]? = some c → coeff self1.m_Bij k i j = c)
      ∧ (xmlChild.hasChild "Dij" = true →
        self1.m_Dij.value i j = xmlChild.getFloat "Dij" "toSI") := by
  have hED := initChild_Eij_Dij GasConstant thermo xmlChild self self1 h i j hi hj
  have hc := fun k => initChild_coeff GasConstant thermo xmlChild self self1 h i j hi hj k i j
  refine ⟨hED.1, fun hh k c hk => ?_, fun hh k c hk => ?_, fun hh k c hk => ?_,
    fun hh k c hk => ?_, hED.2⟩
  · rw [(hc k).2.2.1, if_pos hh, hk]
    simp
  · rw [(hc k).2.2.2, if_pos hh, hk]
    simp
  · rw [(hc k).1, if_pos hh, hk]
    simp
  · rw [(hc k).2.1, if_pos hh, hk]
    simp

/-- C20 applied to the fresh store, gas constant 2 and the entry `A`-`B` that carries every
sub-element, reads the scalar 6 and the polynomial `[4, 8]`. -/
theorem init_normalises_energy_coefficients_witness :
    ∃ self1,
      LiquidTranInteraction.initChild (2 : ℚ) (binaryPhase 300 (1/4) (3/4) (1/2) (1/2))
          (xmlNode "interaction" "A" "B" (fun _ => true) 6 [4, 8]) LiquidTranInteraction.new
        = .ok self1
      ∧ self1.m_Eij.value 0 1 = 6 / 2 ∧ coeff self1.m_Hij 1 0 1 = 8 / 2
      ∧ coeff self1.m_Sij 0 0 1 = 4 / 2 ∧ coeff self1.m_Aij 1 0 1 = 8
      ∧ coeff self1.m_Bij 0 0 1 = 4 ∧ self1.m_Dij.value 0 1 = 6 := by
  obtain ⟨self1, h1⟩ : ∃ self1,
      LiquidTranInteraction.initChild (2 : ℚ) (binaryPhase 300 (1/4) (3/4) (1/2) (1/2))
        (xmlNode "interaction" "A" "B" (fun _ => true) 6 [4, 8]) LiquidTranInteraction.new
      = .ok self1 := ⟨_, rfl⟩
  have h := init_normalises_energy_coefficients (2 : ℚ) _ _ _ self1 h1 0 1 rfl rfl
  exact ⟨self1, h1, h.1 rfl, h.2.1 rfl 1 8 rfl, h.2.2.1 rfl 0 4 rfl, h.2.2.2.1 rfl 1 8 rfl,
    h.2.2.2.2.1 rfl 0 4 rfl, h.2.2.2.2.2 rfl⟩

/-- C15 fails as stated: on the phase with species `A` (index 0) and `B` (index 1), `init` on the
single entry `A`-`B` with `Aij = 7` stores `A_0(0,1) = 7` and leaves `A_0(1,0) = 0`; the
value is not mirrored. -/
theorem init_Aij_not_mirrored_counterexample :
    ∃ store,
      LiquidTranInteraction.init (2 : ℚ) LiquidTranInteraction.new
          [xmlNode "interaction" "A" "B" (fun c => c = "Aij") 7 []]
          (binaryPhase 300 (1/4) (3/4) (1/2) (1/2)) = .ok store
        ∧ coeff store.m_Aij 0 0 1 = 7 ∧ coeff store.m_Aij 0 1 0 = 0
        ∧ coeff store.m_Aij 0 0 1 ≠ coeff store.m_Aij 0 1 0 := by
  refine ⟨_, rfl, rfl, rfl, ?_⟩
  show (7 : ℚ) ≠ 0
  norm_num

/-- C15 (amended): an entry `(i,j)` of the interaction block writes the coefficients of the
families A, B, H and S at `(i,j)` only; at every other pair `(a,b)`, the mirrored pair `(j,i)`
with `i ≠ j` included, every order of every family holds what it held before the entry. -/
theorem init_families_written_at_pair_only {R : Type} [Field R] (GasConstant : R)
    (thermo : thermo_t R) (xmlChild : XML_Node R) (self self1 : LiquidTranInteraction R)
    (h : LiquidTranInteraction.initChild GasConstant thermo xmlChild self = .ok self1)
    (i j : Nat) (hi : (thermo.speciesIndex (xmlChild.attrib "speciesA")).toNat = i)
    (hj : (thermo.speciesIndex (xmlChild.attrib "speciesB")).toNat = j) :
    (∀ k a b, ¬ (a = i ∧ b = j) →
        coeff self1.m_Aij k a b = coeff self.m_Aij k a b
          ∧ coeff self1.m_Bij k a b = coeff self.m_Bij k a b
          ∧ coeff self1.m_Hij k a b = coeff self.m_Hij k a b
          ∧ coeff self1.m_Sij k a b = coeff self.m_Sij k a b)
      ∧ (i ≠ j → ∀ k,
        coeff self1.m_Aij k j i = coeff self.m_Aij k j i
          ∧ coeff self1.m_Bij k j i = coeff self.m_Bij k j i
          ∧ coeff self1.m_Hij k j i = coeff self.m_Hij k j i
          ∧ coeff self1.m_Sij k j i = coeff self.m_Sij k j i) := by
  have key : ∀ k a b, ¬ (a = i ∧ b = j) →
      coeff self1.m_Aij k a b = coeff self.m_Aij k a b
        ∧ coeff self1.m_Bij k a b = coeff self.m_Bij k a b
        ∧ coeff self1.m_Hij k a b = coeff self.m_Hij k a b
        ∧ coeff self1.m_Sij k a b = coeff self.m_Sij k a b := by
    intro k a b hab
    have hc := initChild_coeff GasConstant thermo xmlChild self self1 h i j hi hj k a b
    rw [hc.1, hc.2.1, hc.2.2.1, hc.2.2.2]
    simp only [if_neg hab]
    refine ⟨?_, ?_, ?_, ?_⟩ <;> split <;> first | rfl | (split <;> rfl)
  exact ⟨key, fun hij k => key k j i (fun hh => hij hh.2)⟩

/-- C15 (amended) applied to the fresh store and the entry `A`-`B` with `Aij = 7`: the mirrored
slot `(1,0)` of order 0 holds what the fresh store held. -/
theorem init_families_written_at_pair_only_witness :
    ∃ self1,
      LiquidTranInteraction.initChild (2 : ℚ) (binaryPhase 300 (1/4) (3/4) (1/2) (1/2))
          (xmlNode "interaction" "A" "B" (fun c => c = "Aij") 7 []) LiquidTranInteraction.new
        = .ok self1
      ∧ coeff self1.m_Aij 0 1 0 = coeff (LiquidTranInteraction.new (R := ℚ)).m_Aij 0 1 0 := by
  obtain ⟨self1, h1⟩ : ∃ self1,
      LiquidTranInteraction.initChild (2 : ℚ) (binaryPhase 300 (1/4) (3/4) (1/2) (1/2))
        (xmlNode "interaction" "A" "B" (fun c => c = "Aij") 7 []) LiquidTranInteraction.new
      = .ok self1 := ⟨_, rfl⟩
  exact ⟨self1, h1, ((init_families_written_at_pair_only (2 : ℚ) _ _ _ self1 h1 0 1 rfl
    rfl).2 (by decide) 0).1⟩

/-! ## The diagonal of the pairwise-interaction matrix -/

/-- A loop that returned carried every invariant its successful steps carry. -/
theorem forLoopM_ok_invariant {σ : Type} (P : Nat → σ → Prop) (n : Nat)
    (body : Nat → σ → Except Error σ) (s t : σ) (h0 : P 0 s)
    (hstep : ∀ k u u1, k < n → P k u → body k u = .ok u1 → P (k + 1) u1)
    (h : forLoopM n body s = .ok t) : P n t := by
  induction n generalizing t with
  | zero => exact Except.ok.inj h ▸ h0
  | succ n ih =>
    unfold forLoopM at h
    cases hn : forLoopM n body s with
    | error e => rw [hn] at h; cases h
    | ok u =>
      rw [hn] at h
      exact hstep n u t (Nat.lt_succ_self n)
        (ih u (fun k v v1 hk => hstep k v v1 (Nat.lt_succ_of_lt hk)) hn) h

/-- After `setParameters` on an object whose `m_diagonals` was empty, slot `i` of `m_diagonals`
holds the diffusivity handle of species `i` of the parameter bundle, null or not. -/
theorem setParameters_diagonals {R : Type} [Field R] (self obj : LTI_Pairwise_Interaction R)
    (thermo : thermo_t R) (trParam : LiquidTransportParams R)
    (hfresh : self.m_diagonals = [])
    (h : LTI_Pairwise_Interaction.setParameters self thermo trParam = .ok obj) :
    ∀ i, i < thermo.nSpecies →
      ∃ ltd, trParam.LTData[i]? = some ltd
        ∧ obj.m_diagonals[i]? = some ltd.speciesDiffusivity := by
  unfold LTI_Pairwise_Interaction.setParameters at h
  simp only [bind, Except.bind] at h
  split at h
  · cases h
  · rename_i d hd
    have h1 := Except.ok.inj h
    subst h1
    have inv := forLoopM_ok_invariant
      (fun k (d : List (Option (LTPspecies R))) => d.length = thermo.nSpecies
        ∧ (∀ i, i < k → ∃ ltd, trParam.LTData[i]? = some ltd
            ∧ d[i]? = some ltd.speciesDiffusivity)
        ∧ (∀ i, k ≤ i → i < thermo.nSpecies → d[i]? = some none))
      thermo.nSpecies _ _ d ?_ ?_ hd
    · exact fun i hi => inv.2.1 i hi
    · refine ⟨vecResize_length _ _ _, fun i hi => absurd hi (Nat.not_lt_zero i), ?_⟩
      intro i _ hi
      simp [hfresh, vecResize, List.getElem?_replicate, hi]
    · intro k u u1 hk hu hb
      cases hl : vecAt trParam.LTData k with
      | error e => rw [hl] at hb; cases hb
      | ok ltd =>
        rw [hl] at hb
        have hltd : trParam.LTData[k]? = some ltd := by
          unfold vecAt at hl
          split at hl
          · rename_i a ha
            rw [ha, Except.ok.inj hl]
          · cases hl
        cases hs : ltd.speciesDiffusivity with
        | none =>
          simp only [hs] at hb
          have := Except.ok.inj hb
          subst this
          refine ⟨hu.1, fun i hi => ?_, fun i hi hin => hu.2.2 i (Nat.le_of_succ_le hi) hin⟩
          rcases Nat.lt_succ_iff_lt_or_eq.mp hi with hlt | heq
          · exact hu.2.1 i hlt
          · subst heq
            exact ⟨ltd, hltd, by rw [hs]; exact hu.2.2 i (Nat.le_refl i) hk⟩
        | some handle =>
          simp only [hs] at hb
          have := Except.ok.inj hb
          subst this
          refine ⟨by simpa using hu.1, fun i hi => ?_, fun i hi hin => ?_⟩
          · rcases Nat.lt_succ_iff_lt_or_eq.mp hi with hlt | heq
            · obtain ⟨l, hl1, hl2⟩ := hu.2.1 i hlt
              refine ⟨l, hl1, ?_⟩
              rw [List.getElem?_set_ne (Nat.ne_of_gt hlt)]
              exact hl2
            · subst heq
              refine ⟨ltd, hltd, ?_⟩
              rw [hs, List.getElem?_set_self (by rw [hu.1]; exact hk)]
          · rw [List.getElem?_set_ne (by omega)]
            exact hu.2.2 i (Nat.le_of_succ_le hi) hin

/-- The diagonal pass of `getMatrixTransProp`, entry by entry: a diagonal entry that is zero
and whose species has a registered handle becomes the reciprocal of the handle value; every
other entry is as before. -/
theorem pairwise_diagonal_entries {R : Type} [Field R] [DecidableEq R]
    (m_diagonals : List (Option (LTPspecies R))) (thermo : thermo_t R) (n : Nat)
    (hn : n ≤ m_diagonals.length) (M1 : DenseMatrix R) :
    ∃ M, forLoopM n (fun i (mat : DenseMatrix R) =>
        if mat.value i i = 0 then do
          let diagonal ← vecAt m_diagonals i
          match diagonal with
          | some handle => pure (mat.set i i (1 / handle.getSpeciesTransProp thermo))
          | none => pure mat
        else pure mat) M1 = .ok M
      ∧ ∀ a, a < n → M.value a a
          = if M1.value a a = 0 then
              match m_diagonals[a]? with
              | some (some handle) => 1 / handle.getSpeciesTransProp thermo
              | _ => M1.value a a
            else M1.value a a := by
  obtain ⟨M, hM, hinv⟩ := forLoopM_invariant
    (fun k (M : DenseMatrix R) => (∀ a, k ≤ a → M.value a a = M1.value a a)
      ∧ ∀ a, a < k → M.value a a
          = if M1.value a a = 0 then
              match m_diagonals[a]? with
              | some (some handle) => 1 / handle.getSpeciesTransProp thermo
              | _ => M1.value a a
            else M1.value a a) n
    (fun i (mat : DenseMatrix R) =>
        if mat.value i i = 0 then do
          let diagonal ← vecAt m_diagonals i
          match diagonal with
          | some handle => pure (mat.set i i (1 / handle.getSpeciesTransProp thermo))
          | none => pure mat
        else pure mat) M1 ⟨fun _ _ => rfl, fun a ha => absurd ha (Nat.not_lt_zero a)⟩
    (by
      intro i hi M hM
      have hlt : i < m_diagonals.length := Nat.lt_of_lt_of_le hi hn
      have hii : M.value i i = M1.value i i := hM.1 i (Nat.le_refl i)
      by_cases h0 : M.value i i = 0
      · simp only [h0, if_true, vecAt_of_lt m_diagonals i hlt, bind, Except.bind]
        have hget : m_diagonals[i]? = some (m_diagonals.get ⟨i, hlt⟩) :=
          List.getElem?_eq_getElem hlt
        cases hd : m_diagonals.get ⟨i, hlt⟩ with
        | none =>
          refine ⟨M, rfl, fun a ha => hM.1 a (Nat.le_of_succ_le ha), fun a ha => ?_⟩
          rcases Nat.lt_succ_iff_lt_or_eq.mp ha with hlt2 | heq
          · exact hM.2 a hlt2
          · subst heq
            rw [hget, hd, ← hii, h0]
            simp
        | some handle =>
          refine ⟨_, rfl, fun a ha => ?_, fun a ha => ?_⟩
          · have hne : ¬ (a = i ∧ a = i) := fun hh => by omega
            simp only [DenseMatrix.set, hne, if_false]
            exact hM.1 a (Nat.le_of_succ_le ha)
          · rcases Nat.lt_succ_iff_lt_or_eq.mp ha with hlt2 | heq
            · have hne : ¬ (a = i ∧ a = i) := fun hh => by omega
              simp only [DenseMatrix.set, hne, if_false]
              exact hM.2 a hlt2
            · subst heq
              rw [hget, hd, ← hii, h0]
              simp [DenseMatrix.set]
      · simp only [h0, if_false]
        refine ⟨M, rfl, fun a ha => hM.1 a (Nat.le_of_succ_le ha), fun a ha => ?_⟩
        rcases Nat.lt_succ_iff_lt_or_eq.mp ha with hlt2 | heq
        · exact hM.2 a hlt2
        · subst heq
          rw [← hii, if_neg h0])
  exact ⟨M, hM, hinv.2⟩

/-- The off-diagonal fill on its own returns and leaves every diagonal entry as it was. -/
theorem offDiagonalFill_diagonal {R : Type} [Field R] (exp : R → R)
    (self : LTI_Pairwise_Interaction R) (thermo : thermo_t R) (M0 : DenseMatrix R) :
    ∃ M1, LTI_Pairwise_Interaction.offDiagonalFill exp self thermo M0 = .ok M1
      ∧ ∀ i, M1.value i i = M0.value i i := by
  obtain ⟨M1, h1, _, _, hv1⟩ := pairwise_fill
    (fun i j => exp (self.m_Eij.value i j / thermo.temperature) / self.m_Dij.value i j)
    thermo.nSpecies M0
  refine ⟨M1, h1, fun i => ?_⟩
  rw [hv1 i i]
  simp

/-- `getMatrixTransProp` is the resize, the off-diagonal fill, then the diagonal pass. -/
theorem getMatrixTransProp_eq_fill_then_diagonal {R : Type} [Field R] [DecidableEq R]
    (exp : R → R) (self : LTI_Pairwise_Interaction R) (thermo : thermo_t R)
    (mat : DenseMatrix R) (speciesValues : Nat → R) :
    LTI_Pairwise_Interaction.getMatrixTransProp exp self thermo mat speciesValues
      = (LTI_Pairwise_Interaction.offDiagonalFill exp self thermo
          (mat.resize thermo.nSpecies thermo.nSpecies 0) >>= fun mat =>
        forLoopM thermo.nSpecies (fun i (mat : DenseMatrix R) =>
          if mat.value i i = 0 then do
            let diagonal ← vecAt self.m_diagonals i
            match diagonal with
            | some handle => pure (mat.set i i (1 / handle.getSpeciesTransProp thermo))
            | none => pure mat
          else pure mat) mat) :=
  rfl

/-- C11: on a zero-initialised output matrix, for a strategy whose `setParameters` ran on an
empty `m_diagonals`, `getMatrixTransProp` returns a matrix whose diagonal entry `i` is the
reciprocal of the value of the diffusivity handle of species `i` when that handle is non-null,
and 0 when it is null; and the off-diagonal fill, from any matrix, leaves every diagonal entry
as it was. -/
theorem LTI_Pairwise_Interaction_getMatrixTransProp_diagonal {R : Type} [Field R]
    [DecidableEq R] (exp : R → R) (pairwise obj : LTI_Pairwise_Interaction R)
    (thermo0 thermo : thermo_t R) (trParam : LiquidTransportParams R) (mat : DenseMatrix R)
    (speciesValues : Nat → R) (hfresh : pairwise.m_diagonals = [])
    (hset : LTI_Pairwise_Interaction.setParameters pairwise thermo0 trParam = .ok obj)
    (hN : thermo.nSpecies = thermo0.nSpecies) (hzero : ∀ a b, mat.value a b = 0) :
    (∃ M, LTI_Pairwise_Interaction.getMatrixTransProp exp obj thermo mat speciesValues = .ok M
        ∧ ∀ i, i < thermo.nSpecies →
          ∃ ltd, trParam.LTData[i]? = some ltd
            ∧ M.value i i
              = match ltd.speciesDiffusivity with
                | some handle => 1 / handle.getSpeciesTransProp thermo
                | none => 0)
      ∧ ∀ M0, ∃ M1, LTI_Pairwise_Interaction.offDiagonalFill exp obj thermo M0 = .ok M1
          ∧ ∀ i, M1.value i i = M0.value i i := by
  refine ⟨?_, offDiagonalFill_diagonal exp obj thermo⟩
  obtain ⟨hlen, _⟩ := setParameters_ok pairwise obj thermo0 trParam hset
  have hdiag := setParameters_diagonals pairwise obj thermo0 trParam hfresh hset
  obtain ⟨M1, h1, hd1⟩ := offDiagonalFill_diagonal exp obj thermo
    (mat.resize thermo.nSpecies thermo.nSpecies 0)
  obtain ⟨M, h2, hv2⟩ := pairwise_diagonal_entries obj.m_diagonals thermo thermo.nSpecies
    (by rw [hlen, hN]) M1
  refine ⟨M, ?_, fun i hi => ?_⟩
  · rw [getMatrixTransProp_eq_fill_then_diagonal, h1]
    exact h2
  · obtain ⟨ltd, hl, hm⟩ := hdiag i (hN ▸ hi)
    refine ⟨ltd, hl, ?_⟩
    have hz : M1.value i i = 0 := by
      rw [hd1 i]
      simp [DenseMatrix.resize, hzero]
    rw [hv2 i hi, hm, hz]
    cases ltd.speciesDiffusivity <;> simp

/-- C11 applied to two species, the first with a diffusivity handle of value 4 and the second
with none, on the empty output matrix: the diagonal is `1/4` and `0`. -/
theorem LTI_Pairwise_Interaction_getMatrixTransProp_diagonal_witness :
    ∃ obj M,
      LTI_Pairwise_Interaction.setParameters
          { toLiquidTranInteraction := LiquidTranInteraction.new, m_diagonals := [] }
          (binaryPhase 300 (1/4) (3/4) (1/2) (1/2))
          (handlesOf [some (constHandle (4 : ℚ)), none]) = .ok obj
        ∧ LTI_Pairwise_Interaction.getMatrixTransProp (fun t => t) obj
            (binaryPhase 350 (1/2) (1/2) (1/2) (1/2)) DenseMatrix.empty (fun _ => 0) = .ok M
        ∧ M.value 0 0 = 1 / 4 ∧ M.value 1 1 = 0 := by
  obtain ⟨obj, hobj⟩ : ∃ obj, LTI_Pairwise_Interaction.setParameters
      { toLiquidTranInteraction := LiquidTranInteraction.new, m_diagonals := [] }
      (binaryPhase 300 (1/4) (3/4) (1/2) (1/2))
      (handlesOf [some (constHandle (4 : ℚ)), none]) = .ok obj := by
    simp [LTI_Pairwise_Interaction.setParameters, forLoopM, vecAt, handlesOf, vecResize,
      binaryPhase, bind, Except.bind, pure, Except.pure]
  obtain ⟨M, hM, hv⟩ := (LTI_Pairwise_Interaction_getMatrixTransProp_diagonal (fun t => t)
    { toLiquidTranInteraction := LiquidTranInteraction.new, m_diagonals := [] } obj
    (binaryPhase 300 (1/4) (3/4) (1/2) (1/2)) (binaryPhase 350 (1/2) (1/2) (1/2) (1/2))
    (handlesOf [some (constHandle (4 : ℚ)), none]) DenseMatrix.empty (fun _ => 0) rfl hobj rfl
    (fun _ _ => rfl)).1
  refine ⟨obj, M, hobj, hM, ?_, ?_⟩
  · obtain ⟨ltd, hl, hm⟩ := hv 0 (by decide)
    have hl1 := Option.some.inj hl
    subst hl1
    exact hm
  · obtain ⟨ltd, hl, hm⟩ := hv 1 (by decide)
    have hl1 := Option.some.inj hl
    subst hl1
    exact hm

/-! ## The Stokes-Einstein matrix -/

/-- C12 at the failing input: two species, each with a viscosity and a radius handle registered
by `setParameters`.  The scratch buffers hold one `double` each, so the store `viscSpec[1]` of
the first loop falls outside the allocation and no matrix is returned, whatever the
constants. -/
theorem LTI_StokesEinstein_getMatrixTransProp_two_species :
    ∃ obj,
      LTI_StokesEinstein.setParameters
          { toLiquidTranInteraction := LiquidTranInteraction.new, m_viscosity := [],
            m_hydroRadius := [] }
          (binaryPhase 300 (1/4) (3/4) (1/2) (1/2))
          (handlesOf [some (constHandle (3 : ℚ)), some (constHandle 5)]) = .ok obj
        ∧ ∀ Pi GasConstant : ℚ,
          LTI_StokesEinstein.getMatrixTransProp Pi GasConstant obj
            (binaryPhase 300 (1/4) (3/4) (1/2) (1/2)) DenseMatrix.empty (fun _ => 0)
          = .error Error.outOfRange := by
  refine ⟨{ toLiquidTranInteraction := LiquidTranInteraction.new,
            m_viscosity := [some (constHandle 3), some (constHandle 5)],
            m_hydroRadius := [some (constHandle 3), some (constHandle 5)] }, ?_, ?_⟩
  · simp [LTI_StokesEinstein.setParameters, forLoopM, vecAt, arrayStore, handlesOf, vecResize,
      binaryPhase, bind, Except.bind, pure, Except.pure]
  · intro Pi GasConstant
    simp [LTI_StokesEinstein.getMatrixTransProp, LTI_StokesEinstein.fillMatrix, forLoopM, vecAt,
      arrayStore, deref, binaryPhase, bind, Except.bind, pure, Except.pure]

/-- With one species and both handles registered the scratch buffers suffice, and the single
entry of the matrix returned is `6·π·radius·viscosity/GasConstant/T`. -/
theorem LTI_StokesEinstein_getMatrixTransProp_one_species {R : Type} [Field R]
    (Pi GasConstant : R) (self : LTI_StokesEinstein R) (thermo : thermo_t R)
    (mat : DenseMatrix R) (speciesValues : Nat → R) (viscosity hydroRadius : LTPspecies R)
    (hN : thermo.nSpecies = 1) (hv : self.m_viscosity[0]? = some (some viscosity))
    (hr : self.m_hydroRadius[0]? = some (some hydroRadius)) :
    ∃ M, LTI_StokesEinstein.getMatrixTransProp Pi GasConstant self thermo mat speciesValues
        = .ok M
      ∧ M.value 0 0 = (6 * Pi * hydroRadius.getSpeciesTransProp thermo
          * viscosity.getSpeciesTransProp thermo) / GasConstant / thermo.temperature := by
  refine ⟨(mat.resize 1 1 0).set 0 0 (LTI_StokesEinstein.matrixValue Pi GasConstant
    thermo.temperature (hydroRadius.getSpeciesTransProp thermo)
    (viscosity.getSpeciesTransProp thermo)), ?_, ?_⟩
  · simp [LTI_StokesEinstein.getMatrixTransProp, LTI_StokesEinstein.fillMatrix, hN, forLoopM,
      vecAt, hv, hr, arrayStore, deref, bind, Except.bind, pure, Except.pure]
  · simp [DenseMatrix.set, LTI_StokesEinstein.matrixValue]

/-- The fill loops of the Stokes-Einstein matrix, for buffers of at least `nsp` elements: they
return, and entry `(i,j)` below `nsp` is the value built from `radiusSpec[i]` and
`viscSpec[j]`. -/
theorem fillMatrix_entries {R : Type} [Field R] (Pi GasConstant temp : R)
    (radiusSpec viscSpec : List R) (nsp : Nat) (M0 : DenseMatrix R)
    (hr : nsp ≤ radiusSpec.length) (hv : nsp ≤ viscSpec.length) :
    ∃ M, LTI_StokesEinstein.fillMatrix Pi GasConstant temp radiusSpec viscSpec nsp M0 = .ok M
      ∧ M.nRows = M0.nRows ∧ M.nColumns = M0.nColumns
      ∧ ∀ i j, i < nsp → j < nsp →
          M.value i j = LTI_StokesEinstein.matrixValue Pi GasConstant temp
            (radiusSpec.getD i 0) (viscSpec.getD j 0) := by
  obtain ⟨M, hM, hr1, hc1, hval⟩ := forLoopM_invariant
    (fun n (M : DenseMatrix R) => M.nRows = M0.nRows ∧ M.nColumns = M0.nColumns
      ∧ ∀ a b, M.value a b
          = if a < n ∧ b < nsp then LTI_StokesEinstein.matrixValue Pi GasConstant temp
              (radiusSpec.getD a 0) (viscSpec.getD b 0)
            else M0.value a b) nsp
    (fun i mat =>
      forLoopM nsp (fun j mat => do
        let radius ← vecAt radiusSpec i
        let visc ← vecAt viscSpec j
        pure (mat.set i j (LTI_StokesEinstein.matrixValue Pi GasConstant temp radius visc)))
        mat) M0 ⟨rfl, rfl, fun a b => by simp⟩
    (by
      intro i hi M1 hM1
      have hir : i < radiusSpec.length := Nat.lt_of_lt_of_le hi hr
      obtain ⟨M, hM, hr2, hc2, hv2⟩ := forLoopM_invariant
        (fun m (M : DenseMatrix R) => M.nRows = M0.nRows ∧ M.nColumns = M0.nColumns
          ∧ ∀ a b, M.value a b
              = if a = i ∧ b < m then LTI_StokesEinstein.matrixValue Pi GasConstant temp
                  (radiusSpec.getD a 0) (viscSpec.getD b 0)
                else M1.value a b) nsp
        (fun j mat => do
          let radius ← vecAt radiusSpec i
          let visc ← vecAt viscSpec j
          pure (mat.set i j (LTI_StokesEinstein.matrixValue Pi GasConstant temp radius visc)))
        M1 ⟨hM1.1, hM1.2.1, fun a b => by simp⟩
        (by
          intro j hj M hM
          have hjv : j < viscSpec.length := Nat.lt_of_lt_of_le hj hv
          refine ⟨M.set i j (LTI_StokesEinstein.matrixValue Pi GasConstant temp
            (radiusSpec.getD i 0) (viscSpec.getD j 0)), ?_, hM.1, hM.2.1, fun a b => ?_⟩
          · simp [vecAt_of_lt radiusSpec i hir, vecAt_of_lt viscSpec j hjv, bind, Except.bind,
              pure, Except.pure, List.getD_eq_getElem _ _ hir, List.getD_eq_getElem _ _ hjv,
              List.getElem?_eq_getElem hir, List.getElem?_eq_getElem hjv]
          · simp only [DenseMatrix.set, hM.2.2 a b]
            split_ifs <;> first | rfl | (exfalso; omega) | (congr 2 <;> omega))
      refine ⟨M, hM, hr2, hc2, fun a b => ?_⟩
      rw [hv2 a b, hM1.2.2 a b]
      split_ifs <;> first | rfl | (exfalso; omega))
  exact ⟨M, hM, hr1, hc1, fun i j hi hj => by rw [hval i j, if_pos ⟨hi, hj⟩]⟩

/-- The values built from `radius[i]`, `viscosity[j]` and from `radius[j]`, `viscosity[i]`
agree exactly when the two products do, for nonzero constants and temperature. -/
theorem matrixValue_eq_iff {R : Type} [LinearOrderedField R]
    (Pi GasConstant temp ri vj rj vi : R)
    (hPi : Pi ≠ 0) (hG : GasConstant ≠ 0) (hT : temp ≠ 0) :
    LTI_StokesEinstein.matrixValue Pi GasConstant temp ri vj
        = LTI_StokesEinstein.matrixValue Pi GasConstant temp rj vi
      ↔ ri * vj = rj * vi := by
  unfold LTI_StokesEinstein.matrixValue
  constructor
  · intro h
    have h6 : (6 : R) * Pi ≠ 0 := mul_ne_zero (by norm_num) hPi
    field_simp at h
    have h2 : (6 * Pi) * (ri * vj) = (6 * Pi) * (rj * vi) := by linear_combination h
    exact mul_left_cancel₀ h6 h2
  · intro h
    have h2 : 6 * Pi * ri * vj = 6 * Pi * rj * vi := by linear_combination (6 * Pi) * h
    rw [h2]

/-- At a temperature `T > 0`, for nonzero constants `Pi` and `GasConstant` and buffers
holding the `nsp` radii and viscosities, the fill loops of the Stokes-Einstein matrix return a
matrix whose entries at `(i,j)` and `(j,i)` are equal if and only if
`radius[i]·viscosity[j] = radius[j]·viscosity[i]`; so they differ whenever these products
differ. -/
theorem fillMatrix_symmetric_iff {R : Type} [LinearOrderedField R]
    (Pi GasConstant temp : R) (radiusSpec viscSpec : List R) (nsp : Nat) (mat : DenseMatrix R)
    (hr : nsp ≤ radiusSpec.length) (hv : nsp ≤ viscSpec.length) (hPi : Pi ≠ 0)
    (hG : GasConstant ≠ 0) (hT : 0 < temp) :
    ∃ M, LTI_StokesEinstein.fillMatrix Pi GasConstant temp radiusSpec viscSpec nsp mat = .ok M
      ∧ ∀ i j, i < nsp → j < nsp →
          (M.value i j = M.value j i
            ↔ radiusSpec.getD i 0 * viscSpec.getD j 0 = radiusSpec.getD j 0 * viscSpec.getD i 0)
          ∧ (radiusSpec.getD i 0 * viscSpec.getD j 0 ≠ radiusSpec.getD j 0 * viscSpec.getD i 0 →
            M.value i j ≠ M.value j i) := by
  obtain ⟨M, hM, _, _, hval⟩ :=
    fillMatrix_entries Pi GasConstant temp radiusSpec viscSpec nsp mat hr hv
  refine ⟨M, hM, fun i j hi hj => ?_⟩
  have key : M.value i j = M.value j i
      ↔ radiusSpec.getD i 0 * viscSpec.getD j 0
        = radiusSpec.getD j 0 * viscSpec.getD i 0 := by
    rw [hval i j hi hj, hval j i hj hi]
    exact matrixValue_eq_iff Pi GasConstant temp _ _ _ _ hPi hG (ne_of_gt hT)
  exact ⟨key, fun hne heq => hne (key.mp heq)⟩

/-! ## Loops that agree, loops that fail -/

/-- Two loops whose bodies agree below the bound agree. -/
theorem forLoopM_congr {σ : Type} (n : Nat) (body1 body2 : Nat → σ → Except Error σ) (s : σ)
    (h : ∀ k, k < n → ∀ s, body1 k s = body2 k s) :
    forLoopM n body1 s = forLoopM n body2 s := by
  induction n with
  | zero => rfl
  | succ n ih =>
    simp only [forLoopM]
    rw [ih (fun k hk => h k (Nat.lt_succ_of_lt hk))]
    cases forLoopM n body2 s with
    | error e => rfl
    | ok s1 => exact h n (Nat.lt_succ_self n) s1

/-- The weighting loop of the handle forms returns when the handle list has an entry for every
species, with `molefracs[k]` multiplied by the weight of handle `k` for `k` below `nsp`. -/
theorem weightByHandles_eq {R : Type} [Field R] (nsp : Nat) (LTPptrs : List (LTPspecies R))
    (molefracs w : Nat → R)
    (h : ∀ k, k < nsp → ∃ handle, LTPptrs[k]? = some handle ∧ w k = handle.getMixWeight) :
    weightByHandles nsp LTPptrs molefracs
      = .ok (fun k => if k < nsp then molefracs k * w k else molefracs k) := by
  unfold weightByHandles
  induction nsp with
  | zero => simp [forLoopM]
  | succ n ih =>
    simp only [forLoopM]
    rw [ih (fun k hk => h k (Nat.lt_succ_of_lt hk))]
    obtain ⟨handle, hget, hw⟩ := h n (Nat.lt_succ_self n)
    simp only [vecAt, hget, bind, Except.bind, pure, Except.pure, lt_irrefl, if_false]
    congr 1
    funext k
    by_cases hk : k = n
    · subst hk
      simp [hw]
    · rw [Function.update_noteq hk]
      have : k < n + 1 ↔ k < n := by omega
      simp only [this]

/-- The handle form of the mole-fraction rule is the array form on the values and weights of
the handles. -/
theorem LTI_MoleFracs_getMixTransProp_LTPptrs_eq {R : Type} [Field R]
    (self : LiquidTranInteraction R) (thermo : thermo_t R) (LTPptrs : List (LTPspecies R))
    (values weights : Nat → R)
    (h : ∀ i, i < thermo.nSpecies → ∃ handle, LTPptrs[i]? = some handle
      ∧ values i = handle.getSpeciesTransProp thermo ∧ weights i = handle.getMixWeight) :
    LTI_MoleFracs.getMixTransProp_LTPptrs self thermo LTPptrs
      = LTI_MoleFracs.getMixTransProp self thermo values (some weights) := by
  unfold LTI_MoleFracs.getMixTransProp_LTPptrs LTI_MoleFracs.getMixTransProp
  simp only []
  rw [weightByHandles_eq thermo.nSpecies LTPptrs thermo.getMoleFractions weights
    (fun k hk => by obtain ⟨hd, h1, _, h3⟩ := h k hk; exact ⟨hd, h1, h3⟩)]
  simp only [bind, Except.bind]
  refine forLoopM_congr _ _ _ _ (fun i hi value => ?_)
  obtain ⟨hd, hget, hv, hw⟩ := h i hi
  simp only [vecAt, hget, if_pos hi, ← hv]
  refine forLoopM_congr _ _ _ _ (fun j hj value => ?_)
  simp only [if_pos hj]


/-- The handle form of the solvent rule is the array form on the values and weights of the
handles. -/
theorem LTI_Solvent_getMixTransProp_LTPptrs_eq {R : Type} [Field R]
    (self : LiquidTranInteraction R) (thermo : thermo_t R) (LTPptrs : List (LTPspecies R))
    (values weights : Nat → R)
    (h : ∀ i, i < thermo.nSpecies → ∃ handle, LTPptrs[i]? = some handle
      ∧ values i = handle.getSpeciesTransProp thermo ∧ weights i = handle.getMixWeight) :
    LTI_Solvent.getMixTransProp_LTPptrs self thermo LTPptrs
      = LTI_Solvent.getMixTransProp self thermo values (some weights) := by
  unfold LTI_Solvent.getMixTransProp_LTPptrs LTI_Solvent.getMixTransProp
  simp only []
  refine forLoopM_congr _ _ _ _ (fun i hi value => ?_)
  obtain ⟨hd, hget, hv, hw⟩ := h i hi
  simp only [vecAt, hget, bind, Except.bind, ← hv, ← hw]

/-- The handle form of the mass-fraction rule is the array form on the values and weights of
the handles. -/
theorem LTI_MassFracs_getMixTransProp_LTPptrs_eq {R : Type} [Field R]
    (self : LiquidTranInteraction R) (thermo : thermo_t R) (LTPptrs : List (LTPspecies R))
    (values weights : Nat → R)
    (h : ∀ i, i < thermo.nSpecies → ∃ handle, LTPptrs[i]? = some handle
      ∧ values i = handle.getSpeciesTransProp thermo ∧ weights i = handle.getMixWeight) :
    LTI_MassFracs.getMixTransProp_LTPptrs self thermo LTPptrs
      = LTI_MassFracs.getMixTransProp self thermo values (some weights) := by
  unfold LTI_MassFracs.getMixTransProp_LTPptrs LTI_MassFracs.getMixTransProp
  simp only []
  rw [weightByHandles_eq thermo.nSpecies LTPptrs thermo.getMassFractions weights
    (fun k hk => by obtain ⟨hd, h1, _, h3⟩ := h k hk; exact ⟨hd, h1, h3⟩)]
  simp only [bind, Except.bind]
  refine forLoopM_congr _ _ _ _ (fun i hi value => ?_)
  obtain ⟨hd, hget, hv, hw⟩ := h i hi
  simp only [vecAt, hget, if_pos hi, ← hv]
  refine forLoopM_congr _ _ _ _ (fun j hj value => ?_)
  simp only [if_pos hj]

/-- The handle form of the log-mixing rule is the array form on the values and weights of the
handles. -/
theorem LTI_Log_MoleFracs_getMixTransProp_LTPptrs_eq {R : Type} [Field R] (exp log : R → R)
    (self : LiquidTranInteraction R) (thermo : thermo_t R) (LTPptrs : List (LTPspecies R))
    (values weights : Nat → R)
    (h : ∀ i, i < thermo.nSpecies → ∃ handle, LTPptrs[i]? = some handle
      ∧ values i = handle.getSpeciesTransProp thermo ∧ weights i = handle.getMixWeight) :
    LTI_Log_MoleFracs.getMixTransProp_LTPptrs exp log self thermo LTPptrs
      = LTI_Log_MoleFracs.getMixTransProp exp log self thermo values (some weights) := by
  unfold LTI_Log_MoleFracs.getMixTransProp_LTPptrs LTI_Log_MoleFracs.getMixTransProp
  simp only []
  rw [weightByHandles_eq thermo.nSpecies LTPptrs thermo.getMoleFractions weights
    (fun k hk => by obtain ⟨hd, h1, _, h3⟩ := h k hk; exact ⟨hd, h1, h3⟩)]
  simp only [bind, Except.bind]
  rw [forLoopM_congr _ _ _ _ (fun i hi value => ?_)]
  obtain ⟨hd, hget, hv, hw⟩ := h i hi
  simp only [vecAt, hget, if_pos hi, ← hv]
  refine forLoopM_congr _ _ _ _ (fun j hj value => ?_)
  simp only [if_pos hj]

/-- The handle form of the exponential-T rule is the array form on the values and weights of
the handles, failures included. -/
theorem LTI_MoleFracs_ExpT_getMixTransProp_LTPptrs_eq {R : Type} [Field R] (exp : R → R)
    (self : LiquidTranInteraction R) (thermo : thermo_t R) (LTPptrs : List (LTPspecies R))
    (values weights : Nat → R)
    (h : ∀ i, i < thermo.nSpecies → ∃ handle, LTPptrs[i]? = some handle
      ∧ values i = handle.getSpeciesTransProp thermo ∧ weights i = handle.getMixWeight) :
    LTI_MoleFracs_ExpT.getMixTransProp_LTPptrs exp self thermo LTPptrs
      = LTI_MoleFracs_ExpT.getMixTransProp exp self thermo values (some weights) := by
  unfold LTI_MoleFracs_ExpT.getMixTransProp_LTPptrs LTI_MoleFracs_ExpT.getMixTransProp
  simp only []
  rw [weightByHandles_eq thermo.nSpecies LTPptrs thermo.getMoleFractions weights
    (fun k hk => by obtain ⟨hd, h1, _, h3⟩ := h k hk; exact ⟨hd, h1, h3⟩)]
  simp only [bind, Except.bind]
  refine forLoopM_congr _ _ _ _ (fun i hi value => ?_)
  obtain ⟨hd, hget, hv, hw⟩ := h i hi
  simp only [vecAt, hget, if_pos hi, ← hv]
  refine forLoopM_congr _ _ _ _ (fun j hj value => ?_)
  simp only [if_pos hj]


/-- A loop whose steps either return or fail with the error `e` does the same. -/
theorem forLoopM_ok_or_error {σ : Type} (n : Nat) (body : Nat → σ → Except Error σ) (s : σ)
    (e : Error) (h : ∀ k s, k < n → body k s = .error e ∨ ∃ s1, body k s = .ok s1) :
    forLoopM n body s = .error e ∨ ∃ s1, forLoopM n body s = .ok s1 := by
  induction n with
  | zero => exact Or.inr ⟨s, rfl⟩
  | succ n ih =>
    simp only [forLoopM]
    rcases ih (fun k s hk => h k s (Nat.lt_succ_of_lt hk)) with h1 | ⟨s1, h1⟩
    · rw [h1]; exact Or.inl rfl
    · rw [h1]; exact h n s1 (Nat.lt_succ_self n)

/-- A loop with a step that fails with `e` in every state, all of whose steps return or fail
with `e`, fails with `e`. -/
theorem forLoopM_error_of_step {σ : Type} (n : Nat) (body : Nat → σ → Except Error σ) (s : σ)
    (e : Error) (k : Nat) (hk : k < n)
    (h : ∀ j s, j < n → body j s = .error e ∨ ∃ s1, body j s = .ok s1)
    (hfail : ∀ s, body k s = .error e) :
    forLoopM n body s = .error e := by
  induction n with
  | zero => omega
  | succ n ih =>
    simp only [forLoopM]
    rcases forLoopM_ok_or_error n body s e (fun j s hj => h j s (Nat.lt_succ_of_lt hj))
      with h1 | ⟨s1, h1⟩
    · rw [h1]
    · rw [h1]
      by_cases hkn : k = n
      · subst hkn; exact hfail s1
      · have := ih (by omega) (fun j s hj => h j s (Nat.lt_succ_of_lt hj))
        rw [h1] at this
        cases this

/-- The array form of the exponential-T rule on a phase with at least one species, when
`m_Bij` has fewer orders than `m_Aij`: the lookup `m_Bij[k]` at `k = m_Bij.size()` is outside
the vector. -/
theorem LTI_MoleFracs_ExpT_getMixTransProp_short_Bij {R : Type} [Field R] (exp : R → R)
    (self : LiquidTranInteraction R) (thermo : thermo_t R) (values weights : Nat → R)
    (hN : 1 ≤ thermo.nSpecies) (hAB : self.m_Bij.length < self.m_Aij.length) :
    LTI_MoleFracs_ExpT.getMixTransProp exp self thermo values (some weights)
      = .error Error.outOfRange := by
  unfold LTI_MoleFracs_ExpT.getMixTransProp
  simp only []
  have hk : ∀ (i j : Nat) (value : R),
      forLoopM self.m_Aij.length (fun k value => do
        let Ak ← vecAt self.m_Aij k
        let Bk ← vecAt self.m_Bij k
        pure (value + thermo.getMoleFractions i * weights i
          * (thermo.getMoleFractions j * weights j) * Ak.value i j
          * (thermo.getMoleFractions i * weights i) ^ k * exp (Bk.value i j * thermo.temperature)))
        value = .error Error.outOfRange := by
    intro i j value
    refine forLoopM_error_of_step _ _ _ _ self.m_Bij.length hAB ?_ ?_
    · intro k s hk
      rw [vecAt_of_lt _ _ hk]
      by_cases hB : k < self.m_Bij.length
      · rw [vecAt_of_lt _ _ hB]; exact Or.inr ⟨_, rfl⟩
      · left
        have : self.m_Bij[k]? = none := List.getElem?_eq_none (by omega)
        simp [vecAt, this, bind, Except.bind]
    · intro s
      rw [vecAt_of_lt _ _ hAB]
      have : self.m_Bij[self.m_Bij.length]? = none := List.getElem?_eq_none (le_refl _)
      simp [vecAt, this, bind, Except.bind]
  have hj : ∀ (i : Nat) (value : R),
      forLoopM thermo.nSpecies (fun j value =>
        forLoopM self.m_Aij.length (fun k value => do
          let Ak ← vecAt self.m_Aij k
          let Bk ← vecAt self.m_Bij k
          pure (value + thermo.getMoleFractions i * weights i
            * (thermo.getMoleFractions j * weights j) * Ak.value i j
            * (thermo.getMoleFractions i * weights i) ^ k
            * exp (Bk.value i j * thermo.temperature))) value) value
        = .error Error.outOfRange := by
    intro i value
    exact forLoopM_error_of_step _ _ _ _ 0 hN (fun j s _ => Or.inl (hk i j s))
      (fun s => hk i 0 s)
  refine forLoopM_error_of_step _ _ _ _ 0 hN (fun i s _ => Or.inl ?_) (fun s => ?_)
  · exact hj i _
  · exact hj 0 _

/-- A loop that has failed after `m` steps has failed after any larger number of steps. -/
theorem forLoopM_error_mono {σ : Type} (m n : Nat) (body : Nat → σ → Except Error σ) (s : σ)
    (e : Error) (hmn : m ≤ n) (h : forLoopM m body s = .error e) :
    forLoopM n body s = .error e := by
  induction n with
  | zero =>
    have : m = 0 := by omega
    subst this; exact h
  | succ n ih =>
    by_cases hm : m = n + 1
    · subst hm; exact h
    · simp only [forLoopM]
      rw [ih (by omega)]

/-- With two or more species the second store into the one-element scratch buffer fails. -/
theorem LTI_StokesEinstein_getMatrixTransProp_outOfRange {R : Type} [Field R]
    (Pi GasConstant : R) (self : LTI_StokesEinstein R) (thermo : thermo_t R)
    (mat : DenseMatrix R) (speciesValues : Nat → R) (v0 r0 v1 : LTPspecies R)
    (hN : 2 ≤ thermo.nSpecies) (hv0 : self.m_viscosity[0]? = some (some v0))
    (hr0 : self.m_hydroRadius[0]? = some (some r0))
    (hv1 : self.m_viscosity[1]? = some (some v1)) :
    LTI_StokesEinstein.getMatrixTransProp Pi GasConstant self thermo mat speciesValues
      = .error Error.outOfRange := by
  unfold LTI_StokesEinstein.getMatrixTransProp
  simp only []
  rw [forLoopM_error_mono 2 thermo.nSpecies _ _ Error.outOfRange hN (by
    simp [forLoopM, vecAt, hv0, hr0, hv1, arrayStore, deref, bind, Except.bind, pure,
      Except.pure])]
  rfl

/-! ## Copying the parameter bundle -/

/-- C21: the copy constructor of the parameter bundle fails for every source bundle with the
`CanteraError` whose message is "not implemented"; it never produces a copy. -/
theorem LiquidTransportParams_copyConstructor_not_implemented {R : Type}
    (right : LiquidTransportParams R) :
    LiquidTransportParams.copyConstructor right
        = .error (Error.CanteraError "LiquidTransportParams(const LiquidTransportParams &right)"
            "not implemented")
      ∧ ∀ copy, LiquidTransportParams.copyConstructor right ≠ .ok copy :=
  ⟨rfl, fun _ h => by cases h⟩

/-- C22 at the failing inputs: a target at address `a` assigned from a source held at the
different address `a + 1`.  The guard `&right != this` is true, so the call returns the target
as it was, copying nothing and throwing nothing; the error is thrown only when the source is
the target itself. -/
theorem LiquidTransportParams_operatorAssign_returns {R : Type}
    (self right : LiquidTransportParams R) (a : Nat) :
    LiquidTransportParams.operatorAssign self a right (a + 1) = .ok self
      ∧ LiquidTransportParams.operatorAssign self a self a
        = .error (Error.CanteraError "LiquidTransportParams(const LiquidTransportParams &right)"
            "not implemented") := by
  simp [LiquidTransportParams.operatorAssign]

/-! ## The handle forms of the weighted rules -/

/-- C28: for each of the five weighted rules and every state of the phase, the handle form
returns what the array form returns on the values and weights read from the handles, whenever
the handle list has an entry for each species. -/
theorem getMixTransProp_LTPptrs_eq_array_form {R : Type} [Field R] (exp log : R → R)
    (self : LiquidTranInteraction R) (thermo : thermo_t R) (LTPptrs : List (LTPspecies R))
    (values weights : Nat → R)
    (h : ∀ i, i < thermo.nSpecies → ∃ handle, LTPptrs[i]? = some handle
      ∧ values i = handle.getSpeciesTransProp thermo ∧ weights i = handle.getMixWeight) :
    LTI_Solvent.getMixTransProp_LTPptrs self thermo LTPptrs
        = LTI_Solvent.getMixTransProp self thermo values (some weights)
      ∧ LTI_MoleFracs.getMixTransProp_LTPptrs self thermo LTPptrs
        = LTI_MoleFracs.getMixTransProp self thermo values (some weights)
      ∧ LTI_MassFracs.getMixTransProp_LTPptrs self thermo LTPptrs
        = LTI_MassFracs.getMixTransProp self thermo values (some weights)
      ∧ LTI_Log_MoleFracs.getMixTransProp_LTPptrs exp log self thermo LTPptrs
        = LTI_Log_MoleFracs.getMixTransProp exp log self thermo values (some weights)
      ∧ LTI_MoleFracs_ExpT.getMixTransProp_LTPptrs exp self thermo LTPptrs
        = LTI_MoleFracs_ExpT.getMixTransProp exp self thermo values (some weights) :=
  ⟨LTI_Solvent_getMixTransProp_LTPptrs_eq self thermo LTPptrs values weights h,
    LTI_MoleFracs_getMixTransProp_LTPptrs_eq self thermo LTPptrs values weights h,
    LTI_MassFracs_getMixTransProp_LTPptrs_eq self thermo LTPptrs values weights h,
    LTI_Log_MoleFracs_getMixTransProp_LTPptrs_eq exp log self thermo LTPptrs values weights h,
    LTI_MoleFracs_ExpT_getMixTransProp_LTPptrs_eq exp self thermo LTPptrs values weights h⟩

/-- C28 on a two-species phase with handles of values 3 and 5 and weights 2 and 1, and a store
with one order in each family. -/
theorem getMixTransProp_LTPptrs_eq_array_form_witness :
    (∀ i, i < (binaryPhase (300 : ℚ) (1/4) (3/4) (1/2) (1/2)).nSpecies →
      ∃ handle, [({ getSpeciesTransProp := fun _ => 3, getMixWeight := 2 } : LTPspecies ℚ),
          constHandle 5][i]? = some handle
        ∧ (fun i => if i = 0 then (3 : ℚ) else 5) i
          = handle.getSpeciesTransProp (binaryPhase 300 (1/4) (3/4) (1/2) (1/2))
        ∧ (fun i => if i = 0 then (2 : ℚ) else 1) i = handle.getMixWeight)
      ∧ LTI_MoleFracs.getMixTransProp_LTPptrs
          (storeOf [constMatrix 2 7] [constMatrix 2 1] [constMatrix 2 1] [constMatrix 2 1])
          (binaryPhase (300 : ℚ) (1/4) (3/4) (1/2) (1/2))
          [{ getSpeciesTransProp := fun _ => 3, getMixWeight := 2 }, constHandle 5]
        = LTI_MoleFracs.getMixTransProp
          (storeOf [constMatrix 2 7] [constMatrix 2 1] [constMatrix 2 1] [constMatrix 2 1])
          (binaryPhase (300 : ℚ) (1/4) (3/4) (1/2) (1/2))
          (fun i => if i = 0 then 3 else 5) (some (fun i => if i = 0 then 2 else 1)) := by
  have h : ∀ i, i < (binaryPhase (300 : ℚ) (1/4) (3/4) (1/2) (1/2)).nSpecies →
      ∃ handle, [({ getSpeciesTransProp := fun _ => 3, getMixWeight := 2 } : LTPspecies ℚ),
          constHandle 5][i]? = some handle
        ∧ (fun i => if i = 0 then (3 : ℚ) else 5) i
          = handle.getSpeciesTransProp (binaryPhase 300 (1/4) (3/4) (1/2) (1/2))
        ∧ (fun i => if i = 0 then (2 : ℚ) else 1) i = handle.getMixWeight := by
    intro i hi
    have hi2 : i < 2 := hi
    interval_cases i
    · exact ⟨_, rfl, rfl, rfl⟩
    · exact ⟨_, rfl, rfl, rfl⟩
  exact ⟨h, (getMixTransProp_LTPptrs_eq_array_form (fun t => t) (fun t => t) _ _ _ _ _ h).2.1⟩

/-! ## The B lookups of the exponential-T rule -/

/-- C29: on a phase with at least one species, both forms of the exponential-T rule return a
value exactly when `m_Bij` has at least as many orders as `m_Aij` (the handle list holding an
entry for each species); when `m_Bij` is shorter, the lookup of `m_Bij[k]` for `k` below
`m_Aij.size()` leaves the vector and both forms end in `outOfRange`. -/
theorem LTI_MoleFracs_ExpT_lookups_in_bounds_iff {R : Type} [Field R] (exp : R → R)
    (self : LiquidTranInteraction R) (thermo : thermo_t R) (values weights : Nat → R)
    (LTPptrs : List (LTPspecies R)) (hN : 1 ≤ thermo.nSpecies)
    (hP : thermo.nSpecies ≤ LTPptrs.length) :
    ((∃ v, LTI_MoleFracs_ExpT.getMixTransProp exp self thermo values (some weights) = .ok v)
        ↔ self.m_Aij.length ≤ self.m_Bij.length)
      ∧ ((∃ v, LTI_MoleFracs_ExpT.getMixTransProp_LTPptrs exp self thermo LTPptrs = .ok v)
        ↔ self.m_Aij.length ≤ self.m_Bij.length)
      ∧ (self.m_Bij.length < self.m_Aij.length →
        LTI_MoleFracs_ExpT.getMixTransProp exp self thermo values (some weights)
            = .error Error.outOfRange
          ∧ LTI_MoleFracs_ExpT.getMixTransProp_LTPptrs exp self thermo LTPptrs
            = .error Error.outOfRange) := by
  have hH : ∀ i, i < thermo.nSpecies → ∃ handle, LTPptrs[i]? = some handle
      ∧ (fun i => ((LTPptrs[i]?).map (fun p => p.getSpeciesTransProp thermo)).getD 0) i
        = handle.getSpeciesTransProp thermo
      ∧ (fun i => ((LTPptrs[i]?).map (fun p => p.getMixWeight)).getD 0) i
        = handle.getMixWeight := by
    intro i hi
    have hlt : i < LTPptrs.length := by omega
    exact ⟨LTPptrs[i], List.getElem?_eq_getElem hlt, by simp [List.getElem?_eq_getElem hlt],
      by simp [List.getElem?_eq_getElem hlt]⟩
  have hE := LTI_MoleFracs_ExpT_getMixTransProp_LTPptrs_eq exp self thermo LTPptrs _ _ hH
  refine ⟨⟨fun ⟨v, hv⟩ => ?_, fun hAB => ⟨_, LTI_MoleFracs_ExpT_getMixTransProp_eq exp self
    thermo values weights hAB⟩⟩, ⟨fun ⟨v, hv⟩ => ?_, fun hAB => ⟨_, hE.trans
    (LTI_MoleFracs_ExpT_getMixTransProp_eq exp self thermo _ _ hAB)⟩⟩, fun hAB => ⟨?_, ?_⟩⟩
  · by_contra hAB
    rw [LTI_MoleFracs_ExpT_getMixTransProp_short_Bij exp self thermo values weights hN
      (by omega)] at hv
    cases hv
  · by_contra hAB
    rw [hE, LTI_MoleFracs_ExpT_getMixTransProp_short_Bij exp self thermo _ _ hN
      (by omega)] at hv
    cases hv
  · exact LTI_MoleFracs_ExpT_getMixTransProp_short_Bij exp self thermo values weights hN hAB
  · exact hE.trans (LTI_MoleFracs_ExpT_getMixTransProp_short_Bij exp self thermo _ _ hN hAB)

/-- C29 on a store configured by `init` from one entry with an `Aij` vector of length 2 and no
`Bij`: the A family has two orders, the B family none, and both forms of the query end in
`outOfRange`. -/
theorem LTI_MoleFracs_ExpT_lookups_in_bounds_iff_witness :
    ∃ store,
      LiquidTranInteraction.init (1 : ℚ) LiquidTranInteraction.new
          [xmlNode "interaction" "A" "A" (fun c => c = "Aij") 1 [1, 2]] (unitPhase ℚ)
        = .ok store
      ∧ store.m_Aij.length = 2 ∧ store.m_Bij.length = 0
      ∧ LTI_MoleFracs_ExpT.getMixTransProp (fun t => t) store (unitPhase ℚ) (fun _ => 1)
          (some (fun _ => 1)) = .error Error.outOfRange
      ∧ LTI_MoleFracs_ExpT.getMixTransProp_LTPptrs (fun t => t) store (unitPhase ℚ)
          [constHandle 1] = .error Error.outOfRange := by
  refine ⟨_, rfl, rfl, rfl, ?_⟩
  exact (LTI_MoleFracs_ExpT_lookups_in_bounds_iff (fun t => t) _ (unitPhase ℚ) (fun _ => 1)
    (fun _ => 1) [constHandle 1] (le_refl 1) (le_refl 1)).2.2 (by decide)

/-! ## The Stokes-Einstein matrix for two species or more -/

/-- C13 at the failing inputs: two different species `i`, `j` of a phase whose first two
viscosity handles and first radius handle are registered, at a temperature `T > 0` and for
nonzero constants.  On buffers that hold the `nsp` radii and viscosities the fill loops of lines
872-876 return a matrix whose entries at `(i,j)` and `(j,i)` are equal exactly when
`radius[i]·viscosity[j] = radius[j]·viscosity[i]`, as the claim says; but the call gives them
the one-element buffers of `new double(nsp)`, so with two species or more it ends in
`outOfRange` and returns no matrix whose entries could be compared. -/
theorem LTI_StokesEinstein_distinct_species_no_matrix {R : Type} [LinearOrderedField R]
    (Pi GasConstant : R) (self : LTI_StokesEinstein R) (thermo : thermo_t R)
    (mat : DenseMatrix R) (speciesValues : Nat → R) (v0 r0 v1 : LTPspecies R) (i j : Nat)
    (hi : i < thermo.nSpecies) (hj : j < thermo.nSpecies) (hij : i ≠ j)
    (hv0 : self.m_viscosity[0]? = some (some v0))
    (hr0 : self.m_hydroRadius[0]? = some (some r0))
    (hv1 : self.m_viscosity[1]? = some (some v1))
    (hPi : Pi ≠ 0) (hG : GasConstant ≠ 0) (hT : 0 < thermo.temperature) :
    LTI_StokesEinstein.getMatrixTransProp Pi GasConstant self thermo mat speciesValues
        = .error Error.outOfRange
      ∧ (∀ M, LTI_StokesEinstein.getMatrixTransProp Pi GasConstant self thermo mat speciesValues
          ≠ .ok M)
      ∧ ∀ radiusSpec viscSpec : List R, thermo.nSpecies ≤ radiusSpec.length →
          thermo.nSpecies ≤ viscSpec.length →
          ∃ M, LTI_StokesEinstein.fillMatrix Pi GasConstant thermo.temperature radiusSpec
              viscSpec thermo.nSpecies (mat.resize thermo.nSpecies thermo.nSpecies 0) = .ok M
            ∧ (M.value i j = M.value j i
              ↔ radiusSpec.getD i 0 * viscSpec.getD j 0
                = radiusSpec.getD j 0 * viscSpec.getD i 0)
            ∧ (radiusSpec.getD i 0 * viscSpec.getD j 0
                ≠ radiusSpec.getD j 0 * viscSpec.getD i 0 → M.value i j ≠ M.value j i) := by
  have hN : 2 ≤ thermo.nSpecies := by omega
  have herr := LTI_StokesEinstein_getMatrixTransProp_outOfRange Pi GasConstant self thermo mat
    speciesValues v0 r0 v1 hN hv0 hr0 hv1
  refine ⟨herr, fun M h => ?_, fun radiusSpec viscSpec hr hv => ?_⟩
  · rw [herr] at h
    cases h
  · obtain ⟨M, hM, hval⟩ := fillMatrix_symmetric_iff Pi GasConstant
      thermo.temperature radiusSpec viscSpec thermo.nSpecies
      (mat.resize thermo.nSpecies thermo.nSpecies 0) hr hv hPi hG hT
    exact ⟨M, hM, hval i j hi hj⟩

/-- C13 on a two-species phase at 300 K with viscosities 1 and 1 and radii 1 and 2, for the
species 0 and 1: the products `1·1` and `2·1` differ, the fill loops on the buffers `[1, 2]` and
`[1, 1]` give different entries at `(0,1)` and `(1,0)`, and the call ends in `outOfRange`. -/
theorem LTI_StokesEinstein_distinct_species_no_matrix_witness :
    LTI_StokesEinstein.getMatrixTransProp (3 : ℚ) 8
        { toLiquidTranInteraction := LiquidTranInteraction.new,
          m_viscosity := [some (constHandle 1), some (constHandle 1)],
          m_hydroRadius := [some (constHandle 1), some (constHandle 2)] }
        (binaryPhase 300 (1/4) (3/4) (1/2) (1/2)) DenseMatrix.empty (fun _ => 0)
      = .error Error.outOfRange
      ∧ ∃ M, LTI_StokesEinstein.fillMatrix (3 : ℚ) 8 300 [1, 2] [1, 1] 2
          (DenseMatrix.empty.resize 2 2 0) = .ok M
        ∧ M.value 0 1 ≠ M.value 1 0 := by
  obtain ⟨herr, -, hfill⟩ := LTI_StokesEinstein_distinct_species_no_matrix (3 : ℚ) 8
    { toLiquidTranInteraction := LiquidTranInteraction.new,
      m_viscosity := [some (constHandle 1), some (constHandle 1)],
      m_hydroRadius := [some (constHandle 1), some (constHandle 2)] }
    (binaryPhase 300 (1/4) (3/4) (1/2) (1/2)) DenseMatrix.empty (fun _ => 0) (constHandle 1)
    (constHandle 1) (constHandle 1) 0 1 (by decide) (by decide) (by decide) rfl rfl rfl
    (by norm_num) (by norm_num) (by show (0 : ℚ) < 300; norm_num)
  obtain ⟨M, hM, -, hne⟩ := hfill [1, 2] [1, 1] (by decide) (by decide)
  exact ⟨herr, M, hM, hne (by norm_num)⟩

/-! ## The scratch buffers of the Stokes-Einstein matrix -/

/-- C30 at the failing inputs: any phase with two or more species whose first two viscosity
handles and first radius handle are registered.  The scratch buffers hold one `double` each,
so the store `viscSpec[1]` is outside the allocation and the call ends in `outOfRange`. -/
theorem LTI_StokesEinstein_scratch_buffers_hold_one {R : Type} [Field R]
    (Pi GasConstant : R) (self : LTI_StokesEinstein R) (thermo : thermo_t R)
    (mat : DenseMatrix R) (speciesValues : Nat → R) (v0 r0 v1 : LTPspecies R)
    (hN : 2 ≤ thermo.nSpecies) (hv0 : self.m_viscosity[0]? = some (some v0))
    (hr0 : self.m_hydroRadius[0]? = some (some r0))
    (hv1 : self.m_viscosity[1]? = some (some v1)) :
    LTI_StokesEinstein.getMatrixTransProp Pi GasConstant self thermo mat speciesValues
      = .error Error.outOfRange :=
  LTI_StokesEinstein_getMatrixTransProp_outOfRange Pi GasConstant self thermo mat speciesValues
    v0 r0 v1 hN hv0 hr0 hv1

/-- C30 on a three-species phase with all six handles registered. -/
theorem LTI_StokesEinstein_scratch_buffers_hold_one_witness :
    2 ≤ (ternaryPhase (300 : ℚ) (1/4) (1/4) (1/2) 1).nSpecies
      ∧ LTI_StokesEinstein.getMatrixTransProp (3 : ℚ) 8
          { toLiquidTranInteraction := LiquidTranInteraction.new,
            m_viscosity := [some (constHandle 3), some (constHandle 5), some (constHandle 7)],
            m_hydroRadius := [some (constHandle 2), some (constHandle 4),
              some (constHandle 6)] }
          (ternaryPhase 300 (1/4) (1/4) (1/2) 1) DenseMatrix.empty (fun _ => 0)
        = .error Error.outOfRange :=
  ⟨by decide, LTI_StokesEinstein_scratch_buffers_hold_one 3 8 _ _ _ _ (constHandle 3)
    (constHandle 2) (constHandle 5) (by decide) rfl rfl rfl⟩

/-! ## The ternary ion solver: checks, dissociation pattern, names -/

/-- The checks of the phase either pass, all four conditions holding, or throw the
`CanteraError` of the first failed condition.  The cations listed are indices into `charges`. -/
theorem checkSystem_cases {R : Type} [LinearOrderedField R] [FloorRing R]
    (ions_thermo : IonsFromNeutralVPSSTP R)
    (hwf : ∀ c, c ∈ ions_thermo.getCationList → c < ions_thermo.getDissociationCoeffs.2.length) :
    (TernarySystem ions_thermo ∧ LTI_StefanMaxwell_PPN.checkSystem ions_thermo = .ok ())
      ∨ (¬ TernarySystem ions_thermo ∧ ∃ msg, msg ∈
          ["Function may only be called with a 3-ion system",
            "Must have one anion only for StefanMaxwell_PPN",
            "Must have two cations of equal charge for StefanMaxwell_PPN",
            "Cations must be of equal charge for StefanMaxwell_PPN"]
        ∧ LTI_StefanMaxwell_PPN.checkSystem ions_thermo
          = .error (Error.CanteraError "LTI_StefanMaxwell_PPN::getMatrixTransProp" msg)) := by
  unfold LTI_StefanMaxwell_PPN.checkSystem TernarySystem
  by_cases h1 : ions_thermo.nSpecies = 3
  · by_cases h2 : ions_thermo.getAnionList.length = 1
    · by_cases h3 : ions_thermo.getCationList.length = 2
      · obtain ⟨c0, c1, hc⟩ : ∃ c0 c1, ions_thermo.getCationList = [c0, c1] := by
          match hl : ions_thermo.getCationList, h3 with
          | [c0, c1], _ => exact ⟨c0, c1, rfl⟩
        have h0 := hwf c0 (by simp [hc])
        have h1' := hwf c1 (by simp [hc])
        by_cases h4 : ions_thermo.getDissociationCoeffs.2[c0]
            = ions_thermo.getDissociationCoeffs.2[c1]
        · left
          simp [h1, h2, h3, hc, vecAt, List.getElem?_eq_getElem h0,
            List.getElem?_eq_getElem h1', h4, bind, Except.bind, pure, Except.pure]
        · right
          simp [h1, h2, h3, hc, vecAt, List.getElem?_eq_getElem h0,
            List.getElem?_eq_getElem h1', h4, bind, Except.bind]
      · right; simp [h1, h2, h3]
    · right; simp [h1, h2]
  · right; simp [h1]


/-- The matrix query of the ternary ion solver as the chain of its stages. -/
theorem getMatrixTransProp_stages {R : Type} [LinearOrderedField R] [FloorRing R]
    (Faraday GasConstant : R) (self : LTI_StefanMaxwell_PPN R)
    (ions_thermo : IonsFromNeutralVPSSTP R) (mat : DenseMatrix R) (speciesValues : Nat → R) :
    LTI_StefanMaxwell_PPN.getMatrixTransProp Faraday GasConstant self ions_thermo mat
        speciesValues
      = (LTI_StefanMaxwell_PPN.checkSystem ions_thermo >>= fun _ =>
          deref self.m_ionCondMixModel >>= fun m_ionCondMixModel =>
          m_ionCondMixModel.getMixTransProp_LTPptrs ions_thermo.tothermo_t
            self.m_ionCondSpecies >>= fun m_ionCondMix =>
          forLoopM (ions_thermo.nSpecies * (ions_thermo.nSpecies - 1) / 2)
            (fun k m_mobRatMix => LTI_StefanMaxwell_PPN.mobilityRatio self
              ions_thermo.tothermo_t ions_thermo.getSpeciesNames ions_thermo.nSpecies k
              m_mobRatMix) self.m_mobRatMix >>= fun m_mobRatMix =>
          LTI_StefanMaxwell_PPN.selfDiffusion self ions_thermo.tothermo_t
            ions_thermo.getSpeciesNames ions_thermo.nSpecies self.m_selfDiffMix
            >>= fun m_selfDiffMix =>
          LTI_StefanMaxwell_PPN.assemble Faraday GasConstant ions_thermo m_ionCondMix
            m_mobRatMix m_selfDiffMix mat >>= fun mat =>
          pure ({ self with m_ionCondMix := m_ionCondMix, m_mobRatMix := m_mobRatMix,
                            m_selfDiffMix := m_selfDiffMix }, mat)) := rfl

/-- A failed check of the phase is the outcome of the matrix query. -/
theorem getMatrixTransProp_of_checkSystem_error {R : Type} [LinearOrderedField R]
    [FloorRing R] (Faraday GasConstant : R) (self : LTI_StefanMaxwell_PPN R)
    (ions_thermo : IonsFromNeutralVPSSTP R) (mat : DenseMatrix R) (speciesValues : Nat → R)
    (e : Error) (h : LTI_StefanMaxwell_PPN.checkSystem ions_thermo = .error e) :
    LTI_StefanMaxwell_PPN.getMatrixTransProp Faraday GasConstant self ions_thermo mat
      speciesValues = .error e := by
  rw [getMatrixTransProp_stages, h]; rfl

/-- The stages of a matrix query that returned: each of them returned, and the object differs
from the one before the call in the three members the stages write. -/
theorem getMatrixTransProp_ok_inv {R : Type} [LinearOrderedField R] [FloorRing R]
    (Faraday GasConstant : R) (self : LTI_StefanMaxwell_PPN R)
    (ions_thermo : IonsFromNeutralVPSSTP R) (mat : DenseMatrix R) (speciesValues : Nat → R)
    (result : LTI_StefanMaxwell_PPN R × DenseMatrix R)
    (h : LTI_StefanMaxwell_PPN.getMatrixTransProp Faraday GasConstant self ions_thermo mat
      speciesValues = .ok result) :
    LTI_StefanMaxwell_PPN.checkSystem ions_thermo = .ok ()
      ∧ (∃ model, self.m_ionCondMixModel = some model
        ∧ model.getMixTransProp_LTPptrs ions_thermo.tothermo_t self.m_ionCondSpecies
          = .ok result.1.m_ionCondMix)
      ∧ forLoopM (ions_thermo.nSpecies * (ions_thermo.nSpecies - 1) / 2)
          (fun k m_mobRatMix => LTI_StefanMaxwell_PPN.mobilityRatio self
            ions_thermo.tothermo_t ions_thermo.getSpeciesNames ions_thermo.nSpecies k
            m_mobRatMix) self.m_mobRatMix = .ok result.1.m_mobRatMix
      ∧ LTI_StefanMaxwell_PPN.selfDiffusion self ions_thermo.tothermo_t
          ions_thermo.getSpeciesNames ions_thermo.nSpecies self.m_selfDiffMix
        = .ok result.1.m_selfDiffMix
      ∧ LTI_StefanMaxwell_PPN.assemble Faraday GasConstant ions_thermo result.1.m_ionCondMix
          result.1.m_mobRatMix result.1.m_selfDiffMix mat = .ok result.2
      ∧ result.1 = { self with m_ionCondMix := result.1.m_ionCondMix,
                               m_mobRatMix := result.1.m_mobRatMix,
                               m_selfDiffMix := result.1.m_selfDiffMix } := by
  rw [getMatrixTransProp_stages] at h
  cases h1 : LTI_StefanMaxwell_PPN.checkSystem ions_thermo with
  | error e => rw [h1] at h; cases h
  | ok u =>
    rw [h1] at h
    cases h2 : self.m_ionCondMixModel with
    | none => rw [h2] at h; cases h
    | some model =>
      rw [h2] at h
      simp only [deref, bind, Except.bind] at h
      cases h3 : model.getMixTransProp_LTPptrs ions_thermo.tothermo_t self.m_ionCondSpecies with
      | error e => rw [h3] at h; cases h
      | ok m_ionCondMix =>
        rw [h3] at h
        simp only [] at h
        cases h4 : forLoopM (ions_thermo.nSpecies * (ions_thermo.nSpecies - 1) / 2)
            (fun k m_mobRatMix => LTI_StefanMaxwell_PPN.mobilityRatio self
              ions_thermo.tothermo_t ions_thermo.getSpeciesNames ions_thermo.nSpecies k
              m_mobRatMix) self.m_mobRatMix with
        | error e => rw [h4] at h; cases h
        | ok m_mobRatMix =>
          rw [h4] at h
          simp only [] at h
          cases h5 : LTI_StefanMaxwell_PPN.selfDiffusion self ions_thermo.tothermo_t
              ions_thermo.getSpeciesNames ions_thermo.nSpecies self.m_selfDiffMix with
          | error e => rw [h5] at h; cases h
          | ok m_selfDiffMix =>
            rw [h5] at h
            simp only [] at h
            cases h6 : LTI_StefanMaxwell_PPN.assemble Faraday GasConstant ions_thermo
                m_ionCondMix m_mobRatMix m_selfDiffMix mat with
            | error e => rw [h6] at h; cases h
            | ok mat1 =>
              rw [h6] at h
              simp only [pure, Except.pure] at h
              cases h
              exact ⟨rfl, ⟨model, rfl, h3⟩, rfl, rfl, h6, rfl⟩

/-- C23: the matrix query of the ternary ion solver throws its `CanteraError` with the message
of the first failed check when the phase does not have 3 species, or not exactly one anion, or
not exactly two cations, or cations of different charge; the checks are passed exactly when all
four conditions hold, and a query that returns has passed them.  The cations listed are taken to
be indices into `charges`. -/
theorem LTI_StefanMaxwell_PPN_getMatrixTransProp_validation {R : Type} [LinearOrderedField R]
    [FloorRing R] (Faraday GasConstant : R) (self : LTI_StefanMaxwell_PPN R)
    (ions_thermo : IonsFromNeutralVPSSTP R) (mat : DenseMatrix R) (speciesValues : Nat → R)
    (hwf : ∀ c, c ∈ ions_thermo.getCationList →
      c < ions_thermo.getDissociationCoeffs.2.length) :
    (¬ TernarySystem ions_thermo → ∃ msg, msg ∈
          ["Function may only be called with a 3-ion system",
            "Must have one anion only for StefanMaxwell_PPN",
            "Must have two cations of equal charge for StefanMaxwell_PPN",
            "Cations must be of equal charge for StefanMaxwell_PPN"]
        ∧ LTI_StefanMaxwell_PPN.getMatrixTransProp Faraday GasConstant self ions_thermo mat
            speciesValues
          = .error (Error.CanteraError "LTI_StefanMaxwell_PPN::getMatrixTransProp" msg))
      ∧ (LTI_StefanMaxwell_PPN.checkSystem ions_thermo = .ok () ↔ TernarySystem ions_thermo)
      ∧ (∀ result, LTI_StefanMaxwell_PPN.getMatrixTransProp Faraday GasConstant self
            ions_thermo mat speciesValues = .ok result → TernarySystem ions_thermo) := by
  have hc := checkSystem_cases ions_thermo hwf
  refine ⟨fun hn => ?_, ⟨fun h => ?_, fun h => ?_⟩, fun result h => ?_⟩
  · rcases hc with ⟨ht, _⟩ | ⟨_, msg, hm, he⟩
    · exact absurd ht hn
    · exact ⟨msg, hm, getMatrixTransProp_of_checkSystem_error _ _ _ _ _ _ _ he⟩
  · rcases hc with ⟨ht, _⟩ | ⟨_, msg, _, he⟩
    · exact ht
    · rw [he] at h; cases h
  · rcases hc with ⟨_, hok⟩ | ⟨hn, _⟩
    · exact hok
    · exact absurd h hn
  · have h1 := (getMatrixTransProp_ok_inv _ _ _ _ _ _ _ h).1
    rcases hc with ⟨ht, _⟩ | ⟨_, msg, _, he⟩
    · exact ht
    · rw [he] at h1; cases h1


/-- A sequence of two steps returns exactly when both steps return. -/
theorem Except_bind_eq_ok {α β : Type} (x : Except Error α) (f : α → Except Error β) (b : β) :
    (x >>= f) = .ok b ↔ ∃ a, x = .ok a ∧ f a = .ok b := by
  cases x with
  | error e => simp [bind, Except.bind]
  | ok a => simp [bind, Except.bind]

/-- The lookup `v[k]` returns `a` exactly when `a` is the element at position `k`. -/
theorem vecAt_eq_ok {α : Type} (v : List α) (k : Nat) (a : α) :
    vecAt v k = .ok a ↔ v[k]? = some a := by
  unfold vecAt
  cases h : v[k]? with
  | none => simp
  | some b => simp

/-- The lookup `v[k]` of an element that is there. -/
theorem vecAt_of_getElem? {α : Type} (v : List α) (k : Nat) (a : α) (h : v[k]? = some a) :
    vecAt v k = .ok a := (vecAt_eq_ok v k a).2 h

/-- The lookup `v[k]` returns an element or is out of range. -/
theorem vecAt_cases {α : Type} (v : List α) (k : Nat) :
    vecAt v k = .error Error.outOfRange ∨ ∃ a, vecAt v k = .ok a := by
  unfold vecAt
  cases v[k]? with
  | none => exact Or.inl rfl
  | some a => exact Or.inr ⟨a, rfl⟩

/-- The dissociation pattern for two cations whose four coefficients are in `viS`. -/
theorem cationIndex_eq {R : Type} [LinearOrderedField R] [FloorRing R] (nsp : Nat)
    (viS : List R) (c0 c1 : Nat) (v00 v01 v10 v11 : R)
    (h00 : viS[c0]? = some v00) (h01 : viS[c1]? = some v01)
    (h10 : viS[nsp + c0]? = some v10) (h11 : viS[nsp + c1]? = some v11) :
    LTI_StefanMaxwell_PPN.cationIndex nsp viS [c0, c1]
      = .ok (String.mk [patternChar v00, patternChar v01, patternChar v10, patternChar v11]) := by
  unfold LTI_StefanMaxwell_PPN.cationIndex
  simp only [forLoopM, vecAt, List.getElem?_cons_zero, List.getElem?_cons_succ, bind,
    Except.bind, Nat.zero_mul, Nat.zero_add, Nat.one_mul, h00, h01, h10, h11, patternChar]
  split_ifs <;> rfl

/-- An `int` division by zero. -/
theorem intDiv_zero (a : Int) : intDiv a 0 = .error Error.divideByZero := by
  simp [intDiv]

/-- The `int` division `INT_MIN / -1`. -/
theorem intDiv_INT_MIN_neg_one : intDiv INT_MIN (-1) = .error Error.divideOverflow := by
  unfold intDiv
  rw [if_neg (by decide), if_pos ⟨rfl, rfl⟩]

/-- An `int` division with a divisor other than zero and a quotient that is an `int`. -/
theorem intDiv_eq_ok (a b : Int) (hb : b ≠ 0) (h : ¬ (a = INT_MIN ∧ b = -1)) :
    intDiv a b = .ok (Int.tdiv a b) := by
  unfold intDiv
  rw [if_neg hb, if_neg h]

/-- The matrix assignments fail only in an `int` division, by a zero divisor or by the
quotient `INT_MIN / -1`. -/
theorem fillMatrix_cases {R : Type} [LinearOrderedField R] [FloorRing R]
    (Faraday GasConstant temp m_ionCondMix vol : R) (vP vM zP zM : Int)
    (eps xA xB inv : R) (c0 c1 a0 nsp : Nat) (mat : DenseMatrix R) :
    LTI_StefanMaxwell_PPN.fillMatrix Faraday GasConstant temp m_ionCondMix vol vP vM zP zM eps
        xA xB inv c0 c1 a0 nsp mat = .error Error.divideByZero
      ∨ LTI_StefanMaxwell_PPN.fillMatrix Faraday GasConstant temp m_ionCondMix vol vP vM zP zM
        eps xA xB inv c0 c1 a0 nsp mat = .error Error.divideOverflow
      ∨ ∃ M, LTI_StefanMaxwell_PPN.fillMatrix Faraday GasConstant temp m_ionCondMix vol vP vM zP
        zM eps xA xB inv c0 c1 a0 nsp mat = .ok M := by
  unfold LTI_StefanMaxwell_PPN.fillMatrix
  by_cases hP : vP = 0
  · left
    subst hP
    simp only [intDiv_zero, bind, Except.bind]
  by_cases h1 : vM = INT_MIN ∧ vP = -1
  · right; left
    obtain ⟨e1, e2⟩ := h1
    subst e1 e2
    simp only [intDiv_INT_MIN_neg_one, bind, Except.bind]
  rw [intDiv_eq_ok vM vP hP h1]
  by_cases hM : vM = 0
  · left
    subst hM
    simp only [intDiv_zero, bind, Except.bind]
  by_cases h2 : vP = INT_MIN ∧ vM = -1
  · right; left
    obtain ⟨e1, e2⟩ := h2
    subst e1 e2
    simp only [intDiv_INT_MIN_neg_one, bind, Except.bind]
  · right; right
    rw [intDiv_eq_ok vP vM hM h2]
    exact ⟨_, rfl⟩

/-- The stage of lines 776-806 once its lookups up to the pattern are known: the pattern decides
between the error and the rest of the stage, and the rest throws no `CanteraError`. -/
theorem assemble_pattern {R : Type} [LinearOrderedField R] [FloorRing R]
    (Faraday GasConstant : R) (ions_thermo : IonsFromNeutralVPSSTP R) (m_ionCondMix : R)
    (m_mobRatMix : DenseMatrix R) (m_selfDiffMix : List R) (mat : DenseMatrix R)
    (c0 c1 a0 : Nat) (v0 v1 va z0 za : R) (p : String)
    (hc : ions_thermo.getCationList = [c0, c1]) (ha : ions_thermo.getAnionList = [a0])
    (hv0 : ions_thermo.getDissociationCoeffs.1[c0]? = some v0)
    (hv1 : ions_thermo.getDissociationCoeffs.1[c1]? = some v1)
    (hva : ions_thermo.getDissociationCoeffs.1[a0]? = some va)
    (hz0 : ions_thermo.getDissociationCoeffs.2[c0]? = some z0)
    (hza : ions_thermo.getDissociationCoeffs.2[a0]? = some za)
    (hp : LTI_StefanMaxwell_PPN.cationIndex ions_thermo.nSpecies
      ions_thermo.getDissociationCoeffs.1 ions_thermo.getCationList = .ok p) :
    (¬ (p = "1001" ∨ p = "0110") →
        LTI_StefanMaxwell_PPN.assemble Faraday GasConstant ions_thermo m_ionCondMix m_mobRatMix
          m_selfDiffMix mat
        = .error (Error.CanteraError "LTI_StefanMaxwell_PPN::getMixTransProp"
            ("Dissociation reactions don't make sense: cationIndex = " ++ p)))
      ∧ ((p = "1001" ∨ p = "0110") →
        LTI_StefanMaxwell_PPN.assemble Faraday GasConstant ions_thermo m_ionCondMix m_mobRatMix
            m_selfDiffMix mat = .error Error.outOfRange
          ∨ LTI_StefanMaxwell_PPN.assemble Faraday GasConstant ions_thermo m_ionCondMix
            m_mobRatMix m_selfDiffMix mat = .error Error.divideByZero
          ∨ LTI_StefanMaxwell_PPN.assemble Faraday GasConstant ions_thermo m_ionCondMix
            m_mobRatMix m_selfDiffMix mat = .error Error.divideOverflow
          ∨ ∃ M, LTI_StefanMaxwell_PPN.assemble Faraday GasConstant ions_thermo m_ionCondMix
            m_mobRatMix m_selfDiffMix mat = .ok M) := by
  have hc0 : ions_thermo.getCationList[0]? = some c0 := by rw [hc]; rfl
  have hc1 : ions_thermo.getCationList[1]? = some c1 := by rw [hc]; rfl
  have ha0 : ions_thermo.getAnionList[0]? = some a0 := by rw [ha]; rfl
  have hA : LTI_StefanMaxwell_PPN.assemble Faraday GasConstant ions_thermo m_ionCondMix
      m_mobRatMix m_selfDiffMix mat
      = if p = "1001" ∨ p = "0110" then
          (vecAt ions_thermo.getNeutralMolecMoleFractions c0 >>= fun xA =>
            vecAt ions_thermo.getNeutralMolecMoleFractions c1 >>= fun xB =>
            vecAt ((List.range ions_thermo.getNeutralMolecMoleFractions.length).map
              ions_thermo.getdlnActCoeffdlnN) c1 >>= fun d1 =>
            vecAt m_selfDiffMix c1 >>= fun s1 =>
            vecAt ((List.range ions_thermo.getNeutralMolecMoleFractions.length).map
              ions_thermo.getdlnActCoeffdlnN) c0 >>= fun d0 =>
            vecAt m_selfDiffMix c0 >>= fun s0 =>
            LTI_StefanMaxwell_PPN.fillMatrix Faraday GasConstant ions_thermo.temperature
              m_ionCondMix ions_thermo.molarVolume (doubleToInt (max v0 v1)) (doubleToInt va)
              (doubleToInt z0) (doubleToInt za)
              ((1 - m_mobRatMix.value c1 c0) / (xA + xB * m_mobRatMix.value c1 c0)) xA xB
              (xA * (1 + d1) / s1 + xB * (1 + d0) / s0) c0 c1 a0 ions_thermo.nSpecies mat)
        else .error (Error.CanteraError "LTI_StefanMaxwell_PPN::getMixTransProp"
            ("Dissociation reactions don't make sense: cationIndex = " ++ p)) := by
    unfold LTI_StefanMaxwell_PPN.assemble
    simp only [vecAt_of_getElem? _ _ _ hc0, vecAt_of_getElem? _ _ _ hc1,
      vecAt_of_getElem? _ _ _ ha0, vecAt_of_getElem? _ _ _ hv0, vecAt_of_getElem? _ _ _ hv1,
      vecAt_of_getElem? _ _ _ hva, vecAt_of_getElem? _ _ _ hz0, vecAt_of_getElem? _ _ _ hza, hp,
      bind, Except.bind]
  rw [hA]
  refine ⟨fun hn => by rw [if_neg hn], fun hy => ?_⟩
  rw [if_pos hy]
  rcases vecAt_cases ions_thermo.getNeutralMolecMoleFractions c0 with e | ⟨xA, e⟩
  · left; rw [e]; rfl
  rw [e]
  rcases vecAt_cases ions_thermo.getNeutralMolecMoleFractions c1 with e | ⟨xB, e⟩
  · left; rw [e]; rfl
  rw [e]
  rcases vecAt_cases ((List.range ions_thermo.getNeutralMolecMoleFractions.length).map
    ions_thermo.getdlnActCoeffdlnN) c1 with e | ⟨d1, e⟩
  · left; rw [e]; rfl
  rw [e]
  rcases vecAt_cases m_selfDiffMix c1 with e | ⟨s1, e⟩
  · left; rw [e]; rfl
  rw [e]
  rcases vecAt_cases ((List.range ions_thermo.getNeutralMolecMoleFractions.length).map
    ions_thermo.getdlnActCoeffdlnN) c0 with e | ⟨d0, e⟩
  · left; rw [e]; rfl
  rw [e]
  rcases vecAt_cases m_selfDiffMix c0 with e | ⟨s0, e⟩
  · left; rw [e]; rfl
  rw [e]
  right
  exact fillMatrix_cases _ _ _ _ _ _ _ _ _ _ _ _ _ _ _ _ _ _


/-- A failure of the last stage is the outcome of the matrix query whose earlier stages
returned. -/
theorem getMatrixTransProp_of_assemble_error {R : Type} [LinearOrderedField R] [FloorRing R]
    (Faraday GasConstant : R) (self : LTI_StefanMaxwell_PPN R)
    (ions_thermo : IonsFromNeutralVPSSTP R) (mat : DenseMatrix R) (speciesValues : Nat → R)
    (model : MixingRule R) (m_ionCondMix : R) (m_mobRatMix : DenseMatrix R)
    (m_selfDiffMix : List R) (e : Error)
    (h1 : LTI_StefanMaxwell_PPN.checkSystem ions_thermo = .ok ())
    (h2 : self.m_ionCondMixModel = some model)
    (h3 : model.getMixTransProp_LTPptrs ions_thermo.tothermo_t self.m_ionCondSpecies
      = .ok m_ionCondMix)
    (h4 : forLoopM (ions_thermo.nSpecies * (ions_thermo.nSpecies - 1) / 2)
      (fun k m_mobRatMix => LTI_StefanMaxwell_PPN.mobilityRatio self ions_thermo.tothermo_t
        ions_thermo.getSpeciesNames ions_thermo.nSpecies k m_mobRatMix) self.m_mobRatMix
      = .ok m_mobRatMix)
    (h5 : LTI_StefanMaxwell_PPN.selfDiffusion self ions_thermo.tothermo_t
      ions_thermo.getSpeciesNames ions_thermo.nSpecies self.m_selfDiffMix = .ok m_selfDiffMix)
    (h6 : LTI_StefanMaxwell_PPN.assemble Faraday GasConstant ions_thermo m_ionCondMix
      m_mobRatMix m_selfDiffMix mat = .error e) :
    LTI_StefanMaxwell_PPN.getMatrixTransProp Faraday GasConstant self ions_thermo mat
      speciesValues = .error e := by
  unfold LTI_StefanMaxwell_PPN.getMatrixTransProp
  simp only [h1, h2, deref, h3, h4, h5, h6, bind, Except.bind]

/-- C24: for a phase of three species with cations `c0`, `c1` and anion `a0` (indices below 3
into the six coefficients `viS` and the three `charges`), the dissociation pattern is a string
of four characters, character `i*2+j` being `1` exactly when `viS[i*3 + cation[j]] > 0` and `0`
otherwise; the stage throws its `CanteraError` exactly when the pattern is neither `1001` nor
`0110`, with the pattern in the message, and so does the matrix query whose earlier stages
returned. -/
theorem LTI_StefanMaxwell_PPN_dissociation_pattern {R : Type} [LinearOrderedField R]
    [FloorRing R] (Faraday GasConstant : R) (ions_thermo : IonsFromNeutralVPSSTP R)
    (m_ionCondMix : R) (m_mobRatMix : DenseMatrix R) (m_selfDiffMix : List R)
    (mat : DenseMatrix R) (c0 c1 a0 : Nat) (hN : ions_thermo.nSpecies = 3)
    (hc : ions_thermo.getCationList = [c0, c1]) (ha : ions_thermo.getAnionList = [a0])
    (hc0 : c0 < 3) (hc1 : c1 < 3) (ha0 : a0 < 3)
    (hviS : ions_thermo.getDissociationCoeffs.1.length = 6)
    (hcharges : ions_thermo.getDissociationCoeffs.2.length = 3) :
    ∃ p, LTI_StefanMaxwell_PPN.cationIndex ions_thermo.nSpecies
          ions_thermo.getDissociationCoeffs.1 ions_thermo.getCationList = .ok p
      ∧ p.length = 4
      ∧ (∀ i j, i < 2 → j < 2 →
          (p.data[i * 2 + j]? = some '1'
            ↔ ions_thermo.getDissociationCoeffs.1.getD (i * 3 + [c0, c1].getD j 0) 0 > 0)
          ∧ (p.data[i * 2 + j]? = some '0'
            ↔ ¬ ions_thermo.getDissociationCoeffs.1.getD (i * 3 + [c0, c1].getD j 0) 0 > 0))
      ∧ ((∃ msg, LTI_StefanMaxwell_PPN.assemble Faraday GasConstant ions_thermo m_ionCondMix
            m_mobRatMix m_selfDiffMix mat
          = .error (Error.CanteraError "LTI_StefanMaxwell_PPN::getMixTransProp" msg))
        ↔ ¬ (p = "1001" ∨ p = "0110"))
      ∧ (¬ (p = "1001" ∨ p = "0110") →
        LTI_StefanMaxwell_PPN.assemble Faraday GasConstant ions_thermo m_ionCondMix m_mobRatMix
            m_selfDiffMix mat
          = .error (Error.CanteraError "LTI_StefanMaxwell_PPN::getMixTransProp"
              ("Dissociation reactions don't make sense: cationIndex = " ++ p))
        ∧ ∀ (self : LTI_StefanMaxwell_PPN R) (speciesValues : Nat → R) (model : MixingRule R),
          LTI_StefanMaxwell_PPN.checkSystem ions_thermo = .ok () →
          self.m_ionCondMixModel = some model →
          model.getMixTransProp_LTPptrs ions_thermo.tothermo_t self.m_ionCondSpecies
            = .ok m_ionCondMix →
          forLoopM (ions_thermo.nSpecies * (ions_thermo.nSpecies - 1) / 2)
            (fun k m_mobRatMix => LTI_StefanMaxwell_PPN.mobilityRatio self
              ions_thermo.tothermo_t ions_thermo.getSpeciesNames ions_thermo.nSpecies k
              m_mobRatMix) self.m_mobRatMix = .ok m_mobRatMix →
          LTI_StefanMaxwell_PPN.selfDiffusion self ions_thermo.tothermo_t
            ions_thermo.getSpeciesNames ions_thermo.nSpecies self.m_selfDiffMix
            = .ok m_selfDiffMix →
          LTI_StefanMaxwell_PPN.getMatrixTransProp Faraday GasConstant self ions_thermo mat
              speciesValues
            = .error (Error.CanteraError "LTI_StefanMaxwell_PPN::getMixTransProp"
                ("Dissociation reactions don't make sense: cationIndex = " ++ p))) := by
  have hg : ∀ (l : List R) (k : Nat), k < l.length → l[k]? = some (l.getD k 0) := by
    intro l k hk
    simp [List.getD_eq_getElem?_getD, List.getElem?_eq_getElem hk]
  have hp := cationIndex_eq ions_thermo.nSpecies ions_thermo.getDissociationCoeffs.1 c0 c1 _ _
    _ _ (hg _ c0 (by omega)) (hg _ c1 (by omega)) (hg _ (ions_thermo.nSpecies + c0) (by omega))
    (hg _ (ions_thermo.nSpecies + c1) (by omega))
  rw [← hc] at hp
  have hA := assemble_pattern Faraday GasConstant ions_thermo m_ionCondMix m_mobRatMix
    m_selfDiffMix mat c0 c1 a0 _ _ _ _ _ _ hc ha (hg _ c0 (by omega)) (hg _ c1 (by omega))
    (hg _ a0 (by omega)) (hg _ c0 (by omega)) (hg _ a0 (by omega)) hp
  refine ⟨_, hp, rfl, ?_, ⟨fun ⟨msg, hm⟩ hy => ?_, fun hn => ⟨_, hA.1 hn⟩⟩, fun hn =>
    ⟨hA.1 hn, fun self speciesValues model h1 h2 h3 h4 h5 =>
      getMatrixTransProp_of_assemble_error _ _ _ _ _ _ _ _ _ _ _ h1 h2 h3 h4 h5 (hA.1 hn)⟩⟩
  · intro i j hi hj
    interval_cases i <;> interval_cases j <;>
      simp only [patternChar, hN, List.getD_cons_zero, List.getD_cons_succ, Nat.zero_mul,
        Nat.zero_add, Nat.one_mul, Nat.add_zero, List.getElem?_cons_zero,
        List.getElem?_cons_succ] <;>
      split_ifs with h <;> simp [h, -List.getD_eq_getElem?_getD]
  · rcases hA.2 hy with e | e | e | ⟨M, e⟩ <;> rw [e] at hm <;> cases hm



/-- One pass of the pair loops for the mobility ratio `k` whose sub-model returns: a pair one of
whose two names `a:b`, `b:a` is the configured name clears `missingIndex` and leaves the loop
over `j`; any other pair changes nothing. -/
theorem mobilityRatioPair_spec {R : Type} [LinearOrderedField R] [FloorRing R]
    (self : LTI_StefanMaxwell_PPN R) (thermo : thermo_t R) (speciesNames : List String)
    (k i j : Nat) (a b index : String) (model : MixingRule R) (species : List (LTPspecies R))
    (value : R) (hi : speciesNames[i]? = some a) (hj : speciesNames[j]? = some b)
    (hx : self.m_mobRatIndex[k]? = some index)
    (hm : self.m_mobRatMixModel[k]? = some (some model))
    (hs : self.m_mobRatSpecies[k]? = some species)
    (hv : model.getMixTransProp_LTPptrs thermo species = .ok value)
    (state : Bool × DenseMatrix R) :
    ((a ++ ":" ++ b = index ∨ b ++ ":" ++ a = index) →
        ∃ M, LTI_StefanMaxwell_PPN.mobilityRatioPair self thermo speciesNames k i j state
          = .ok (true, false, M))
      ∧ (¬ (a ++ ":" ++ b = index ∨ b ++ ":" ++ a = index) →
        LTI_StefanMaxwell_PPN.mobilityRatioPair self thermo speciesNames k i j state
          = .ok (false, state)) := by
  unfold LTI_StefanMaxwell_PPN.mobilityRatioPair
  simp only [vecAt_of_getElem? _ _ _ hi, vecAt_of_getElem? _ _ _ hj, vecAt_of_getElem? _ _ _ hx,
    vecAt_of_getElem? _ _ _ hm, vecAt_of_getElem? _ _ _ hs, deref, hv, bind, Except.bind, pure,
    Except.pure]
  by_cases h1 : a ++ ":" ++ b = index
  · simp only [h1, if_true, true_or, forall_true_left, not_true_eq_false, false_implies,
      and_true]
    exact ⟨_, rfl⟩
  · by_cases h2 : b ++ ":" ++ a = index
    · simp only [h1, h2, if_true, if_false, or_true, forall_true_left, not_true_eq_false,
        false_implies, and_true]
      exact ⟨_, rfl⟩
    · simp [h1, h2]

/-- The body of the loop over the mobility ratios on a phase of three species, the sub-model of
ratio `k` returning: it returns when the configured name is `a:b` for two different species, and
throws the `CanteraError` naming it otherwise. -/
theorem mobilityRatio_spec {R : Type} [LinearOrderedField R] [FloorRing R]
    (self : LTI_StefanMaxwell_PPN R) (thermo : thermo_t R) (n0 n1 n2 : String)
    (k : Nat) (index : String) (model : MixingRule R) (species : List (LTPspecies R))
    (value : R) (hx : self.m_mobRatIndex[k]? = some index)
    (hm : self.m_mobRatMixModel[k]? = some (some model))
    (hs : self.m_mobRatSpecies[k]? = some species)
    (hv : model.getMixTransProp_LTPptrs thermo species = .ok value)
    (m_mobRatMix : DenseMatrix R) :
    ((∃ i j, i < 3 ∧ j < 3 ∧ i ≠ j
          ∧ [n0, n1, n2].getD i "" ++ ":" ++ [n0, n1, n2].getD j "" = index) →
        ∃ M, LTI_StefanMaxwell_PPN.mobilityRatio self thermo [n0, n1, n2] 3 k m_mobRatMix
          = .ok M)
      ∧ (¬ (∃ i j, i < 3 ∧ j < 3 ∧ i ≠ j
          ∧ [n0, n1, n2].getD i "" ++ ":" ++ [n0, n1, n2].getD j "" = index) →
        LTI_StefanMaxwell_PPN.mobilityRatio self thermo [n0, n1, n2] 3 k m_mobRatMix
          = .error (Error.CanteraError "LTI_StefanMaxwell_PPN::getMixTransProp"
              ("Incorrect names for mobility ratio of " ++ index ++ " rather than i.e. " ++ n0
                ++ ":" ++ n1))) := by
  have P10 := mobilityRatioPair_spec self thermo [n0, n1, n2] k 1 0 n1 n0 index model species
    value rfl rfl hx hm hs hv
  have P20 := mobilityRatioPair_spec self thermo [n0, n1, n2] k 2 0 n2 n0 index model species
    value rfl rfl hx hm hs hv
  have P21 := mobilityRatioPair_spec self thermo [n0, n1, n2] k 2 1 n2 n1 index model species
    value rfl rfl hx hm hs hv
  have hiff : (∃ i j, i < 3 ∧ j < 3 ∧ i ≠ j
      ∧ [n0, n1, n2].getD i "" ++ ":" ++ [n0, n1, n2].getD j "" = index)
      ↔ ((n1 ++ ":" ++ n0 = index ∨ n0 ++ ":" ++ n1 = index)
        ∨ (n2 ++ ":" ++ n0 = index ∨ n0 ++ ":" ++ n2 = index)
        ∨ (n2 ++ ":" ++ n1 = index ∨ n1 ++ ":" ++ n2 = index)) := by
    constructor
    · rintro ⟨i, j, hi, hj, hij, h⟩
      interval_cases i <;> interval_cases j <;> simp_all
    · rintro ((h | h) | (h | h) | (h | h))
      · exact ⟨1, 0, by omega, by omega, by omega, h⟩
      · exact ⟨0, 1, by omega, by omega, by omega, h⟩
      · exact ⟨2, 0, by omega, by omega, by omega, h⟩
      · exact ⟨0, 2, by omega, by omega, by omega, h⟩
      · exact ⟨2, 1, by omega, by omega, by omega, h⟩
      · exact ⟨1, 2, by omega, by omega, by omega, h⟩
  rw [hiff]
  unfold LTI_StefanMaxwell_PPN.mobilityRatio
  simp only [forLoopM, forBreakM, forBreakFrom, bind, Except.bind]
  by_cases m10 : (n1 ++ ":" ++ n0 = index ∨ n0 ++ ":" ++ n1 = index)
  · obtain ⟨M1, e1⟩ := (P10 (true, m_mobRatMix)).1 m10
    rw [e1]
    simp only []
    by_cases m20 : (n2 ++ ":" ++ n0 = index ∨ n0 ++ ":" ++ n2 = index)
    · obtain ⟨M2, e2⟩ := (P20 (false, M1)).1 m20
      rw [e2]
      simp [m10, pure, Except.pure]
    · rw [(P20 (false, M1)).2 m20]
      simp only []
      by_cases m21 : (n2 ++ ":" ++ n1 = index ∨ n1 ++ ":" ++ n2 = index)
      · obtain ⟨M3, e3⟩ := (P21 (false, M1)).1 m21
        rw [e3]
        simp [m10, pure, Except.pure]
      · rw [(P21 (false, M1)).2 m21]
        simp [m10, pure, Except.pure]
  · rw [(P10 (true, m_mobRatMix)).2 m10]
    simp only []
    by_cases m20 : (n2 ++ ":" ++ n0 = index ∨ n0 ++ ":" ++ n2 = index)
    · obtain ⟨M2, e2⟩ := (P20 (true, m_mobRatMix)).1 m20
      rw [e2]
      simp [m20, pure, Except.pure]
    · rw [(P20 (true, m_mobRatMix)).2 m20]
      simp only []
      by_cases m21 : (n2 ++ ":" ++ n1 = index ∨ n1 ++ ":" ++ n2 = index)
      · obtain ⟨M3, e3⟩ := (P21 (true, m_mobRatMix)).1 m21
        rw [e3]
        simp [m21, pure, Except.pure]
      · rw [(P21 (true, m_mobRatMix)).2 m21]
        simp [m10, m20, m21, vecAt, hx, pure, Except.pure]


/-- The loop over the three mobility ratios on a phase of three species, every sub-model
returning: it returns when every configured name is `a:b` for two different species, and throws
the `CanteraError` naming the first name that is not. -/
theorem mobilityRatios_spec {R : Type} [LinearOrderedField R] [FloorRing R]
    (self : LTI_StefanMaxwell_PPN R) (thermo : thermo_t R) (n0 n1 n2 : String)
    (hmob : ∀ k, k < 3 → ∃ index model species value,
      self.m_mobRatIndex[k]? = some index ∧ self.m_mobRatMixModel[k]? = some (some model)
        ∧ self.m_mobRatSpecies[k]? = some species
        ∧ model.getMixTransProp_LTPptrs thermo species = .ok value)
    (m_mobRatMix : DenseMatrix R) :
    ((∀ k, k < 3 → ∃ i j, i < 3 ∧ j < 3 ∧ i ≠ j
          ∧ [n0, n1, n2].getD i "" ++ ":" ++ [n0, n1, n2].getD j ""
            = self.m_mobRatIndex.getD k "") →
        ∃ M, forLoopM 3 (fun k m_mobRatMix => LTI_StefanMaxwell_PPN.mobilityRatio self thermo
          [n0, n1, n2] 3 k m_mobRatMix) m_mobRatMix = .ok M)
      ∧ (¬ (∀ k, k < 3 → ∃ i j, i < 3 ∧ j < 3 ∧ i ≠ j
          ∧ [n0, n1, n2].getD i "" ++ ":" ++ [n0, n1, n2].getD j ""
            = self.m_mobRatIndex.getD k "") →
        ∃ k, k < 3 ∧ forLoopM 3 (fun k m_mobRatMix => LTI_StefanMaxwell_PPN.mobilityRatio self
            thermo [n0, n1, n2] 3 k m_mobRatMix) m_mobRatMix
          = .error (Error.CanteraError "LTI_StefanMaxwell_PPN::getMixTransProp"
              ("Incorrect names for mobility ratio of " ++ self.m_mobRatIndex.getD k ""
                ++ " rather than i.e. " ++ n0 ++ ":" ++ n1))) := by
  have step : ∀ k, k < 3 → ∀ M0 : DenseMatrix R,
      ((∃ i j, i < 3 ∧ j < 3 ∧ i ≠ j
          ∧ [n0, n1, n2].getD i "" ++ ":" ++ [n0, n1, n2].getD j ""
            = self.m_mobRatIndex.getD k "") →
        ∃ M, LTI_StefanMaxwell_PPN.mobilityRatio self thermo [n0, n1, n2] 3 k M0 = .ok M)
      ∧ (¬ (∃ i j, i < 3 ∧ j < 3 ∧ i ≠ j
          ∧ [n0, n1, n2].getD i "" ++ ":" ++ [n0, n1, n2].getD j ""
            = self.m_mobRatIndex.getD k "") →
        LTI_StefanMaxwell_PPN.mobilityRatio self thermo [n0, n1, n2] 3 k M0
          = .error (Error.CanteraError "LTI_StefanMaxwell_PPN::getMixTransProp"
              ("Incorrect names for mobility ratio of " ++ self.m_mobRatIndex.getD k ""
                ++ " rather than i.e. " ++ n0 ++ ":" ++ n1))) := by
    intro k hk M0
    obtain ⟨index, model, species, value, hx, hm, hs, hv⟩ := hmob k hk
    have hd : self.m_mobRatIndex.getD k "" = index := by
      simp [List.getD_eq_getElem?_getD, hx]
    rw [hd]
    exact mobilityRatio_spec self thermo n0 n1 n2 k index model species value hx hm hs hv M0
  simp only [forLoopM]
  by_cases g0 : ∃ i j, i < 3 ∧ j < 3 ∧ i ≠ j
      ∧ [n0, n1, n2].getD i "" ++ ":" ++ [n0, n1, n2].getD j "" = self.m_mobRatIndex.getD 0 ""
  · obtain ⟨M1, e1⟩ := (step 0 (by omega) m_mobRatMix).1 g0
    rw [e1]
    simp only []
    by_cases g1 : ∃ i j, i < 3 ∧ j < 3 ∧ i ≠ j
        ∧ [n0, n1, n2].getD i "" ++ ":" ++ [n0, n1, n2].getD j ""
          = self.m_mobRatIndex.getD 1 ""
    · obtain ⟨M2, e2⟩ := (step 1 (by omega) M1).1 g1
      rw [e2]
      simp only []
      by_cases g2 : ∃ i j, i < 3 ∧ j < 3 ∧ i ≠ j
          ∧ [n0, n1, n2].getD i "" ++ ":" ++ [n0, n1, n2].getD j ""
            = self.m_mobRatIndex.getD 2 ""
      · refine ⟨fun _ => (step 2 (by omega) M2).1 g2, fun hn => absurd ?_ hn⟩
        intro k hk
        interval_cases k
        · exact g0
        · exact g1
        · exact g2
      · exact ⟨fun hall => absurd (hall 2 (by omega)) g2,
          fun _ => ⟨2, by omega, (step 2 (by omega) M2).2 g2⟩⟩
    · rw [(step 1 (by omega) M1).2 g1]
      exact ⟨fun hall => absurd (hall 1 (by omega)) g1, fun _ => ⟨1, by omega, rfl⟩⟩
  · rw [(step 0 (by omega) m_mobRatMix).2 g0]
    exact ⟨fun hall => absurd (hall 0 (by omega)) g0, fun _ => ⟨0, by omega, rfl⟩⟩

/-- The search for the name of self diffusion coefficient `k` among three species names: it
returns the position of the name when it is one of them, and throws the `CanteraError` naming
it otherwise. -/
theorem selfDiffusionSlot_spec {R : Type} [LinearOrderedField R] [FloorRing R]
    (self : LTI_StefanMaxwell_PPN R) (n0 n1 n2 : String) (k : Nat) (index : String)
    (hx : self.m_selfDiffIndex[k]? = some index) :
    (index ∈ [n0, n1, n2] →
        ∃ j, j < 3 ∧ LTI_StefanMaxwell_PPN.selfDiffusionSlot self [n0, n1, n2] 3 k 3 0 = .ok j)
      ∧ (index ∉ [n0, n1, n2] →
        LTI_StefanMaxwell_PPN.selfDiffusionSlot self [n0, n1, n2] 3 k 3 0
          = .error (Error.CanteraError "LTI_StefanMaxwell_PPN::getMixTransProp"
              ("Incorrect names for self diffusion of " ++ index ++ " rather than i.e. "
                ++ n0))) := by
  simp only [LTI_StefanMaxwell_PPN.selfDiffusionSlot, vecAt, hx, List.getElem?_cons_zero,
    List.getElem?_cons_succ, bind, Except.bind, pure, Except.pure]
  by_cases h0 : index = n0
  · simp [h0]
  · by_cases h1 : index = n1
    · subst h1; simp [h0]
    · by_cases h2 : index = n2
      · subst h2; simp [h0, h1]
      · simp [h0, h1, h2]


/-- The loop over the three self diffusion coefficients on a phase of three species, every
sub-model returning and `m_selfDiffMix` holding three values: it returns when every configured
name is a species name, and throws the `CanteraError` naming the first name that is not. -/
theorem selfDiffusion_spec {R : Type} [LinearOrderedField R] [FloorRing R]
    (self : LTI_StefanMaxwell_PPN R) (thermo : thermo_t R) (n0 n1 n2 : String)
    (hsd : ∀ k, k < 3 → ∃ index model species value,
      self.m_selfDiffIndex[k]? = some index ∧ self.m_selfDiffMixModel[k]? = some (some model)
        ∧ self.m_selfDiffSpecies[k]? = some species
        ∧ model.getMixTransProp_LTPptrs thermo species = .ok value)
    (m_selfDiffMix : List R) (hlen : m_selfDiffMix.length = 3) :
    ((∀ k, k < 3 → self.m_selfDiffIndex.getD k "" ∈ [n0, n1, n2]) →
        ∃ values, values.length = 3
          ∧ LTI_StefanMaxwell_PPN.selfDiffusion self thermo [n0, n1, n2] 3 m_selfDiffMix
            = .ok values)
      ∧ (¬ (∀ k, k < 3 → self.m_selfDiffIndex.getD k "" ∈ [n0, n1, n2]) →
        ∃ k, k < 3 ∧ LTI_StefanMaxwell_PPN.selfDiffusion self thermo [n0, n1, n2] 3
            m_selfDiffMix
          = .error (Error.CanteraError "LTI_StefanMaxwell_PPN::getMixTransProp"
              ("Incorrect names for self diffusion of " ++ self.m_selfDiffIndex.getD k ""
                ++ " rather than i.e. " ++ n0))) := by
  have step : ∀ k, k < 3 → ∀ values0 : List R, values0.length = 3 →
      (self.m_selfDiffIndex.getD k "" ∈ [n0, n1, n2] →
        ∃ values, values.length = 3 ∧
          (do
            let j ← LTI_StefanMaxwell_PPN.selfDiffusionSlot self [n0, n1, n2] 3 k 3 0
            let model ← vecAt self.m_selfDiffMixModel k
            let model ← deref model
            let species ← vecAt self.m_selfDiffSpecies k
            let value ← model.getMixTransProp_LTPptrs thermo species
            arrayStore values0 j value) = .ok values)
      ∧ (self.m_selfDiffIndex.getD k "" ∉ [n0, n1, n2] →
          (do
            let j ← LTI_StefanMaxwell_PPN.selfDiffusionSlot self [n0, n1, n2] 3 k 3 0
            let model ← vecAt self.m_selfDiffMixModel k
            let model ← deref model
            let species ← vecAt self.m_selfDiffSpecies k
            let value ← model.getMixTransProp_LTPptrs thermo species
            arrayStore values0 j value)
          = .error (Error.CanteraError "LTI_StefanMaxwell_PPN::getMixTransProp"
              ("Incorrect names for self diffusion of " ++ self.m_selfDiffIndex.getD k ""
                ++ " rather than i.e. " ++ n0))) := by
    intro k hk values0 hl
    obtain ⟨index, model, species, value, hx, hm, hs, hv⟩ := hsd k hk
    have hd : self.m_selfDiffIndex.getD k "" = index := by
      simp [List.getD_eq_getElem?_getD, hx]
    rw [hd]
    have hslot := selfDiffusionSlot_spec self n0 n1 n2 k index hx
    refine ⟨fun hg => ?_, fun hb => ?_⟩
    · obtain ⟨j, hj, e⟩ := hslot.1 hg
      rw [e]
      refine ⟨values0.set j value, by simp [hl], ?_⟩
      simp [vecAt, hm, hs, deref, hv, arrayStore, hl, hj, bind, Except.bind]
    · rw [hslot.2 hb]; rfl
  unfold LTI_StefanMaxwell_PPN.selfDiffusion
  simp only [forLoopM]
  by_cases g0 : self.m_selfDiffIndex.getD 0 "" ∈ [n0, n1, n2]
  · obtain ⟨v1, l1, e1⟩ := (step 0 (by omega) m_selfDiffMix hlen).1 g0
    rw [e1]
    simp only []
    by_cases g1 : self.m_selfDiffIndex.getD 1 "" ∈ [n0, n1, n2]
    · obtain ⟨v2, l2, e2⟩ := (step 1 (by omega) v1 l1).1 g1
      rw [e2]
      simp only []
      by_cases g2 : self.m_selfDiffIndex.getD 2 "" ∈ [n0, n1, n2]
      · obtain ⟨v3, l3, e3⟩ := (step 2 (by omega) v2 l2).1 g2
        refine ⟨fun _ => ⟨v3, l3, e3⟩, fun hn => absurd ?_ hn⟩
        intro k hk
        interval_cases k
        · exact g0
        · exact g1
        · exact g2
      · exact ⟨fun hall => absurd (hall 2 (by omega)) g2,
          fun _ => ⟨2, by omega, (step 2 (by omega) v2 l2).2 g2⟩⟩
    · rw [(step 1 (by omega) v1 l1).2 g1]
      exact ⟨fun hall => absurd (hall 1 (by omega)) g1, fun _ => ⟨1, by omega, rfl⟩⟩
  · rw [(step 0 (by omega) m_selfDiffMix hlen).2 g0]
    exact ⟨fun hall => absurd (hall 0 (by omega)) g0, fun _ => ⟨0, by omega, rfl⟩⟩


/-- A phase that passes the checks has three species. -/
theorem checkSystem_nSpecies {R : Type} [LinearOrderedField R] [FloorRing R]
    (ions_thermo : IonsFromNeutralVPSSTP R)
    (h : LTI_StefanMaxwell_PPN.checkSystem ions_thermo = .ok ()) :
    ions_thermo.nSpecies = 3 := by
  by_contra hn
  simp [LTI_StefanMaxwell_PPN.checkSystem, hn] at h

/-- C25: for a phase that passes the checks, with three species names, every sub-model
returning a value and `m_selfDiffMix` holding three values: when a configured mobility-ratio
name is not `a:b` for two different species `a`, `b` of the phase, the matrix query throws the
`CanteraError` naming the first such name and the expected format; when these names all match
and a configured self-diffusion name is not a species name, it throws the `CanteraError` naming
the first such name; when every name matches, both name-resolution loops return.  The list of
species names has exactly as many entries as there are species, and an index at or beyond its
size is the outcome `outOfRange`, so none of the three cases indexes it there. -/
theorem LTI_StefanMaxwell_PPN_name_resolution {R : Type} [LinearOrderedField R] [FloorRing R]
    (Faraday GasConstant : R) (self : LTI_StefanMaxwell_PPN R)
    (ions_thermo : IonsFromNeutralVPSSTP R) (mat : DenseMatrix R) (speciesValues : Nat → R)
    (n0 n1 n2 : String)
    (hcheck : LTI_StefanMaxwell_PPN.checkSystem ions_thermo = .ok ())
    (hnames : ions_thermo.getSpeciesNames = [n0, n1, n2])
    (hcond : ∃ model value, self.m_ionCondMixModel = some model
      ∧ model.getMixTransProp_LTPptrs ions_thermo.tothermo_t self.m_ionCondSpecies
        = .ok value)
    (hmob : ∀ k, k < 3 → ∃ index model species value,
      self.m_mobRatIndex[k]? = some index ∧ self.m_mobRatMixModel[k]? = some (some model)
        ∧ self.m_mobRatSpecies[k]? = some species
        ∧ model.getMixTransProp_LTPptrs ions_thermo.tothermo_t species = .ok value)
    (hsd : ∀ k, k < 3 → ∃ index model species value,
      self.m_selfDiffIndex[k]? = some index ∧ self.m_selfDiffMixModel[k]? = some (some model)
        ∧ self.m_selfDiffSpecies[k]? = some species
        ∧ model.getMixTransProp_LTPptrs ions_thermo.tothermo_t species = .ok value)
    (hlen : self.m_selfDiffMix.length = 3) :
    (¬ (∀ k, k < 3 → ∃ i j, i < 3 ∧ j < 3 ∧ i ≠ j
          ∧ [n0, n1, n2].getD i "" ++ ":" ++ [n0, n1, n2].getD j ""
            = self.m_mobRatIndex.getD k "") →
        ∃ k, k < 3 ∧ LTI_StefanMaxwell_PPN.getMatrixTransProp Faraday GasConstant self
            ions_thermo mat speciesValues
          = .error (Error.CanteraError "LTI_StefanMaxwell_PPN::getMixTransProp"
              ("Incorrect names for mobility ratio of " ++ self.m_mobRatIndex.getD k ""
                ++ " rather than i.e. " ++ n0 ++ ":" ++ n1)))
      ∧ ((∀ k, k < 3 → ∃ i j, i < 3 ∧ j < 3 ∧ i ≠ j
          ∧ [n0, n1, n2].getD i "" ++ ":" ++ [n0, n1, n2].getD j ""
            = self.m_mobRatIndex.getD k "") →
        ¬ (∀ k, k < 3 → self.m_selfDiffIndex.getD k "" ∈ [n0, n1, n2]) →
        ∃ k, k < 3 ∧ LTI_StefanMaxwell_PPN.getMatrixTransProp Faraday GasConstant self
            ions_thermo mat speciesValues
          = .error (Error.CanteraError "LTI_StefanMaxwell_PPN::getMixTransProp"
              ("Incorrect names for self diffusion of " ++ self.m_selfDiffIndex.getD k ""
                ++ " rather than i.e. " ++ n0)))
      ∧ ((∀ k, k < 3 → ∃ i j, i < 3 ∧ j < 3 ∧ i ≠ j
          ∧ [n0, n1, n2].getD i "" ++ ":" ++ [n0, n1, n2].getD j ""
            = self.m_mobRatIndex.getD k "") →
        (∀ k, k < 3 → self.m_selfDiffIndex.getD k "" ∈ [n0, n1, n2]) →
        ∃ m_mobRatMix m_selfDiffMix,
          forLoopM (ions_thermo.nSpecies * (ions_thermo.nSpecies - 1) / 2)
              (fun k m_mobRatMix => LTI_StefanMaxwell_PPN.mobilityRatio self
                ions_thermo.tothermo_t ions_thermo.getSpeciesNames ions_thermo.nSpecies k
                m_mobRatMix) self.m_mobRatMix = .ok m_mobRatMix
            ∧ LTI_StefanMaxwell_PPN.selfDiffusion self ions_thermo.tothermo_t
                ions_thermo.getSpeciesNames ions_thermo.nSpecies self.m_selfDiffMix
              = .ok m_selfDiffMix) := by
  have hN := checkSystem_nSpecies ions_thermo hcheck
  obtain ⟨model, value, hm, hv⟩ := hcond
  have hM := mobilityRatios_spec self ions_thermo.tothermo_t n0 n1 n2 hmob self.m_mobRatMix
  have hS := selfDiffusion_spec self ions_thermo.tothermo_t n0 n1 n2 hsd self.m_selfDiffMix hlen
  have hQ := getMatrixTransProp_stages Faraday GasConstant self ions_thermo mat speciesValues
  rw [hcheck, hm, hnames, hN] at hQ
  simp only [deref, bind, Except.bind, hv] at hQ
  rw [hnames, hN]
  refine ⟨fun hn => ?_, fun hg hn => ?_, fun hg hs => ?_⟩
  · obtain ⟨k, hk, e⟩ := hM.2 hn
    refine ⟨k, hk, ?_⟩
    rw [hQ]
    have e3 : forLoopM (3 * (3 - 1) / 2) (fun k m_mobRatMix =>
        LTI_StefanMaxwell_PPN.mobilityRatio self ions_thermo.tothermo_t [n0, n1, n2] 3 k
          m_mobRatMix) self.m_mobRatMix = _ := e
    rw [e3]
  · obtain ⟨M, e⟩ := hM.1 hg
    obtain ⟨k, hk, e2⟩ := hS.2 hn
    refine ⟨k, hk, ?_⟩
    rw [hQ]
    have e3 : forLoopM (3 * (3 - 1) / 2) (fun k m_mobRatMix =>
        LTI_StefanMaxwell_PPN.mobilityRatio self ions_thermo.tothermo_t [n0, n1, n2] 3 k
          m_mobRatMix) self.m_mobRatMix = _ := e
    rw [e3]
    simp only []
    rw [e2]
  · obtain ⟨M, e⟩ := hM.1 hg
    obtain ⟨values, -, e2⟩ := hS.1 hs
    exact ⟨M, values, e, e2⟩



/-- The matrix assignments of lines 803-806 on a zero matrix, for three different species:
they return only when neither integer prefactor is zero, and then the matrix is `nsp` by `nsp`,
holds the three values at the three species pairs in both orders, and is zero elsewhere. -/
theorem fillMatrix_ok_inv {R : Type} [LinearOrderedField R] [FloorRing R]
    (Faraday GasConstant temp m_ionCondMix vol : R) (vP vM zP zM : Int)
    (eps xA xB inv : R) (c0 c1 a0 nsp : Nat) (mat M : DenseMatrix R)
    (h : LTI_StefanMaxwell_PPN.fillMatrix Faraday GasConstant temp m_ionCondMix vol vP vM zP zM
      eps xA xB inv c0 c1 a0 nsp mat = .ok M)
    (hz : ∀ a b, mat.value a b = 0) (h01 : c0 ≠ c1) (h0a : c0 ≠ a0) (h1a : c1 ≠ a0) :
    vP ≠ 0 ∧ vM ≠ 0 ∧ M.nRows = nsp ∧ M.nColumns = nsp
      ∧ M.value c0 c1
        = ((intAdd 1 (Int.tdiv vM vP) : Int) : R) * (1 + eps * xB) * (1 - eps * xA) * inv
          - ((intMul zP zP : Int) : R) * Faraday * Faraday / GasConstant / temp / m_ionCondMix / vol
      ∧ M.value c0 a0 = ((intAdd 1 (Int.tdiv vP vM) : Int) : R) * (-eps * xB * (1 - eps * xA) * inv)
          - ((intMul zP zM : Int) : R) * Faraday * Faraday / GasConstant / temp / m_ionCondMix / vol
      ∧ M.value c1 a0 = ((intAdd 1 (Int.tdiv vP vM) : Int) : R) * (eps * xA * (1 + eps * xB) * inv)
          - ((intMul zP zM : Int) : R) * Faraday * Faraday / GasConstant / temp / m_ionCondMix / vol
      ∧ M.value c1 c0 = M.value c0 c1 ∧ M.value a0 c0 = M.value c0 a0
      ∧ M.value a0 c1 = M.value c1 a0
      ∧ (∀ a b, ¬ ((a = c0 ∧ b = c1) ∨ (a = c1 ∧ b = c0) ∨ (a = c0 ∧ b = a0)
          ∨ (a = a0 ∧ b = c0) ∨ (a = c1 ∧ b = a0) ∨ (a = a0 ∧ b = c1)) → M.value a b = 0) := by
  unfold LTI_StefanMaxwell_PPN.fillMatrix at h
  by_cases hP : vP = 0
  · rw [hP, intDiv_zero] at h
    cases h
  by_cases h1 : vM = INT_MIN ∧ vP = -1
  · rw [h1.1, h1.2, intDiv_INT_MIN_neg_one] at h
    cases h
  rw [intDiv_eq_ok vM vP hP h1] at h
  by_cases hM : vM = 0
  · simp only [hM, intDiv_zero, bind, Except.bind] at h
    cases h
  by_cases h2 : vP = INT_MIN ∧ vM = -1
  · simp only [h2.1, h2.2, intDiv_INT_MIN_neg_one, bind, Except.bind] at h
    cases h
  rw [intDiv_eq_ok vP vM hM h2] at h
  simp only [bind, Except.bind, pure, Except.pure, Except.ok.injEq] at h
  subst h
  have h10 := h01.symm
  have ha0 := h0a.symm
  have ha1 := h1a.symm
  refine ⟨hP, hM, rfl, rfl, ?_, ?_, ?_, ?_, ?_, ?_, ?_⟩
  · simp [DenseMatrix.set, DenseMatrix.resize, h01, h0a, h1a, h10, ha0, ha1]
  · simp [DenseMatrix.set, DenseMatrix.resize, h01, h0a, h1a, h10, ha0, ha1]
  · simp [DenseMatrix.set, DenseMatrix.resize, h01, h0a, h1a, h10, ha0, ha1]
  · simp [DenseMatrix.set, DenseMatrix.resize, h01, h0a, h1a, h10, ha0, ha1]
  · simp [DenseMatrix.set, DenseMatrix.resize, h01, h0a, h1a, h10, ha0, ha1]
  · simp [DenseMatrix.set, DenseMatrix.resize, h01, h0a, h1a, h10, ha0, ha1]
  · intro a b hab
    simp only [not_or] at hab
    obtain ⟨p1, p2, p3, p4, p5, p6⟩ := hab
    simp [DenseMatrix.set, DenseMatrix.resize, hz, p1, p2, p3, p4, p5, p6]


/-- A phase that passes the checks lists two cations and one anion. -/
theorem checkSystem_lists {R : Type} [LinearOrderedField R] [FloorRing R]
    (ions_thermo : IonsFromNeutralVPSSTP R)
    (h : LTI_StefanMaxwell_PPN.checkSystem ions_thermo = .ok ()) :
    ions_thermo.nSpecies = 3 ∧ (∃ c0 c1, ions_thermo.getCationList = [c0, c1])
      ∧ ∃ a0, ions_thermo.getAnionList = [a0] := by
  unfold LTI_StefanMaxwell_PPN.checkSystem at h
  by_cases h1 : ions_thermo.nSpecies = 3
  · by_cases h2 : ions_thermo.getAnionList.length = 1
    · by_cases h3 : ions_thermo.getCationList.length = 2
      · refine ⟨h1, ?_, ?_⟩
        · match hl : ions_thermo.getCationList, h3 with
          | [c0, c1], _ => exact ⟨c0, c1, rfl⟩
        · match hl : ions_thermo.getAnionList, h2 with
          | [a0], _ => exact ⟨a0, rfl⟩
      · simp [h1, h2, h3] at h
    · simp [h1, h2] at h
  · simp [h1] at h

/-- The pattern of a cation list that names the same species twice is neither `1001` nor
`0110`. -/
theorem cationIndex_same {R : Type} [LinearOrderedField R] [FloorRing R] (nsp : Nat)
    (viS : List R) (c : Nat) (p : String)
    (h : LTI_StefanMaxwell_PPN.cationIndex nsp viS [c, c] = .ok p) :
    ¬ (p = "1001" ∨ p = "0110") := by
  unfold LTI_StefanMaxwell_PPN.cationIndex at h
  simp only [forLoopM, vecAt, List.getElem?_cons_zero, List.getElem?_cons_succ, bind,
    Except.bind, Nat.zero_mul, Nat.zero_add, Nat.one_mul] at h
  cases h0 : viS[c]? with
  | none => simp [h0] at h
  | some v0 =>
    cases h1 : viS[nsp + c]? with
    | none =>
      simp only [h0, h1] at h
      split_ifs at h <;> simp [pure, Except.pure] at h
    | some v1 =>
      simp only [h0, h1, pure, Except.pure] at h
      split_ifs at h <;> simp only [Except.ok.injEq] at h <;> subst h <;> decide

/-! ## The ternary ion solver: the matrix -/

/-- The matrix of a query of the ternary ion solver that returned, the output being zero
before the call and no cation being listed as an anion: it is 3 by 3, symmetric, zero outside
the three species pairs, and its two cation-anion entries are the diffusive terms of lines
805-806 minus the same electrostatic term. -/
theorem getMatrixTransProp_matrix_eq {R : Type} [LinearOrderedField R]
    [FloorRing R] (Faraday GasConstant : R) (self : LTI_StefanMaxwell_PPN R)
    (ions_thermo : IonsFromNeutralVPSSTP R) (mat : DenseMatrix R) (speciesValues : Nat → R)
    (result : LTI_StefanMaxwell_PPN R × DenseMatrix R)
    (hzero : ∀ a b, mat.value a b = 0)
    (hdisjoint : ∀ c, c ∈ ions_thermo.getCationList → c ∉ ions_thermo.getAnionList)
    (h : LTI_StefanMaxwell_PPN.getMatrixTransProp Faraday GasConstant self ions_thermo mat
      speciesValues = .ok result) :
    ∃ c0 c1 a0 zP zM vA vB vX xA xB sA sB,
      ions_thermo.getCationList = [c0, c1] ∧ ions_thermo.getAnionList = [a0]
      ∧ ions_thermo.getDissociationCoeffs.2[c0]? = some zP
      ∧ ions_thermo.getDissociationCoeffs.2[a0]? = some zM
      ∧ ions_thermo.getDissociationCoeffs.1[c0]? = some vA
      ∧ ions_thermo.getDissociationCoeffs.1[c1]? = some vB
      ∧ ions_thermo.getDissociationCoeffs.1[a0]? = some vX
      ∧ ions_thermo.getNeutralMolecMoleFractions[c0]? = some xA
      ∧ ions_thermo.getNeutralMolecMoleFractions[c1]? = some xB
      ∧ result.1.m_selfDiffMix[c0]? = some sA ∧ result.1.m_selfDiffMix[c1]? = some sB
      ∧ result.2.nRows = 3 ∧ result.2.nColumns = 3
      ∧ (∀ a b, result.2.value a b = result.2.value b a)
      ∧ (∀ a b, ¬ ((a = c0 ∧ b = c1) ∨ (a = c1 ∧ b = c0) ∨ (a = c0 ∧ b = a0)
          ∨ (a = a0 ∧ b = c0) ∨ (a = c1 ∧ b = a0) ∨ (a = a0 ∧ b = c1)) →
          result.2.value a b = 0)
      ∧ (∀ a, result.2.value a a = 0)
      ∧ result.2.value c0 a0
        = ((intAdd 1 (Int.tdiv (doubleToInt (max vA vB)) (doubleToInt vX)) : Int) : R)
            * (-((1 - result.1.m_mobRatMix.value c1 c0)
                  / (xA + xB * result.1.m_mobRatMix.value c1 c0)) * xB
              * (1 - (1 - result.1.m_mobRatMix.value c1 c0)
                  / (xA + xB * result.1.m_mobRatMix.value c1 c0) * xA)
              * (xA * (1 + ions_thermo.getdlnActCoeffdlnN c1) / sB
                + xB * (1 + ions_thermo.getdlnActCoeffdlnN c0) / sA))
          - ((intMul (doubleToInt zP) (doubleToInt zM) : Int) : R) * Faraday ^ 2
            / (GasConstant * ions_thermo.temperature * result.1.m_ionCondMix
              * ions_thermo.molarVolume)
      ∧ result.2.value c1 a0
        = ((intAdd 1 (Int.tdiv (doubleToInt (max vA vB)) (doubleToInt vX)) : Int) : R)
            * ((1 - result.1.m_mobRatMix.value c1 c0)
                  / (xA + xB * result.1.m_mobRatMix.value c1 c0) * xA
              * (1 + (1 - result.1.m_mobRatMix.value c1 c0)
                  / (xA + xB * result.1.m_mobRatMix.value c1 c0) * xB)
              * (xA * (1 + ions_thermo.getdlnActCoeffdlnN c1) / sB
                + xB * (1 + ions_thermo.getdlnActCoeffdlnN c0) / sA))
          - ((intMul (doubleToInt zP) (doubleToInt zM) : Int) : R) * Faraday ^ 2
            / (GasConstant * ions_thermo.temperature * result.1.m_ionCondMix
              * ions_thermo.molarVolume) := by
  obtain ⟨hcs, -, -, -, hasm, -⟩ := getMatrixTransProp_ok_inv _ _ _ _ _ _ _ h
  obtain ⟨hN, ⟨c0, c1, hc⟩, ⟨a0, ha⟩⟩ := checkSystem_lists ions_thermo hcs
  unfold LTI_StefanMaxwell_PPN.assemble at hasm
  simp only [Except_bind_eq_ok, vecAt_eq_ok, hc, ha, List.getElem?_cons_zero,
    List.getElem?_cons_succ, Option.some.injEq, exists_eq_left] at hasm
  obtain ⟨_, rfl, _, rfl, _, rfl, vA, hvA, vB, hvB, vX, hvX, zP, hzP, zM, hzM, p, hp, hrest⟩ :=
    hasm
  split_ifs at hrest with hvalid
  simp only [Except_bind_eq_ok, vecAt_eq_ok] at hrest
  obtain ⟨xA, hxA, xB, hxB, d1, hd1, sB, hsB, d0, hd0, sA, hsA, hfill⟩ := hrest
  have h01 : c0 ≠ c1 := by
    intro e
    subst e
    exact cationIndex_same _ _ _ _ hp hvalid
  have h0a : c0 ≠ a0 := by
    intro e
    exact hdisjoint c0 (by simp [hc]) (by simp [ha, e])
  have h1a : c1 ≠ a0 := by
    intro e
    exact hdisjoint c1 (by simp [hc]) (by simp [ha, e])
  have hd1' : d1 = ions_thermo.getdlnActCoeffdlnN c1 := by
    simp only [List.getElem?_map, List.getElem?_range, Option.map_eq_some'] at hd1
    obtain ⟨a, ha1, ha2⟩ := hd1
    obtain ⟨hlt, e⟩ := List.getElem?_eq_some.1 ha1
    rw [List.getElem_range] at e
    rw [← ha2, ← e]
  have hd0' : d0 = ions_thermo.getdlnActCoeffdlnN c0 := by
    simp only [List.getElem?_map, List.getElem?_range, Option.map_eq_some'] at hd0
    obtain ⟨a, ha1, ha2⟩ := hd0
    obtain ⟨hlt, e⟩ := List.getElem?_eq_some.1 ha1
    rw [List.getElem_range] at e
    rw [← ha2, ← e]
  subst hd1' hd0'
  obtain ⟨-, -, hr, hcol, e01, e0a, e1a, s01, s0a, s1a, hother⟩ :=
    fillMatrix_ok_inv _ _ _ _ _ _ _ _ _ _ _ _ _ _ _ _ _ _ _ hfill hzero h01 h0a h1a
  have hsymm : ∀ a b, result.2.value a b = result.2.value b a := by
    intro a b
    by_cases q1 : a = c0 ∧ b = c1
    · rw [q1.1, q1.2, s01]
    by_cases q2 : a = c1 ∧ b = c0
    · rw [q2.1, q2.2, s01]
    by_cases q3 : a = c0 ∧ b = a0
    · rw [q3.1, q3.2, s0a]
    by_cases q4 : a = a0 ∧ b = c0
    · rw [q4.1, q4.2, s0a]
    by_cases q5 : a = c1 ∧ b = a0
    · rw [q5.1, q5.2, s1a]
    by_cases q6 : a = a0 ∧ b = c1
    · rw [q6.1, q6.2, s1a]
    rw [hother a b (by simp only [not_or]; exact ⟨q1, q2, q3, q4, q5, q6⟩),
      hother b a (by
        simp only [not_or]
        exact ⟨fun x => q2 ⟨x.2, x.1⟩, fun x => q1 ⟨x.2, x.1⟩, fun x => q4 ⟨x.2, x.1⟩,
          fun x => q3 ⟨x.2, x.1⟩, fun x => q6 ⟨x.2, x.1⟩, fun x => q5 ⟨x.2, x.1⟩⟩)]
  refine ⟨c0, c1, a0, zP, zM, vA, vB, vX, xA, xB, sA, sB, hc, ha, hzP, hzM, hvA, hvB, hvX, hxA,
    hxB, hsA, hsB, by rw [hr, hN], by rw [hcol, hN], hsymm, hother, ?_, ?_, ?_⟩
  · intro a
    refine hother a a ?_
    rintro (⟨q1, q2⟩ | ⟨q1, q2⟩ | ⟨q1, q2⟩ | ⟨q1, q2⟩ | ⟨q1, q2⟩ | ⟨q1, q2⟩) <;> omega
  · rw [e0a]
    congr 1
    simp only [div_div, pow_two, mul_assoc]
  · rw [e1a]
    congr 1
    simp only [div_div, pow_two, mul_assoc]

/-- C26: when the matrix query of the ternary ion solver returns, on an output that was zero
before the call and for a phase none of whose cations is listed as an anion, the matrix is
3 by 3 and symmetric, every entry outside the three species pairs (cation0-cation1,
cation0-anion, cation1-anion) is 0, the diagonal included, and the two cation-anion entries are
their diffusive terms minus the same electrostatic term
`zP·zM·Faraday²/(GasConstant·T·m_ionCondMix·molarVolume)`, where `zP`, `zM` are the charges of
the first cation and of the anion as `int`s. -/
theorem LTI_StefanMaxwell_PPN_getMatrixTransProp_matrix {R : Type} [LinearOrderedField R]
    [FloorRing R] (Faraday GasConstant : R) (self : LTI_StefanMaxwell_PPN R)
    (ions_thermo : IonsFromNeutralVPSSTP R) (mat : DenseMatrix R) (speciesValues : Nat → R)
    (result : LTI_StefanMaxwell_PPN R × DenseMatrix R)
    (hzero : ∀ a b, mat.value a b = 0)
    (hdisjoint : ∀ c, c ∈ ions_thermo.getCationList → c ∉ ions_thermo.getAnionList)
    (h : LTI_StefanMaxwell_PPN.getMatrixTransProp Faraday GasConstant self ions_thermo mat
      speciesValues = .ok result) :
    ∃ c0 c1 a0 zP zM vA vB vX xA xB sA sB,
      ions_thermo.getCationList = [c0, c1] ∧ ions_thermo.getAnionList = [a0]
      ∧ ions_thermo.getDissociationCoeffs.2[c0]? = some zP
      ∧ ions_thermo.getDissociationCoeffs.2[a0]? = some zM
      ∧ ions_thermo.getDissociationCoeffs.1[c0]? = some vA
      ∧ ions_thermo.getDissociationCoeffs.1[c1]? = some vB
      ∧ ions_thermo.getDissociationCoeffs.1[a0]? = some vX
      ∧ ions_thermo.getNeutralMolecMoleFractions[c0]? = some xA
      ∧ ions_thermo.getNeutralMolecMoleFractions[c1]? = some xB
      ∧ result.1.m_selfDiffMix[c0]? = some sA ∧ result.1.m_selfDiffMix[c1]? = some sB
      ∧ result.2.nRows = 3 ∧ result.2.nColumns = 3
      ∧ (∀ a b, result.2.value a b = result.2.value b a)
      ∧ (∀ a b, ¬ ((a = c0 ∧ b = c1) ∨ (a = c1 ∧ b = c0) ∨ (a = c0 ∧ b = a0)
          ∨ (a = a0 ∧ b = c0) ∨ (a = c1 ∧ b = a0) ∨ (a = a0 ∧ b = c1)) →
          result.2.value a b = 0)
      ∧ (∀ a, result.2.value a a = 0)
      ∧ result.2.value c0 a0
        = ((intAdd 1 (Int.tdiv (doubleToInt (max vA vB)) (doubleToInt vX)) : Int) : R)
            * (-((1 - result.1.m_mobRatMix.value c1 c0)
                  / (xA + xB * result.1.m_mobRatMix.value c1 c0)) * xB
              * (1 - (1 - result.1.m_mobRatMix.value c1 c0)
                  / (xA + xB * result.1.m_mobRatMix.value c1 c0) * xA)
              * (xA * (1 + ions_thermo.getdlnActCoeffdlnN c1) / sB
                + xB * (1 + ions_thermo.getdlnActCoeffdlnN c0) / sA))
          - ((intMul (doubleToInt zP) (doubleToInt zM) : Int) : R) * Faraday ^ 2
            / (GasConstant * ions_thermo.temperature * result.1.m_ionCondMix
              * ions_thermo.molarVolume)
      ∧ result.2.value c1 a0
        = ((intAdd 1 (Int.tdiv (doubleToInt (max vA vB)) (doubleToInt vX)) : Int) : R)
            * ((1 - result.1.m_mobRatMix.value c1 c0)
                  / (xA + xB * result.1.m_mobRatMix.value c1 c0) * xA
              * (1 + (1 - result.1.m_mobRatMix.value c1 c0)
                  / (xA + xB * result.1.m_mobRatMix.value c1 c0) * xB)
              * (xA * (1 + ions_thermo.getdlnActCoeffdlnN c1) / sB
                + xB * (1 + ions_thermo.getdlnActCoeffdlnN c0) / sA))
          - ((intMul (doubleToInt zP) (doubleToInt zM) : Int) : R) * Faraday ^ 2
            / (GasConstant * ions_thermo.temperature * result.1.m_ionCondMix
              * ions_thermo.molarVolume) :=
  getMatrixTransProp_matrix_eq Faraday GasConstant self ions_thermo mat speciesValues result
    hzero hdisjoint h

/-! ## The ternary ion solver: a query that returns, and the sample salt -/

/-- The matrix assignments return when neither integer prefactor is zero and neither quotient
is `INT_MIN / -1`. -/
theorem fillMatrix_returns {R : Type} [LinearOrderedField R] [FloorRing R]
    (Faraday GasConstant temp m_ionCondMix vol : R) (vP vM zP zM : Int)
    (eps xA xB inv : R) (c0 c1 a0 nsp : Nat) (mat : DenseMatrix R) (hP : vP ≠ 0)
    (hM : vM ≠ 0) (h1 : ¬ (vM = INT_MIN ∧ vP = -1)) (h2 : ¬ (vP = INT_MIN ∧ vM = -1)) :
    ∃ M, LTI_StefanMaxwell_PPN.fillMatrix Faraday GasConstant temp m_ionCondMix vol vP vM zP zM
      eps xA xB inv c0 c1 a0 nsp mat = .ok M := by
  unfold LTI_StefanMaxwell_PPN.fillMatrix
  rw [intDiv_eq_ok vM vP hP h1, intDiv_eq_ok vP vM hM h2]
  exact ⟨_, rfl⟩

/-- The matrix query of the ternary ion solver returns for a phase that passes the checks, when
every sub-model returns, every configured name matches, the lookups by the cations and the
anion are in range, the dissociation pattern is `1001` or `0110`, neither integer prefactor is
zero and neither quotient is `INT_MIN / -1`. -/
theorem getMatrixTransProp_returns {R : Type} [LinearOrderedField R] [FloorRing R]
    (Faraday GasConstant : R) (self : LTI_StefanMaxwell_PPN R)
    (ions_thermo : IonsFromNeutralVPSSTP R) (mat : DenseMatrix R) (speciesValues : Nat → R)
    (n0 n1 n2 : String) (c0 c1 a0 : Nat) (vA vB vX zP zM : R) (p : String)
    (hcheck : LTI_StefanMaxwell_PPN.checkSystem ions_thermo = .ok ())
    (hnames : ions_thermo.getSpeciesNames = [n0, n1, n2])
    (hcond : ∃ model value, self.m_ionCondMixModel = some model
      ∧ model.getMixTransProp_LTPptrs ions_thermo.tothermo_t self.m_ionCondSpecies
        = .ok value)
    (hmob : ∀ k, k < 3 → ∃ index model species value,
      self.m_mobRatIndex[k]? = some index ∧ self.m_mobRatMixModel[k]? = some (some model)
        ∧ self.m_mobRatSpecies[k]? = some species
        ∧ model.getMixTransProp_LTPptrs ions_thermo.tothermo_t species = .ok value)
    (hsd : ∀ k, k < 3 → ∃ index model species value,
      self.m_selfDiffIndex[k]? = some index ∧ self.m_selfDiffMixModel[k]? = some (some model)
        ∧ self.m_selfDiffSpecies[k]? = some species
        ∧ model.getMixTransProp_LTPptrs ions_thermo.tothermo_t species = .ok value)
    (hlen : self.m_selfDiffMix.length = 3)
    (hgm : ∀ k, k < 3 → ∃ i j, i < 3 ∧ j < 3 ∧ i ≠ j
      ∧ [n0, n1, n2].getD i "" ++ ":" ++ [n0, n1, n2].getD j "" = self.m_mobRatIndex.getD k "")
    (hgs : ∀ k, k < 3 → self.m_selfDiffIndex.getD k "" ∈ [n0, n1, n2])
    (hc : ions_thermo.getCationList = [c0, c1]) (ha : ions_thermo.getAnionList = [a0])
    (hc0 : c0 < 3) (hc1 : c1 < 3)
    (hn0 : c0 < ions_thermo.getNeutralMolecMoleFractions.length)
    (hn1 : c1 < ions_thermo.getNeutralMolecMoleFractions.length)
    (hvA : ions_thermo.getDissociationCoeffs.1[c0]? = some vA)
    (hvB : ions_thermo.getDissociationCoeffs.1[c1]? = some vB)
    (hvX : ions_thermo.getDissociationCoeffs.1[a0]? = some vX)
    (hzP : ions_thermo.getDissociationCoeffs.2[c0]? = some zP)
    (hzM : ions_thermo.getDissociationCoeffs.2[a0]? = some zM)
    (hp : LTI_StefanMaxwell_PPN.cationIndex ions_thermo.nSpecies
      ions_thermo.getDissociationCoeffs.1 ions_thermo.getCationList = .ok p)
    (hvalid : p = "1001" ∨ p = "0110")
    (hP : doubleToInt (max vA vB) ≠ 0) (hM : doubleToInt vX ≠ 0)
    (hq1 : ¬ (doubleToInt vX = INT_MIN ∧ doubleToInt (max vA vB) = -1))
    (hq2 : ¬ (doubleToInt (max vA vB) = INT_MIN ∧ doubleToInt vX = -1)) :
    ∃ result, LTI_StefanMaxwell_PPN.getMatrixTransProp Faraday GasConstant self ions_thermo mat
      speciesValues = .ok result := by
  have hN := checkSystem_nSpecies ions_thermo hcheck
  obtain ⟨model, value, hm, hv⟩ := hcond
  obtain ⟨M, eM⟩ := (mobilityRatios_spec self ions_thermo.tothermo_t n0 n1 n2 hmob
    self.m_mobRatMix).1 hgm
  obtain ⟨sd, lsd, eS⟩ := (selfDiffusion_spec self ions_thermo.tothermo_t n0 n1 n2 hsd
    self.m_selfDiffMix hlen).1 hgs
  have hQ := getMatrixTransProp_stages Faraday GasConstant self ions_thermo mat speciesValues
  rw [hcheck, hm, hnames, hN] at hQ
  simp only [deref, bind, Except.bind, hv] at hQ
  have e3 : forLoopM (3 * (3 - 1) / 2) (fun k m_mobRatMix =>
      LTI_StefanMaxwell_PPN.mobilityRatio self ions_thermo.tothermo_t [n0, n1, n2] 3 k
        m_mobRatMix) self.m_mobRatMix = _ := eM
  rw [e3] at hQ
  simp only [] at hQ
  rw [eS] at hQ
  simp only [] at hQ
  have hc0' : ions_thermo.getCationList[0]? = some c0 := by rw [hc]; rfl
  have hc1' : ions_thermo.getCationList[1]? = some c1 := by rw [hc]; rfl
  have ha0' : ions_thermo.getAnionList[0]? = some a0 := by rw [ha]; rfl
  have hasm : ∃ M1, LTI_StefanMaxwell_PPN.assemble Faraday GasConstant ions_thermo value M sd
      mat = .ok M1 := by
    unfold LTI_StefanMaxwell_PPN.assemble
    simp only [vecAt_of_getElem? _ _ _ hc0', vecAt_of_getElem? _ _ _ hc1',
      vecAt_of_getElem? _ _ _ ha0', vecAt_of_getElem? _ _ _ hvA, vecAt_of_getElem? _ _ _ hvB,
      vecAt_of_getElem? _ _ _ hvX, vecAt_of_getElem? _ _ _ hzP, vecAt_of_getElem? _ _ _ hzM, hp,
      bind, Except.bind, if_pos hvalid, vecAt_of_lt _ _ hn0, vecAt_of_lt _ _ hn1,
      vecAt_of_lt sd c0 (by omega), vecAt_of_lt sd c1 (by omega),
      vecAt_of_lt ((List.range ions_thermo.getNeutralMolecMoleFractions.length).map
        ions_thermo.getdlnActCoeffdlnN) c0 (by simpa using hn0),
      vecAt_of_lt ((List.range ions_thermo.getNeutralMolecMoleFractions.length).map
        ions_thermo.getdlnActCoeffdlnN) c1 (by simpa using hn1)]
    exact fillMatrix_returns _ _ _ _ _ _ _ _ _ _ _ _ _ _ _ _ _ _ hP hM hq1 hq2
  obtain ⟨M1, e1⟩ := hasm
  rw [e1] at hQ
  exact ⟨_, hQ⟩


/-- The mole-fraction rule on three handles of a three-species phase. -/
theorem moleFractionRule_eq {R : Type} [Field R] (thermo : thermo_t R) (h0 h1 h2 : LTPspecies R)
    (hN : thermo.nSpecies = 3) :
    (moleFractionRule R).getMixTransProp_LTPptrs thermo [h0, h1, h2]
      = .ok (h0.getSpeciesTransProp thermo * (thermo.getMoleFractions 0 * h0.getMixWeight)
          + h1.getSpeciesTransProp thermo * (thermo.getMoleFractions 1 * h1.getMixWeight)
          + h2.getSpeciesTransProp thermo * (thermo.getMoleFractions 2 * h2.getMixWeight)) := by
  simp [moleFractionRule, LTI_MoleFracs.getMixTransProp_LTPptrs, weightByHandles, hN, forLoopM,
    vecAt, storeOf, Function.update_apply, bind, Except.bind, pure, Except.pure]

/-- The step of the mobility loop for a name `a:b` whose species `a` comes before `b`: the
value of the sub-model goes to `m_mobRatMix(a,b)`, and its reciprocal to `m_mobRatMix(b,a)` only
when the value is positive. -/
theorem mobilityRatio_sample {R : Type} [LinearOrderedField R] [FloorRing R]
    (self : LTI_StefanMaxwell_PPN R) (thermo : thermo_t R) (k : Nat) (model : MixingRule R)
    (species : List (LTPspecies R)) (value : R) (M0 : DenseMatrix R)
    (hm : self.m_mobRatMixModel[k]? = some (some model))
    (hs : self.m_mobRatSpecies[k]? = some species)
    (hv : model.getMixTransProp_LTPptrs thermo species = .ok value) :
    (self.m_mobRatIndex[k]? = some "Li+:K+" →
      LTI_StefanMaxwell_PPN.mobilityRatio self thermo ["Li+", "K+", "Cl-"] 3 k M0
        = .ok (if value > 0 then (M0.set 0 1 value).set 1 0 (1 / value) else M0.set 0 1 value))
    ∧ (self.m_mobRatIndex[k]? = some "Li+:Cl-" →
      LTI_StefanMaxwell_PPN.mobilityRatio self thermo ["Li+", "K+", "Cl-"] 3 k M0
        = .ok (if value > 0 then (M0.set 0 2 value).set 2 0 (1 / value) else M0.set 0 2 value))
    ∧ (self.m_mobRatIndex[k]? = some "K+:Cl-" →
      LTI_StefanMaxwell_PPN.mobilityRatio self thermo ["Li+", "K+", "Cl-"] 3 k M0
        = .ok (if value > 0 then (M0.set 1 2 value).set 2 1 (1 / value)
            else M0.set 1 2 value)) := by
  refine ⟨fun hx => ?_, fun hx => ?_, fun hx => ?_⟩
  · simp [LTI_StefanMaxwell_PPN.mobilityRatio, LTI_StefanMaxwell_PPN.mobilityRatioPair,
      forLoopM, forBreakM, forBreakFrom, vecAt, hx, hm, hs, hv, deref, bind, Except.bind, pure,
      Except.pure, DenseMatrix.set]
  · simp [LTI_StefanMaxwell_PPN.mobilityRatio, LTI_StefanMaxwell_PPN.mobilityRatioPair,
      forLoopM, forBreakM, forBreakFrom, vecAt, hx, hm, hs, hv, deref, bind, Except.bind, pure,
      Except.pure, DenseMatrix.set]
  · simp [LTI_StefanMaxwell_PPN.mobilityRatio, LTI_StefanMaxwell_PPN.mobilityRatioPair,
      forLoopM, forBreakM, forBreakFrom, vecAt, hx, hm, hs, hv, deref, bind, Except.bind, pure,
      Except.pure, DenseMatrix.set]


/-- In the salt `LiCl`-`KCl`, where the ion mole fractions add up to 1, the mole-fraction rule
on three copies of a handle returns the value of the handle. -/
theorem moleFractionRule_LiCl_KCl (T : ℚ) (handle : LTPspecies ℚ)
    (hw : handle.getMixWeight = 1) :
    (moleFractionRule ℚ).getMixTransProp_LTPptrs (LiCl_KCl T).tothermo_t
        [handle, handle, handle]
      = .ok (handle.getSpeciesTransProp (LiCl_KCl T).tothermo_t) := by
  rw [moleFractionRule_eq _ _ _ _ rfl, hw]
  simp only [LiCl_KCl, moltenSalt, ternaryPhase]
  norm_num
  ring

/-- The salt `LiCl`-`KCl` passes the checks of the ternary ion solver. -/
theorem checkSystem_LiCl_KCl (T : ℚ) :
    LTI_StefanMaxwell_PPN.checkSystem (LiCl_KCl T) = .ok () := by
  simp [LTI_StefanMaxwell_PPN.checkSystem, LiCl_KCl, moltenSalt, ternaryPhase, vecAt, bind,
    Except.bind, pure, Except.pure]

/-- The dissociation pattern of the salt `LiCl`-`KCl` is `1001`. -/
theorem cationIndex_LiCl_KCl (T : ℚ) :
    LTI_StefanMaxwell_PPN.cationIndex (LiCl_KCl T).nSpecies (LiCl_KCl T).getDissociationCoeffs.1
      (LiCl_KCl T).getCationList = .ok "1001" := by
  have h := cationIndex_eq 3 ([1, 0, 1, 0, 1, 1] : List ℚ) 0 1 1 0 0 1 rfl rfl rfl rfl
  rw [show (LiCl_KCl T).nSpecies = 3 from rfl,
    show (LiCl_KCl T).getDissociationCoeffs.1 = [1, 0, 1, 0, 1, 1] from rfl,
    show (LiCl_KCl T).getCationList = [0, 1] from rfl, h]
  simp [patternChar]

/-- A `double` whose truncation `n` is an `int` becomes `n` when it is assigned to an `int`. -/
theorem doubleToInt_of_int {R : Type} [LinearOrderedField R] [FloorRing R] (x : R) (n : Int)
    (hn : (if 0 ≤ x then ⌊x⌋ else ⌈x⌉) = n) (h1 : INT_MIN ≤ n) (h2 : n ≤ INT_MAX) :
    doubleToInt x = n := by
  unfold doubleToInt
  simp only [hn]
  rw [if_pos ⟨h1, h2⟩]

/-- A `double` whose truncation `n` is not an `int` becomes `INT_MIN` when it is assigned to an
`int`. -/
theorem doubleToInt_of_not_int {R : Type} [LinearOrderedField R] [FloorRing R] (x : R) (n : Int)
    (hn : (if 0 ≤ x then ⌊x⌋ else ⌈x⌉) = n) (h : ¬ (INT_MIN ≤ n ∧ n ≤ INT_MAX)) :
    doubleToInt x = INT_MIN := by
  unfold doubleToInt
  simp only [hn]
  rw [if_neg h]

/-- The `double` 1 as an `int`. -/
theorem doubleToInt_one : doubleToInt (1 : ℚ) = 1 :=
  doubleToInt_of_int 1 1 (by simp) (by decide) (by decide)

/-- The `double` -1 as an `int`. -/
theorem doubleToInt_neg_one : doubleToInt (-1 : ℚ) = -1 := by
  have h : ¬ (0 : ℚ) ≤ -1 := by norm_num
  refine doubleToInt_of_int (-1) (-1) ?_ (by decide) (by decide)
  rw [if_neg h]
  exact Int.ceil_eq_iff.2 (by norm_num)


/-- The self-diffusion loop of the sample solver on the salt `LiCl`-`KCl`: every slot of
`m_selfDiffMix` is rewritten, with the value 1. -/
theorem selfDiffusion_LiCl_KCl (T : ℚ) (self : LTI_StefanMaxwell_PPN ℚ)
    (hm : self.m_selfDiffMixModel = [some (moleFractionRule ℚ), some (moleFractionRule ℚ),
      some (moleFractionRule ℚ)])
    (hs : self.m_selfDiffSpecies = [[constHandle 1, constHandle 1, constHandle 1],
      [constHandle 1, constHandle 1, constHandle 1],
      [constHandle 1, constHandle 1, constHandle 1]])
    (hx : self.m_selfDiffIndex = ["Li+", "K+", "Cl-"]) (a b c : ℚ) :
    LTI_StefanMaxwell_PPN.selfDiffusion self (LiCl_KCl T).tothermo_t ["Li+", "K+", "Cl-"] 3
      [a, b, c] = .ok [1, 1, 1] := by
  have hv := moleFractionRule_LiCl_KCl T (constHandle 1) rfl
  simp only [LTI_StefanMaxwell_PPN.selfDiffusion, LTI_StefanMaxwell_PPN.selfDiffusionSlot,
    forLoopM, vecAt, hm, hs, hx, List.getElem?_cons_zero, List.getElem?_cons_succ, bind,
    Except.bind, pure, Except.pure, deref, hv, arrayStore]
  simp [constHandle]

/-- The mobility loop of the sample solver on the salt `LiCl`-`KCl` at temperature `T`: the ratio
`Li+:K+` has the value `T - 300`, and `m_mobRatMix(1,0)` is rewritten, with its reciprocal, only
when that value is positive; otherwise it keeps the value it had before the call. -/
theorem mobilityRatios_LiCl_KCl (T : ℚ) (self : LTI_StefanMaxwell_PPN ℚ)
    (hm : self.m_mobRatMixModel = [some (moleFractionRule ℚ), some (moleFractionRule ℚ),
      some (moleFractionRule ℚ)])
    (hs : self.m_mobRatSpecies = [[linearHandle 1 (-300), linearHandle 1 (-300),
        linearHandle 1 (-300)],
      [constHandle 1, constHandle 1, constHandle 1],
      [constHandle 1, constHandle 1, constHandle 1]])
    (hx : self.m_mobRatIndex = ["Li+:K+", "Li+:Cl-", "K+:Cl-"]) (M0 : DenseMatrix ℚ) :
    ∃ M, forLoopM 3 (fun k m_mobRatMix => LTI_StefanMaxwell_PPN.mobilityRatio self
          (LiCl_KCl T).tothermo_t ["Li+", "K+", "Cl-"] 3 k m_mobRatMix) M0 = .ok M
      ∧ M.value 1 0 = if T - 300 > 0 then 1 / (T - 300) else M0.value 1 0 := by
  have hv0 := moleFractionRule_LiCl_KCl T (linearHandle 1 (-300)) rfl
  have hv1 := moleFractionRule_LiCl_KCl T (constHandle 1) rfl
  have e0 := fun M => (mobilityRatio_sample self (LiCl_KCl T).tothermo_t 0 _ _ _ M
    (by rw [hm]; rfl) (by rw [hs]; rfl) hv0).1 (by rw [hx]; rfl)
  have e1 := fun M => (mobilityRatio_sample self (LiCl_KCl T).tothermo_t 1 _ _ _ M
    (by rw [hm]; rfl) (by rw [hs]; rfl) hv1).2.1 (by rw [hx]; rfl)
  have e2 := fun M => (mobilityRatio_sample self (LiCl_KCl T).tothermo_t 2 _ _ _ M
    (by rw [hm]; rfl) (by rw [hs]; rfl) hv1).2.2 (by rw [hx]; rfl)
  have hT : (linearHandle (1 : ℚ) (-300)).getSpeciesTransProp (LiCl_KCl T).tothermo_t
      = T - 300 := by
    simp [linearHandle, LiCl_KCl, moltenSalt, ternaryPhase]
    ring
  have h1 : (constHandle (1 : ℚ)).getSpeciesTransProp (LiCl_KCl T).tothermo_t = 1 := rfl
  rw [hT] at e0
  simp only [h1, gt_iff_lt, zero_lt_one, if_true] at e1 e2
  refine ⟨((((if T - 300 > 0 then (M0.set 0 1 (T - 300)).set 1 0 (1 / (T - 300))
    else M0.set 0 1 (T - 300)).set 0 2 1).set 2 0 (1 / 1)).set 1 2 1).set 2 1 (1 / 1), ?_, ?_⟩
  · simp only [forLoopM, e0, e1, e2]
  · split_ifs <;> simp [DenseMatrix.set]


/-- The matrix query of a solver configured as the sample solver, on the salt `LiCl`-`KCl` at
temperature `T`: it returns, the configuration is unchanged, `m_mobRatMix(1,0)` is as the
mobility loop leaves it, and the entry of the first cation and the anion is built from it. -/
theorem query_LiCl_KCl (Faraday GasConstant T : ℚ) (self : LTI_StefanMaxwell_PPN ℚ)
    (hcfg : self.sameConfiguration (ternarySolver (linearHandle 1 (-300))
      ["Li+:K+", "Li+:Cl-", "K+:Cl-"] ["Li+", "K+", "Cl-"]))
    (hlen : self.m_selfDiffMix.length = 3) :
    ∃ result,
      LTI_StefanMaxwell_PPN.getMatrixTransProp Faraday GasConstant self (LiCl_KCl T)
          DenseMatrix.empty (fun _ => 0) = .ok result
        ∧ result.1.sameConfiguration (ternarySolver (linearHandle 1 (-300))
            ["Li+:K+", "Li+:Cl-", "K+:Cl-"] ["Li+", "K+", "Cl-"])
        ∧ result.1.m_selfDiffMix.length = 3
        ∧ result.1.m_mobRatMix.value 1 0
          = (if T - 300 > 0 then 1 / (T - 300) else self.m_mobRatMix.value 1 0)
        ∧ result.2.value 0 2
          = 2 * (-((1 - result.1.m_mobRatMix.value 1 0)
                  / (1 / 2 + 1 / 2 * result.1.m_mobRatMix.value 1 0)) * (1 / 2)
                * (1 - (1 - result.1.m_mobRatMix.value 1 0)
                  / (1 / 2 + 1 / 2 * result.1.m_mobRatMix.value 1 0) * (1 / 2)))
            + Faraday ^ 2 / (GasConstant * T) := by
  obtain ⟨hI, hIs, hmm, hms, hidx, hsm, hss, hsidx⟩ := hcfg
  have hI' : self.m_ionCondMixModel = some (moleFractionRule ℚ) := hI
  have hIs' : self.m_ionCondSpecies = [constHandle 1, constHandle 1, constHandle 1] := hIs
  have hmm' : self.m_mobRatMixModel = [some (moleFractionRule ℚ), some (moleFractionRule ℚ),
      some (moleFractionRule ℚ)] := hmm
  have hms' : self.m_mobRatSpecies = [[linearHandle 1 (-300), linearHandle 1 (-300),
      linearHandle 1 (-300)], [constHandle 1, constHandle 1, constHandle 1],
      [constHandle 1, constHandle 1, constHandle 1]] := hms
  have hidx' : self.m_mobRatIndex = ["Li+:K+", "Li+:Cl-", "K+:Cl-"] := hidx
  have hsm' : self.m_selfDiffMixModel = [some (moleFractionRule ℚ), some (moleFractionRule ℚ),
      some (moleFractionRule ℚ)] := hsm
  have hss' : self.m_selfDiffSpecies = [[constHandle 1, constHandle 1, constHandle 1],
      [constHandle 1, constHandle 1, constHandle 1],
      [constHandle 1, constHandle 1, constHandle 1]] := hss
  have hsidx' : self.m_selfDiffIndex = ["Li+", "K+", "Cl-"] := hsidx
  obtain ⟨a, b, c, habc⟩ : ∃ a b c, self.m_selfDiffMix = [a, b, c] := by
    match hl : self.m_selfDiffMix, hlen with
    | [a, b, c], _ => exact ⟨a, b, c, rfl⟩
  have hcond : ∃ model value, self.m_ionCondMixModel = some model
      ∧ model.getMixTransProp_LTPptrs (LiCl_KCl T).tothermo_t self.m_ionCondSpecies
        = .ok value := by
    refine ⟨moleFractionRule ℚ, (constHandle 1).getSpeciesTransProp (LiCl_KCl T).tothermo_t,
      hI', ?_⟩
    rw [hIs']
    exact moleFractionRule_LiCl_KCl T (constHandle 1) rfl
  have hmob : ∀ k, k < 3 → ∃ index model species value,
      self.m_mobRatIndex[k]? = some index ∧ self.m_mobRatMixModel[k]? = some (some model)
        ∧ self.m_mobRatSpecies[k]? = some species
        ∧ model.getMixTransProp_LTPptrs (LiCl_KCl T).tothermo_t species = .ok value := by
    intro k hk
    rw [hidx', hmm', hms']
    interval_cases k
    · exact ⟨_, _, _, _, rfl, rfl, rfl, moleFractionRule_LiCl_KCl T _ rfl⟩
    · exact ⟨_, _, _, _, rfl, rfl, rfl, moleFractionRule_LiCl_KCl T _ rfl⟩
    · exact ⟨_, _, _, _, rfl, rfl, rfl, moleFractionRule_LiCl_KCl T _ rfl⟩
  have hsd : ∀ k, k < 3 → ∃ index model species value,
      self.m_selfDiffIndex[k]? = some index ∧ self.m_selfDiffMixModel[k]? = some (some model)
        ∧ self.m_selfDiffSpecies[k]? = some species
        ∧ model.getMixTransProp_LTPptrs (LiCl_KCl T).tothermo_t species = .ok value := by
    intro k hk
    rw [hsidx', hsm', hss']
    interval_cases k
    · exact ⟨_, _, _, _, rfl, rfl, rfl, moleFractionRule_LiCl_KCl T _ rfl⟩
    · exact ⟨_, _, _, _, rfl, rfl, rfl, moleFractionRule_LiCl_KCl T _ rfl⟩
    · exact ⟨_, _, _, _, rfl, rfl, rfl, moleFractionRule_LiCl_KCl T _ rfl⟩
  have hgm : ∀ k, k < 3 → ∃ i j, i < 3 ∧ j < 3 ∧ i ≠ j
      ∧ ["Li+", "K+", "Cl-"].getD i "" ++ ":" ++ ["Li+", "K+", "Cl-"].getD j ""
        = self.m_mobRatIndex.getD k "" := by
    intro k hk
    rw [hidx']
    interval_cases k
    · exact ⟨0, 1, by decide, by decide, by decide, by decide⟩
    · exact ⟨0, 2, by decide, by decide, by decide, by decide⟩
    · exact ⟨1, 2, by decide, by decide, by decide, by decide⟩
  have hgs : ∀ k, k < 3 → self.m_selfDiffIndex.getD k "" ∈ ["Li+", "K+", "Cl-"] := by
    intro k hk
    rw [hsidx']
    interval_cases k <;> decide
  have hmax : max (1 : ℚ) 0 = 1 := by norm_num
  obtain ⟨result, hres⟩ := getMatrixTransProp_returns Faraday GasConstant self (LiCl_KCl T)
    DenseMatrix.empty (fun _ => 0) "Li+" "K+" "Cl-" 0 1 2 1 0 1 1 (-1) "1001"
    (checkSystem_LiCl_KCl T) rfl hcond hmob hsd hlen hgm hgs rfl rfl (by omega) (by omega)
    (by show 0 < 2; omega) (by show 1 < 2; omega) rfl rfl rfl rfl rfl (cationIndex_LiCl_KCl T)
    (Or.inl rfl)
    (by rw [hmax, doubleToInt_one]; decide) (by rw [doubleToInt_one]; decide)
    (by rw [hmax, doubleToInt_one]; decide) (by rw [hmax, doubleToInt_one]; decide)
  obtain ⟨-, ⟨model, hmodel, hκ⟩, hloop, hself, -, hobj⟩ :=
    getMatrixTransProp_ok_inv _ _ _ _ _ _ _ hres
  -- the members written by the call
  have hκ1 : result.1.m_ionCondMix = 1 := by
    rw [hI'] at hmodel
    cases hmodel
    rw [hIs', moleFractionRule_LiCl_KCl T (constHandle 1) rfl] at hκ
    exact (Except.ok.inj hκ).symm
  obtain ⟨M, eM, hM10⟩ := mobilityRatios_LiCl_KCl T self hmm' hms' hidx' self.m_mobRatMix
  have hMeq : result.1.m_mobRatMix = M := by
    have hN : (LiCl_KCl T).nSpecies * ((LiCl_KCl T).nSpecies - 1) / 2 = 3 := by
      show 3 * (3 - 1) / 2 = 3
      rfl
    rw [hN] at hloop
    have e : forLoopM 3 (fun k m_mobRatMix => LTI_StefanMaxwell_PPN.mobilityRatio self
        (LiCl_KCl T).tothermo_t ["Li+", "K+", "Cl-"] 3 k m_mobRatMix) self.m_mobRatMix
        = .ok result.1.m_mobRatMix := hloop
    rw [eM] at e
    exact (Except.ok.inj e).symm
  have hsdeq : result.1.m_selfDiffMix = [1, 1, 1] := by
    have e : LTI_StefanMaxwell_PPN.selfDiffusion self (LiCl_KCl T).tothermo_t
        ["Li+", "K+", "Cl-"] 3 self.m_selfDiffMix = .ok result.1.m_selfDiffMix := hself
    rw [habc, selfDiffusion_LiCl_KCl T self hsm' hss' hsidx' a b c] at e
    exact (Except.ok.inj e).symm
  obtain ⟨c0, c1, a0, zP, zM, vA, vB, vX, xA, xB, sA, sB, hc, ha, hzP, hzM, hvA, hvB, hvX, hxA,
    hxB, hsA, hsB, -, -, -, -, -, h0a, -⟩ := getMatrixTransProp_matrix_eq Faraday GasConstant
    self (LiCl_KCl T) DenseMatrix.empty (fun _ => 0) result (fun _ _ => rfl)
    (by intro c hc; have : c ∈ [0, 1] := hc; have h2 : (LiCl_KCl T).getAnionList = [2] := rfl
        rw [h2]; simp at this ⊢; omega) hres
  have hc' : [0, 1] = [c0, c1] := hc
  have ha' : [2] = [a0] := ha
  simp only [List.cons.injEq, and_true] at hc' ha'
  obtain ⟨rfl, rfl⟩ := hc'
  subst ha'
  have ezP : zP = 1 := by
    have : ([1, 1, -1] : List ℚ)[0]? = some zP := hzP
    simpa using this.symm
  have ezM : zM = -1 := by
    have : ([1, 1, -1] : List ℚ)[2]? = some zM := hzM
    simpa using this.symm
  have evA : vA = 1 := by
    have : ([1, 0, 1, 0, 1, 1] : List ℚ)[0]? = some vA := hvA
    simpa using this.symm
  have evB : vB = 0 := by
    have : ([1, 0, 1, 0, 1, 1] : List ℚ)[1]? = some vB := hvB
    simpa using this.symm
  have evX : vX = 1 := by
    have : ([1, 0, 1, 0, 1, 1] : List ℚ)[2]? = some vX := hvX
    simpa using this.symm
  have exA : xA = 1 / 2 := by
    have : ([1 / 2, 1 / 2] : List ℚ)[0]? = some xA := hxA
    simpa using this.symm
  have exB : xB = 1 / 2 := by
    have : ([1 / 2, 1 / 2] : List ℚ)[1]? = some xB := hxB
    simpa using this.symm
  have esA : sA = 1 := by
    rw [hsdeq] at hsA
    simpa using hsA.symm
  have esB : sB = 1 := by
    rw [hsdeq] at hsB
    simpa using hsB.symm
  subst ezP ezM evA evB evX exA exB esA esB
  refine ⟨result, hres, ?_, by rw [hsdeq]; rfl, by rw [hMeq]; exact hM10, ?_⟩
  · rw [hobj]
    exact ⟨hI, hIs, hmm, hms, hidx, hsm, hss, hsidx⟩
  · rw [h0a, hκ1, hmax, doubleToInt_one, doubleToInt_neg_one,
      show intAdd 1 (Int.tdiv 1 1) = 2 from by decide, show intMul 1 (-1) = -1 from by decide]
    have hd : (LiCl_KCl T).getdlnActCoeffdlnN = fun _ => 0 := rfl
    have hT : (LiCl_KCl T).temperature = T := rfl
    have hV : (LiCl_KCl T).molarVolume = 1 := rfl
    rw [hd, hT, hV]
    norm_num
    ring

/-! ## The ternary ion solver on sample salts -/

/-- C23 on a phase of three species with one cation and two anions: the matrix query throws one
of the four `CanteraError`s of the checks. -/
theorem LTI_StefanMaxwell_PPN_getMatrixTransProp_validation_witness :
    (∀ c, c ∈ (moltenSalt (300 : ℚ) [0] [1, 2] [1, 1, 1, 0, 0, 0] [2, -1, -1]).getCationList →
        c < (moltenSalt (300 : ℚ) [0] [1, 2] [1, 1, 1, 0, 0, 0]
          [2, -1, -1]).getDissociationCoeffs.2.length)
      ∧ ¬ TernarySystem (moltenSalt (300 : ℚ) [0] [1, 2] [1, 1, 1, 0, 0, 0] [2, -1, -1])
      ∧ ∃ msg, msg ∈
          ["Function may only be called with a 3-ion system",
            "Must have one anion only for StefanMaxwell_PPN",
            "Must have two cations of equal charge for StefanMaxwell_PPN",
            "Cations must be of equal charge for StefanMaxwell_PPN"]
        ∧ LTI_StefanMaxwell_PPN.getMatrixTransProp (96485 : ℚ) 8314
            (ternarySolver (constHandle 1) ["Li+:K+", "Li+:Cl-", "K+:Cl-"] ["Li+", "K+", "Cl-"])
            (moltenSalt (300 : ℚ) [0] [1, 2] [1, 1, 1, 0, 0, 0] [2, -1, -1]) DenseMatrix.empty
            (fun _ => 0)
          = .error (Error.CanteraError "LTI_StefanMaxwell_PPN::getMatrixTransProp" msg) := by
  have hwf : ∀ c, c ∈ (moltenSalt (300 : ℚ) [0] [1, 2] [1, 1, 1, 0, 0, 0]
      [2, -1, -1]).getCationList →
      c < (moltenSalt (300 : ℚ) [0] [1, 2] [1, 1, 1, 0, 0, 0]
        [2, -1, -1]).getDissociationCoeffs.2.length := by
    intro c hc
    have h1 : c ∈ [0] := hc
    have h2 : c = 0 := by simpa using h1
    subst h2
    show 0 < 3
    omega
  have hn : ¬ TernarySystem (moltenSalt (300 : ℚ) [0] [1, 2] [1, 1, 1, 0, 0, 0]
      [2, -1, -1]) := by
    intro h
    have h2 : ([1, 2] : List Nat).length = 1 := h.2.1
    simp at h2
  exact ⟨hwf, hn, (LTI_StefanMaxwell_PPN_getMatrixTransProp_validation (96485 : ℚ) 8314 _ _ _ _
    hwf).1 hn⟩

/-- C24 on a salt whose two cations both come from the first dissociation branch: the pattern
has four characters, is neither `1001` nor `0110`, and the stage throws. -/
theorem LTI_StefanMaxwell_PPN_dissociation_pattern_witness :
    (moltenSalt (300 : ℚ) [0, 1] [2] [1, 1, 1, 0, 0, 1] [1, 1, -1]).nSpecies = 3
      ∧ (moltenSalt (300 : ℚ) [0, 1] [2] [1, 1, 1, 0, 0, 1] [1, 1, -1]).getCationList = [0, 1]
      ∧ (moltenSalt (300 : ℚ) [0, 1] [2] [1, 1, 1, 0, 0, 1] [1, 1, -1]).getAnionList = [2]
      ∧ (moltenSalt (300 : ℚ) [0, 1] [2] [1, 1, 1, 0, 0, 1]
          [1, 1, -1]).getDissociationCoeffs.1.length = 6
      ∧ (moltenSalt (300 : ℚ) [0, 1] [2] [1, 1, 1, 0, 0, 1]
          [1, 1, -1]).getDissociationCoeffs.2.length = 3
      ∧ ∃ p, LTI_StefanMaxwell_PPN.cationIndex 3 ([1, 1, 1, 0, 0, 1] : List ℚ) [0, 1] = .ok p
        ∧ p.length = 4 ∧ p.data[0]? = some '1' ∧ p.data[1]? = some '1'
        ∧ p.data[2]? = some '0' ∧ p.data[3]? = some '0'
        ∧ LTI_StefanMaxwell_PPN.assemble (96485 : ℚ) 8314
            (moltenSalt (300 : ℚ) [0, 1] [2] [1, 1, 1, 0, 0, 1] [1, 1, -1]) 1
            (DenseMatrix.resize DenseMatrix.empty 3 3 0) [1, 1, 1] DenseMatrix.empty
          = .error (Error.CanteraError "LTI_StefanMaxwell_PPN::getMixTransProp"
              ("Dissociation reactions don't make sense: cationIndex = " ++ p)) := by
  refine ⟨rfl, rfl, rfl, rfl, rfl, ?_⟩
  obtain ⟨p, hp, hl, hchar, -, herr⟩ := LTI_StefanMaxwell_PPN_dissociation_pattern (96485 : ℚ)
    8314 (moltenSalt (300 : ℚ) [0, 1] [2] [1, 1, 1, 0, 0, 1] [1, 1, -1]) 1
    (DenseMatrix.resize DenseMatrix.empty 3 3 0) [1, 1, 1] DenseMatrix.empty 0 1 2 rfl rfl rfl
    (by omega) (by omega) (by omega) rfl rfl
  have h00 : p.data[0]? = some '1' :=
    (hchar 0 0 (by omega) (by omega)).1.2 (by
      show ([1, 1, 1, 0, 0, 1] : List ℚ).getD (0 * 3 + [0, 1].getD 0 0) 0 > 0
      norm_num)
  have h01 : p.data[1]? = some '1' :=
    (hchar 0 1 (by omega) (by omega)).1.2 (by
      show ([1, 1, 1, 0, 0, 1] : List ℚ).getD (0 * 3 + [0, 1].getD 1 0) 0 > 0
      norm_num)
  have h10 : p.data[2]? = some '0' :=
    (hchar 1 0 (by omega) (by omega)).2.2 (by
      show ¬ ([1, 1, 1, 0, 0, 1] : List ℚ).getD (1 * 3 + [0, 1].getD 0 0) 0 > 0
      norm_num)
  have h11 : p.data[3]? = some '0' :=
    (hchar 1 1 (by omega) (by omega)).2.2 (by
      show ¬ ([1, 1, 1, 0, 0, 1] : List ℚ).getD (1 * 3 + [0, 1].getD 1 0) 0 > 0
      norm_num)
  have hnv : ¬ (p = "1001" ∨ p = "0110") := by
    rintro (rfl | rfl)
    · exact absurd h01 (by decide)
    · exact absurd h00 (by decide)
  exact ⟨p, hp, hl, h00, h01, h10, h11, (herr hnv).1⟩

/-- The sub-models of a sample solver return on the salt `LiCl`-`KCl`, whatever the names it is
configured with. -/
theorem ternarySolver_submodels (T : ℚ) (mobility : LTPspecies ℚ)
    (hw : mobility.getMixWeight = 1) (i0 i1 i2 s0 s1 s2 : String) :
    (∃ model value, (ternarySolver mobility [i0, i1, i2] [s0, s1, s2]).m_ionCondMixModel
          = some model
        ∧ model.getMixTransProp_LTPptrs (LiCl_KCl T).tothermo_t
            (ternarySolver mobility [i0, i1, i2] [s0, s1, s2]).m_ionCondSpecies = .ok value)
      ∧ (∀ k, k < 3 → ∃ index model species value,
          (ternarySolver mobility [i0, i1, i2] [s0, s1, s2]).m_mobRatIndex[k]? = some index
            ∧ (ternarySolver mobility [i0, i1, i2] [s0, s1, s2]).m_mobRatMixModel[k]?
              = some (some model)
            ∧ (ternarySolver mobility [i0, i1, i2] [s0, s1, s2]).m_mobRatSpecies[k]?
              = some species
            ∧ model.getMixTransProp_LTPptrs (LiCl_KCl T).tothermo_t species = .ok value)
      ∧ (∀ k, k < 3 → ∃ index model species value,
          (ternarySolver mobility [i0, i1, i2] [s0, s1, s2]).m_selfDiffIndex[k]? = some index
            ∧ (ternarySolver mobility [i0, i1, i2] [s0, s1, s2]).m_selfDiffMixModel[k]?
              = some (some model)
            ∧ (ternarySolver mobility [i0, i1, i2] [s0, s1, s2]).m_selfDiffSpecies[k]?
              = some species
            ∧ model.getMixTransProp_LTPptrs (LiCl_KCl T).tothermo_t species = .ok value) := by
  refine ⟨⟨moleFractionRule ℚ, _, rfl, moleFractionRule_LiCl_KCl T (constHandle 1) rfl⟩,
    fun k hk => ?_, fun k hk => ?_⟩
  · interval_cases k
    · exact ⟨i0, moleFractionRule ℚ, [mobility, mobility, mobility], _, rfl, rfl, rfl,
        moleFractionRule_LiCl_KCl T mobility hw⟩
    · exact ⟨i1, moleFractionRule ℚ, [constHandle 1, constHandle 1, constHandle 1], _, rfl,
        rfl, rfl, moleFractionRule_LiCl_KCl T (constHandle 1) rfl⟩
    · exact ⟨i2, moleFractionRule ℚ, [constHandle 1, constHandle 1, constHandle 1], _, rfl,
        rfl, rfl, moleFractionRule_LiCl_KCl T (constHandle 1) rfl⟩
  · interval_cases k
    · exact ⟨s0, moleFractionRule ℚ, [constHandle 1, constHandle 1, constHandle 1], _, rfl,
        rfl, rfl, moleFractionRule_LiCl_KCl T (constHandle 1) rfl⟩
    · exact ⟨s1, moleFractionRule ℚ, [constHandle 1, constHandle 1, constHandle 1], _, rfl,
        rfl, rfl, moleFractionRule_LiCl_KCl T (constHandle 1) rfl⟩
    · exact ⟨s2, moleFractionRule ℚ, [constHandle 1, constHandle 1, constHandle 1], _, rfl,
        rfl, rfl, moleFractionRule_LiCl_KCl T (constHandle 1) rfl⟩

/-- C25 on the salt `LiCl`-`KCl`: a solver configured with the mobility-ratio name `Li+:Na+`,
which names no species pair of the phase, throws the `CanteraError` for a mobility ratio, and
the name-resolution loops of a solver whose names all match return. -/
theorem LTI_StefanMaxwell_PPN_name_resolution_witness :
    (∃ k, k < 3 ∧ LTI_StefanMaxwell_PPN.getMatrixTransProp (96485 : ℚ) 8314
          (ternarySolver (constHandle 1) ["Li+:Na+", "Li+:Cl-", "K+:Cl-"] ["Li+", "K+", "Cl-"])
          (LiCl_KCl 300) DenseMatrix.empty (fun _ => 0)
        = .error (Error.CanteraError "LTI_StefanMaxwell_PPN::getMixTransProp"
            ("Incorrect names for mobility ratio of "
              ++ (ternarySolver (constHandle (1 : ℚ)) ["Li+:Na+", "Li+:Cl-", "K+:Cl-"]
                ["Li+", "K+", "Cl-"]).m_mobRatIndex.getD k ""
              ++ " rather than i.e. " ++ "Li+" ++ ":" ++ "K+")))
      ∧ ∃ m_mobRatMix m_selfDiffMix,
          forLoopM ((LiCl_KCl (300 : ℚ)).nSpecies * ((LiCl_KCl (300 : ℚ)).nSpecies - 1) / 2)
              (fun k m_mobRatMix => LTI_StefanMaxwell_PPN.mobilityRatio
                (ternarySolver (constHandle 1) ["Li+:K+", "Cl-:Li+", "K+:Cl-"]
                  ["Cl-", "K+", "Li+"])
                (LiCl_KCl (300 : ℚ)).tothermo_t (LiCl_KCl (300 : ℚ)).getSpeciesNames
                (LiCl_KCl (300 : ℚ)).nSpecies k m_mobRatMix)
              (ternarySolver (constHandle (1 : ℚ)) ["Li+:K+", "Cl-:Li+", "K+:Cl-"]
                ["Cl-", "K+", "Li+"]).m_mobRatMix = .ok m_mobRatMix
            ∧ LTI_StefanMaxwell_PPN.selfDiffusion
                (ternarySolver (constHandle 1) ["Li+:K+", "Cl-:Li+", "K+:Cl-"]
                  ["Cl-", "K+", "Li+"])
                (LiCl_KCl (300 : ℚ)).tothermo_t (LiCl_KCl (300 : ℚ)).getSpeciesNames
                (LiCl_KCl (300 : ℚ)).nSpecies
                (ternarySolver (constHandle (1 : ℚ)) ["Li+:K+", "Cl-:Li+", "K+:Cl-"]
                  ["Cl-", "K+", "Li+"]).m_selfDiffMix = .ok m_selfDiffMix := by
  obtain ⟨b1, b2, b3⟩ := ternarySolver_submodels 300 (constHandle 1) rfl "Li+:Na+" "Li+:Cl-"
    "K+:Cl-" "Li+" "K+" "Cl-"
  obtain ⟨g1, g2, g3⟩ := ternarySolver_submodels 300 (constHandle 1) rfl "Li+:K+" "Cl-:Li+"
    "K+:Cl-" "Cl-" "K+" "Li+"
  refine ⟨(LTI_StefanMaxwell_PPN_name_resolution (96485 : ℚ) 8314 _ (LiCl_KCl 300)
      DenseMatrix.empty (fun _ => 0) "Li+" "K+" "Cl-" (checkSystem_LiCl_KCl 300) rfl b1 b2 b3
      rfl).1 ?_,
    (LTI_StefanMaxwell_PPN_name_resolution (96485 : ℚ) 8314 _ (LiCl_KCl 300)
      DenseMatrix.empty (fun _ => 0) "Li+" "K+" "Cl-" (checkSystem_LiCl_KCl 300) rfl g1 g2 g3
      rfl).2.2 ?_ ?_⟩
  · intro h
    obtain ⟨i, j, hi, hj, -, e⟩ := h 0 (by omega)
    have e' : ["Li+", "K+", "Cl-"].getD i "" ++ ":" ++ ["Li+", "K+", "Cl-"].getD j ""
        = "Li+:Na+" := e
    interval_cases i <;> interval_cases j <;> revert e' <;> decide
  · intro k hk
    interval_cases k
    · exact ⟨0, 1, by decide, by decide, by decide, by decide⟩
    · exact ⟨2, 0, by decide, by decide, by decide, by decide⟩
    · exact ⟨1, 2, by decide, by decide, by decide, by decide⟩
  · intro k hk
    interval_cases k <;> decide

/-- C26 on the salt `LiCl`-`KCl` at 300 K and the sample solver: the query returns a symmetric
3 by 3 matrix with zero diagonal. -/
theorem LTI_StefanMaxwell_PPN_getMatrixTransProp_matrix_witness :
    ∃ result,
      LTI_StefanMaxwell_PPN.getMatrixTransProp (96485 : ℚ) 8314
          (ternarySolver (linearHandle 1 (-300)) ["Li+:K+", "Li+:Cl-", "K+:Cl-"]
            ["Li+", "K+", "Cl-"]) (LiCl_KCl 300) DenseMatrix.empty (fun _ => 0) = .ok result
        ∧ result.2.nRows = 3 ∧ result.2.nColumns = 3
        ∧ (∀ a b, result.2.value a b = result.2.value b a)
        ∧ (∀ a, result.2.value a a = 0) := by
  obtain ⟨result, hres, -⟩ := query_LiCl_KCl 96485 8314 300
    (ternarySolver (linearHandle 1 (-300)) ["Li+:K+", "Li+:Cl-", "K+:Cl-"] ["Li+", "K+", "Cl-"])
    ⟨rfl, rfl, rfl, rfl, rfl, rfl, rfl, rfl⟩ rfl
  obtain ⟨c0, c1, a0, zP, zM, vA, vB, vX, xA, xB, sA, sB, -, -, -, -, -, -, -, -, -, -, -, hr,
    hc, hsym, -, hdiag, -, -⟩ := LTI_StefanMaxwell_PPN_getMatrixTransProp_matrix (96485 : ℚ)
    8314 _ (LiCl_KCl 300) DenseMatrix.empty (fun _ => 0) result (fun _ _ => rfl)
    (by
      intro c hc
      have h1 : c ∈ [0, 1] := hc
      have h2 : (LiCl_KCl (300 : ℚ)).getAnionList = [2] := rfl
      rw [h2]
      simp at h1 ⊢
      omega) hres
  exact ⟨result, hres, hr, hc, hsym, hdiag⟩

/-! ## Queries of the ternary ion solver at the same state -/

/-- C27 at the failing inputs: the sample solver, whose first mobility ratio `Li+:K+` has the
value `T - 300`, queried on the salt `LiCl`-`KCl` at 300 K once as `setParameters` leaves it
and once after a query at 302 K.  Configuration, arguments and state of the second and third
query are the same, but at 300 K the ratio is not positive, so `m_mobRatMix(1,0)` is not
rewritten: it is still 0 in the fresh solver and still 1/2 after the query at 302 K, and the
entry of `Li+` and `Cl-` comes out different. -/
theorem LTI_StefanMaxwell_PPN_result_depends_on_earlier_query :
    ∀ Faraday GasConstant : ℚ, ∃ first second fresh,
      LTI_StefanMaxwell_PPN.getMatrixTransProp Faraday GasConstant
          (ternarySolver (linearHandle 1 (-300)) ["Li+:K+", "Li+:Cl-", "K+:Cl-"]
            ["Li+", "K+", "Cl-"]) (LiCl_KCl 302) DenseMatrix.empty (fun _ => 0) = .ok first
        ∧ LTI_StefanMaxwell_PPN.getMatrixTransProp Faraday GasConstant first.1 (LiCl_KCl 300)
          DenseMatrix.empty (fun _ => 0) = .ok second
        ∧ LTI_StefanMaxwell_PPN.getMatrixTransProp Faraday GasConstant
          (ternarySolver (linearHandle 1 (-300)) ["Li+:K+", "Li+:Cl-", "K+:Cl-"]
            ["Li+", "K+", "Cl-"]) (LiCl_KCl 300) DenseMatrix.empty (fun _ => 0) = .ok fresh
        ∧ first.1.sameConfiguration (ternarySolver (linearHandle 1 (-300))
            ["Li+:K+", "Li+:Cl-", "K+:Cl-"] ["Li+", "K+", "Cl-"])
        ∧ fresh.2.value 0 2 = Faraday ^ 2 / (GasConstant * 300)
        ∧ second.2.value 0 2 = -4 / 9 + Faraday ^ 2 / (GasConstant * 300)
        ∧ second.2.value 0 2 ≠ fresh.2.value 0 2 := by
  intro Faraday GasConstant
  obtain ⟨first, h1, c1, l1, r1, -⟩ := query_LiCl_KCl Faraday GasConstant 302
    (ternarySolver (linearHandle 1 (-300)) ["Li+:K+", "Li+:Cl-", "K+:Cl-"] ["Li+", "K+", "Cl-"])
    ⟨rfl, rfl, rfl, rfl, rfl, rfl, rfl, rfl⟩ rfl
  obtain ⟨second, h2, -, -, r2, v2⟩ := query_LiCl_KCl Faraday GasConstant 300 first.1 c1 l1
  obtain ⟨fresh, h3, -, -, r3, v3⟩ := query_LiCl_KCl Faraday GasConstant 300
    (ternarySolver (linearHandle 1 (-300)) ["Li+:K+", "Li+:Cl-", "K+:Cl-"] ["Li+", "K+", "Cl-"])
    ⟨rfl, rfl, rfl, rfl, rfl, rfl, rfl, rfl⟩ rfl
  have e1 : first.1.m_mobRatMix.value 1 0 = 1 / 2 := by
    rw [r1]; norm_num
  have e2 : second.1.m_mobRatMix.value 1 0 = 1 / 2 := by
    rw [r2, e1]; norm_num
  have e3 : fresh.1.m_mobRatMix.value 1 0 = 0 := by
    rw [r3]
    norm_num [ternarySolver, DenseMatrix.resize, DenseMatrix.empty]
  rw [e2] at v2
  rw [e3] at v3
  have f2 : second.2.value 0 2 = -4 / 9 + Faraday ^ 2 / (GasConstant * 300) := by
    rw [v2]; norm_num
  have f3 : fresh.2.value 0 2 = Faraday ^ 2 / (GasConstant * 300) := by
    rw [v3]; norm_num
  refine ⟨first, second, fresh, h1, h2, h3, c1, f3, f2, ?_⟩
  rw [f2, f3]
  intro h
  have : (-4 / 9 : ℚ) = 0 := by linarith
  norm_num at this

/-! ## The ternary ion solver: the integer prefactors -/

/-- At most one integer is the truncation of a number. -/
theorem IsTruncation_unique {R : Type} [LinearOrderedField R] (x : R) (n m : Int)
    (hn : IsTruncation x n) (hm : IsTruncation x m) : n = m := by
  obtain ⟨n1, n2⟩ := hn
  obtain ⟨m1, m2⟩ := hm
  rw [abs_lt] at n2 m2
  rcases le_total 0 x with hx | hx
  · rw [abs_of_nonneg hx] at n1 m1
    have a1 := (abs_le.1 n1).2
    have a2 := (abs_le.1 m1).2
    have h1 : ((n : R)) < (m : R) + 1 := by linarith
    have h2 : ((m : R)) < (n : R) + 1 := by linarith
    have h1' : n < m + 1 := by exact_mod_cast h1
    have h2' : m < n + 1 := by exact_mod_cast h2
    omega
  · rw [abs_of_nonpos hx] at n1 m1
    have a1 := (abs_le.1 n1).1
    have a2 := (abs_le.1 m1).1
    have h1 : ((n : R)) < (m : R) + 1 := by linarith
    have h2 : ((m : R)) < (n : R) + 1 := by linarith
    have h1' : n < m + 1 := by exact_mod_cast h1
    have h2' : m < n + 1 := by exact_mod_cast h2
    omega

/-- Dropping the fraction of a number, by the floor of a number that is not negative and the
ceiling of a negative one, truncates it. -/
theorem floor_ceil_isTruncation {R : Type} [LinearOrderedField R] [FloorRing R] (x : R) :
    IsTruncation x (if 0 ≤ x then ⌊x⌋ else ⌈x⌉) := by
  unfold IsTruncation
  by_cases hx : 0 ≤ x
  · rw [if_pos hx]
    have h0 : (0 : R) ≤ (⌊x⌋ : R) := by exact_mod_cast Int.floor_nonneg.2 hx
    have h1 := Int.floor_le x
    have h2 := Int.lt_floor_add_one x
    rw [abs_of_nonneg h0, abs_of_nonneg hx, abs_of_nonneg (by linarith)]
    exact ⟨h1, by linarith⟩
  · rw [if_neg hx]
    have hx' : x ≤ 0 := le_of_lt (not_le.1 hx)
    have h0 : (⌈x⌉ : R) ≤ 0 := by exact_mod_cast Int.ceil_le.2 (by simpa using hx')
    have h1 := Int.le_ceil x
    have h2 := Int.ceil_lt_add_one x
    rw [abs_of_nonpos h0, abs_of_nonpos hx', abs_of_nonpos (by linarith)]
    exact ⟨by linarith, by linarith⟩

/-- The truncation of a number strictly between `-2^31 - 1` and `2^31` is an `int`. -/
theorem floor_ceil_range {R : Type} [LinearOrderedField R] [FloorRing R] (x : R)
    (h1 : -2147483649 < x) (h2 : x < 2147483648) :
    INT_MIN ≤ (if 0 ≤ x then ⌊x⌋ else ⌈x⌉) ∧ (if 0 ≤ x then ⌊x⌋ else ⌈x⌉) ≤ INT_MAX := by
  unfold INT_MIN INT_MAX
  by_cases hx : 0 ≤ x
  · rw [if_pos hx]
    have h0 : 0 ≤ ⌊x⌋ := Int.floor_nonneg.2 hx
    have h3 : ⌊x⌋ < 2147483648 := Int.floor_lt.2 (by exact_mod_cast h2)
    omega
  · rw [if_neg hx]
    have hx' : x ≤ 0 := le_of_lt (not_le.1 hx)
    have h0 : ⌈x⌉ ≤ 0 := Int.ceil_le.2 (by simpa using hx')
    have h3 : -2147483649 < ⌈x⌉ := Int.lt_ceil.2 (by exact_mod_cast h1)
    omega

/-- A `double` strictly between `-2^31 - 1` and `2^31` assigned to an `int` is truncated. -/
theorem doubleToInt_isTruncation {R : Type} [LinearOrderedField R] [FloorRing R] (x : R)
    (h1 : -2147483649 < x) (h2 : x < 2147483648) : IsTruncation x (doubleToInt x) := by
  obtain ⟨r1, r2⟩ := floor_ceil_range x h1 h2
  rw [doubleToInt_of_int x _ rfl r1 r2]
  exact floor_ceil_isTruncation x

/-- A `double` at or below `-2^31 - 1` or at or above `2^31` assigned to an `int` gives
`INT_MIN`. -/
theorem doubleToInt_out_of_range {R : Type} [LinearOrderedField R] [FloorRing R] (x : R)
    (h : x ≤ -2147483649 ∨ 2147483648 ≤ x) : doubleToInt x = INT_MIN := by
  refine doubleToInt_of_not_int x _ rfl ?_
  unfold INT_MIN INT_MAX
  rcases h with h | h
  · have hx : ¬ 0 ≤ x := by
      intro h0
      linarith
    rw [if_neg hx]
    have h3 : ⌈x⌉ ≤ -2147483649 := Int.ceil_le.2 (by exact_mod_cast h)
    omega
  · have hx : 0 ≤ x := by linarith
    rw [if_pos hx]
    have h3 : 2147483648 ≤ ⌊x⌋ := Int.le_floor.2 (by exact_mod_cast h)
    omega

/-- A `double` at or below `-2^31 - 1` or at or above `2^31` assigned to an `int` is not
truncated. -/
theorem doubleToInt_not_isTruncation {R : Type} [LinearOrderedField R] [FloorRing R] (x : R)
    (h : x ≤ -2147483649 ∨ 2147483648 ≤ x) : ¬ IsTruncation x (doubleToInt x) := by
  rw [doubleToInt_out_of_range x h]
  intro ht
  have h2 := abs_lt.1 ht.2
  unfold INT_MIN at h2
  push_cast at h2
  rcases h with h | h
  · linarith [h2.1]
  · linarith [h2.2]

/-- The value of a `double` assigned to an `int` is an `int`. -/
theorem doubleToInt_range {R : Type} [LinearOrderedField R] [FloorRing R] (x : R) :
    INT_MIN ≤ doubleToInt x ∧ doubleToInt x ≤ INT_MAX := by
  unfold doubleToInt
  simp only []
  by_cases h : INT_MIN ≤ (if 0 ≤ x then ⌊x⌋ else ⌈x⌉)
      ∧ (if 0 ≤ x then ⌊x⌋ else ⌈x⌉) ≤ INT_MAX
  · rw [if_pos h]
    exact h
  · rw [if_neg h]
    decide

/-- An integer that is an `int` is held unchanged. -/
theorem wrapInt_of_range (n : Int) (h1 : INT_MIN ≤ n) (h2 : n ≤ INT_MAX) : wrapInt n = n := by
  unfold INT_MIN at h1
  unfold INT_MAX at h2
  unfold wrapInt
  omega

/-- The quotient of two `int`s is no larger in absolute value than the dividend. -/
theorem tdiv_natAbs_le (a b : Int) : (Int.tdiv a b).natAbs ≤ a.natAbs := by
  rw [Int.natAbs_tdiv]
  exact Nat.div_le_self _ _

/-- The sum `1 + a / b` of `int`s does not overflow unless the quotient is `INT_MAX`. -/
theorem intAdd_one_tdiv (a b : Int) (ha : INT_MIN ≤ a) (ha2 : a ≤ INT_MAX)
    (hq : Int.tdiv a b < INT_MAX) : intAdd 1 (Int.tdiv a b) = 1 + Int.tdiv a b := by
  have h := tdiv_natAbs_le a b
  unfold INT_MIN at ha
  unfold INT_MAX at ha2 hq
  refine wrapInt_of_range _ ?_ ?_
  · unfold INT_MIN
    omega
  · unfold INT_MAX
    omega

/-- The product of two `int`s of absolute value at most 46340 does not overflow. -/
theorem intMul_of_small (a b : Int) (ha : |a| ≤ 46340) (hb : |b| ≤ 46340) :
    intMul a b = a * b := by
  have h : |a * b| ≤ 46340 * 46340 := by
    rw [abs_mul]
    exact mul_le_mul ha hb (abs_nonneg b) (by norm_num)
  obtain ⟨h1, h2⟩ := abs_le.1 h
  refine wrapInt_of_range _ ?_ ?_
  · unfold INT_MIN
    omega
  · unfold INT_MAX
    omega

/-- The quotient of two natural numbers as `int`s is the exact quotient truncated. -/
theorem natDiv_cast_bounds {R : Type} [LinearOrderedField R] (A B : Nat) (hB : 0 < B) :
    (((A / B : Nat) : Nat) : R) ≤ (A : R) / (B : R)
      ∧ (A : R) / (B : R) < ((A / B : Nat) : R) + 1 := by
  have hB' : (0 : R) < (B : R) := by exact_mod_cast hB
  refine ⟨Nat.cast_div_le, ?_⟩
  rw [div_lt_iff₀ hB']
  have h := Nat.lt_mul_div_succ A hB
  have h' : (A : R) < (B : R) * (((A / B : Nat) : R) + 1) := by exact_mod_cast h
  linarith

/-- The quotient `a / b` of two `int`s is the exact quotient truncated. -/
theorem tdiv_isTruncation {R : Type} [LinearOrderedField R] (a b : Int) (hb : b ≠ 0) :
    IsTruncation ((a : R) / (b : R)) (Int.tdiv a b) := by
  have key : ∀ A B : Nat, 0 < B →
      IsTruncation (((A : Int) : R) / ((B : Int) : R)) (Int.tdiv (A : Int) (B : Int)) := by
    intro A B hB
    obtain ⟨h1, h2⟩ := @natDiv_cast_bounds R _ A B hB
    have hq : (0 : R) ≤ ((A / B : Nat) : R) := Nat.cast_nonneg _
    unfold IsTruncation
    rw [← Int.ofNat_tdiv]
    simp only [Int.cast_natCast]
    rw [abs_of_nonneg hq, abs_of_nonneg (le_trans hq h1), abs_of_nonneg (by linarith)]
    exact ⟨h1, by linarith⟩
  have hneg : ∀ (x : R) (n : Int), IsTruncation x n → IsTruncation (-x) (-n) := by
    intro x n h
    unfold IsTruncation at h ⊢
    have e : -x - -(n : R) = -(x - (n : R)) := by ring
    rw [Int.cast_neg, abs_neg, abs_neg, e, abs_neg]
    exact h
  have hB : 0 < b.natAbs := Int.natAbs_pos.2 hb
  rcases Int.natAbs_eq a with ha | ha <;> rcases Int.natAbs_eq b with hb' | hb'
  · rw [ha, hb']
    exact key _ _ hB
  · have h := hneg _ _ (key a.natAbs b.natAbs hB)
    rw [ha, hb', Int.tdiv_neg, Int.cast_neg, div_neg]
    exact h
  · have h := hneg _ _ (key a.natAbs b.natAbs hB)
    rw [ha, hb', Int.neg_tdiv, Int.cast_neg, neg_div]
    exact h
  · rw [ha, hb', Int.neg_tdiv, Int.tdiv_neg, Int.cast_neg, Int.cast_neg, neg_div_neg_eq, neg_neg]
    exact key _ _ hB

/-- The prefactor `1 + a / b` with the quotient of `int`s has the value of `1 + a / b` with the
exact quotient only when `b` divides `a`. -/
theorem tdiv_prefactor_eq_iff {R : Type} [LinearOrderedField R] (a b : Int) (hb : b ≠ 0) :
    ((1 + Int.tdiv a b : Int) : R) = 1 + (a : R) / (b : R) ↔ b ∣ a := by
  have hb' : (b : R) ≠ 0 := by exact_mod_cast hb
  rw [Int.cast_add, Int.cast_one, add_right_inj, eq_div_iff hb']
  constructor
  · intro h
    have h' : Int.tdiv a b * b = a := by exact_mod_cast h
    exact Dvd.intro_left _ h'
  · intro h
    have h' := Int.tdiv_mul_cancel h
    exact_mod_cast h'

/-- The matrix assignments of lines 803-806 fail by an `int` division by zero exactly when one
of the integer prefactors `vP`, `vM` is zero. -/
theorem fillMatrix_divideByZero_iff {R : Type} [LinearOrderedField R] [FloorRing R]
    (Faraday GasConstant temp m_ionCondMix vol : R) (vP vM zP zM : Int)
    (eps xA xB inv : R) (c0 c1 a0 nsp : Nat) (mat : DenseMatrix R) :
    LTI_StefanMaxwell_PPN.fillMatrix Faraday GasConstant temp m_ionCondMix vol vP vM zP zM
        eps xA xB inv c0 c1 a0 nsp mat = .error Error.divideByZero ↔ vP = 0 ∨ vM = 0 := by
  unfold LTI_StefanMaxwell_PPN.fillMatrix
  by_cases hP : vP = 0
  · subst hP
    simp only [intDiv_zero, bind, Except.bind, true_or]
  by_cases h1 : vM = INT_MIN ∧ vP = -1
  · obtain ⟨e1, e2⟩ := h1
    subst e1 e2
    simp only [intDiv_INT_MIN_neg_one, bind, Except.bind]
    constructor
    · intro h
      cases h
    · intro h
      rcases h with h | h
      · exact absurd h (by decide)
      · exact absurd h (by decide)
  rw [intDiv_eq_ok vM vP hP h1]
  by_cases hM : vM = 0
  · subst hM
    simp only [intDiv_zero, bind, Except.bind, or_true]
  by_cases h2 : vP = INT_MIN ∧ vM = -1
  · obtain ⟨e1, e2⟩ := h2
    subst e1 e2
    simp only [intDiv_INT_MIN_neg_one, bind, Except.bind]
    constructor
    · intro h
      cases h
    · intro h
      rcases h with h | h
      · exact absurd h (by decide)
      · exact absurd h (by decide)
  rw [intDiv_eq_ok vP vM hM h2]
  constructor
  · intro h
    cases h
  · intro h
    rcases h with h | h
    · exact absurd h hP
    · exact absurd h hM

/-- The matrix assignments of lines 803-806 for three different species, integer prefactors
other than zero and quotients other than `INT_MIN / -1`: they return, and the entries of the
three species pairs carry the prefactors `1 + vM / vP` and `1 + vP / vM` with the quotients
and sums of `int`s, and the products `zP * zP` and `zP * zM` of `int`s. -/
theorem fillMatrix_prefactors {R : Type} [LinearOrderedField R] [FloorRing R]
    (Faraday GasConstant temp m_ionCondMix vol : R) (vP vM zP zM : Int)
    (eps xA xB inv : R) (c0 c1 a0 nsp : Nat) (mat : DenseMatrix R)
    (hP : vP ≠ 0) (hM : vM ≠ 0) (h1 : ¬ (vM = INT_MIN ∧ vP = -1))
    (h2 : ¬ (vP = INT_MIN ∧ vM = -1)) (h01 : c0 ≠ c1) (h0a : c0 ≠ a0) (h1a : c1 ≠ a0) :
    ∃ M, LTI_StefanMaxwell_PPN.fillMatrix Faraday GasConstant temp m_ionCondMix vol vP vM zP zM
        eps xA xB inv c0 c1 a0 nsp mat = .ok M
      ∧ M.value c0 c1
        = ((intAdd 1 (Int.tdiv vM vP) : Int) : R) * (1 + eps * xB) * (1 - eps * xA) * inv
          - ((intMul zP zP : Int) : R) * Faraday * Faraday / GasConstant / temp / m_ionCondMix
            / vol
      ∧ M.value c0 a0
        = ((intAdd 1 (Int.tdiv vP vM) : Int) : R) * (-eps * xB * (1 - eps * xA) * inv)
          - ((intMul zP zM : Int) : R) * Faraday * Faraday / GasConstant / temp / m_ionCondMix
            / vol
      ∧ M.value c1 a0
        = ((intAdd 1 (Int.tdiv vP vM) : Int) : R) * (eps * xA * (1 + eps * xB) * inv)
          - ((intMul zP zM : Int) : R) * Faraday * Faraday / GasConstant / temp / m_ionCondMix
            / vol
      ∧ M.value c1 c0 = M.value c0 c1 ∧ M.value a0 c0 = M.value c0 a0
      ∧ M.value a0 c1 = M.value c1 a0 := by
  have h10 := h01.symm
  have ha0 := h0a.symm
  have ha1 := h1a.symm
  obtain ⟨M, h⟩ := fillMatrix_returns Faraday GasConstant temp m_ionCondMix vol vP vM zP zM
    eps xA xB inv c0 c1 a0 nsp mat hP hM h1 h2
  refine ⟨M, h, ?_⟩
  unfold LTI_StefanMaxwell_PPN.fillMatrix at h
  rw [intDiv_eq_ok vM vP hP h1, intDiv_eq_ok vP vM hM h2] at h
  simp only [bind, Except.bind, pure, Except.pure, Except.ok.injEq] at h
  subst h
  refine ⟨?_, ?_, ?_, ?_, ?_, ?_⟩
  · simp [DenseMatrix.set, DenseMatrix.resize, h01, h0a, h1a, h10, ha0, ha1]
  · simp [DenseMatrix.set, DenseMatrix.resize, h01, h0a, h1a, h10, ha0, ha1]
  · simp [DenseMatrix.set, DenseMatrix.resize, h01, h0a, h1a, h10, ha0, ha1]
  · simp [DenseMatrix.set, DenseMatrix.resize, h01, h0a, h1a, h10, ha0, ha1]
  · simp [DenseMatrix.set, DenseMatrix.resize, h01, h0a, h1a, h10, ha0, ha1]
  · simp [DenseMatrix.set, DenseMatrix.resize, h01, h0a, h1a, h10, ha0, ha1]

/-- The matrix query of the ternary ion solver on a phase that passes the checks, when every
sub-model returns, every configured name matches, the lookups by the cations and the anion are
in range and the dissociation pattern is `1001` or `0110`: the call reaches the matrix
assignments of lines 803-806, with the values of the dissociation coefficients and charges
assigned to `int`s, and its outcome is theirs. -/
theorem getMatrixTransProp_eq_fillMatrix {R : Type} [LinearOrderedField R] [FloorRing R]
    (Faraday GasConstant : R) (self : LTI_StefanMaxwell_PPN R)
    (ions_thermo : IonsFromNeutralVPSSTP R) (mat : DenseMatrix R) (speciesValues : Nat → R)
    (n0 n1 n2 : String) (c0 c1 a0 : Nat) (vA vB vX zP zM : R) (p : String)
    (hcheck : LTI_StefanMaxwell_PPN.checkSystem ions_thermo = .ok ())
    (hnames : ions_thermo.getSpeciesNames = [n0, n1, n2])
    (hcond : ∃ model value, self.m_ionCondMixModel = some model
      ∧ model.getMixTransProp_LTPptrs ions_thermo.tothermo_t self.m_ionCondSpecies
        = .ok value)
    (hmob : ∀ k, k < 3 → ∃ index model species value,
      self.m_mobRatIndex[k]? = some index ∧ self.m_mobRatMixModel[k]? = some (some model)
        ∧ self.m_mobRatSpecies[k]? = some species
        ∧ model.getMixTransProp_LTPptrs ions_thermo.tothermo_t species = .ok value)
    (hsd : ∀ k, k < 3 → ∃ index model species value,
      self.m_selfDiffIndex[k]? = some index ∧ self.m_selfDiffMixModel[k]? = some (some model)
        ∧ self.m_selfDiffSpecies[k]? = some species
        ∧ model.getMixTransProp_LTPptrs ions_thermo.tothermo_t species = .ok value)
    (hlen : self.m_selfDiffMix.length = 3)
    (hgm : ∀ k, k < 3 → ∃ i j, i < 3 ∧ j < 3 ∧ i ≠ j
      ∧ [n0, n1, n2].getD i "" ++ ":" ++ [n0, n1, n2].getD j "" = self.m_mobRatIndex.getD k "")
    (hgs : ∀ k, k < 3 → self.m_selfDiffIndex.getD k "" ∈ [n0, n1, n2])
    (hc : ions_thermo.getCationList = [c0, c1]) (ha : ions_thermo.getAnionList = [a0])
    (hc0 : c0 < 3) (hc1 : c1 < 3)
    (hn0 : c0 < ions_thermo.getNeutralMolecMoleFractions.length)
    (hn1 : c1 < ions_thermo.getNeutralMolecMoleFractions.length)
    (hvA : ions_thermo.getDissociationCoeffs.1[c0]? = some vA)
    (hvB : ions_thermo.getDissociationCoeffs.1[c1]? = some vB)
    (hvX : ions_thermo.getDissociationCoeffs.1[a0]? = some vX)
    (hzP : ions_thermo.getDissociationCoeffs.2[c0]? = some zP)
    (hzM : ions_thermo.getDissociationCoeffs.2[a0]? = some zM)
    (hp : LTI_StefanMaxwell_PPN.cationIndex ions_thermo.nSpecies
      ions_thermo.getDissociationCoeffs.1 ions_thermo.getCationList = .ok p)
    (hvalid : p = "1001" ∨ p = "0110") :
    ∃ m_ionCondMix m_mobRatMix m_selfDiffMix xA xB sA sB,
      (∃ model, self.m_ionCondMixModel = some model
        ∧ model.getMixTransProp_LTPptrs ions_thermo.tothermo_t self.m_ionCondSpecies
          = .ok m_ionCondMix)
      ∧ forLoopM 3 (fun k m_mobRatMix => LTI_StefanMaxwell_PPN.mobilityRatio self
          ions_thermo.tothermo_t [n0, n1, n2] 3 k m_mobRatMix) self.m_mobRatMix
          = .ok m_mobRatMix
      ∧ LTI_StefanMaxwell_PPN.selfDiffusion self ions_thermo.tothermo_t [n0, n1, n2] 3
          self.m_selfDiffMix = .ok m_selfDiffMix
      ∧ ions_thermo.getNeutralMolecMoleFractions[c0]? = some xA
      ∧ ions_thermo.getNeutralMolecMoleFractions[c1]? = some xB
      ∧ m_selfDiffMix[c0]? = some sA ∧ m_selfDiffMix[c1]? = some sB
      ∧ LTI_StefanMaxwell_PPN.getMatrixTransProp Faraday GasConstant self ions_thermo mat
          speciesValues
        = (LTI_StefanMaxwell_PPN.fillMatrix Faraday GasConstant ions_thermo.temperature
            m_ionCondMix ions_thermo.molarVolume (doubleToInt (max vA vB)) (doubleToInt vX)
            (doubleToInt zP) (doubleToInt zM)
            ((1 - m_mobRatMix.value c1 c0) / (xA + xB * m_mobRatMix.value c1 c0)) xA xB
            (xA * (1 + ions_thermo.getdlnActCoeffdlnN c1) / sB
              + xB * (1 + ions_thermo.getdlnActCoeffdlnN c0) / sA) c0 c1 a0 3 mat
          >>= fun mat => pure ({ self with m_ionCondMix := m_ionCondMix,
                                           m_mobRatMix := m_mobRatMix,
                                           m_selfDiffMix := m_selfDiffMix }, mat)) := by
  have hN := checkSystem_nSpecies ions_thermo hcheck
  obtain ⟨model, value, hm, hv⟩ := hcond
  obtain ⟨M, eM⟩ := (mobilityRatios_spec self ions_thermo.tothermo_t n0 n1 n2 hmob
    self.m_mobRatMix).1 hgm
  obtain ⟨sd, lsd, eS⟩ := (selfDiffusion_spec self ions_thermo.tothermo_t n0 n1 n2 hsd
    self.m_selfDiffMix hlen).1 hgs
  have hQ := getMatrixTransProp_stages Faraday GasConstant self ions_thermo mat speciesValues
  rw [hcheck, hm, hnames, hN] at hQ
  simp only [deref, bind, Except.bind, hv] at hQ
  have e3 : forLoopM (3 * (3 - 1) / 2) (fun k m_mobRatMix =>
      LTI_StefanMaxwell_PPN.mobilityRatio self ions_thermo.tothermo_t [n0, n1, n2] 3 k
        m_mobRatMix) self.m_mobRatMix = _ := eM
  rw [e3] at hQ
  simp only [] at hQ
  rw [eS] at hQ
  simp only [] at hQ
  have hc0' : ions_thermo.getCationList[0]? = some c0 := by rw [hc]; rfl
  have hc1' : ions_thermo.getCationList[1]? = some c1 := by rw [hc]; rfl
  have ha0' : ions_thermo.getAnionList[0]? = some a0 := by rw [ha]; rfl
  have hp3 := hp
  rw [hN] at hp3
  have hs0 : c0 < sd.length := by omega
  have hs1 : c1 < sd.length := by omega
  have hd : ∀ c (h : c < ions_thermo.getNeutralMolecMoleFractions.length),
      vecAt ((List.range ions_thermo.getNeutralMolecMoleFractions.length).map
        ions_thermo.getdlnActCoeffdlnN) c = .ok (ions_thermo.getdlnActCoeffdlnN c) := by
    intro c h
    simp [vecAt, h]
  have hasm : LTI_StefanMaxwell_PPN.assemble Faraday GasConstant ions_thermo value M sd mat
      = LTI_StefanMaxwell_PPN.fillMatrix Faraday GasConstant ions_thermo.temperature
        value ions_thermo.molarVolume (doubleToInt (max vA vB)) (doubleToInt vX)
        (doubleToInt zP) (doubleToInt zM)
        ((1 - M.value c1 c0) / (ions_thermo.getNeutralMolecMoleFractions.get ⟨c0, hn0⟩
          + ions_thermo.getNeutralMolecMoleFractions.get ⟨c1, hn1⟩ * M.value c1 c0))
        (ions_thermo.getNeutralMolecMoleFractions.get ⟨c0, hn0⟩)
        (ions_thermo.getNeutralMolecMoleFractions.get ⟨c1, hn1⟩)
        (ions_thermo.getNeutralMolecMoleFractions.get ⟨c0, hn0⟩
            * (1 + ions_thermo.getdlnActCoeffdlnN c1) / sd.get ⟨c1, hs1⟩
          + ions_thermo.getNeutralMolecMoleFractions.get ⟨c1, hn1⟩
            * (1 + ions_thermo.getdlnActCoeffdlnN c0) / sd.get ⟨c0, hs0⟩) c0 c1 a0 3 mat := by
    unfold LTI_StefanMaxwell_PPN.assemble
    simp only [vecAt_of_getElem? _ _ _ hc0', vecAt_of_getElem? _ _ _ hc1',
      vecAt_of_getElem? _ _ _ ha0', vecAt_of_getElem? _ _ _ hvA, vecAt_of_getElem? _ _ _ hvB,
      vecAt_of_getElem? _ _ _ hvX, vecAt_of_getElem? _ _ _ hzP, vecAt_of_getElem? _ _ _ hzM, hN,
      hp3, bind, Except.bind, if_pos hvalid, vecAt_of_lt _ _ hn0, vecAt_of_lt _ _ hn1,
      vecAt_of_lt sd c0 hs0, vecAt_of_lt sd c1 hs1, hd c0 hn0, hd c1 hn1]
  rw [hasm] at hQ
  refine ⟨value, M, sd, _, _, _, _, ⟨model, hm, hv⟩, eM, eS,
    List.getElem?_eq_getElem hn0, List.getElem?_eq_getElem hn1, List.getElem?_eq_getElem hs0,
    List.getElem?_eq_getElem hs1, ?_⟩
  rw [hQ, hm]
  rfl

/-- A dissociation pattern `1001` or `0110` has a positive coefficient among those of the two
cations in the first neutral molecule. -/
theorem cationIndex_valid_pos {R : Type} [LinearOrderedField R] [FloorRing R] (nsp : Nat)
    (viS : List R) (c0 c1 : Nat) (vA vB : R) (p : String)
    (hA : viS[c0]? = some vA) (hB : viS[c1]? = some vB)
    (hp : LTI_StefanMaxwell_PPN.cationIndex nsp viS [c0, c1] = .ok p)
    (hvalid : p = "1001" ∨ p = "0110") : 0 < max vA vB := by
  cases h10 : viS[nsp + c0]? with
  | none =>
    unfold LTI_StefanMaxwell_PPN.cationIndex at hp
    simp only [forLoopM, vecAt, List.getElem?_cons_zero, List.getElem?_cons_succ, bind,
      Except.bind, Nat.zero_mul, Nat.zero_add, Nat.one_mul, hA, hB, h10] at hp
    split_ifs at hp <;> simp [pure, Except.pure] at hp
  | some v10 =>
    cases h11 : viS[nsp + c1]? with
    | none =>
      unfold LTI_StefanMaxwell_PPN.cationIndex at hp
      simp only [forLoopM, vecAt, List.getElem?_cons_zero, List.getElem?_cons_succ, bind,
        Except.bind, Nat.zero_mul, Nat.zero_add, Nat.one_mul, hA, hB, h10, h11] at hp
      split_ifs at hp <;> simp [pure, Except.pure] at hp
    | some v11 =>
      rw [cationIndex_eq nsp viS c0 c1 vA vB v10 v11 hA hB h10 h11] at hp
      have e := Except.ok.inj hp
      by_cases a : vA > 0
      · exact lt_max_of_lt_left a
      by_cases b : vB > 0
      · exact lt_max_of_lt_right b
      exfalso
      subst e
      simp only [patternChar, if_neg a, if_neg b] at hvalid
      split_ifs at hvalid <;> revert hvalid <;> decide

/-- The entries of the matrix query of the ternary ion solver, on a phase that passes the
checks, with sub-models that return, names that match, lookups in range, a dissociation pattern
`1001` or `0110`, cations other than the anion, integer prefactors other than zero and
quotients other than `INT_MIN / -1`: the call returns, and the three entries carry the sums,
quotients and products of `int`s. -/
theorem getMatrixTransProp_entries {R : Type} [LinearOrderedField R] [FloorRing R]
    (Faraday GasConstant : R) (self : LTI_StefanMaxwell_PPN R)
    (ions_thermo : IonsFromNeutralVPSSTP R) (mat : DenseMatrix R) (speciesValues : Nat → R)
    (n0 n1 n2 : String) (c0 c1 a0 : Nat) (vA vB vX zP zM : R) (p : String)
    (hcheck : LTI_StefanMaxwell_PPN.checkSystem ions_thermo = .ok ())
    (hnames : ions_thermo.getSpeciesNames = [n0, n1, n2])
    (hcond : ∃ model value, self.m_ionCondMixModel = some model
      ∧ model.getMixTransProp_LTPptrs ions_thermo.tothermo_t self.m_ionCondSpecies
        = .ok value)
    (hmob : ∀ k, k < 3 → ∃ index model species value,
      self.m_mobRatIndex[k]? = some index ∧ self.m_mobRatMixModel[k]? = some (some model)
        ∧ self.m_mobRatSpecies[k]? = some species
        ∧ model.getMixTransProp_LTPptrs ions_thermo.tothermo_t species = .ok value)
    (hsd : ∀ k, k < 3 → ∃ index model species value,
      self.m_selfDiffIndex[k]? = some index ∧ self.m_selfDiffMixModel[k]? = some (some model)
        ∧ self.m_selfDiffSpecies[k]? = some species
        ∧ model.getMixTransProp_LTPptrs ions_thermo.tothermo_t species = .ok value)
    (hlen : self.m_selfDiffMix.length = 3)
    (hgm : ∀ k, k < 3 → ∃ i j, i < 3 ∧ j < 3 ∧ i ≠ j
      ∧ [n0, n1, n2].getD i "" ++ ":" ++ [n0, n1, n2].getD j "" = self.m_mobRatIndex.getD k "")
    (hgs : ∀ k, k < 3 → self.m_selfDiffIndex.getD k "" ∈ [n0, n1, n2])
    (hc : ions_thermo.getCationList = [c0, c1]) (ha : ions_thermo.getAnionList = [a0])
    (hc0 : c0 < 3) (hc1 : c1 < 3) (h0a : c0 ≠ a0) (h1a : c1 ≠ a0)
    (hn0 : c0 < ions_thermo.getNeutralMolecMoleFractions.length)
    (hn1 : c1 < ions_thermo.getNeutralMolecMoleFractions.length)
    (hvA : ions_thermo.getDissociationCoeffs.1[c0]? = some vA)
    (hvB : ions_thermo.getDissociationCoeffs.1[c1]? = some vB)
    (hvX : ions_thermo.getDissociationCoeffs.1[a0]? = some vX)
    (hzP : ions_thermo.getDissociationCoeffs.2[c0]? = some zP)
    (hzM : ions_thermo.getDissociationCoeffs.2[a0]? = some zM)
    (hp : LTI_StefanMaxwell_PPN.cationIndex ions_thermo.nSpecies
      ions_thermo.getDissociationCoeffs.1 ions_thermo.getCationList = .ok p)
    (hvalid : p = "1001" ∨ p = "0110")
    (hP : doubleToInt (max vA vB) ≠ 0) (hM : doubleToInt vX ≠ 0)
    (hq1 : ¬ (doubleToInt vX = INT_MIN ∧ doubleToInt (max vA vB) = -1))
    (hq2 : ¬ (doubleToInt (max vA vB) = INT_MIN ∧ doubleToInt vX = -1)) :
    ∃ result xA xB sA sB eps inv_vP_vM_MutualDiff,
          LTI_StefanMaxwell_PPN.getMatrixTransProp Faraday GasConstant self ions_thermo mat
              speciesValues = .ok result
            ∧ ions_thermo.getNeutralMolecMoleFractions[c0]? = some xA
            ∧ ions_thermo.getNeutralMolecMoleFractions[c1]? = some xB
            ∧ result.1.m_selfDiffMix[c0]? = some sA
            ∧ result.1.m_selfDiffMix[c1]? = some sB
            ∧ eps = (1 - result.1.m_mobRatMix.value c1 c0)
                / (xA + xB * result.1.m_mobRatMix.value c1 c0)
            ∧ inv_vP_vM_MutualDiff
                = xA * (1 + ions_thermo.getdlnActCoeffdlnN c1) / sB
                  + xB * (1 + ions_thermo.getdlnActCoeffdlnN c0) / sA
            ∧ result.2.value c0 c1
              = ((intAdd 1 (Int.tdiv (doubleToInt vX) (doubleToInt (max vA vB))) : Int) : R)
                  * (1 + eps * xB) * (1 - eps * xA) * inv_vP_vM_MutualDiff
                - ((intMul (doubleToInt zP) (doubleToInt zP) : Int) : R) * Faraday * Faraday
                  / GasConstant / ions_thermo.temperature / result.1.m_ionCondMix
                  / ions_thermo.molarVolume
            ∧ result.2.value c0 a0
              = ((intAdd 1 (Int.tdiv (doubleToInt (max vA vB)) (doubleToInt vX)) : Int) : R)
                  * (-eps * xB * (1 - eps * xA) * inv_vP_vM_MutualDiff)
                - ((intMul (doubleToInt zP) (doubleToInt zM) : Int) : R) * Faraday * Faraday
                  / GasConstant / ions_thermo.temperature / result.1.m_ionCondMix
                  / ions_thermo.molarVolume
            ∧ result.2.value c1 a0
              = ((intAdd 1 (Int.tdiv (doubleToInt (max vA vB)) (doubleToInt vX)) : Int) : R)
                  * (eps * xA * (1 + eps * xB) * inv_vP_vM_MutualDiff)
                - ((intMul (doubleToInt zP) (doubleToInt zM) : Int) : R) * Faraday * Faraday
                  / GasConstant / ions_thermo.temperature / result.1.m_ionCondMix
                  / ions_thermo.molarVolume
            ∧ result.2.value c1 c0 = result.2.value c0 c1
            ∧ result.2.value a0 c0 = result.2.value c0 a0
            ∧ result.2.value a0 c1 = result.2.value c1 a0 := by
  obtain ⟨κ, M, sd, xA, xB, sA, sB, -, -, -, hxA, hxB, hsA, hsB, hQ⟩ :=
    getMatrixTransProp_eq_fillMatrix Faraday GasConstant self ions_thermo mat speciesValues
      n0 n1 n2 c0 c1 a0 vA vB vX zP zM p hcheck hnames hcond hmob hsd hlen hgm hgs hc ha hc0 hc1
      hn0 hn1 hvA hvB hvX hzP hzM hp hvalid
  have h01 : c0 ≠ c1 := by
    intro e
    subst e
    rw [hc] at hp
    exact cationIndex_same _ _ _ _ hp hvalid
  obtain ⟨M1, hfill, e01, e0a, e1a, s01, s0a, s1a⟩ := fillMatrix_prefactors Faraday GasConstant
    ions_thermo.temperature κ ions_thermo.molarVolume (doubleToInt (max vA vB))
    (doubleToInt vX) (doubleToInt zP) (doubleToInt zM)
    ((1 - M.value c1 c0) / (xA + xB * M.value c1 c0)) xA xB
    (xA * (1 + ions_thermo.getdlnActCoeffdlnN c1) / sB
      + xB * (1 + ions_thermo.getdlnActCoeffdlnN c0) / sA) c0 c1 a0 3 mat hP hM hq1 hq2 h01
    h0a h1a
  rw [hfill] at hQ
  exact ⟨_, xA, xB, sA, sB, _, _, hQ, hxA, hxB, hsA, hsB, rfl, rfl, e01, e0a, e1a, s01, s0a,
    s1a⟩

/-- The matrix query of the ternary ion solver, on a phase that passes the checks, with
sub-models that return, names that match, lookups in range and a dissociation pattern `1001`
or `0110`, fails by an `int` division by zero exactly when `vP` or `vM` is zero. -/
theorem getMatrixTransProp_divideByZero_iff {R : Type} [LinearOrderedField R] [FloorRing R]
    (Faraday GasConstant : R) (self : LTI_StefanMaxwell_PPN R)
    (ions_thermo : IonsFromNeutralVPSSTP R) (mat : DenseMatrix R) (speciesValues : Nat → R)
    (n0 n1 n2 : String) (c0 c1 a0 : Nat) (vA vB vX zP zM : R) (p : String)
    (hcheck : LTI_StefanMaxwell_PPN.checkSystem ions_thermo = .ok ())
    (hnames : ions_thermo.getSpeciesNames = [n0, n1, n2])
    (hcond : ∃ model value, self.m_ionCondMixModel = some model
      ∧ model.getMixTransProp_LTPptrs ions_thermo.tothermo_t self.m_ionCondSpecies
        = .ok value)
    (hmob : ∀ k, k < 3 → ∃ index model species value,
      self.m_mobRatIndex[k]? = some index ∧ self.m_mobRatMixModel[k]? = some (some model)
        ∧ self.m_mobRatSpecies[k]? = some species
        ∧ model.getMixTransProp_LTPptrs ions_thermo.tothermo_t species = .ok value)
    (hsd : ∀ k, k < 3 → ∃ index model species value,
      self.m_selfDiffIndex[k]? = some index ∧ self.m_selfDiffMixModel[k]? = some (some model)
        ∧ self.m_selfDiffSpecies[k]? = some species
        ∧ model.getMixTransProp_LTPptrs ions_thermo.tothermo_t species = .ok value)
    (hlen : self.m_selfDiffMix.length = 3)
    (hgm : ∀ k, k < 3 → ∃ i j, i < 3 ∧ j < 3 ∧ i ≠ j
      ∧ [n0, n1, n2].getD i "" ++ ":" ++ [n0, n1, n2].getD j "" = self.m_mobRatIndex.getD k "")
    (hgs : ∀ k, k < 3 → self.m_selfDiffIndex.getD k "" ∈ [n0, n1, n2])
    (hc : ions_thermo.getCationList = [c0, c1]) (ha : ions_thermo.getAnionList = [a0])
    (hc0 : c0 < 3) (hc1 : c1 < 3)
    (hn0 : c0 < ions_thermo.getNeutralMolecMoleFractions.length)
    (hn1 : c1 < ions_thermo.getNeutralMolecMoleFractions.length)
    (hvA : ions_thermo.getDissociationCoeffs.1[c0]? = some vA)
    (hvB : ions_thermo.getDissociationCoeffs.1[c1]? = some vB)
    (hvX : ions_thermo.getDissociationCoeffs.1[a0]? = some vX)
    (hzP : ions_thermo.getDissociationCoeffs.2[c0]? = some zP)
    (hzM : ions_thermo.getDissociationCoeffs.2[a0]? = some zM)
    (hp : LTI_StefanMaxwell_PPN.cationIndex ions_thermo.nSpecies
      ions_thermo.getDissociationCoeffs.1 ions_thermo.getCationList = .ok p)
    (hvalid : p = "1001" ∨ p = "0110") :
    LTI_StefanMaxwell_PPN.getMatrixTransProp Faraday GasConstant self ions_thermo mat
        speciesValues = .error Error.divideByZero
      ↔ doubleToInt (max vA vB) = 0 ∨ doubleToInt vX = 0 := by
  obtain ⟨κ, M, sd, xA, xB, sA, sB, -, -, -, -, -, -, -, hQ⟩ :=
    getMatrixTransProp_eq_fillMatrix Faraday GasConstant self ions_thermo mat speciesValues
      n0 n1 n2 c0 c1 a0 vA vB vX zP zM p hcheck hnames hcond hmob hsd hlen hgm hgs hc ha hc0 hc1
      hn0 hn1 hvA hvB hvX hzP hzM hp hvalid
  rw [hQ, ← fillMatrix_divideByZero_iff Faraday GasConstant ions_thermo.temperature κ
    ions_thermo.molarVolume (doubleToInt (max vA vB)) (doubleToInt vX) (doubleToInt zP)
    (doubleToInt zM) ((1 - M.value c1 c0) / (xA + xB * M.value c1 c0)) xA xB
    (xA * (1 + ions_thermo.getdlnActCoeffdlnN c1) / sB
      + xB * (1 + ions_thermo.getdlnActCoeffdlnN c0) / sA) c0 c1 a0 3 mat]
  cases LTI_StefanMaxwell_PPN.fillMatrix Faraday GasConstant ions_thermo.temperature κ
    ions_thermo.molarVolume (doubleToInt (max vA vB)) (doubleToInt vX) (doubleToInt zP)
    (doubleToInt zM) ((1 - M.value c1 c0) / (xA + xB * M.value c1 c0)) xA xB
    (xA * (1 + ions_thermo.getdlnActCoeffdlnN c1) / sB
      + xB * (1 + ions_thermo.getdlnActCoeffdlnN c0) / sA) c0 c1 a0 3 mat with
  | error e => simp [bind, Except.bind]
  | ok M1 => simp [bind, Except.bind, pure, Except.pure]

/-- The integer prefactors of the matrix query of the ternary ion solver, on a phase that
passes the checks, with sub-models that return, names that match, lookups in range, a
dissociation pattern `1001` or `0110`, cations other than the anion, and coefficients and
charges strictly between `-2^31 - 1` and `2^31`: `vP`, `vM`, `zP`, `zM` are the coefficients and
charges truncated; the call fails by an `int` division by zero exactly when `vP` or `vM` is
zero; otherwise it returns, and the three entries carry `1 + vM / vP` and `1 + vP / vM` with
truncated quotients, exact unless a sum or product of `int`s overflows. -/
theorem getMatrixTransProp_prefactors {R : Type} [LinearOrderedField R] [FloorRing R]
    (Faraday GasConstant : R) (self : LTI_StefanMaxwell_PPN R)
    (ions_thermo : IonsFromNeutralVPSSTP R) (mat : DenseMatrix R) (speciesValues : Nat → R)
    (n0 n1 n2 : String) (c0 c1 a0 : Nat) (vA vB vX zP zM : R) (p : String)
    (hcheck : LTI_StefanMaxwell_PPN.checkSystem ions_thermo = .ok ())
    (hnames : ions_thermo.getSpeciesNames = [n0, n1, n2])
    (hcond : ∃ model value, self.m_ionCondMixModel = some model
      ∧ model.getMixTransProp_LTPptrs ions_thermo.tothermo_t self.m_ionCondSpecies
        = .ok value)
    (hmob : ∀ k, k < 3 → ∃ index model species value,
      self.m_mobRatIndex[k]? = some index ∧ self.m_mobRatMixModel[k]? = some (some model)
        ∧ self.m_mobRatSpecies[k]? = some species
        ∧ model.getMixTransProp_LTPptrs ions_thermo.tothermo_t species = .ok value)
    (hsd : ∀ k, k < 3 → ∃ index model species value,
      self.m_selfDiffIndex[k]? = some index ∧ self.m_selfDiffMixModel[k]? = some (some model)
        ∧ self.m_selfDiffSpecies[k]? = some species
        ∧ model.getMixTransProp_LTPptrs ions_thermo.tothermo_t species = .ok value)
    (hlen : self.m_selfDiffMix.length = 3)
    (hgm : ∀ k, k < 3 → ∃ i j, i < 3 ∧ j < 3 ∧ i ≠ j
      ∧ [n0, n1, n2].getD i "" ++ ":" ++ [n0, n1, n2].getD j "" = self.m_mobRatIndex.getD k "")
    (hgs : ∀ k, k < 3 → self.m_selfDiffIndex.getD k "" ∈ [n0, n1, n2])
    (hc : ions_thermo.getCationList = [c0, c1]) (ha : ions_thermo.getAnionList = [a0])
    (hc0 : c0 < 3) (hc1 : c1 < 3) (h0a : c0 ≠ a0) (h1a : c1 ≠ a0)
    (hn0 : c0 < ions_thermo.getNeutralMolecMoleFractions.length)
    (hn1 : c1 < ions_thermo.getNeutralMolecMoleFractions.length)
    (hvA : ions_thermo.getDissociationCoeffs.1[c0]? = some vA)
    (hvB : ions_thermo.getDissociationCoeffs.1[c1]? = some vB)
    (hvX : ions_thermo.getDissociationCoeffs.1[a0]? = some vX)
    (hzP : ions_thermo.getDissociationCoeffs.2[c0]? = some zP)
    (hzM : ions_thermo.getDissociationCoeffs.2[a0]? = some zM)
    (hp : LTI_StefanMaxwell_PPN.cationIndex ions_thermo.nSpecies
      ions_thermo.getDissociationCoeffs.1 ions_thermo.getCationList = .ok p)
    (hvalid : p = "1001" ∨ p = "0110")
    (hrP : -2147483649 < max vA vB ∧ max vA vB < 2147483648)
    (hrM : -2147483649 < vX ∧ vX < 2147483648)
    (hrzP : -2147483649 < zP ∧ zP < 2147483648)
    (hrzM : -2147483649 < zM ∧ zM < 2147483648) :
    IsTruncation (max vA vB) (doubleToInt (max vA vB))
      ∧ IsTruncation vX (doubleToInt vX)
      ∧ IsTruncation zP (doubleToInt zP)
      ∧ IsTruncation zM (doubleToInt zM)
      ∧ (LTI_StefanMaxwell_PPN.getMatrixTransProp Faraday GasConstant self ions_thermo mat
            speciesValues = .error Error.divideByZero
          ↔ doubleToInt (max vA vB) = 0 ∨ doubleToInt vX = 0)
      ∧ (doubleToInt (max vA vB) ≠ 0 → doubleToInt vX ≠ 0 →
          IsTruncation (((doubleToInt vX : Int) : R) / ((doubleToInt (max vA vB) : Int) : R))
              (Int.tdiv (doubleToInt vX) (doubleToInt (max vA vB)))
            ∧ IsTruncation (((doubleToInt (max vA vB) : Int) : R) / ((doubleToInt vX : Int) : R))
              (Int.tdiv (doubleToInt (max vA vB)) (doubleToInt vX))
            ∧ (((1 + Int.tdiv (doubleToInt vX) (doubleToInt (max vA vB)) : Int) : R)
                = 1 + ((doubleToInt vX : Int) : R) / ((doubleToInt (max vA vB) : Int) : R)
              ↔ doubleToInt (max vA vB) ∣ doubleToInt vX)
            ∧ (((1 + Int.tdiv (doubleToInt (max vA vB)) (doubleToInt vX) : Int) : R)
                = 1 + ((doubleToInt (max vA vB) : Int) : R) / ((doubleToInt vX : Int) : R)
              ↔ doubleToInt vX ∣ doubleToInt (max vA vB))
            ∧ (Int.tdiv (doubleToInt vX) (doubleToInt (max vA vB)) < INT_MAX →
              intAdd 1 (Int.tdiv (doubleToInt vX) (doubleToInt (max vA vB)))
                = 1 + Int.tdiv (doubleToInt vX) (doubleToInt (max vA vB)))
            ∧ (Int.tdiv (doubleToInt (max vA vB)) (doubleToInt vX) < INT_MAX →
              intAdd 1 (Int.tdiv (doubleToInt (max vA vB)) (doubleToInt vX))
                = 1 + Int.tdiv (doubleToInt (max vA vB)) (doubleToInt vX))
            ∧ (|doubleToInt zP| ≤ 46340 → |doubleToInt zM| ≤ 46340 →
              intMul (doubleToInt zP) (doubleToInt zP) = doubleToInt zP * doubleToInt zP
                ∧ intMul (doubleToInt zP) (doubleToInt zM) = doubleToInt zP * doubleToInt zM)
            ∧ ∃ result xA xB sA sB eps inv_vP_vM_MutualDiff,
                  LTI_StefanMaxwell_PPN.getMatrixTransProp Faraday GasConstant self ions_thermo mat
                      speciesValues = .ok result
                    ∧ ions_thermo.getNeutralMolecMoleFractions[c0]? = some xA
                    ∧ ions_thermo.getNeutralMolecMoleFractions[c1]? = some xB
                    ∧ result.1.m_selfDiffMix[c0]? = some sA
                    ∧ result.1.m_selfDiffMix[c1]? = some sB
                    ∧ eps = (1 - result.1.m_mobRatMix.value c1 c0)
                        / (xA + xB * result.1.m_mobRatMix.value c1 c0)
                    ∧ inv_vP_vM_MutualDiff
                        = xA * (1 + ions_thermo.getdlnActCoeffdlnN c1) / sB
                          + xB * (1 + ions_thermo.getdlnActCoeffdlnN c0) / sA
                    ∧ result.2.value c0 c1
                      = ((intAdd 1 (Int.tdiv (doubleToInt vX) (doubleToInt (max vA vB))) : Int) : R)
                          * (1 + eps * xB) * (1 - eps * xA) * inv_vP_vM_MutualDiff
                        - ((intMul (doubleToInt zP) (doubleToInt zP) : Int) : R) * Faraday * Faraday
                          / GasConstant / ions_thermo.temperature / result.1.m_ionCondMix
                          / ions_thermo.molarVolume
                    ∧ result.2.value c0 a0
                      = ((intAdd 1 (Int.tdiv (doubleToInt (max vA vB)) (doubleToInt vX)) : Int) : R)
                          * (-eps * xB * (1 - eps * xA) * inv_vP_vM_MutualDiff)
                        - ((intMul (doubleToInt zP) (doubleToInt zM) : Int) : R) * Faraday * Faraday
                          / GasConstant / ions_thermo.temperature / result.1.m_ionCondMix
                          / ions_thermo.molarVolume
                    ∧ result.2.value c1 a0
                      = ((intAdd 1 (Int.tdiv (doubleToInt (max vA vB)) (doubleToInt vX)) : Int) : R)
                          * (eps * xA * (1 + eps * xB) * inv_vP_vM_MutualDiff)
                        - ((intMul (doubleToInt zP) (doubleToInt zM) : Int) : R) * Faraday * Faraday
                          / GasConstant / ions_thermo.temperature / result.1.m_ionCondMix
                          / ions_thermo.molarVolume
                    ∧ result.2.value c1 c0 = result.2.value c0 c1
                    ∧ result.2.value a0 c0 = result.2.value c0 a0
                    ∧ result.2.value a0 c1 = result.2.value c1 a0)
      ∧ ∀ x : R, x ≤ -2147483649 ∨ 2147483648 ≤ x →
        doubleToInt x = INT_MIN ∧ ¬ IsTruncation x (doubleToInt x) := by
  have tP := doubleToInt_isTruncation _ hrP.1 hrP.2
  have hpos : 0 < max vA vB := by
    rw [hc] at hp
    exact cationIndex_valid_pos _ _ c0 c1 vA vB p hvA hvB hp hvalid
  have hvP : 0 ≤ doubleToInt (max vA vB) := by
    have h2 := (abs_lt.1 tP.2).2
    have h3 : ((-1 : Int) : R) < ((doubleToInt (max vA vB) : Int) : R) := by
      push_cast
      linarith
    have h4 : (-1 : Int) < doubleToInt (max vA vB) := by exact_mod_cast h3
    omega
  obtain ⟨rM1, rM2⟩ := doubleToInt_range vX
  obtain ⟨rP1, rP2⟩ := doubleToInt_range (max vA vB)
  refine ⟨tP, doubleToInt_isTruncation _ hrM.1 hrM.2, doubleToInt_isTruncation _ hrzP.1 hrzP.2,
    doubleToInt_isTruncation _ hrzM.1 hrzM.2,
    getMatrixTransProp_divideByZero_iff Faraday GasConstant self ions_thermo mat speciesValues
      n0 n1 n2 c0 c1 a0 vA vB vX zP zM p hcheck hnames hcond hmob hsd hlen hgm hgs hc ha hc0 hc1
      hn0 hn1 hvA hvB hvX hzP hzM hp hvalid, ?_, fun x hx =>
      ⟨doubleToInt_out_of_range x hx, doubleToInt_not_isTruncation x hx⟩⟩
  intro hP hM
  have hq1 : ¬ (doubleToInt vX = INT_MIN ∧ doubleToInt (max vA vB) = -1) := by
    rintro ⟨-, e⟩
    omega
  have hq2 : ¬ (doubleToInt (max vA vB) = INT_MIN ∧ doubleToInt vX = -1) := by
    rintro ⟨e, -⟩
    unfold INT_MIN at e
    omega
  exact ⟨tdiv_isTruncation _ _ hP, tdiv_isTruncation _ _ hM, tdiv_prefactor_eq_iff _ _ hP,
    tdiv_prefactor_eq_iff _ _ hM, intAdd_one_tdiv _ _ rM1 rM2, intAdd_one_tdiv _ _ rP1 rP2,
    fun h1 h2 => ⟨intMul_of_small _ _ h1 h1, intMul_of_small _ _ h1 h2⟩,
    getMatrixTransProp_entries Faraday GasConstant self ions_thermo mat speciesValues
      n0 n1 n2 c0 c1 a0 vA vB vX zP zM p hcheck hnames hcond hmob hsd hlen hgm hgs hc ha hc0 hc1
      h0a h1a hn0 hn1 hvA hvB hvX hzP hzM hp hvalid hP hM hq1 hq2⟩

/-- C31, amended: in `LTI_StefanMaxwell_PPN::getMatrixTransProp`, on a phase that passes the
checks, with sub-models that return, names that match, lookups in range, a dissociation pattern
`1001` or `0110` and cations other than the anion, the stoichiometric prefactors are computed
in 32-bit `int` arithmetic.  When `max(viS[cation0], viS[cation1])`, `viS[anion]` and the two
charges lie strictly between `-2^31 - 1` and `2^31`, `vP`, `vM`, `zP` and `zM` are these values
truncated; the call fails by an `int` division by zero exactly when the truncated `vP` or `vM`
is 0; otherwise it returns, the factors `1 + vM / vP` and `1 + vP / vM` of the three entries
use the quotients of `int`s, which are the exact quotients truncated, so that a factor has the
value of the exact `1 + a / b` only when `b` divides `a`; the sums are exact unless the
quotient is `INT_MAX`, and the products `zP * zP`, `zP * zM` are exact for charges of absolute
value up to 46340.  A `double` outside that range is not truncated: the `int` is `INT_MIN`. -/
theorem LTI_StefanMaxwell_PPN_integer_prefactors {R : Type} [LinearOrderedField R]
    [FloorRing R]
    (Faraday GasConstant : R) (self : LTI_StefanMaxwell_PPN R)
    (ions_thermo : IonsFromNeutralVPSSTP R) (mat : DenseMatrix R) (speciesValues : Nat → R)
    (n0 n1 n2 : String) (c0 c1 a0 : Nat) (vA vB vX zP zM : R) (p : String)
    (hcheck : LTI_StefanMaxwell_PPN.checkSystem ions_thermo = .ok ())
    (hnames : ions_thermo.getSpeciesNames = [n0, n1, n2])
    (hcond : ∃ model value, self.m_ionCondMixModel = some model
      ∧ model.getMixTransProp_LTPptrs ions_thermo.tothermo_t self.m_ionCondSpecies
        = .ok value)
    (hmob : ∀ k, k < 3 → ∃ index model species value,
      self.m_mobRatIndex[k]? = some index ∧ self.m_mobRatMixModel[k]? = some (some model)
        ∧ self.m_mobRatSpecies[k]? = some species
        ∧ model.getMixTransProp_LTPptrs ions_thermo.tothermo_t species = .ok value)
    (hsd : ∀ k, k < 3 → ∃ index model species value,
      self.m_selfDiffIndex[k]? = some index ∧ self.m_selfDiffMixModel[k]? = some (some model)
        ∧ self.m_selfDiffSpecies[k]? = some species
        ∧ model.getMixTransProp_LTPptrs ions_thermo.tothermo_t species = .ok value)
    (hlen : self.m_selfDiffMix.length = 3)
    (hgm : ∀ k, k < 3 → ∃ i j, i < 3 ∧ j < 3 ∧ i ≠ j
      ∧ [n0, n1, n2].getD i "" ++ ":" ++ [n0, n1, n2].getD j "" = self.m_mobRatIndex.getD k "")
    (hgs : ∀ k, k < 3 → self.m_selfDiffIndex.getD k "" ∈ [n0, n1, n2])
    (hc : ions_thermo.getCationList = [c0, c1]) (ha : ions_thermo.getAnionList = [a0])
    (hc0 : c0 < 3) (hc1 : c1 < 3) (h0a : c0 ≠ a0) (h1a : c1 ≠ a0)
    (hn0 : c0 < ions_thermo.getNeutralMolecMoleFractions.length)
    (hn1 : c1 < ions_thermo.getNeutralMolecMoleFractions.length)
    (hvA : ions_thermo.getDissociationCoeffs.1[c0]? = some vA)
    (hvB : ions_thermo.getDissociationCoeffs.1[c1]? = some vB)
    (hvX : ions_thermo.getDissociationCoeffs.1[a0]? = some vX)
    (hzP : ions_thermo.getDissociationCoeffs.2[c0]? = some zP)
    (hzM : ions_thermo.getDissociationCoeffs.2[a0]? = some zM)
    (hp : LTI_StefanMaxwell_PPN.cationIndex ions_thermo.nSpecies
      ions_thermo.getDissociationCoeffs.1 ions_thermo.getCationList = .ok p)
    (hvalid : p = "1001" ∨ p = "0110")
    (hrP : -2147483649 < max vA vB ∧ max vA vB < 2147483648)
    (hrM : -2147483649 < vX ∧ vX < 2147483648)
    (hrzP : -2147483649 < zP ∧ zP < 2147483648)
    (hrzM : -2147483649 < zM ∧ zM < 2147483648) :
    IsTruncation (max vA vB) (doubleToInt (max vA vB))
      ∧ IsTruncation vX (doubleToInt vX)
      ∧ IsTruncation zP (doubleToInt zP)
      ∧ IsTruncation zM (doubleToInt zM)
      ∧ (LTI_StefanMaxwell_PPN.getMatrixTransProp Faraday GasConstant self ions_thermo mat
            speciesValues = .error Error.divideByZero
          ↔ doubleToInt (max vA vB) = 0 ∨ doubleToInt vX = 0)
      ∧ (doubleToInt (max vA vB) ≠ 0 → doubleToInt vX ≠ 0 →
          IsTruncation (((doubleToInt vX : Int) : R) / ((doubleToInt (max vA vB) : Int) : R))
              (Int.tdiv (doubleToInt vX) (doubleToInt (max vA vB)))
            ∧ IsTruncation (((doubleToInt (max vA vB) : Int) : R) / ((doubleToInt vX : Int) : R))
              (Int.tdiv (doubleToInt (max vA vB)) (doubleToInt vX))
            ∧ (((1 + Int.tdiv (doubleToInt vX) (doubleToInt (max vA vB)) : Int) : R)
                = 1 + ((doubleToInt vX : Int) : R) / ((doubleToInt (max vA vB) : Int) : R)
              ↔ doubleToInt (max vA vB) ∣ doubleToInt vX)
            ∧ (((1 + Int.tdiv (doubleToInt (max vA vB)) (doubleToInt vX) : Int) : R)
                = 1 + ((doubleToInt (max vA vB) : Int) : R) / ((doubleToInt vX : Int) : R)
              ↔ doubleToInt vX ∣ doubleToInt (max vA vB))
            ∧ (Int.tdiv (doubleToInt vX) (doubleToInt (max vA vB)) < INT_MAX →
              intAdd 1 (Int.tdiv (doubleToInt vX) (doubleToInt (max vA vB)))
                = 1 + Int.tdiv (doubleToInt vX) (doubleToInt (max vA vB)))
            ∧ (Int.tdiv (doubleToInt (max vA vB)) (doubleToInt vX) < INT_MAX →
              intAdd 1 (Int.tdiv (doubleToInt (max vA vB)) (doubleToInt vX))
                = 1 + Int.tdiv (doubleToInt (max vA vB)) (doubleToInt vX))
            ∧ (|doubleToInt zP| ≤ 46340 → |doubleToInt zM| ≤ 46340 →
              intMul (doubleToInt zP) (doubleToInt zP) = doubleToInt zP * doubleToInt zP
                ∧ intMul (doubleToInt zP) (doubleToInt zM) = doubleToInt zP * doubleToInt zM)
            ∧ ∃ result xA xB sA sB eps inv_vP_vM_MutualDiff,
                  LTI_StefanMaxwell_PPN.getMatrixTransProp Faraday GasConstant self ions_thermo mat
                      speciesValues = .ok result
                    ∧ ions_thermo.getNeutralMolecMoleFractions[c0]? = some xA
                    ∧ ions_thermo.getNeutralMolecMoleFractions[c1]? = some xB
                    ∧ result.1.m_selfDiffMix[c0]? = some sA
                    ∧ result.1.m_selfDiffMix[c1]? = some sB
                    ∧ eps = (1 - result.1.m_mobRatMix.value c1 c0)
                        / (xA + xB * result.1.m_mobRatMix.value c1 c0)
                    ∧ inv_vP_vM_MutualDiff
                        = xA * (1 + ions_thermo.getdlnActCoeffdlnN c1) / sB
                          + xB * (1 + ions_thermo.getdlnActCoeffdlnN c0) / sA
                    ∧ result.2.value c0 c1
                      = ((intAdd 1 (Int.tdiv (doubleToInt vX) (doubleToInt (max vA vB))) : Int) : R)
                          * (1 + eps * xB) * (1 - eps * xA) * inv_vP_vM_MutualDiff
                        - ((intMul (doubleToInt zP) (doubleToInt zP) : Int) : R) * Faraday * Faraday
                          / GasConstant / ions_thermo.temperature / result.1.m_ionCondMix
                          / ions_thermo.molarVolume
                    ∧ result.2.value c0 a0
                      = ((intAdd 1 (Int.tdiv (doubleToInt (max vA vB)) (doubleToInt vX)) : Int) : R)
                          * (-eps * xB * (1 - eps * xA) * inv_vP_vM_MutualDiff)
                        - ((intMul (doubleToInt zP) (doubleToInt zM) : Int) : R) * Faraday * Faraday
                          / GasConstant / ions_thermo.temperature / result.1.m_ionCondMix
                          / ions_thermo.molarVolume
                    ∧ result.2.value c1 a0
                      = ((intAdd 1 (Int.tdiv (doubleToInt (max vA vB)) (doubleToInt vX)) : Int) : R)
                          * (eps * xA * (1 + eps * xB) * inv_vP_vM_MutualDiff)
                        - ((intMul (doubleToInt zP) (doubleToInt zM) : Int) : R) * Faraday * Faraday
                          / GasConstant / ions_thermo.temperature / result.1.m_ionCondMix
                          / ions_thermo.molarVolume
                    ∧ result.2.value c1 c0 = result.2.value c0 c1
                    ∧ result.2.value a0 c0 = result.2.value c0 a0
                    ∧ result.2.value a0 c1 = result.2.value c1 a0)
      ∧ ∀ x : R, x ≤ -2147483649 ∨ 2147483648 ≤ x →
        doubleToInt x = INT_MIN ∧ ¬ IsTruncation x (doubleToInt x) :=
  getMatrixTransProp_prefactors Faraday GasConstant self ions_thermo mat speciesValues
    n0 n1 n2 c0 c1 a0 vA vB vX zP zM p hcheck hnames hcond hmob hsd hlen hgm hgs hc ha hc0 hc1
    h0a h1a hn0 hn1 hvA hvB hvX hzP hzM hp hvalid hrP hrM hrzP hrzM

/-- A molten salt of `Li+`, `K+`, `Cl-` with the given dissociation coefficients passes the
checks of the ternary ion solver. -/
theorem checkSystem_moltenSalt (T : ℚ) (viS : List ℚ) :
    LTI_StefanMaxwell_PPN.checkSystem (moltenSalt T [0, 1] [2] viS [1, 1, -1]) = .ok () := by
  simp [LTI_StefanMaxwell_PPN.checkSystem, moltenSalt, ternaryPhase, vecAt, bind,
    Except.bind, pure, Except.pure]

/-- The dissociation pattern of a molten salt whose first neutral molecule holds a positive
coefficient `v` of `Li+` and none of `K+`, and whose second holds `K+` and no `Li+`. -/
theorem cationIndex_moltenSalt (T v w : ℚ) (hv : 0 < v) (hw : 0 < w) :
    LTI_StefanMaxwell_PPN.cationIndex
      (moltenSalt T [0, 1] [2] [v, 0, 1, 0, w, 1] [1, 1, -1]).nSpecies
      (moltenSalt T [0, 1] [2] [v, 0, 1, 0, w, 1] [1, 1, -1]).getDissociationCoeffs.1
      (moltenSalt T [0, 1] [2] [v, 0, 1, 0, w, 1] [1, 1, -1]).getCationList = .ok "1001" := by
  have h := cationIndex_eq 3 ([v, 0, 1, 0, w, 1] : List ℚ) 0 1 v 0 0 w rfl rfl rfl rfl
  have e : LTI_StefanMaxwell_PPN.cationIndex 3 ([v, 0, 1, 0, w, 1] : List ℚ) [0, 1]
      = .ok "1001" := by
    rw [h]
    simp [patternChar, hv, hw]
  exact e

/-- The sample solver on a molten salt at 303 K: the sub-models return, and the configured
names are those of the species. -/
theorem ternarySolver_moltenSalt (viS : List ℚ) :
    (∃ model value, (ternarySolver (linearHandle (1 : ℚ) (-300)) ["Li+:K+", "Li+:Cl-", "K+:Cl-"]
      ["Li+", "K+", "Cl-"]).m_ionCondMixModel = some model
        ∧ model.getMixTransProp_LTPptrs (moltenSalt 303 [0, 1] [2] viS [1, 1, -1]).tothermo_t
            (ternarySolver (linearHandle (1 : ℚ) (-300)) ["Li+:K+", "Li+:Cl-", "K+:Cl-"]
      ["Li+", "K+", "Cl-"]).m_ionCondSpecies = .ok value)
      ∧ (∀ k, k < 3 → ∃ index model species value,
          (ternarySolver (linearHandle (1 : ℚ) (-300)) ["Li+:K+", "Li+:Cl-", "K+:Cl-"]
      ["Li+", "K+", "Cl-"]).m_mobRatIndex[k]? = some index
            ∧ (ternarySolver (linearHandle (1 : ℚ) (-300)) ["Li+:K+", "Li+:Cl-", "K+:Cl-"]
      ["Li+", "K+", "Cl-"]).m_mobRatMixModel[k]? = some (some model)
            ∧ (ternarySolver (linearHandle (1 : ℚ) (-300)) ["Li+:K+", "Li+:Cl-", "K+:Cl-"]
      ["Li+", "K+", "Cl-"]).m_mobRatSpecies[k]? = some species
            ∧ model.getMixTransProp_LTPptrs
              (moltenSalt 303 [0, 1] [2] viS [1, 1, -1]).tothermo_t species = .ok value)
      ∧ (∀ k, k < 3 → ∃ index model species value,
          (ternarySolver (linearHandle (1 : ℚ) (-300)) ["Li+:K+", "Li+:Cl-", "K+:Cl-"]
      ["Li+", "K+", "Cl-"]).m_selfDiffIndex[k]? = some index
            ∧ (ternarySolver (linearHandle (1 : ℚ) (-300)) ["Li+:K+", "Li+:Cl-", "K+:Cl-"]
      ["Li+", "K+", "Cl-"]).m_selfDiffMixModel[k]? = some (some model)
            ∧ (ternarySolver (linearHandle (1 : ℚ) (-300)) ["Li+:K+", "Li+:Cl-", "K+:Cl-"]
      ["Li+", "K+", "Cl-"]).m_selfDiffSpecies[k]? = some species
            ∧ model.getMixTransProp_LTPptrs
              (moltenSalt 303 [0, 1] [2] viS [1, 1, -1]).tothermo_t species = .ok value)
      ∧ (∀ k, k < 3 → ∃ i j, i < 3 ∧ j < 3 ∧ i ≠ j
          ∧ ["Li+", "K+", "Cl-"].getD i "" ++ ":" ++ ["Li+", "K+", "Cl-"].getD j ""
            = (ternarySolver (linearHandle (1 : ℚ) (-300)) ["Li+:K+", "Li+:Cl-", "K+:Cl-"]
      ["Li+", "K+", "Cl-"]).m_mobRatIndex.getD k "")
      ∧ ∀ k, k < 3 → (ternarySolver (linearHandle (1 : ℚ) (-300)) ["Li+:K+", "Li+:Cl-", "K+:Cl-"]
      ["Li+", "K+", "Cl-"]).m_selfDiffIndex.getD k "" ∈ ["Li+", "K+", "Cl-"] := by
  obtain ⟨hcond, hmob, hsd⟩ := ternarySolver_submodels 303 (linearHandle (1 : ℚ) (-300)) rfl
    "Li+:K+" "Li+:Cl-" "K+:Cl-" "Li+" "K+" "Cl-"
  refine ⟨hcond, hmob, hsd, ?_, ?_⟩
  · intro k hk
    interval_cases k
    · exact ⟨0, 1, by decide, by decide, by decide, by decide⟩
    · exact ⟨0, 2, by decide, by decide, by decide, by decide⟩
    · exact ⟨1, 2, by decide, by decide, by decide, by decide⟩
  · intro k hk
    interval_cases k <;> decide

/-- The members the sample solver has written when its query on a molten salt at 303 K
returns: the conductivity 1, the mobility ratio `1/3` of `K+` to `Li+`, and the
self-diffusion coefficients 1. -/
theorem query_moltenSalt_members (Faraday GasConstant : ℚ) (viS : List ℚ)
    (result : LTI_StefanMaxwell_PPN ℚ × DenseMatrix ℚ)
    (hQ : LTI_StefanMaxwell_PPN.getMatrixTransProp Faraday GasConstant
        (ternarySolver (linearHandle (1 : ℚ) (-300)) ["Li+:K+", "Li+:Cl-", "K+:Cl-"]
      ["Li+", "K+", "Cl-"])
      (moltenSalt 303 [0, 1] [2] viS [1, 1, -1]) DenseMatrix.empty (fun _ => 0) = .ok result) :
    result.1.m_ionCondMix = 1 ∧ result.1.m_mobRatMix.value 1 0 = 1 / 3
      ∧ result.1.m_selfDiffMix = [1, 1, 1] := by
  obtain ⟨-, ⟨model, hmodel, hκ⟩, hloop, hself, -, -⟩ :=
    getMatrixTransProp_ok_inv _ _ _ _ _ _ _ hQ
  have hκ1 : result.1.m_ionCondMix = 1 := by
    have hmodel1 : some (moleFractionRule ℚ) = some model := hmodel
    cases hmodel1
    have e : (moleFractionRule ℚ).getMixTransProp_LTPptrs (LiCl_KCl 303).tothermo_t
        [constHandle 1, constHandle 1, constHandle 1] = .ok result.1.m_ionCondMix := hκ
    rw [moleFractionRule_LiCl_KCl 303 (constHandle 1) rfl] at e
    exact (Except.ok.inj e).symm
  obtain ⟨M, eM, hM10⟩ := mobilityRatios_LiCl_KCl 303
      (ternarySolver (linearHandle (1 : ℚ) (-300)) ["Li+:K+", "Li+:Cl-", "K+:Cl-"]
      ["Li+", "K+", "Cl-"]) rfl rfl rfl
    (DenseMatrix.resize DenseMatrix.empty 3 3 0)
  have hMeq : result.1.m_mobRatMix = M := by
    have hN : (moltenSalt (303 : ℚ) [0, 1] [2] viS [1, 1, -1]).nSpecies
        * ((moltenSalt (303 : ℚ) [0, 1] [2] viS [1, 1, -1]).nSpecies - 1) / 2 = 3 := by
      show 3 * (3 - 1) / 2 = 3
      rfl
    rw [hN] at hloop
    have e : forLoopM 3 (fun k m_mobRatMix => LTI_StefanMaxwell_PPN.mobilityRatio
        (ternarySolver (linearHandle (1 : ℚ) (-300)) ["Li+:K+", "Li+:Cl-", "K+:Cl-"]
      ["Li+", "K+", "Cl-"])
        (LiCl_KCl 303).tothermo_t ["Li+", "K+", "Cl-"] 3 k m_mobRatMix)
        (DenseMatrix.resize DenseMatrix.empty 3 3 0) = .ok result.1.m_mobRatMix := hloop
    rw [eM] at e
    exact (Except.ok.inj e).symm
  have hsdeq : result.1.m_selfDiffMix = [1, 1, 1] := by
    have e : LTI_StefanMaxwell_PPN.selfDiffusion
        (ternarySolver (linearHandle (1 : ℚ) (-300)) ["Li+:K+", "Li+:Cl-", "K+:Cl-"]
      ["Li+", "K+", "Cl-"]) (LiCl_KCl 303).tothermo_t
        ["Li+", "K+", "Cl-"] 3 [0, 0, 0] = .ok result.1.m_selfDiffMix := hself
    rw [selfDiffusion_LiCl_KCl 303 _ rfl rfl rfl 0 0 0] at e
    exact (Except.ok.inj e).symm
  refine ⟨hκ1, ?_, hsdeq⟩
  rw [hMeq, hM10]
  norm_num

/-- The `double` 5/2 as an `int`. -/
theorem doubleToInt_five_halves : doubleToInt (max (5 / 2 : ℚ) 0) = 2 := by
  have hmax : max (5 / 2 : ℚ) 0 = 5 / 2 := by norm_num
  have h : (0 : ℚ) ≤ 5 / 2 := by norm_num
  refine doubleToInt_of_int _ 2 ?_ (by decide) (by decide)
  rw [hmax, if_pos h]
  exact Int.floor_eq_iff.2 (by norm_num)

/-- The `double` 1/2 as an `int`. -/
theorem doubleToInt_one_half : doubleToInt (max (1 / 2 : ℚ) 0) = 0 := by
  have hmax : max (1 / 2 : ℚ) 0 = 1 / 2 := by norm_num
  have h : (0 : ℚ) ≤ 1 / 2 := by norm_num
  refine doubleToInt_of_int _ 0 ?_ (by decide) (by decide)
  rw [hmax, if_pos h]
  exact Int.floor_eq_iff.2 (by norm_num)

/-- The `double` 3000000000 as an `int`. -/
theorem doubleToInt_three_billion : doubleToInt (max (3000000000 : ℚ) 0) = -2147483648 := by
  have hmax : max (3000000000 : ℚ) 0 = 3000000000 := by norm_num
  rw [hmax]
  exact doubleToInt_out_of_range _ (Or.inr (by norm_num))

/-- C31 at an input where the original claim fails: the sample solver at 303 K on a molten salt
whose coefficient of `Li+` is 3000000000.  The `int` `vP` is not the truncated coefficient but
`INT_MIN`, the call returns, and the entry of `K+` and `Cl-` carries the factor
`1 + vP / vM = -2147483647`, not `1 + 3000000000 / 1`. -/
theorem LTI_StefanMaxwell_PPN_integer_prefactors_counterexample :
    doubleToInt (max (3000000000 : ℚ) 0) = -2147483648
      ∧ ¬ IsTruncation (max (3000000000 : ℚ) 0) (doubleToInt (max (3000000000 : ℚ) 0))
      ∧ ∃ result,
        LTI_StefanMaxwell_PPN.getMatrixTransProp (96485 : ℚ) 8314
            (ternarySolver (linearHandle (1 : ℚ) (-300)) ["Li+:K+", "Li+:Cl-", "K+:Cl-"]
      ["Li+", "K+", "Cl-"])
            (moltenSalt 303 [0, 1] [2] [3000000000, 0, 1, 0, 1, 1] [1, 1, -1])
            DenseMatrix.empty (fun _ => 0) = .ok result
          ∧ result.2.value 1 2 = -2147483647 * (3 / 4) + 96485 * 96485 / 8314 / 303
          ∧ result.2.value 1 2
            ≠ (1 + 3000000000 / 1) * (3 / 4) + 96485 * 96485 / 8314 / 303 := by
  obtain ⟨hcond, hmob, hsd, hgm, hgs⟩ := ternarySolver_moltenSalt [3000000000, 0, 1, 0, 1, 1]
  refine ⟨doubleToInt_three_billion, ?_, ?_⟩
  · rw [doubleToInt_three_billion]
    intro h
    have h1 := h.2
    have hmax : max (3000000000 : ℚ) 0 = 3000000000 := by norm_num
    rw [hmax, abs_lt] at h1
    norm_num at h1
  obtain ⟨result, xA, xB, sA, sB, eps, inv, hQ, hxA, hxB, hsA, hsB, heps, hinv, -, -, e1a, -⟩ :=
    getMatrixTransProp_entries (96485 : ℚ) 8314
        (ternarySolver (linearHandle (1 : ℚ) (-300)) ["Li+:K+", "Li+:Cl-", "K+:Cl-"]
      ["Li+", "K+", "Cl-"])
      (moltenSalt 303 [0, 1] [2] [3000000000, 0, 1, 0, 1, 1] [1, 1, -1]) DenseMatrix.empty
      (fun _ => 0) "Li+" "K+" "Cl-" 0 1 2 3000000000 0 1 1 (-1) "1001"
      (checkSystem_moltenSalt 303 _) rfl hcond hmob hsd rfl hgm hgs rfl rfl (by decide)
      (by decide) (by decide) (by decide) (by show 0 < 2; decide) (by show 1 < 2; decide)
      rfl rfl rfl rfl rfl (cationIndex_moltenSalt 303 _ _ (by norm_num) (by norm_num))
      (Or.inl rfl)
      (by rw [doubleToInt_three_billion]; decide) (by rw [doubleToInt_one]; decide)
      (by rw [doubleToInt_three_billion, doubleToInt_one]; decide)
      (by rw [doubleToInt_three_billion, doubleToInt_one]; decide)
  obtain ⟨hκ1, hM, hsdeq⟩ := query_moltenSalt_members 96485 8314 _ result hQ
  have exA : xA = 1 / 2 := by
    have : ([1 / 2, 1 / 2] : List ℚ)[0]? = some xA := hxA
    simpa using this.symm
  have exB : xB = 1 / 2 := by
    have : ([1 / 2, 1 / 2] : List ℚ)[1]? = some xB := hxB
    simpa using this.symm
  rw [hsdeq] at hsA hsB
  have esA : sA = 1 := by simpa using hsA.symm
  have esB : sB = 1 := by simpa using hsB.symm
  have hd : ∀ c, (moltenSalt (303 : ℚ) [0, 1] [2] [3000000000, 0, 1, 0, 1, 1]
      [1, 1, -1]).getdlnActCoeffdlnN c = 0 := fun _ => rfl
  have hT : (moltenSalt (303 : ℚ) [0, 1] [2] [3000000000, 0, 1, 0, 1, 1]
      [1, 1, -1]).temperature = 303 := rfl
  have hV : (moltenSalt (303 : ℚ) [0, 1] [2] [3000000000, 0, 1, 0, 1, 1]
      [1, 1, -1]).molarVolume = 1 := rfl
  rw [hM, exA, exB] at heps
  rw [hd, hd, exA, exB, esA, esB] at hinv
  have heps1 : eps = 1 := by rw [heps]; norm_num
  have hinv1 : inv = 1 := by rw [hinv]; norm_num
  rw [doubleToInt_three_billion, doubleToInt_one, doubleToInt_neg_one, hκ1, hT, hV, heps1,
    hinv1, exA, exB, show intAdd 1 (Int.tdiv (-2147483648) 1) = -2147483647 from by decide,
    show intMul 1 (-1) = -1 from by decide] at e1a
  have hval : result.2.value 1 2 = -2147483647 * (3 / 4) + 96485 * 96485 / 8314 / 303 := by
    rw [e1a]
    norm_num
  refine ⟨result, hQ, hval, ?_⟩
  rw [hval]
  norm_num

/-- C31 on two molten salts at 303 K and the sample solver, whose mobility ratio `Li+:K+` is 3
there.  With the coefficients 5/2 of `Li+` and 1 of `Cl-`, `vP = 2` and `vM = 1`: the factors
are `1 + 1 / 2 = 1` and `1 + 2 / 1 = 3`, and the three entries are `1 * (3/4)`, `3 * (-1/4)`
and `3 * (3/4)` plus or minus the electrostatic term.  With the coefficient 1/2 of both
cations, `vP = 0` and the call fails by a division by zero. -/
theorem LTI_StefanMaxwell_PPN_integer_prefactors_witness :
    (∃ result,
      LTI_StefanMaxwell_PPN.getMatrixTransProp (96485 : ℚ) 8314
          (ternarySolver (linearHandle (1 : ℚ) (-300)) ["Li+:K+", "Li+:Cl-", "K+:Cl-"]
      ["Li+", "K+", "Cl-"])
          (moltenSalt 303 [0, 1] [2] [5 / 2, 0, 1, 0, 1, 1] [1, 1, -1]) DenseMatrix.empty
          (fun _ => 0) = .ok result
        ∧ result.2.value 0 1 = 1 * (3 / 4) - 96485 * 96485 / 8314 / 303
        ∧ result.2.value 0 2 = 3 * (-1 / 4) + 96485 * 96485 / 8314 / 303
        ∧ result.2.value 1 2 = 3 * (3 / 4) + 96485 * 96485 / 8314 / 303)
      ∧ LTI_StefanMaxwell_PPN.getMatrixTransProp (96485 : ℚ) 8314
          (ternarySolver (linearHandle (1 : ℚ) (-300)) ["Li+:K+", "Li+:Cl-", "K+:Cl-"]
      ["Li+", "K+", "Cl-"])
          (moltenSalt 303 [0, 1] [2] [1 / 2, 0, 1, 0, 1 / 2, 1] [1, 1, -1]) DenseMatrix.empty
          (fun _ => 0) = .error Error.divideByZero := by
  constructor
  · obtain ⟨hcond, hmob, hsd, hgm, hgs⟩ := ternarySolver_moltenSalt [5 / 2, 0, 1, 0, 1, 1]
    obtain ⟨-, -, -, -, -, -, -, result, xA, xB, sA, sB, eps, inv, hQ, hxA, hxB, hsA, hsB,
      heps, hinv, e01, e0a, e1a, -⟩ := (LTI_StefanMaxwell_PPN_integer_prefactors (96485 : ℚ)
        8314 (ternarySolver (linearHandle (1 : ℚ) (-300)) ["Li+:K+", "Li+:Cl-", "K+:Cl-"]
      ["Li+", "K+", "Cl-"])
        (moltenSalt 303 [0, 1] [2] [5 / 2, 0, 1, 0, 1, 1] [1, 1, -1]) DenseMatrix.empty
        (fun _ => 0) "Li+" "K+" "Cl-" 0 1 2 (5 / 2) 0 1 1 (-1) "1001"
        (checkSystem_moltenSalt 303 _) rfl hcond hmob hsd rfl hgm hgs rfl rfl (by decide)
        (by decide) (by decide) (by decide) (by show 0 < 2; decide) (by show 1 < 2; decide)
        rfl rfl rfl rfl rfl (cationIndex_moltenSalt 303 _ _ (by norm_num) (by norm_num))
        (Or.inl rfl) (by norm_num) (by norm_num) (by norm_num) (by norm_num)).2.2.2.2.2.1
        (by rw [doubleToInt_five_halves]; decide) (by rw [doubleToInt_one]; decide)
    obtain ⟨hκ1, hM, hsdeq⟩ := query_moltenSalt_members 96485 8314 _ result hQ
    have exA : xA = 1 / 2 := by
      have : ([1 / 2, 1 / 2] : List ℚ)[0]? = some xA := hxA
      simpa using this.symm
    have exB : xB = 1 / 2 := by
      have : ([1 / 2, 1 / 2] : List ℚ)[1]? = some xB := hxB
      simpa using this.symm
    rw [hsdeq] at hsA hsB
    have esA : sA = 1 := by simpa using hsA.symm
    have esB : sB = 1 := by simpa using hsB.symm
    have hd : ∀ c, (moltenSalt (303 : ℚ) [0, 1] [2] [5 / 2, 0, 1, 0, 1, 1]
        [1, 1, -1]).getdlnActCoeffdlnN c = 0 := fun _ => rfl
    have hT : (moltenSalt (303 : ℚ) [0, 1] [2] [5 / 2, 0, 1, 0, 1, 1] [1, 1, -1]).temperature
        = 303 := rfl
    have hV : (moltenSalt (303 : ℚ) [0, 1] [2] [5 / 2, 0, 1, 0, 1, 1] [1, 1, -1]).molarVolume
        = 1 := rfl
    rw [hM, exA, exB] at heps
    rw [hd, hd, exA, exB, esA, esB] at hinv
    have heps1 : eps = 1 := by rw [heps]; norm_num
    have hinv1 : inv = 1 := by rw [hinv]; norm_num
    rw [doubleToInt_five_halves, doubleToInt_one, hκ1, hT, hV, heps1, hinv1, exA, exB,
      show intAdd 1 (Int.tdiv 1 2) = 1 from by decide,
      show intMul 1 1 = 1 from by decide] at e01
    rw [doubleToInt_five_halves, doubleToInt_one, doubleToInt_neg_one, hκ1, hT, hV, heps1,
      hinv1, exA, exB, show intAdd 1 (Int.tdiv 2 1) = 3 from by decide,
      show intMul 1 (-1) = -1 from by decide] at e0a e1a
    refine ⟨result, hQ, ?_, ?_, ?_⟩
    · rw [e01]; norm_num
    · rw [e0a]; norm_num
    · rw [e1a]; norm_num
  · obtain ⟨hcond, hmob, hsd, hgm, hgs⟩ := ternarySolver_moltenSalt [1 / 2, 0, 1, 0, 1 / 2, 1]
    exact (LTI_StefanMaxwell_PPN_integer_prefactors (96485 : ℚ) 8314
        (ternarySolver (linearHandle (1 : ℚ) (-300)) ["Li+:K+", "Li+:Cl-", "K+:Cl-"]
      ["Li+", "K+", "Cl-"])
        (moltenSalt 303 [0, 1] [2] [1 / 2, 0, 1, 0, 1 / 2, 1] [1, 1, -1]) DenseMatrix.empty
        (fun _ => 0) "Li+" "K+" "Cl-" 0 1 2 (1 / 2) 0 1 1 (-1) "1001"
        (checkSystem_moltenSalt 303 _) rfl hcond hmob hsd rfl hgm hgs rfl rfl (by decide)
        (by decide) (by decide) (by decide) (by show 0 < 2; decide) (by show 1 < 2; decide)
        rfl rfl rfl rfl rfl (cationIndex_moltenSalt 303 _ _ (by norm_num) (by norm_num))
        (Or.inl rfl) (by norm_num) (by norm_num) (by norm_num)
        (by norm_num)).2.2.2.2.1.2 (Or.inl doubleToInt_one_half)

end Cantera
